import Mathlib

/-!
# usb-bt-dump: a shallow embedding of the capture-line parser and the
# Bluetooth dissector chain

The definitions follow `src/usb-bt-dump.c`.  Conventions of the embedding:

* a byte buffer (`const unsigned char data[]`) is a function from the index to
  the stored value; every read goes through `rd`, which reduces the value to a
  byte, so every function is a well-formed buffer.  A pointer `data + k` is the
  pair of the buffer and the offset `k`.  The function has a value at every
  index: for the payload array of 4096 bytes the values from 4096 on stand for
  whatever a read behind the array finds, and the theorems hold for every
  function;
* `unsigned int` arithmetic is arithmetic on `Nat` modulo `2^32`
  (`u32sub`), `int` values are `Int`, narrowing stores are written with an
  explicit `%`;
* `stdout` is the list of items a function emits, in order: a piece of text or
  the invocation of a decoder of the next layer with its arguments;
* the process-wide tables `l2cap_psm` and `pending_psm` are the two fields of
  `Tables`, passed in and returned explicitly;
* a `char *` into the input line is a `Cursor`: the character before the
  pointer and the characters from the pointer on.  The list is the text of a
  line, or the bytes of the array `input` as the driver loop leaves them
  (`input_image`: the text, the NUL bytes after it and the bytes that the
  array held before); a position behind the end of the list reads as NUL.
  For a line that ended in white space the two give the same result
  (`parse_usbmon_image`).
-/

namespace UsbBtDump

/-! ## Constants -/

def XFER_ISOC : Nat := 0
def XFER_INTR : Nat := 1
def XFER_CTRL : Nat := 2
def XFER_BULK : Nat := 3

def L2CAP_SIGNALING : Nat := 0x0001
def L2CAP_DYNAMIC : Nat := 0x0040

def L2CAP_CMD_REJECT : Nat := 0x01
def L2CAP_CMD_CONN_REQ : Nat := 0x02
def L2CAP_CMD_CONN_RESP : Nat := 0x03
def L2CAP_CMD_CFG_REQ : Nat := 0x04
def L2CAP_CMD_CFG_RESP : Nat := 0x05
def L2CAP_CMD_DISCONN_REQ : Nat := 0x06
def L2CAP_CMD_DISCONN_RESP : Nat := 0x07
def L2CAP_CMD_INFO_REQ : Nat := 0x0A
def L2CAP_CMD_INFO_RESP : Nat := 0x0B

/-- Value of the errno constant EINPROGRESS on Linux. -/
def EINPROGRESS : Int := 115

/-- The NUL character that terminates a C string. -/
def NUL : Char := Char.ofNat 0

/-! ## Buffers and machine arithmetic -/

/-- A byte buffer: index to stored value. -/
abbrev Buf := Nat → Nat

/-- Read of `data[i]` as an `unsigned char`. -/
def rd (data : Buf) (i : Nat) : Nat := data i % 256

/-- Store `data[i] = v` into an `unsigned char` array. -/
def wr (data : Buf) (i v : Nat) : Buf := fun j => if j = i then v % 256 else data j

/-- Buffer holding the bytes of a list, zero elsewhere. -/
def buf_of (bs : List Nat) : Buf := fun i => bs.getD i 0

/-- Subtraction of `unsigned int` values (wraps modulo `2^32`). -/
def u32sub (a b : Nat) : Nat := (a % 2 ^ 32 + (2 ^ 32 - b % 2 ^ 32)) % 2 ^ 32

/-- Addition of `unsigned int` values (wraps modulo `2^32`). -/
def u32add (a b : Nat) : Nat := (a + b) % 2 ^ 32

/-- Conversion of an integer to `int` (two's complement, 32 bits). -/
def to_int32 (z : Int) : Int := (z + 2 ^ 31) % 2 ^ 32 - 2 ^ 31

/-- Source function `min`. -/
def min (a b : Nat) : Nat := if a < b then a else b

/-- Source function `get_be16`, applied to `data + off`. -/
def get_be16 (data : Buf) (off : Nat) : Nat :=
  ((rd data off <<< 8) ||| rd data (off + 1)) % 2 ^ 16

/-- Source function `get_be32`, applied to `data + off`. -/
def get_be32 (data : Buf) (off : Nat) : Nat :=
  ((rd data off <<< 24) ||| (rd data (off + 1) <<< 16) ||| (rd data (off + 2) <<< 8)
    ||| rd data (off + 3)) % 2 ^ 32

/-- Source function `get_le16`, applied to `data + off`. -/
def get_le16 (data : Buf) (off : Nat) : Nat :=
  (rd data off ||| (rd data (off + 1) <<< 8)) % 2 ^ 16

/-- Source function `get_le24`, applied to `data + off`. -/
def get_le24 (data : Buf) (off : Nat) : Nat :=
  (rd data off ||| (rd data (off + 1) <<< 8) ||| (rd data (off + 2) <<< 16)) % 2 ^ 32

/-- Source function `get_le32`, applied to `data + off`. -/
def get_le32 (data : Buf) (off : Nat) : Nat :=
  (rd data off ||| (rd data (off + 1) <<< 8) ||| (rd data (off + 2) <<< 16)
    ||| (rd data (off + 3) <<< 24)) % 2 ^ 32

/-- Source function `put_le16`, applied to `out + off`. -/
def put_le16 (out : Buf) (off : Nat) (data : Nat) : Buf :=
  wr (wr out off ((data >>> 0) &&& 255)) (off + 1) ((data >>> 8) &&& 255)

/-! ## printf conversions -/

/-- Entry `n` of the digit string `"0123456789abcdef"`. -/
def hexdigit (n : Nat) : Char := "0123456789abcdef".toList.getD n '?'

/-- Left padding of a character list up to a width. -/
def pad_left (c : Char) (w : Nat) (s : List Char) : List Char :=
  List.replicate (w - s.length) c ++ s

/-- Conversion `%u` with an optional zero-padded width (`%03u`, `%06u`). -/
def fmt_u (w : Nat) (n : Nat) : String := String.mk (pad_left '0' w (Nat.toDigits 10 n))

/-- Conversion `%d` of an `int` argument. -/
def fmt_d (z : Int) : String := toString z

/-- Conversion `%d` applied to an `unsigned int` argument: the 32 bits are shown as an `int`. -/
def fmt_d_u32 (n : Nat) : String := fmt_d (to_int32 (n : Int))

/-- Conversion `%x` with flags: `alt` is the `#` flag, `zero` the `0` flag, `w` the width. -/
def fmt_x (alt zero : Bool) (w : Nat) (n : Nat) : String :=
  let body := Nat.toDigits 16 n
  let lead : List Char := if alt ∧ n ≠ 0 then ['0', 'x'] else []
  if zero then String.mk (lead ++ pad_left '0' (w - lead.length) body)
  else String.mk (pad_left ' ' w (lead ++ body))

/-- Conversion `%c`. -/
def fmt_c (c : Char) : String := String.mk [c]

/-! ## Output -/

/-- The decoders of the next protocol layer. -/
inductive Decoder
  | hci_command
  | hci_event
  | sdp
  | bt_hid
  deriving DecidableEq, Repr

/-- One item written to `stdout`: text, or the output of the decoder `dec` invoked as
`dec(data + off, len)`. -/
inductive Out
  | text (s : String)
  | call (dec : Decoder) (off : Nat) (len : Nat)
  deriving DecidableEq, Repr

/-! ## L2CAP -/

/-- The global `l2cap_psm[65536]` and the function-static `pending_psm[256]`. -/
structure Tables where
  l2cap_psm : Nat → Nat
  pending_psm : Nat → Nat

/-- Tables of a freshly started process (zero-initialised). -/
def Tables.empty : Tables := ⟨fun _ => 0, fun _ => 0⟩

/-- Array store `t[i] = v`. -/
def tset (t : Nat → Nat) (i v : Nat) : Nat → Nat := fun j => if j = i then v else t j

/-- Source function `print_l2cap_config_options`, applied to `data + off`. -/
def print_l2cap_config_options (data : Buf) (off : Nat) : List Out :=
  [ Out.text ("    " ++ (if rd data (off - 2) &&& 0x80 ≠ 0 then "Hint" else "Reqd") ++ " "),
    Out.text (
      if rd data (off - 2) &&& 127 = 0x01 then
        "MTU = " ++ fmt_d (get_le16 data off) ++ "\n"
      else if rd data (off - 2) &&& 127 = 0x02 then
        "Flush_Timeout = " ++ fmt_d (get_le16 data off) ++ "\n"
      else if rd data (off - 2) &&& 127 = 0x03 then
        "QoS: Flags=" ++ fmt_d (rd data off) ++ ", Service_Type=" ++ fmt_d (rd data (off + 1))
          ++ ", Token_Rate=" ++ fmt_d_u32 (get_le32 data (off + 2))
          ++ ", Token_Bucket_Size=" ++ fmt_d_u32 (get_le32 data (off + 6))
          ++ ", Peak_Bandwidth=" ++ fmt_d_u32 (get_le32 data (off + 10))
          ++ ", Latency=" ++ fmt_d_u32 (get_le32 data (off + 14))
          ++ ", Delay_Variation=" ++ fmt_d_u32 (get_le32 data (off + 18)) ++ "\n"
      else if rd data (off - 2) &&& 127 = 0x04 then
        "Rexmit: Mode=" ++ fmt_d (rd data off) ++ ", TxWindowSize=" ++ fmt_d (rd data (off + 1))
          ++ ", MaxTx=" ++ fmt_d (rd data (off + 2))
          ++ ", RexmitTimeout=" ++ fmt_d (get_le16 data (off + 3))
          ++ ", MonitorTimeout=" ++ fmt_d (get_le16 data (off + 5))
          ++ ", Max_PDU=" ++ fmt_d (get_le16 data (off + 7)) ++ "\n"
      else
        "unknown option " ++ fmt_d (rd data (off - 2)) ++ " (" ++ fmt_d (rd data (off - 1))
          ++ " bytes)\n") ]

/-- The option walk of a Configuration-Request (`base = 12`) or -Response (`base = 10`):
`for (ii = ..; (ii - base) < limit; ii += 2 + data[ii+1]) print_l2cap_config_options(data + ii + 2)`.
Every round adds at least 2 to `ii`; the first argument bounds the number of rounds. -/
def cfg_option_loop (data : Buf) (base limit : Nat) : Nat → Nat → List Out
  | 0, _ => []
  | fuel + 1, ii =>
    if u32sub ii base < limit then
      print_l2cap_config_options data (ii + 2)
        ++ cfg_option_loop data base limit fuel (u32add ii (2 + rd data (ii + 1)))
    else []

/-- Text of the Connection-Response line. -/
def conn_resp_line (data : Buf) : String :=
  "  L2CAP Connection Response (Id=" ++ fmt_x true true 2 (rd data 9)
    ++ ", Dest_CID=" ++ fmt_d (get_le16 data 12) ++ ", Source_CID=" ++ fmt_d (get_le16 data 14)
    ++ ", Result=" ++ fmt_d (get_le16 data 16) ++ ", Status=" ++ fmt_d (get_le16 data 18) ++ ")\n"

/-- Text of the Connection-Request line. -/
def conn_req_line (data : Buf) : String :=
  "  L2CAP Connection Request (Id=" ++ fmt_x true true 2 (rd data 9)
    ++ ", PSM=" ++ fmt_x true true 4 (get_le16 data 12)
    ++ ", Source_CID=" ++ fmt_d (get_le16 data 14) ++ ")\n"

/-- Text printed for user data on a channel without a binding. -/
def closed_cid_line (data : Buf) : String :=
  "  User data on closed CID=" ++ fmt_d (get_le16 data 6) ++ "?! (Length="
    ++ fmt_d (get_le16 data 4) ++ ")\n"

/-- Text printed for user data on a channel bound to a service without a decoder. -/
def unhandled_psm_line (data : Buf) (psm : Nat) : String :=
  "  User data on unhandled L2CAP PSM (CID=" ++ fmt_d (get_le16 data 6) ++ ", PSM="
    ++ fmt_d psm ++ ", Length=" ++ fmt_d (get_le16 data 4) ++ ")\n"

/-- The signaling branch of `print_l2cap` (`l2cap_cid == L2CAP_SIGNALING`). -/
def print_l2cap_signaling (st : Tables) (data : Buf) (limit0 : Nat) : Tables × List Out :=
  let cmd := rd data 8
  let reqid := rd data 9
  let data_len := get_le16 data 10
  let limit := min (u32sub limit0 4) data_len
  if cmd = L2CAP_CMD_REJECT then
    (st, [Out.text ("  L2CAP Command Reject (Id=" ++ fmt_x true true 2 reqid ++ ", Reason="
      ++ fmt_x true true 4 (get_le16 data 12) ++ ")\n")])
  else if cmd = L2CAP_CMD_CONN_REQ then
    ({ st with pending_psm := tset st.pending_psm reqid (get_le16 data 12) },
      [Out.text (conn_req_line data)])
  else if cmd = L2CAP_CMD_CONN_RESP then
    (if get_le16 data 16 = 1 then st
     else if get_le16 data 16 = 0 then
       { l2cap_psm := tset st.l2cap_psm (get_le16 data 12) (st.pending_psm reqid),
         pending_psm := tset st.pending_psm reqid 0 }
     else { st with pending_psm := tset st.pending_psm reqid 0 },
     [Out.text (conn_resp_line data)])
  else if cmd = L2CAP_CMD_CFG_REQ then
    (st, Out.text ("  L2CAP Configuration Request (Id=" ++ fmt_x true true 2 reqid
        ++ ", Dest_CID=" ++ fmt_d (get_le16 data 12) ++ ", Flags="
        ++ fmt_x true false 0 (get_le16 data 14) ++ "):\n")
      :: cfg_option_loop data 12 limit (limit + 1) 16)
  else if cmd = L2CAP_CMD_CFG_RESP then
    (st, Out.text ("  L2CAP Configuration Response (Id=" ++ fmt_x true true 2 reqid
        ++ ", Source_CID=" ++ fmt_d (get_le16 data 12) ++ ", Flags="
        ++ fmt_x true false 0 (get_le16 data 14) ++ ", Result=" ++ fmt_d (get_le16 data 16)
        ++ ")" ++ (if data_len > 8 then ":" else "") ++ "\n")
      :: cfg_option_loop data 10 limit (limit + 1) 18)
  else if cmd = L2CAP_CMD_DISCONN_REQ then
    (st, [Out.text ("  L2CAP Disconnection Request (Id=" ++ fmt_x true true 2 reqid
      ++ ", Dest_CID=" ++ fmt_d (get_le16 data 12) ++ ", Source_CID="
      ++ fmt_d (get_le16 data 14) ++ ")\n")])
  else if cmd = L2CAP_CMD_DISCONN_RESP then
    (st, [Out.text ("  L2CAP Disconnection Response (Id=" ++ fmt_x true true 2 reqid
      ++ ", Dest_CID=" ++ fmt_d (get_le16 data 12) ++ ", Source_CID="
      ++ fmt_d (get_le16 data 14) ++ ")\n")])
  else if cmd = L2CAP_CMD_INFO_REQ then
    (st, [Out.text ("  L2CAP Information Request (Id=" ++ fmt_x true true 2 reqid
      ++ ", Length=" ++ fmt_d (get_le16 data 12) ++ ", InfoType="
      ++ fmt_d (get_le16 data 14) ++ ")\n")])
  else if cmd = L2CAP_CMD_INFO_RESP then
    (st, [Out.text ("  L2CAP Information Response (Id=" ++ fmt_x true true 2 reqid
        ++ ", InfoType=" ++ fmt_d (get_le16 data 14) ++ ", Result="
        ++ fmt_d (get_le16 data 16) ++ ", Data="),
      Out.text (
        if get_le16 data 12 = 0 then "<empty>"
        else if get_le16 data 12 = 1 then fmt_x true true 4 (rd data 18)
        else if get_le16 data 12 = 2 then fmt_x true true 6 (get_le16 data 18)
        else if get_le16 data 12 = 4 then fmt_x true false 10 (get_le32 data 18)
        else fmt_d (get_le16 data 12) ++ " bytes")])
  else
    (st, [Out.text ("  Unhandled L2CAP signaling command (Command=" ++ fmt_x true true 2 cmd
      ++ ", " ++ fmt_d data_len ++ " bytes data)\n")])

/-- The data-channel branch of `print_l2cap` (`l2cap_cid >= L2CAP_DYNAMIC`): the switch on
`l2cap_psm[l2cap_cid]`. -/
def print_l2cap_user_data (psm : Nat) (data : Buf) (limit : Nat) : List Out :=
  if psm = 0 then [Out.text (closed_cid_line data)]
  else if psm = 0x0001 then [Out.call Decoder.sdp 8 limit]
  else if psm = 0x0011 ∨ psm = 0x0013 then [Out.call Decoder.bt_hid 8 limit]
  else [Out.text (unhandled_psm_line data psm)]

/-- The local `limit` of `print_l2cap`: `min(len - 8, min(acl_len - 4, l2cap_len))`. -/
def l2cap_limit (data : Buf) (len : Nat) : Nat :=
  min (u32sub len 8) (min (u32sub (get_le16 data 2) 4) (get_le16 data 4))

/-- Source function `print_l2cap`. -/
def print_l2cap (st : Tables) (data : Buf) (len : Nat) : Tables × List Out :=
  let handle := get_le16 data 0
  let l2cap_len := get_le16 data 4
  let l2cap_cid := get_le16 data 6
  let limit := l2cap_limit data len
  if l2cap_cid = L2CAP_SIGNALING then
    print_l2cap_signaling st data limit
  else if l2cap_cid ≥ L2CAP_DYNAMIC then
    (st, print_l2cap_user_data (st.l2cap_psm l2cap_cid) data limit)
  else
    (st, [Out.text ("  Unhandled L2CAP fragment (Handle=" ++ fmt_x true false 0 handle
      ++ ", L2CAP_Length=" ++ fmt_d l2cap_len ++ ", L2CAP_CID=" ++ fmt_d l2cap_cid ++ ")\n")])

/-! ## C library: character classes and string to integer conversion

The functions of `<ctype.h>` in the C locale, and `strtoull`/`strtol` as the C standard
defines them (LP64: `long` and `unsigned long long` have 64 bits). -/

def isdigit (c : Char) : Bool := decide (48 ≤ c.toNat ∧ c.toNat ≤ 57)

def islower (c : Char) : Bool := decide (97 ≤ c.toNat ∧ c.toNat ≤ 122)

def isupper (c : Char) : Bool := decide (65 ≤ c.toNat ∧ c.toNat ≤ 90)

def isalpha (c : Char) : Bool := islower c || isupper c

def isxdigit (c : Char) : Bool :=
  isdigit c || decide (97 ≤ c.toNat ∧ c.toNat ≤ 102) || decide (65 ≤ c.toNat ∧ c.toNat ≤ 70)

def isspace (c : Char) : Bool := decide (c.toNat = 32 ∨ (9 ≤ c.toNat ∧ c.toNat ≤ 13))

/-- Code of `tolower(c)`. -/
def tolower (c : Char) : Nat := if isupper c then c.toNat + 32 else c.toNat

/-- Code of `toupper(c)`. -/
def toupper (c : Char) : Nat := if islower c then c.toNat - 32 else c.toNat

/-- Value of a character as a digit of `strtol`: 0 to 9, then the letters from 10 on;
36 for a character that is no digit in any base. -/
def digit_val (c : Char) : Nat :=
  if isdigit c then c.toNat - 48
  else if islower c then c.toNat - 97 + 10
  else if isupper c then c.toNat - 65 + 10
  else 36

/-- The run of digits in base `base` at the head of a string: its value (on top of `acc`)
and its length (on top of `n`). -/
def scan_digits (base : Nat) : List Char → Nat → Nat → Nat × Nat
  | [], acc, n => (acc, n)
  | c :: cs, acc, n =>
    if digit_val c < base then scan_digits base cs (acc * base + digit_val c) (n + 1)
    else (acc, n)

/-- Number of leading white-space characters. -/
def count_space : List Char → Nat
  | [] => 0
  | c :: cs => if isspace c then count_space cs + 1 else 0

/-- The subject sequence of `strtol`/`strtoull`. -/
structure Subject where
  neg : Bool
  mag : Nat
  consumed : Nat

/-- Recognition of the subject sequence: white space, an optional sign, for base 16 an
optional `0x` that is followed by a hexadecimal digit, then the digits.  Without a digit
nothing is consumed. -/
@[irreducible] def strto_subject (base : Nat) (s : List Char) : Subject :=
  let ws := count_space s
  let s1 := s.drop ws
  let sg : Nat := if s1.getD 0 NUL = '-' ∨ s1.getD 0 NUL = '+' then 1 else 0
  let neg : Bool := decide (s1.getD 0 NUL = '-')
  let s2 := s1.drop sg
  let px : Nat :=
    if base = 16 ∧ s2.getD 0 NUL = '0' ∧ (s2.getD 1 NUL = 'x' ∨ s2.getD 1 NUL = 'X')
        ∧ digit_val (s2.getD 2 NUL) < 16 then 2 else 0
  let r := scan_digits base (s2.drop px) 0 0
  if r.2 = 0 then ⟨false, 0, 0⟩ else ⟨neg, r.1, ws + sg + px + r.2⟩

/-- Library function `strtoull`: the value and the number of characters up to `*endptr`. -/
def strtoull (base : Nat) (s : List Char) : Nat × Nat :=
  let r := strto_subject base s
  (if r.mag ≥ 2 ^ 64 then 2 ^ 64 - 1
   else if r.neg then (2 ^ 64 - r.mag) % 2 ^ 64 else r.mag, r.consumed)

/-- Library function `strtol`: the value and the number of characters up to `*endptr`. -/
def strtol (base : Nat) (s : List Char) : Int × Nat :=
  let r := strto_subject base s
  (if r.neg then (if r.mag ≥ 2 ^ 63 then -(2 ^ 63 : Int) else -(r.mag : Int))
   else (if r.mag ≥ 2 ^ 63 then (2 ^ 63 - 1 : Int) else (r.mag : Int)), r.consumed)

/-- Conversion of a `long` to an unsigned type of `w` bits. -/
def to_unsigned (w : Nat) (z : Int) : Nat := (z % (2 ^ w : Int)).toNat

/-- Conversion of an `unsigned long long` to `int64_t`. -/
def to_int64 (n : Nat) : Int := ((n : Int) + 2 ^ 63) % 2 ^ 64 - 2 ^ 63

/-! ## Hex table -/

/-- Source function `init_hex`, as a transformer of the global `hextab`:
`hextab[tolower(hexdigits[ii])] = ii; hextab[toupper(hexdigits[ii])] = ii` for `ii` from 0
to 15. -/
def init_hex (hextab : Nat → Nat) : Nat → Nat :=
  (List.range 16).foldl
    (fun t ii => tset (tset t (tolower (hexdigit ii)) ii) (toupper (hexdigit ii)) ii) hextab

/-- The global `hextab` of a freshly started process (zero-initialised). -/
def hextab_zero : Nat → Nat := fun _ => 0

/-- Source function `fromhex`: `hextab[(unsigned char)ch]`. -/
def fromhex (hextab : Nat → Nat) (ch : Char) : Nat := hextab (ch.toNat % 256) % 256

/-! ## Cursor into the input line -/

/-- A `char *` into the line: `prev` is `sep[-1]`, `rest` are the characters from `sep[0]`
on: the text of the line, with or without the bytes that follow it in the array. -/
structure Cursor where
  prev : Char
  rest : List Char

/-- Read of `sep[k]`; behind the end of the list it gives NUL. -/
def Cursor.peek (c : Cursor) (k : Nat) : Char := c.rest.getD k NUL

/-- Pointer `sep + n`. -/
def Cursor.adv (c : Cursor) : Nat → Cursor
  | 0 => c
  | n + 1 => ⟨c.rest.getD n NUL, c.rest.drop (n + 1)⟩

/-- The loop `while (isspace(sep[0])) sep++`. -/
@[irreducible] def skip_space_from : Char → List Char → Cursor
  | p, [] => ⟨p, []⟩
  | p, c :: cs => if isspace c then skip_space_from c cs else ⟨p, c :: cs⟩

/-- The loop `while (isspace(sep[0])) sep++`. -/
def skip_space (c : Cursor) : Cursor := skip_space_from c.prev c.rest

/-! ## Transfer event -/

/-- Source type `struct mon_packet`.  The union `s` is its eight bytes `setup`; the member
`s.iso.error_count` is the little-endian `int` in bytes 0 to 3 of it. -/
structure mon_packet where
  id : Nat
  type : Char
  xfer_type : Nat
  epnum : Nat
  devnum : Nat
  busnum : Nat
  flag_setup : Char
  flag_data : Char
  ts_sec : Int
  ts_usec : Int
  status : Int
  length : Nat
  len_cap : Nat
  setup : Buf
  interval : Int
  start_frame : Int
  xfer_flags : Nat
  ndesc : Nat

/-- The record after `memset(&pkt, 0, sizeof(pkt))`. -/
def mon_packet.zero : mon_packet :=
  { id := 0, type := NUL, xfer_type := 0, epnum := 0, devnum := 0, busnum := 0,
    flag_setup := NUL, flag_data := NUL, ts_sec := 0, ts_usec := 0, status := 0,
    length := 0, len_cap := 0, setup := fun _ => 0, interval := 0, start_frame := 0,
    xfer_flags := 0, ndesc := 0 }

/-- Read of the union member `s.iso.error_count`. -/
def iso_error_count (pkt : mon_packet) : Int := to_int32 (get_le32 pkt.setup 0)

/-- Store to the union member `s.iso.error_count`. -/
def set_iso_error_count (setup : Buf) (z : Int) : Buf :=
  wr (wr (wr (wr setup 0 (to_unsigned 32 z &&& 255)) 1 ((to_unsigned 32 z >>> 8) &&& 255))
    2 ((to_unsigned 32 z >>> 16) &&& 255)) 3 ((to_unsigned 32 z >>> 24) &&& 255)

/-- `PKT_INPUT(pkt)`. -/
def PKT_INPUT (pkt : mon_packet) : Bool := decide (pkt.epnum &&& 0x80 ≠ 0)

/-! ## Capture-line parser -/

/-- State of `parse_usbmon` between two sections: it has returned `code` (with the record
as far as it was filled in), or it goes on with the record and the pointer `sep`. -/
inductive Stage
  | fail (code : Nat) (pkt : mon_packet)
  | ok (pkt : mon_packet) (sep : Cursor)

/-- Sequencing of two sections of `parse_usbmon`. -/
def Stage.bind (s : Stage) (f : mon_packet → Cursor → Stage) : Stage :=
  match s with
  | Stage.fail code pkt => Stage.fail code pkt
  | Stage.ok pkt sep => f pkt sep

/-- Section "Parse URB id" of `parse_usbmon`. -/
def parse_urb_id (input : List Char) (pkt : mon_packet) : Stage :=
  let r := strtoull 16 input
  let pkt := { pkt with id := r.1 }
  let sep := (Cursor.mk NUL input).adv r.2
  if r.2 = 0 ∨ ¬ isdigit sep.prev then Stage.fail 1 pkt
  else Stage.ok pkt sep

/-- Section "Parse timestamp" of `parse_usbmon`. -/
def parse_timestamp (pkt : mon_packet) (sep : Cursor) : Stage :=
  let r := strtoull 10 sep.rest
  let tmp := r.1
  let sep := sep.adv r.2
  if ¬ isdigit sep.prev then Stage.fail 2 pkt
  else if sep.peek 0 = '.' then
    let pkt := { pkt with ts_sec := to_int64 tmp }
    let r2 := strtoull 10 (sep.adv 1).rest
    let usec : Int := to_int32 r2.1
    let pkt := { pkt with ts_usec := usec }
    let sep := (sep.adv 1).adv r2.2
    if ¬ isdigit sep.prev ∨ usec < 0 ∨ usec > 999999 then Stage.fail 3 pkt
    else Stage.ok pkt sep
  else
    Stage.ok { pkt with ts_sec := to_int64 (tmp / 1000000),
                        ts_usec := to_int32 (tmp % 1000000 : Nat) } sep

/-- Section "Event type" of `parse_usbmon`. -/
def parse_event_type (pkt : mon_packet) (sep : Cursor) : Stage :=
  let sep := skip_space sep
  let pkt := { pkt with type := sep.peek 0 }
  if ¬ isalpha pkt.type then Stage.fail 4 pkt
  else Stage.ok pkt (sep.adv 2)

/-- Sections "Transfer type" and "Transfer direction" of `parse_usbmon`; `sep` stays on the
transfer type character. -/
def parse_xfer (pkt : mon_packet) (sep : Cursor) : Stage :=
  let sep := skip_space sep
  if sep.peek 0 ≠ 'Z' ∧ sep.peek 0 ≠ 'I' ∧ sep.peek 0 ≠ 'C' ∧ sep.peek 0 ≠ 'B' then
    Stage.fail 5 pkt
  else
    let pkt := { pkt with xfer_type :=
      (if sep.peek 0 = 'Z' then XFER_ISOC else if sep.peek 0 = 'I' then XFER_INTR
       else if sep.peek 0 = 'C' then XFER_CTRL else XFER_BULK) }
    if sep.peek 1 = 'i' then Stage.ok { pkt with epnum := 0x80 } sep
    else if sep.peek 1 = 'o' then Stage.ok { pkt with epnum := 0 } sep
    else Stage.fail 6 pkt

/-- Section "Bus, device ID and actual endpoint" of `parse_usbmon`. -/
def parse_address (pkt : mon_packet) (sep : Cursor) : Stage :=
  if sep.peek 2 ≠ ':' then Stage.fail 7 pkt
  else
    let r := strtol 10 (sep.adv 3).rest
    let pkt := { pkt with busnum := to_unsigned 16 r.1 }
    let sep := (sep.adv 3).adv r.2
    if ¬ isdigit sep.prev ∨ sep.peek 0 ≠ ':' then Stage.fail 8 pkt
    else
      let r := strtol 10 (sep.adv 1).rest
      let pkt := { pkt with devnum := to_unsigned 8 r.1 }
      let sep := (sep.adv 1).adv r.2
      if ¬ isdigit sep.prev ∨ sep.peek 0 ≠ ':' then Stage.fail 9 pkt
      else
        let r := strtol 10 (sep.adv 1).rest
        let pkt := { pkt with epnum := (pkt.epnum ||| to_unsigned 7 r.1) % 256 }
        let sep := (sep.adv 1).adv r.2
        if ¬ isdigit sep.prev ∨ sep.peek 0 ≠ ' ' then Stage.fail 10 pkt
        else Stage.ok pkt sep

/-- One hexadecimal field of the setup block, `strtol(start = sep + 1, &sep, 16)`: the value
and the new pointer. -/
def setup_field (sep : Cursor) : Int × Cursor :=
  ((strtol 16 (sep.adv 1).rest).1, (sep.adv 1).adv (strtol 16 (sep.adv 1).rest).2)

/-- The check after a field of the setup block: `!isxdigit(sep[-1]) || sep[0] != ' '`. -/
def setup_bad (sep : Cursor) : Bool := decide (¬ isxdigit sep.prev ∨ sep.peek 0 ≠ ' ')

/-- The branch `sep[0] == 's'` of the section "Transfer status, etc.". -/
def parse_setup (pkt : mon_packet) (sep : Cursor) : Stage :=
  let pkt := { pkt with flag_setup := NUL, status := 0 }
  let f0 := setup_field sep
  let pkt := { pkt with setup := wr pkt.setup 0 (to_unsigned 8 f0.1) }
  if setup_bad f0.2 then Stage.fail 11 pkt
  else
    let f1 := setup_field f0.2
    let pkt := { pkt with setup := wr pkt.setup 1 (to_unsigned 8 f1.1) }
    if setup_bad f1.2 then Stage.fail 12 pkt
    else
      let f2 := setup_field f1.2
      let pkt := { pkt with setup := put_le16 pkt.setup 2 (to_unsigned 16 f2.1) }
      if setup_bad f2.2 then Stage.fail 13 pkt
      else
        let f3 := setup_field f2.2
        let pkt := { pkt with setup := put_le16 pkt.setup 4 (to_unsigned 16 f3.1) }
        if setup_bad f3.2 then Stage.fail 14 pkt
        else
          let f4 := setup_field f3.2
          let pkt := { pkt with setup := put_le16 pkt.setup 6 (to_unsigned 16 f4.1) }
          if setup_bad f4.2 then Stage.fail 15 pkt
          else Stage.ok pkt f4.2

/-- The branch of the section "Transfer status, etc." for a numeric status, with the
interval, start frame and error count fields that the transfer kind asks for. -/
def parse_numeric_status (pkt : mon_packet) (sep : Cursor) : Stage :=
  let r := strtol 10 sep.rest
  let pkt := { pkt with flag_setup := '-', status := to_int32 r.1 }
  let sep := sep.adv r.2
  let last (pkt : mon_packet) (sep : Cursor) : Stage :=
    if ¬ isdigit sep.prev ∨ sep.peek 0 ≠ ' ' then Stage.fail 19 pkt else Stage.ok pkt sep
  if pkt.xfer_type = XFER_ISOC ∨ pkt.xfer_type = XFER_INTR then
    if ¬ isdigit sep.prev ∨ sep.peek 0 ≠ ':' then Stage.fail 16 pkt
    else
      let r := strtol 10 (sep.adv 1).rest
      let pkt := { pkt with interval := to_int32 r.1 }
      let sep := (sep.adv 1).adv r.2
      if pkt.xfer_type = XFER_ISOC then
        if ¬ isdigit sep.prev ∨ sep.peek 0 ≠ ':' then Stage.fail 17 pkt
        else
          let r := strtol 10 (sep.adv 1).rest
          let pkt := { pkt with start_frame := to_int32 r.1 }
          let sep := (sep.adv 1).adv r.2
          if pkt.type = 'C' then
            if ¬ isdigit sep.prev ∨ sep.peek 0 ≠ ':' then Stage.fail 18 pkt
            else
              let r := strtol 10 (sep.adv 1).rest
              let pkt := { pkt with setup := set_iso_error_count pkt.setup r.1 }
              last pkt ((sep.adv 1).adv r.2)
          else last pkt sep
      else last pkt sep
  else last pkt sep

/-- Section "Transfer status, etc." of `parse_usbmon`. -/
def parse_status (pkt : mon_packet) (sep : Cursor) : Stage :=
  let pkt := { pkt with start_frame := 0, interval := 0 }
  let sep := skip_space sep
  if sep.peek 0 = 's' then parse_setup pkt sep
  else if sep.peek 0 = '-' ∧ ¬ isdigit (sep.peek 1) ∧ pkt.type = 'S' then
    Stage.ok { pkt with flag_setup := '-', status := -EINPROGRESS } (sep.adv 2)
  else if isdigit (sep.peek 0) ∨ (sep.peek 0 = '-' ∧ isdigit (sep.peek 1)) then
    parse_numeric_status pkt sep
  else
    Stage.ok { pkt with flag_setup := sep.peek 0, status := 0 } (sep.adv 2)

/-- Section "Parse data length" of `parse_usbmon`. -/
def parse_length (pkt : mon_packet) (sep : Cursor) : Stage :=
  let r := strtol 10 sep.rest
  let pkt := { pkt with length := to_unsigned 32 r.1 }
  let sep := sep.adv r.2
  if ¬ isdigit sep.prev ∨ (sep.peek 0 ≠ NUL ∧ ¬ isspace (sep.peek 0)) then Stage.fail 20 pkt
  else Stage.ok pkt sep

/-- Result of the payload loop: it returned 22, or it ended with the pointer, the buffer
and the counter `ii`. -/
inductive LoopEnd
  | bad (data : Buf)
  | done (sep : Cursor) (data : Buf) (ii : Nat)

/-- The loop `for (ii = 0; (ii < pkt->length) && (ii < data_len); ii++)` over the hex pairs.
The first argument bounds the number of rounds; `length + 1` is never used up, since every
round adds one to `ii` and the loop ends when `ii` reaches `length`. -/
def parse_data_loop (hextab : Nat → Nat) (length data_len : Nat) :
    Nat → Cursor → Buf → Nat → LoopEnd
  | 0, sep, data, ii => LoopEnd.done sep data ii
  | fuel + 1, sep, data, ii =>
    if ii < length ∧ ii < data_len then
      let sep := skip_space sep
      if sep.peek 0 = NUL then LoopEnd.done sep data ii
      else if isxdigit (sep.peek 0) ∧ isxdigit (sep.peek 1) then
        parse_data_loop hextab length data_len fuel (sep.adv 2)
          (wr data ii ((fromhex hextab (sep.peek 0) <<< 4) ||| fromhex hextab (sep.peek 1)))
          (ii + 1)
      else LoopEnd.bad data
    else LoopEnd.done sep data ii

/-- What `parse_usbmon` hands back: its return value, the record and the payload buffer. -/
structure ParseResult where
  code : Nat
  pkt : mon_packet
  data : Buf

/-- Section "Parse the data itself" of `parse_usbmon`, with the final check. -/
def parse_data (hextab : Nat → Nat) (pkt : mon_packet) (sep : Cursor) (data : Buf)
    (data_len : Nat) : ParseResult :=
  let sep := skip_space sep
  if sep.peek 0 = NUL then ⟨21, pkt, data⟩
  else if sep.peek 0 = '=' then
    let pkt := { pkt with flag_data := NUL }
    match parse_data_loop hextab pkt.length data_len (pkt.length + 1) (sep.adv 2) data 0 with
    | LoopEnd.bad data => ⟨22, pkt, data⟩
    | LoopEnd.done sep data ii =>
      let pkt := { pkt with len_cap := ii }
      if sep.peek 0 ≠ NUL then ⟨23, pkt, data⟩ else ⟨0, pkt, data⟩
  else
    let pkt := { pkt with flag_data := sep.peek 0, len_cap := 0 }
    if (sep.adv 1).peek 0 ≠ NUL then ⟨23, pkt, data⟩ else ⟨0, pkt, data⟩

/-- The sections of `parse_usbmon` before the payload, in source order. -/
def parse_header (input : List Char) (pkt : mon_packet) : Stage :=
  (((((parse_urb_id input pkt).bind parse_timestamp).bind parse_event_type).bind
    parse_xfer).bind parse_address).bind (fun p s => (parse_status p s).bind parse_length)

/-- Source function `parse_usbmon`; `hextab` is the global table read by `fromhex`. -/
def parse_usbmon (hextab : Nat → Nat) (input : List Char) (pkt : mon_packet) (data : Buf)
    (data_len : Nat) : ParseResult :=
  match parse_header input pkt with
  | Stage.fail code pkt => ⟨code, pkt, data⟩
  | Stage.ok pkt sep => parse_data hextab pkt sep data data_len

/-! ## Transfer printer -/

/-- The payload loop of `print_usbmon`:
`for (ii = 0; ii < data_len; ++ii) \x7b if (ii % 4 == 0) fputc(' '); two hex digits \x7d`,
as the text written from round `ii` on when `n` rounds remain. -/
def print_data_loop (data : Buf) : Nat → Nat → String
  | 0, _ => ""
  | n + 1, ii =>
    (if ii % 4 = 0 then " " else "") ++ fmt_c (hexdigit (rd data ii >>> 4))
      ++ fmt_c (hexdigit (rd data ii &&& 15)) ++ print_data_loop data n (ii + 1)

/-- The status part of the line written by `print_usbmon`. -/
def print_usbmon_status (pkt : mon_packet) : String :=
  let xfer_type := pkt.xfer_type &&& 3
  if pkt.type = 'E' then " " ++ fmt_d pkt.status
  else if pkt.flag_setup = NUL then
    " s " ++ fmt_x false true 2 (rd pkt.setup 0) ++ " " ++ fmt_x false true 2 (rd pkt.setup 1)
      ++ " " ++ fmt_x false true 4 (get_le16 pkt.setup 2)
      ++ " " ++ fmt_x false true 4 (get_le16 pkt.setup 4)
      ++ " " ++ fmt_x false true 4 (get_le16 pkt.setup 6)
  else if pkt.flag_setup = '-' then
    " " ++ fmt_d pkt.status
      ++ (if xfer_type = XFER_ISOC ∨ xfer_type = XFER_INTR then ":" ++ fmt_d pkt.interval
          else "")
      ++ (if xfer_type = XFER_ISOC then
            ":" ++ fmt_d pkt.start_frame
              ++ (if pkt.type = 'C' then ":" ++ fmt_d (iso_error_count pkt) else "")
          else "")
  else " " ++ fmt_c pkt.flag_setup ++ " __ __ ____ ____ ____"

/-- The length and payload part of the line written by `print_usbmon`. -/
def print_usbmon_data (pkt : mon_packet) (data : Buf) : String :=
  " " ++ fmt_d_u32 pkt.length
    ++ (if pkt.length = 0 then ""
        else if pkt.flag_data ≠ NUL then " " ++ fmt_c pkt.flag_data
        else " =" ++ print_data_loop data pkt.len_cap 0
          ++ (if pkt.len_cap < pkt.length then " ..." else ""))

/-- The first `fprintf` of `print_usbmon`: identifier, timestamp, phase, kind, direction and
the address triple. -/
def print_usbmon_head (pkt : mon_packet) : String :=
  let xfer_type := pkt.xfer_type &&& 3
  let direction : Char := if PKT_INPUT pkt then 'i' else 'o'
  fmt_x false true 16 pkt.id ++ " " ++ fmt_d pkt.ts_sec ++ "."
    ++ fmt_u 6 (to_unsigned 32 pkt.ts_usec) ++ " " ++ fmt_c pkt.type ++ " "
    ++ fmt_c ("ZICB".toList.getD xfer_type NUL) ++ fmt_c direction ++ ":"
    ++ fmt_u 0 pkt.busnum ++ ":" ++ fmt_u 3 pkt.devnum ++ ":" ++ fmt_u 0 (pkt.epnum &&& 127)

/-- Source function `print_usbmon`: the text written to `stdout`. -/
def print_usbmon (pkt : mon_packet) (data : Buf) : String :=
  print_usbmon_head pkt ++ print_usbmon_status pkt ++ print_usbmon_data pkt data ++ "\n"

/-! ## Protocol classifier -/

/-- The first condition of `print_bluetooth`: an HCI command. -/
def is_hci_command (pkt : mon_packet) : Bool :=
  decide (pkt.type = 'S' ∧ pkt.xfer_type = XFER_CTRL ∧ pkt.epnum = 0
    ∧ pkt.flag_setup = NUL ∧ pkt.flag_data = NUL
    ∧ rd pkt.setup 0 = 0x20 ∧ (rd pkt.setup 1 = 0x00 ∨ rd pkt.setup 1 = 0xE0)
    ∧ rd pkt.setup 2 = 0 ∧ rd pkt.setup 3 = 0
    ∧ rd pkt.setup 4 = 0 ∧ rd pkt.setup 5 = 0)

/-- The second condition of `print_bluetooth`: an HCI event. -/
def is_hci_event (pkt : mon_packet) : Bool :=
  decide (pkt.type = 'C' ∧ pkt.xfer_type = XFER_INTR ∧ pkt.epnum ≥ 0x81
    ∧ pkt.flag_data = NUL ∧ pkt.status = 0)

/-- The third condition of `print_bluetooth`: an L2CAP frame. -/
def is_l2cap (pkt : mon_packet) : Bool :=
  decide (pkt.xfer_type = XFER_BULK ∧ (pkt.epnum &&& 127) > 0
    ∧ pkt.flag_data = NUL ∧ pkt.length > 0
    ∧ pkt.type = (if PKT_INPUT pkt then 'C' else 'S'))

/-- Source function `print_bluetooth`. -/
def print_bluetooth (st : Tables) (pkt : mon_packet) (data : Buf) : Tables × List Out :=
  if is_hci_command pkt then
    (st, [Out.call Decoder.hci_command 0 pkt.len_cap, Out.text "\n"])
  else if is_hci_event pkt then
    (st, [Out.call Decoder.hci_event 0 pkt.len_cap, Out.text "\n"])
  else if is_l2cap pkt then
    ((print_l2cap st data pkt.len_cap).1, (print_l2cap st data pkt.len_cap).2 ++ [Out.text "\n"])
  else (st, [])

/-! ## HCI commands -/

/-- Source function `get_bt_addr`, applied to `data + off`: the text left in the buffer. -/
def get_bt_addr (data : Buf) (off : Nat) : String :=
  fmt_x false true 2 (rd data off) ++ ":" ++ fmt_x false true 2 (rd data (off + 1)) ++ ":"
    ++ fmt_x false true 2 (rd data (off + 2)) ++ ":" ++ fmt_x false true 2 (rd data (off + 3))
    ++ ":" ++ fmt_x false true 2 (rd data (off + 4)) ++ ":"
    ++ fmt_x false true 2 (rd data (off + 5))

/-- Source function `print_hci_command`: the line written to `stdout`.  The local
`param_len` is computed and not used. -/
def print_hci_command (data : Buf) (len : Nat) : String :=
  let opcode := get_le16 data 0
  let _param_len := min (rd data 2) (u32sub len 3)
  if opcode = 0x0000 then "  HCI_NoOp\n"
  else if opcode = 0x0401 then
    "  HCI_Inquiry(LAP=" ++ fmt_x false true 6 (get_le24 data 3) ++ ", Inquiry_Length="
      ++ fmt_d (rd data 4) ++ ", Num_Responses=" ++ fmt_d (rd data 5) ++ ")\n"
  else if opcode = 0x0402 then "  HCI_Inquiry_Cancel()\n"
  else if opcode = 0x0405 then
    "  HCI_Create_Connection(BD_ADDR=" ++ get_bt_addr data 3 ++ ", Packet_Type="
      ++ fmt_x true true 2 (get_le16 data 9) ++ ", Scan=" ++ fmt_d (rd data 11)
      ++ ", Clock_Offset=" ++ fmt_d (get_le16 data 13) ++ ", Allow_Role_Switch="
      ++ fmt_d (rd data 15) ++ ")\n"
  else if opcode = 0x0406 then
    "  HCI_Disconnect(Connection_Handle=" ++ fmt_d (get_le16 data 3) ++ ", Reason="
      ++ fmt_d (rd data 5) ++ ")\n"
  else if opcode = 0x0409 then
    "  HCI_Accept_Connection_Request(BD_ADDR=" ++ get_bt_addr data 3 ++ ", Role="
      ++ fmt_d (rd data 9) ++ ")\n"
  else if opcode = 0x040b then
    "  HCI_Link_Key_Request_Reply(BD_ADDR=" ++ get_bt_addr data 3 ++ ", Link_Key="
      ++ fmt_x false true 8 (get_le32 data 9) ++ "_" ++ fmt_x false true 8 (get_le32 data 13)
      ++ "_" ++ fmt_x false true 8 (get_le32 data 17) ++ "_"
      ++ fmt_x false true 8 (get_le32 data 21) ++ ")\n"
  else if opcode = 0x040c then
    "  HCI_Link_Key_Request_Negative_Reply(BD_ADDR=" ++ get_bt_addr data 3 ++ ")\n"
  else if opcode = 0x040d then
    "  HCI_PIN_Code_Request_Reply(BD_ADDR=" ++ get_bt_addr data 3 ++ ", PIN_Code_Length="
      ++ fmt_d (rd data 9) ++ ", PIN_Code=" ++ fmt_x false true 8 (get_le32 data 10) ++ "_"
      ++ fmt_x false true 8 (get_le32 data 14) ++ "_" ++ fmt_x false true 8 (get_le32 data 18)
      ++ "_" ++ fmt_x false true 8 (get_le32 data 22) ++ "\n"
  else if opcode = 0x0411 then
    "  HCI_Authentication_Requested(Connection_Handle=" ++ fmt_d (get_le16 data 3) ++ ")\n"
  else if opcode = 0x0413 then
    "  HCI_PIN_Code_Request_Negative_Reply(BD_ADDR=" ++ get_bt_addr data 3 ++ ")\n"
  else if opcode = 0x0419 then
    "  HCI_Remote_Name_Request(BD_ADDR=" ++ get_bt_addr data 3 ++ ", Scan="
      ++ fmt_d (rd data 9) ++ ", Clock_Offset=" ++ fmt_d (get_le16 data 11) ++ ")\n"
  else if opcode = 0x041b then
    "  HCI_Read_Remote_Supported_Features(Connection_Handle=" ++ fmt_d (get_le16 data 3)
      ++ ")\n"
  else if opcode = 0x041d then
    "  HCI_Read_Remote_Version_Information(Connection_Handle=" ++ fmt_d (get_le16 data 3)
      ++ ")\n"
  else if opcode = 0x041f then
    "  HCI_Read_Clock_Offset(Connection_Handle=" ++ fmt_d (get_le16 data 3) ++ ")\n"
  else if opcode = 0x0807 then
    "  HCI_QoS_Setup(Connection_Handle=" ++ fmt_d (get_le16 data 3) ++ ", Flags="
      ++ fmt_x true true 2 (rd data 5) ++ ", Service_Type=" ++ fmt_d (rd data 6)
      ++ ", Token_Rate=" ++ fmt_d_u32 (get_le32 data 7) ++ ", Peak_Bandwidth="
      ++ fmt_d_u32 (get_le32 data 11) ++ ", Latency=" ++ fmt_d_u32 (get_le32 data 15)
      ++ ", Delay_Variation=" ++ fmt_d_u32 (get_le32 data 19) ++ ")\n"
  else if opcode = 0x0809 then
    "  HCI_Role_Discovery(Connection_Handle=" ++ fmt_d (get_le16 data 3) ++ ")\n"
  else if opcode = 0x080d then
    "  HCI_Write_Link_Policy_Settings(Connection_Handle=" ++ fmt_d (get_le16 data 3)
      ++ ", Link_Policy_Settings=" ++ fmt_x true true 4 (get_le16 data 5) ++ ")\n"
  else if opcode = 0x080e then "  HCI_Read_Default_Link_Policy_Settings()\n"
  else if opcode = 0x080f then
    "  HCI_Write_Default_Link_Policy_Settings(Default_Link_Policy_Settings="
      ++ fmt_x true true 4 (get_le16 data 3) ++ ")\n"
  else if opcode = 0x0c01 then
    "  HCI_Set_Event_Mask(Event_Mask=" ++ fmt_x false true 8 (get_le32 data 3) ++ "_"
      ++ fmt_x false true 8 (get_le32 data 7) ++ ")\n"
  else if opcode = 0x0c03 then "  HCI_Reset()\n"
  else if opcode = 0x0c05 then
    "  HCI_Set_Event_Filter(Filter_Type=" ++ fmt_d (rd data 3) ++ ", Filter_Condition_Type="
      ++ fmt_d (rd data 4) ++ ", Condition=...)\n"
  else if opcode = 0x0c0d then
    "  HCI_Read_Stored_Link_Key(BD_ADDR=" ++ get_bt_addr data 3 ++ ", Read_All_Flag="
      ++ fmt_d (rd data 9) ++ ")\n"
  else if opcode = 0x0c14 then "  HCI_Read_Local_Name()\n"
  else if opcode = 0x0c16 then
    "  HCI_Write_Connection_Accept_Timeout(Conn_Accept_Timeout=" ++ fmt_d (get_le16 data 3)
      ++ ")\n"
  else if opcode = 0x0c18 then
    "  HCI_Write_Page_Timeout(Page_Timeout=" ++ fmt_d (get_le16 data 3) ++ ")\n"
  else if opcode = 0x0c19 then "  HCI_Read_Scan_Enable()\n"
  else if opcode = 0x0c1a then
    "  HCI_Write_Scan_Enable(Scan_Enable=" ++ fmt_d (rd data 3) ++ ")\n"
  else if opcode = 0x0c23 then "  HCI_Read_Class_of_Device()\n"
  else if opcode = 0x0c24 then
    "  HCI_Write_Class_of_Device(Class_of_Device=" ++ fmt_x true true 6 (get_le24 data 3)
      ++ ")\n"
  else if opcode = 0x0c25 then "  HCI_Read_Voice_Setting()\n"
  else if opcode = 0x0c28 then
    "  HCI_Write_Automatic_Flush_Timeout(Connection_Handle=" ++ fmt_d (get_le16 data 3)
      ++ ", Flush_Timeout=" ++ fmt_d (get_le16 data 5) ++ ")\n"
  else if opcode = 0x0c2d then
    "  HCI_Read_Transmit_Power_Level(Connection_Handle=" ++ fmt_d (get_le16 data 3)
      ++ ", Type=" ++ fmt_d (rd data 5) ++ ")\n"
  else if opcode = 0x0c36 then
    "  HCI_Read_Link_Supervision_Timeout(Handle=" ++ fmt_d (get_le16 data 3) ++ ")\n"
  else if opcode = 0x0c37 then
    "  HCI_Write_Link_Supervision_Timeout(Handle=" ++ fmt_d (get_le16 data 3)
      ++ ", Link_Supervision_Timeout=" ++ fmt_d (get_le16 data 5) ++ ")\n"
  else if opcode = 0x1001 then "  HCI_Read_Local_Version_Information()\n"
  else if opcode = 0x1003 then "  HCI_Read_Local_Supported_Features()\n"
  else if opcode = 0x1005 then "  HCI_Read_Buffer_Size()\n"
  else if opcode = 0x1009 then "  HCI_Read_BD_ADDR()\n"
  else if opcode = 0x1403 then
    "  HCI_Read_Link_Quality(Handle=" ++ fmt_d (get_le16 data 3) ++ ")\n"
  else if opcode = 0x1405 then
    "  HCI_Read_RSSI(Handle=" ++ fmt_d (get_le16 data 3) ++ ")\n"
  else
    "  Unhandled HCI command with opcode " ++ fmt_x true true 4 opcode ++ " (OGF "
      ++ fmt_d ((opcode >>> 10 : Nat) : Int) ++ " OCF "
      ++ fmt_d ((opcode &&& 1023 : Nat) : Int) ++ ")\n"

/-! ## Driver loop -/

/-- What the body of the loop of `read_regular_file` does with one line: the tables, the
record and the buffer it leaves, and the items it writes. -/
structure LineResult where
  tables : Tables
  pkt : mon_packet
  data : Buf
  out : List Out

/-- Body of the loop of `read_regular_file` after the trailing white space is removed:
`input` are the characters that `parse_usbmon` is called with; the payload buffer has 4096
bytes. -/
def process_line (hextab : Nat → Nat) (st : Tables) (pkt : mon_packet) (data : Buf)
    (input : List Char) : LineResult :=
  let r := parse_usbmon hextab input pkt data 4096
  if r.code = 0 then
    ⟨(print_bluetooth st r.pkt r.data).1, r.pkt, r.data,
      Out.text (print_usbmon r.pkt r.data) :: (print_bluetooth st r.pkt r.data).2⟩
  else
    ⟨st, r.pkt, r.data, [Out.text (" .. parse failure " ++ fmt_d r.code ++ "\n")]⟩

/-- A section of the parser never returns the code 0. -/
def Stage.nonzero : Stage → Prop
  | Stage.fail code _ => code ≠ 0
  | Stage.ok _ _ => True

/-! ## Capture lines built from tokens (specification side) -/

/-- Value of a digit string in a base. -/
def digits_val (base : Nat) (ds : List Char) : Nat :=
  ds.foldl (fun acc c => acc * base + digit_val c) 0

/-- A non-empty string of digits of a base. -/
def is_number (base : Nat) (ds : List Char) : Bool :=
  !ds.isEmpty && ds.all (fun c => decide (digit_val c < base))

/-- The last character of `p :: cs`. -/
def last_char : Char → List Char → Char
  | p, [] => p
  | _, c :: cs => last_char c cs

/-- The status block of a capture line, in its four shapes: the setup block
`s f0 f1 f2 f3 f4`, the in-progress marker `-`, a numeric status with the fields that the
transfer kind asks for (`status[:interval[:start_frame[:error_count]]]`), or a single
character that flags a setup packet that was not captured. -/
inductive StatusTokens
  | setup (f0 f1 f2 f3 f4 : List Char)
  | in_progress
  | numeric (neg : Bool) (status interval start_frame error_count : List Char)
  | flag (c : Char)

/-- The tokens of a capture line up to the declared length. -/
structure LineTokens where
  id : List Char
  ts : List Char
  usec : Option (List Char)
  phase : Char
  kind : Char
  dir : Char
  bus : List Char
  dev : List Char
  ep : List Char
  status : StatusTokens
  len : List Char

/-- Text of a status block. -/
def status_text (kind phase : Char) : StatusTokens → List Char
  | StatusTokens.setup f0 f1 f2 f3 f4 =>
    's' :: ' ' :: (f0 ++ ' ' :: (f1 ++ ' ' :: (f2 ++ ' ' :: (f3 ++ ' ' :: f4))))
  | StatusTokens.in_progress => ['-']
  | StatusTokens.numeric neg st iv sf ec =>
    (if neg then ['-'] else []) ++ st
      ++ (if kind = 'Z' ∨ kind = 'I' then ':' :: iv else [])
      ++ (if kind = 'Z' then ':' :: sf ++ (if phase = 'C' then ':' :: ec else []) else [])
  | StatusTokens.flag c => [c]

/-- Text of a capture line up to the declared length:
`<id> <timestamp> <phase> <kind><dir>:<bus>:<dev>:<endpoint> <status-block> <length>`. -/
def header_text (t : LineTokens) : List Char :=
  t.id ++ ' ' :: (t.ts ++ ((match t.usec with | some u => '.' :: u | none => [])
    ++ ' ' :: t.phase :: ' ' :: t.kind :: t.dir :: ':' :: (t.bus ++ ':' :: (t.dev ++ ':' ::
      (t.ep ++ ' ' :: (status_text t.kind t.phase t.status ++ ' ' :: t.len))))))

/-- Validity of a status block for a transfer kind and phase: every field is a number in
the range of the record field that receives it. -/
def StatusTokens.valid (kind phase : Char) : StatusTokens → Bool
  | StatusTokens.setup f0 f1 f2 f3 f4 =>
    is_number 16 f0 && decide (digits_val 16 f0 < 256)
      && is_number 16 f1 && decide (digits_val 16 f1 < 256)
      && is_number 16 f2 && decide (digits_val 16 f2 < 65536)
      && is_number 16 f3 && decide (digits_val 16 f3 < 65536)
      && is_number 16 f4 && decide (digits_val 16 f4 < 65536)
  | StatusTokens.in_progress => decide (phase = 'S')
  | StatusTokens.numeric _ st iv sf ec =>
    is_number 10 st && decide (digits_val 10 st < 2 ^ 31)
      && (decide (kind ≠ 'Z' ∧ kind ≠ 'I')
          || (is_number 10 iv && decide (digits_val 10 iv < 2 ^ 31)))
      && (decide (kind ≠ 'Z') || (is_number 10 sf && decide (digits_val 10 sf < 2 ^ 31)))
      && (decide (kind ≠ 'Z' ∨ phase ≠ 'C')
          || (is_number 10 ec && decide (digits_val 10 ec < 2 ^ 31)))
  | StatusTokens.flag c =>
    decide (c ≠ 's' ∧ c ≠ '-' ∧ c ≠ NUL) && !isdigit c && !isspace c

/-- Validity of the tokens of a capture line: the identifier is a hexadecimal number of at
most 64 bits that ends in a decimal digit, the timestamp is seconds `.` microseconds or a
microseconds counter, the phase is a letter, the kind one of `Z I C B`, the direction `i` or
`o`, and bus, device, endpoint, status fields and length are numbers in the range of their
record fields. -/
def LineTokens.valid (t : LineTokens) : Bool :=
  is_number 16 t.id && isdigit (last_char NUL t.id) && decide (digits_val 16 t.id < 2 ^ 64)
    && is_number 10 t.ts
    && (match t.usec with
        | some u => decide (digits_val 10 t.ts < 2 ^ 63) && is_number 10 u
            && decide (digits_val 10 u ≤ 999999)
        | none => decide (digits_val 10 t.ts < 2 ^ 64))
    && isalpha t.phase
    && decide (t.kind = 'Z' ∨ t.kind = 'I' ∨ t.kind = 'C' ∨ t.kind = 'B')
    && decide (t.dir = 'i' ∨ t.dir = 'o')
    && is_number 10 t.bus && decide (digits_val 10 t.bus < 65536)
    && is_number 10 t.dev && decide (digits_val 10 t.dev < 256)
    && is_number 10 t.ep && decide (digits_val 10 t.ep < 128)
    && t.status.valid t.kind t.phase
    && is_number 10 t.len && decide (digits_val 10 t.len < 2 ^ 31)

/-- Transfer kind denoted by the kind letter. -/
def kind_code (k : Char) : Nat :=
  if k = 'Z' then XFER_ISOC else if k = 'I' then XFER_INTR
  else if k = 'C' then XFER_CTRL else XFER_BULK

/-- The union `s` after the five fields of a setup block are stored in it. -/
def setup_bytes (setup : Buf) (v0 v1 v2 v3 v4 : Nat) : Buf :=
  put_le16 (put_le16 (put_le16 (wr (wr setup 0 v0) 1 v1) 2 v2) 4 v3) 6 v4

/-- The record fields denoted by a status block. -/
def status_packet (kind phase : Char) (pkt : mon_packet) : StatusTokens → mon_packet
  | StatusTokens.setup f0 f1 f2 f3 f4 =>
    { pkt with
      start_frame := 0, interval := 0, flag_setup := NUL, status := 0,
      setup := setup_bytes pkt.setup (digits_val 16 f0) (digits_val 16 f1) (digits_val 16 f2)
        (digits_val 16 f3) (digits_val 16 f4) }
  | StatusTokens.in_progress =>
    { pkt with start_frame := 0, interval := 0, flag_setup := '-', status := -EINPROGRESS }
  | StatusTokens.numeric neg st iv sf ec =>
    { pkt with
      flag_setup := '-',
      status := (if neg then -(digits_val 10 st : Int) else (digits_val 10 st : Int)),
      interval := (if kind = 'Z' ∨ kind = 'I' then (digits_val 10 iv : Int) else 0),
      start_frame := (if kind = 'Z' then (digits_val 10 sf : Int) else 0),
      setup := (if kind = 'Z' ∧ phase = 'C'
                then set_iso_error_count pkt.setup (digits_val 10 ec : Int) else pkt.setup) }
  | StatusTokens.flag c =>
    { pkt with start_frame := 0, interval := 0, flag_setup := c, status := 0 }

/-- The record denoted by the tokens of a line; the fields that no token sets keep the value
they have in `pkt`. -/
def header_packet (t : LineTokens) (pkt : mon_packet) : mon_packet :=
  { (status_packet t.kind t.phase
      { pkt with
        id := digits_val 16 t.id,
        ts_sec := (match t.usec with
                   | some _ => (digits_val 10 t.ts : Int)
                   | none => ((digits_val 10 t.ts / 1000000 : Nat) : Int)),
        ts_usec := (match t.usec with
                    | some u => (digits_val 10 u : Int)
                    | none => ((digits_val 10 t.ts % 1000000 : Nat) : Int)),
        type := t.phase,
        xfer_type := kind_code t.kind,
        epnum := (if t.dir = 'i' then 0x80 else 0) ||| digits_val 10 t.ep,
        busnum := digits_val 10 t.bus,
        devnum := digits_val 10 t.dev } t.status)
    with length := digits_val 10 t.len }

/-- The data block of a capture line: a single flag character, or `=` and hex pairs, each
pair with the white space that precedes it (none inside a group). -/
inductive DataTokens
  | flag (c : Char)
  | hex (pairs : List (List Char × Char × Char))

/-- Text of a run of hex pairs. -/
def pairs_text : List (List Char × Char × Char) → List Char
  | [] => []
  | (ws, hi, lo) :: ps => ws ++ hi :: lo :: pairs_text ps

/-- Text of a data block, with the space that separates it from the length. -/
def data_text : DataTokens → List Char
  | DataTokens.flag c => [' ', c]
  | DataTokens.hex ps => ' ' :: '=' :: ' ' :: pairs_text ps

/-- The byte denoted by a hex pair. -/
def pair_byte (p : List Char × Char × Char) : Nat := digit_val p.2.1 * 16 + digit_val p.2.2

/-- Validity of a run of hex pairs: two hexadecimal digits each, preceded by white space
only. -/
def pairs_valid : List (List Char × Char × Char) → Bool
  | [] => true
  | (ws, hi, lo) :: ps => ws.all isspace && isxdigit hi && isxdigit lo && pairs_valid ps

/-- Validity of a data block for a declared length and a buffer capacity. -/
def DataTokens.valid (length data_len : Nat) : DataTokens → Bool
  | DataTokens.flag c => decide (c ≠ '=' ∧ c ≠ NUL) && !isspace c
  | DataTokens.hex ps =>
    pairs_valid ps && decide (1 ≤ ps.length ∧ ps.length ≤ length ∧ ps.length ≤ data_len)

/-- The payload as `print_usbmon` writes it: two lowercase hexadecimal digits per byte, a
space before every group of four; `ii` is the index of the first byte. -/
def hex_dump : List Nat → Nat → String
  | [], _ => ""
  | b :: bs, ii =>
    (if ii % 4 = 0 then " " else "") ++ String.mk [hexdigit (b / 16), hexdigit (b % 16)]
      ++ hex_dump bs (ii + 1)

/-- The bytes denoted by a data block. -/
def payload_bytes : DataTokens → List Nat
  | DataTokens.flag _ => []
  | DataTokens.hex ps => ps.map pair_byte

/-- The record fields denoted by a data block. -/
def data_packet (pkt : mon_packet) : DataTokens → mon_packet
  | DataTokens.flag c => { pkt with flag_data := c, len_cap := 0 }
  | DataTokens.hex ps => { pkt with flag_data := NUL, len_cap := ps.length }

/-- Text of a capture line: the tokens up to the length, then the data block. -/
def line_text (t : LineTokens) (d : DataTokens) : List Char := header_text t ++ data_text d

/-- Text of a capture line up to the device number:
`<id> <timestamp> <phase> <kind><dir>:<bus>:<dev>`. -/
def address_text (id ts : List Char) (usec : Option (List Char)) (phase kind dir : Char)
    (bus dev : List Char) : List Char :=
  id ++ ' ' :: (ts ++ ((match usec with | some u => '.' :: u | none => [])
    ++ ' ' :: phase :: ' ' :: kind :: dir :: ':' :: (bus ++ ':' :: dev)))

/-- Validity of the tokens of a capture line up to the bus number, as in `LineTokens.valid`:
the identifier is a hexadecimal number of at most 64 bits that ends in a decimal digit, the
timestamp is seconds `.` microseconds or a microseconds counter, the phase is a letter, the
kind one of `Z I C B`, the direction `i` or `o`, the bus number a number below 65536. -/
def address_valid (id ts : List Char) (usec : Option (List Char)) (phase kind dir : Char)
    (bus : List Char) : Bool :=
  is_number 16 id && isdigit (last_char NUL id) && decide (digits_val 16 id < 2 ^ 64)
    && is_number 10 ts
    && (match usec with
        | some u => decide (digits_val 10 ts < 2 ^ 63) && is_number 10 u
            && decide (digits_val 10 u ≤ 999999)
        | none => decide (digits_val 10 ts < 2 ^ 64))
    && isalpha phase
    && decide (kind = 'Z' ∨ kind = 'I' ∨ kind = 'C' ∨ kind = 'B')
    && decide (dir = 'i' ∨ dir = 'o')
    && is_number 10 bus && decide (digits_val 10 bus < 65536)

/-- The opcodes for which the switch of `print_hci_command` has a case. -/
def hci_command_opcodes : List Nat :=
  [0x0000, 0x0401, 0x0402, 0x0405, 0x0406, 0x0409, 0x040b, 0x040c, 0x040d, 0x0411, 0x0413,
   0x0419, 0x041b, 0x041d, 0x041f, 0x0807, 0x0809, 0x080d, 0x080e, 0x080f, 0x0c01, 0x0c03,
   0x0c05, 0x0c0d, 0x0c14, 0x0c16, 0x0c18, 0x0c19, 0x0c1a, 0x0c23, 0x0c24, 0x0c25, 0x0c28,
   0x0c2d, 0x0c36, 0x0c37, 0x1001, 0x1003, 0x1005, 0x1009, 0x1403, 0x1405]

/-- A text that is exactly one line: it holds one line feed, as its last character. -/
def one_line (s : String) : Prop :=
  s.data.count '\n' = 1 ∧ s.data.getLast? = some '\n'

/-- A text that begins with the characters `  HCI_`: the line of a command that has a case. -/
def names_command (s : String) : Prop := ∃ r, s.data = "  HCI_".data ++ r

/-! ## SDP data elements -/

/-- Library function `isprint` in the C locale, on a byte. -/
def isprint (b : Nat) : Bool := decide (32 ≤ b ∧ b ≤ 126)

/-- What a call of `print_sdp_data` leaves: its return value, the position it stores through
`ppos`, and the text it writes. -/
structure SdpResult where
  ret : Int
  pos : Nat
  out : String
  deriving DecidableEq, Repr

/-- The switch on `tag & 7` of `print_sdp_data`, "Parse the size portion of the field": the
local `size` and the local `pos` after it; the argument `pos` is the position after the tag
byte. -/
def sdp_size (data : Buf) (tag pos : Nat) : Nat × Nat :=
  if tag &&& 7 = 0 then (1, pos)
  else if tag &&& 7 = 1 then (2, pos)
  else if tag &&& 7 = 2 then (4, pos)
  else if tag &&& 7 = 3 then (8, pos)
  else if tag &&& 7 = 4 then (16, pos)
  else if tag &&& 7 = 5 then (rd data pos, u32add pos 1)
  else if tag &&& 7 = 6 then (get_be16 data 0, u32add pos 2)
  else (get_be32 data 0, u32add pos 4)

/-- The check `if (size > len - pos - 1)` of `print_sdp_data`: the locals `more` and `size`
after it.  The difference is computed in `unsigned int` and stored in the `int more`. -/
def sdp_clip (size pos len : Nat) : Int × Nat :=
  if size > u32sub (u32sub len pos) 1 then
    (to_int32 ((u32sub size (u32sub (u32sub len pos) 1) : Nat) : Int), u32sub (u32sub len pos) 1)
  else (0, size)

/-- The inner switch of the cases 1 (unsigned integer) and 2 (signed integer) of
`print_sdp_data`; `signed` selects the conversions of case 2. -/
def sdp_integer (data : Buf) (pos size : Nat) (signed : Bool) : String :=
  if size = 1 then (if signed then fmt_d (rd data pos) else fmt_u 0 (rd data pos))
  else if size = 2 then
    (if signed then fmt_d (get_be16 data pos) else fmt_u 0 (get_be16 data pos))
  else if size = 4 then fmt_x true false 0 (get_be32 data pos)
  else if size = 8 then
    fmt_x true false 0 (get_be32 data pos) ++ "_" ++ fmt_x false true 8 (get_be32 data (pos + 4))
  else if size = 16 then
    fmt_x true false 0 (get_be32 data pos) ++ "_" ++ fmt_x false true 8 (get_be32 data (pos + 4))
      ++ "_" ++ fmt_x false true 8 (get_be32 data (pos + 8)) ++ "_"
      ++ fmt_x false true 8 (get_be32 data (pos + 12))
  else ""

/-- The inner switch of the case 3 (UUID) of `print_sdp_data`. -/
def sdp_uuid (data : Buf) (pos size : Nat) : String :=
  if size = 2 then fmt_x true true 6 (get_be16 data pos)
  else if size = 4 then fmt_x true false 10 (get_be16 data pos)
  else if size = 16 then
    fmt_x false true 8 (get_be32 data (pos + 0)) ++ "-" ++ fmt_x false true 4 (get_be16 data (pos + 4))
      ++ "-" ++ fmt_x false true 4 (get_be16 data (pos + 6)) ++ "-"
      ++ fmt_x false true 4 (get_be16 data (pos + 8)) ++ "-"
      ++ fmt_x false true 4 (get_be16 data (pos + 10))
      ++ fmt_x false true 8 (get_be32 data (pos + 12))
  else ""

/-- The loop `for (ii = 0; ii < size; ii++)` of the string case of `print_sdp_data`: the text
written from round `ii` on when `n` rounds remain. -/
def sdp_string_loop (data : Buf) (pos : Nat) : Nat → Nat → String
  | 0, _ => ""
  | n + 1, ii =>
    (if isprint (rd data (u32add pos ii)) then fmt_c (Char.ofNat (rd data (u32add pos ii)))
     else "\\x" ++ fmt_x false true 2 (rd data (u32add pos ii)))
      ++ sdp_string_loop data pos n (ii + 1)

/-- The cases of the switch on `tag >> 3` of `print_sdp_data` other than 6 and 7: the text
written and the locals `pos` and `size` after the switch. -/
def sdp_scalar (data : Buf) (tag pos size : Nat) (more : Int) : String × Nat × Nat :=
  if tag >>> 3 = 0 then ("nil", pos, if size = 1 then 0 else size)
  else if tag >>> 3 = 1 then
    ("uint" ++ fmt_d_u32 size ++ "(" ++ sdp_integer data pos size false ++ ")", pos, size)
  else if tag >>> 3 = 2 then
    ("int" ++ fmt_d_u32 size ++ "(" ++ sdp_integer data pos size true ++ ")", pos, size)
  else if tag >>> 3 = 3 then
    ("uuid" ++ fmt_d_u32 size ++ "(" ++ sdp_uuid data pos size ++ ")", pos, size)
  else if tag >>> 3 = 8 then
    ("URL:" ++ "\"" ++ sdp_string_loop data pos size 0 ++ "\"", pos, size)
  else if tag >>> 3 = 4 then ("\"" ++ sdp_string_loop data pos size 0 ++ "\"", pos, size)
  else if tag >>> 3 = 5 then
    if pos < size then
      ("bool(" ++ (if rd data pos ≠ 0 then "true" else "false") ++ ")", u32add pos 1, size)
    else ("bool(" ++ ")", pos, size)
  else
    ("reserved (Type=" ++ fmt_d (rd data (u32sub pos 1) >>> 3) ++ ", Size="
      ++ fmt_d_u32 (u32add size (to_unsigned 32 more)) ++ ")\n", pos, size)

/-- The loop `do \x7b if (*ppos > pos) fputs(", "); ii = print_sdp_data(data, ppos, len); \x7d
while (ii == 0 && *ppos < pos + size)` of the cases 6 and 7: the last `ii`, the last `*ppos`
and the text written.  `elem` is the recursive call, `stop` is `pos + size`; the first
argument bounds the number of rounds, and the result is `none` when it is used up. -/
def sdp_seq_loop (elem : Nat → Option SdpResult) (pos stop : Nat) :
    Nat → Nat → Option (Nat × Nat × String)
  | 0, _ => none
  | fuel + 1, ppos =>
    match elem ppos with
    | none => none
    | some r =>
      if to_unsigned 32 r.ret = 0 ∧ r.pos < stop then
        match sdp_seq_loop elem pos stop fuel r.pos with
        | none => none
        | some (ii, p, out) => some (ii, p, (if ppos > pos then ", " else "") ++ r.out ++ out)
      else some (to_unsigned 32 r.ret, r.pos, (if ppos > pos then ", " else "") ++ r.out)

/-- Source function `print_sdp_data`, called with `*ppos = pos0`.  The first argument bounds
the depth of the recursion and the number of rounds of each loop over sub-elements; the
result is `none` when it is used up.  The sum `more + sub_more` of two `int` is taken in 32
bits. -/
def print_sdp_data (data : Buf) (len : Nat) : Nat → Nat → Option SdpResult
  | 0, _ => none
  | fuel + 1, pos0 =>
    if pos0 < len then
      let tag := rd data pos0
      let pos := (sdp_size data tag (u32add pos0 1)).2
      let more := (sdp_clip (sdp_size data tag (u32add pos0 1)).1 pos len).1
      let size := (sdp_clip (sdp_size data tag (u32add pos0 1)).1 pos len).2
      if tag >>> 3 = 6 ∨ tag >>> 3 = 7 then
        match sdp_seq_loop (fun p => print_sdp_data data len fuel p) pos (u32add pos size)
            fuel pos with
        | none => none
        | some (ii, _, out) =>
          some ⟨to_int32 (more + to_int32 (ii : Int)), u32add pos size,
            (if tag >>> 3 = 6 then "seq \x7b " else "alt \x7b ") ++ out ++ " \x7d"
              ++ (if more ≠ 0 ∧ to_int32 (ii : Int) = 0 then " ..." else "")⟩
      else
        some ⟨to_int32 more,
          u32add (sdp_scalar data tag pos size more).2.1 (sdp_scalar data tag pos size more).2.2,
          (sdp_scalar data tag pos size more).1 ++ (if more ≠ 0 then " ..." else "")⟩
    else some ⟨1, pos0, " ..."⟩

/-- Source function `print_sdp`; the first argument is the bound handed to
`print_sdp_data`. -/
def print_sdp (fuel : Nat) (data : Buf) (len : Nat) : Option String :=
  if rd data 0 = 0x06 then
    match print_sdp_data data len fuel 5 with
    | none => none
    | some r1 =>
      match print_sdp_data data len fuel (u32add r1.pos 2) with
      | none => none
      | some r2 =>
        some ("  SDP_ServiceSearchAttributeRequest(ServiceSearchPattern=" ++ r1.out
          ++ ", MaximumAttributeByteCount=" ++ fmt_d (get_be16 data r1.pos)
          ++ ", AttributeIDList=" ++ r2.out
          ++ ", ContinuationState=" ++ fmt_d (rd data r2.pos) ++ " bytes\n")
  else if rd data 0 = 0x07 then
    match print_sdp_data data len fuel 7 with
    | none => none
    | some r =>
      some ("  SDP_ServiceSearchAttributeResponse(AttributeListsByteCount="
        ++ fmt_d (get_be16 data 5) ++ ", AttributeLists=" ++ r.out
        ++ (if u32add r.pos 2 ≤ len then
              ", ContinuationState=" ++ fmt_d (get_be16 data r.pos) ++ " bytes\n"
            else ", ContinuationState=? bytes\n"))
  else
    some ("  Unhandled SDP PDU (PDU_ID=" ++ fmt_d (rd data 0) ++ ", TxnId="
      ++ fmt_d (get_be16 data 1) ++ ", Length=" ++ fmt_d (get_be16 data 3) ++ ")\n")

/-! ## HCI events -/

/-- The table `lmp_features` up to its terminating `NULL`. -/
def lmp_features : List String :=
  ["3 slot packets", "5 slot packets", "Encryption", "Slot offset", "Timing accuracy",
   "Role switch", "Hold mode", "Sniff mode", "Park state", "Power control requests",
   "Channel quality driven data rate (CQDDR)", "SCO link", "HV2 packets", "HV3 packets",
   "Mu-law log synchronous data", "A-law log synchronous data", "CVSD synchronous data",
   "Paging parameter negotiation", "Power control", "Transparent synchronous data",
   "Flow control lag (LSB)", "Flow control lag (middle bit)", "Flow control lag (MSB)",
   "Broadcast encryption", "Reserved (bit 24)", "Enhanced Data Rate ACL 2 Mbps mode",
   "Enhanced Data Rate ACL 3 Mbps mode", "Enhanced inquiry scan", "Interlaced inquiry scan",
   "Interlaced page scan", "RSSI with inquiry results", "Extended SCO link (EV3 packets)",
   "EV4 packets", "EV5 packets", "Reserved (bit 34)", "AFH capable slave",
   "AFH classification slave", "BR/EDR Not Supported", "LE Supported (Controller)",
   "3-slot Enhanced Data Rate ACL packets", "5-slot Enhanced Data Rate ACL packets",
   "Sniff subrating", "Pause encryption", "AFH capable master", "AFH classification master",
   "Enhanced Dtaa Rate eSCO 2 Mbps mode", "Enhanced Dtaa Rate eSCO 3 Mbps mode",
   "3-slot Enhanced Data Rate eSCO packets", "Extended Inquiry Response",
   "Simultaneous LE and BR/EDR to Same Device Capable (Controller)", "Reserved (bit 50)",
   "Secure Simple Pairing", "Encapsulated PDU", "Erroneous Data Reporting",
   "Non-flushable Packet Boundary Flag", "Reserved (bit 55)",
   "Link SUpervision Timeout Changed Event", "Inquiry TX Power Level", "Enhanced Power Control",
   "Reserved (bit 59)", "Reserved (bit 60)", "Reserved (bit 61)", "Reserved (bit 62)",
   "Extended features"]

/-- Conversion of a byte to `signed char`. -/
def to_int8 (b : Nat) : Int := if b % 256 ≥ 128 then (b % 256 : Int) - 256 else (b % 256 : Int)

/-- The C string at `data + off` as the conversion `%s` writes it: the bytes before the
first zero byte.  The first argument is the number of bytes of the array from `off` on; the
scan ends there at the latest. -/
def c_string (data : Buf) : Nat → Nat → List Char
  | 0, _ => []
  | n + 1, off =>
    if rd data off = 0 then [] else Char.ofNat (rd data off) :: c_string data n (off + 1)

/-- The opcodes for which the switch of `print_hci_cmd_complete` has a case. -/
def hci_cmd_complete_opcodes : List Nat :=
  [0x040b, 0x040c, 0x040d, 0x0809, 0x080d, 0x080e, 0x080f, 0x0c01, 0x0c03, 0x0c05, 0x0c0d,
   0x0c14, 0x0c16, 0x0c18, 0x0c19, 0x0c1a, 0x0c23, 0x0c24, 0x0c25, 0x0c28, 0x0c2d, 0x0c36,
   0x0c37, 0x1001, 0x1003, 0x1005, 0x1009, 0x1403, 0x1405]

/-- Source function `print_hci_cmd_complete`, applied to `data + off`; `cap` is the number
of bytes of the array behind `data`.  The parameter `len` is not used. -/
def print_hci_cmd_complete (opcode : Nat) (data : Buf) (off : Nat) (_len : Nat) (cap : Nat) :
    String :=
  if opcode = 0x040b then
    "  HCI_Link_Key_Request_Reply: Status=" ++ fmt_d (get_le16 data (off + 0)) ++ ", BD_ADDR="
      ++ get_bt_addr data (off + 2) ++ "\n"
  else if opcode = 0x040c then
    "  HCI_Link_Key_Request_Negative_Reply: Status=" ++ fmt_d (get_le16 data (off + 0))
      ++ ", BD_ADDR=" ++ get_bt_addr data (off + 2) ++ "\n"
  else if opcode = 0x040d then
    "  HCI_PIN_Code_Request_Reply: Status=" ++ fmt_d (get_le16 data (off + 0)) ++ ", BD_ADDR="
      ++ get_bt_addr data (off + 2) ++ "\n"
  else if opcode = 0x0809 then
    "  HCI_Role_Discovery: Status=" ++ fmt_d (rd data (off + 0)) ++ ", Connection_Handle="
      ++ fmt_d (get_le16 data (off + 1)) ++ ", Current_Role=" ++ fmt_d (rd data (off + 3))
      ++ "\n"
  else if opcode = 0x080d then
    "  HCI_Write_Link_Policy_Settings: Status=" ++ fmt_d (rd data (off + 0))
      ++ ", Connection_Handle=" ++ fmt_d (get_le16 data (off + 1)) ++ "\n"
  else if opcode = 0x080e then
    "  HCI_Read_Default_Link_Policy_Settings: Status=" ++ fmt_d (rd data (off + 0))
      ++ ", Default_Link_Policy_Settings=" ++ fmt_x true true 4 (get_le16 data (off + 1))
      ++ "\n"
  else if opcode = 0x080f then
    "  HCI_Write_Default_Link_Policy_Settings: Status=" ++ fmt_d (rd data (off + 0)) ++ "\n"
  else if opcode = 0x0c01 then
    "  HCI_Set_Event_Mask: Status=" ++ fmt_d (rd data (off + 0)) ++ "\n"
  else if opcode = 0x0c03 then "  HCI_Reset: Status=" ++ fmt_d (rd data (off + 0)) ++ "\n"
  else if opcode = 0x0c05 then
    "  HCI_Set_Event_Filter: Status=" ++ fmt_d (rd data (off + 0)) ++ "\n"
  else if opcode = 0x0c0d then
    "  HCI_Read_Stored_Link_Key: Status=" ++ fmt_d (rd data (off + 0)) ++ ", Max_Num_Keys="
      ++ fmt_d (get_le16 data (off + 1)) ++ ", Num_Keys_Read="
      ++ fmt_d (get_le16 data (off + 3)) ++ "\n"
  else if opcode = 0x0c14 then
    "  HCI_Read_Local_Name: Status=" ++ fmt_d (rd data (off + 0)) ++ ", Local_Name=\""
      ++ String.mk (c_string data (cap - (off + 1)) (off + 1)) ++ "\"\n"
  else if opcode = 0x0c16 then
    "  HCI_Write_Connection_Accept_Timeout: Status=" ++ fmt_d (rd data (off + 0)) ++ "\n"
  else if opcode = 0x0c18 then
    "  HCI_Write_Page_Timeout: Status=" ++ fmt_d (rd data (off + 0)) ++ "\n"
  else if opcode = 0x0c19 then
    "  HCI_Read_Scan_Enable: Status=" ++ fmt_d (rd data (off + 0)) ++ ", Scan_Enable="
      ++ fmt_d (rd data (off + 1)) ++ "\n"
  else if opcode = 0x0c1a then
    "  HCI_Write_Scan_Enable: Status=" ++ fmt_d (rd data (off + 0)) ++ "\n"
  else if opcode = 0x0c23 then
    "  HCI_Read_Class_of_Device: Status=" ++ fmt_d (rd data (off + 0)) ++ ", Class_of_Device="
      ++ fmt_x true true 6 (get_le24 data (off + 1)) ++ "\n"
  else if opcode = 0x0c24 then
    "  HCI_Write_Class_of_Device: Status=" ++ fmt_d (rd data (off + 0)) ++ "\n"
  else if opcode = 0x0c25 then
    "  HCI_Read_Voice_Setting: Status=" ++ fmt_d (rd data (off + 0)) ++ ", Voice_Setting="
      ++ fmt_d (get_le16 data (off + 1)) ++ "\n"
  else if opcode = 0x0c28 then
    "  HCI_Write_Automatic_Flush_Timeout: Status=" ++ fmt_d (rd data (off + 0))
      ++ ", Connection_Handle=" ++ fmt_d (get_le16 data (off + 1)) ++ "\n"
  else if opcode = 0x0c2d then
    "  HCI_Read_Transmit_Power_Level: Status=" ++ fmt_d (rd data (off + 0))
      ++ ", Connection_Handle=" ++ fmt_d (get_le16 data (off + 1))
      ++ ", Transmit_Power_Level=" ++ fmt_d (to_int8 (rd data (off + 3))) ++ "\n"
  else if opcode = 0x0c36 then
    "  HCI_Read_Link_Supervision_Timeout: Status=" ++ fmt_d (rd data (off + 0))
      ++ ", Connection_Handle=" ++ fmt_d (get_le16 data (off + 1))
      ++ ", Link_Supervision_Timeout=" ++ fmt_d (get_le16 data (off + 3)) ++ "\n"
  else if opcode = 0x0c37 then
    "  HCI_Write_Link_Supervision_Timeout: Status=" ++ fmt_d (rd data (off + 0))
      ++ ", Handle=" ++ fmt_d (get_le16 data (off + 1)) ++ "\n"
  else if opcode = 0x1001 then
    "  HCI_Read_Local_Version_Information: Status=" ++ fmt_d (rd data (off + 0))
      ++ ", HCI_Version=" ++ fmt_d (rd data (off + 1)) ++ ", HCI_Revision="
      ++ fmt_x true false 0 (get_le16 data (off + 2)) ++ ", LMP/PAL_Version="
      ++ fmt_d (rd data (off + 4)) ++ ", Manufacturer_Name="
      ++ fmt_x true true 4 (get_le16 data (off + 5)) ++ ", LMP/PAL_Subversion: "
      ++ fmt_x true true 4 (get_le16 data (off + 7)) ++ "\n"
  else if opcode = 0x1003 then
    "  HCI_Read_Local_Supported_Features: Status=" ++ fmt_d (rd data (off + 0))
      ++ ", LMP_Features=" ++ fmt_x false true 8 (get_le32 data (off + 1)) ++ "_"
      ++ fmt_x false true 8 (get_le32 data (off + 5)) ++ "\n"
  else if opcode = 0x1005 then
    "  HCI_Read_Buffer_Size: Status=" ++ fmt_d (rd data (off + 0))
      ++ ", HC_ACL_Data_Packet_Length=" ++ fmt_d (get_le16 data (off + 1))
      ++ ", HC_Synchronous_Data_Packet_Length=" ++ fmt_d (rd data (off + 3))
      ++ ", HC_Total_Num_ACL_Data_Packets=" ++ fmt_d (get_le16 data (off + 4))
      ++ ", HC_Total_Num_Synchronous_Data_Packets=" ++ fmt_d (get_le16 data (off + 6)) ++ "\n"
  else if opcode = 0x1009 then
    "  HCI_Read_BD_ADDR: Status=" ++ fmt_d (rd data (off + 0)) ++ ", BD_ADDR="
      ++ get_bt_addr data (off + 1) ++ "\n"
  else if opcode = 0x1403 then
    "  HCI_Read_Link_Quality: Status=" ++ fmt_d (rd data (off + 0)) ++ ", Handle="
      ++ fmt_d (get_le16 data (off + 1)) ++ ", Link_Quality=" ++ fmt_d (rd data (off + 3))
      ++ "\n"
  else if opcode = 0x1405 then
    "  HCI_Read_RSSI: Status=" ++ fmt_d (rd data (off + 0)) ++ ", Handle="
      ++ fmt_d (get_le16 data (off + 1)) ++ ", RSSI=" ++ fmt_d (to_int8 (rd data (off + 3)))
      ++ "\n"
  else "  HCI unhandled command completion (opcode=" ++ fmt_x true true 4 opcode ++ ")\n"

/-- The loop of the case 0x02 (Inquiry Result) of `print_hci_event`: the lines written from
round `ii` on when `n` rounds remain. -/
def inquiry_result_loop (data : Buf) (count : Nat) : Nat → Nat → String
  | 0, _ => ""
  | n + 1, ii =>
    "    Addr " ++ get_bt_addr data (6 * ii + 3) ++ ", page scan rep mode "
      ++ fmt_d (rd data (6 * count + 3)) ++ ", class "
      ++ fmt_x true false 0 (get_le24 data (9 * count + 3)) ++ ", clock ofs "
      ++ fmt_d (get_le16 data (12 * count + 3)) ++ "\n"
      ++ inquiry_result_loop data count n (ii + 1)

/-- The loop `for (ii = 0; lmp_features[ii] != NULL; ii++)` of the case 0x0b of
`print_hci_event` over the entries that remain, `ii` being the index of the first. -/
def lmp_feature_loop (data : Buf) : List String → Nat → String
  | [], _ => ""
  | f :: fs, ii =>
    (if (rd data (ii / 8 + 4) >>> (ii % 8)) &&& 1 ≠ 0 then "    " ++ f ++ "\n" else "")
      ++ lmp_feature_loop data fs (ii + 1)

/-- The loop of the case 0x13 (Number of Completed Packets) of `print_hci_event`. -/
def completed_packets_loop (data : Buf) (count : Nat) : Nat → Nat → String
  | 0, _ => ""
  | n + 1, ii =>
    "    Connection_Handle=" ++ fmt_d (get_le16 data (2 * ii + 3))
      ++ ", HC_Num_Of_Completed_Packets=" ++ fmt_d (get_le16 data (2 * count + 2 * ii + 3))
      ++ "\n" ++ completed_packets_loop data count n (ii + 1)

/-- Source function `print_hci_event`: the text written to `stdout`; `cap` is the number of
bytes of the array behind `data`.  The local `param_len` is computed and not used. -/
def print_hci_event (data : Buf) (len : Nat) (cap : Nat) : String :=
  let code := rd data 0
  let _param_len := min (rd data 1) (u32sub len 2)
  "  HCI event: " ++
  (if code = 0x00 then "Invalid/empty\n"
   else if code = 0x01 then "Inquiry Complete\n"
   else if code = 0x02 then
     "Inquiry Result: " ++ fmt_d (rd data 2) ++ " responses:\n"
       ++ inquiry_result_loop data (rd data 2) (rd data 2) 0
   else if code = 0x03 then
     "Connection Complete: Status=" ++ fmt_d (rd data 2) ++ ", Connection_Handle="
       ++ fmt_d (get_le16 data 3) ++ ", BD_ADDR=" ++ get_bt_addr data 5 ++ ", Link_Type="
       ++ fmt_d (rd data 11) ++ ", Encryption_Enabled=" ++ fmt_d (rd data 12) ++ "\n"
   else if code = 0x04 then
     "Connection Request: BD_ADDR=" ++ get_bt_addr data 2 ++ ", Class_of_Device="
       ++ fmt_x true true 6 (get_le24 data 8) ++ ", Link_Type=" ++ fmt_d (rd data 10) ++ "\n"
   else if code = 0x05 then
     "Disconnection Complete: Status=" ++ fmt_d (rd data 2) ++ ", Connection_Handle="
       ++ fmt_d (get_le16 data 3) ++ "\n"
   else if code = 0x06 then
     "Authentication Complete: Status=" ++ fmt_d (rd data 2) ++ ", Connection_Handle="
       ++ fmt_d (get_le16 data 3) ++ "\n"
   else if code = 0x07 then
     "Remote Name Request Complete: Status=" ++ fmt_d (rd data 2) ++ ", BD_ADDR="
       ++ get_bt_addr data 3 ++ ", Remote_Name=\"" ++ String.mk (c_string data (cap - 9) 9)
       ++ "\"\n"
   else if code = 0x08 then
     "Encryption Change Event: Status=" ++ fmt_d (rd data 2) ++ ", Connection_Handle="
       ++ fmt_d (get_le16 data 3) ++ ", Encryption_Enabled=" ++ fmt_d (rd data 5) ++ "\n"
   else if code = 0x0b then
     "Read Remote Supported Features Complete: Status=" ++ fmt_d (rd data 2)
       ++ ", Connection_Handle=" ++ fmt_d (get_le16 data 3) ++ ", LMP_Features="
       ++ fmt_x true true 8 (get_le32 data 4) ++ "_" ++ fmt_x true true 8 (get_le32 data 8)
       ++ "\n" ++ lmp_feature_loop data lmp_features 0
       ++ (if lmp_features.length ≠ 64 then
             "   .. why were there " ++ fmt_d_u32 lmp_features.length ++ " lmp_features[]?\n"
           else "")
   else if code = 0x0c then
     "Read Remote Version Information Complete: Status=" ++ fmt_d (rd data 2)
       ++ ", Connection_Handle=" ++ fmt_d (get_le16 data 3) ++ ", Version="
       ++ fmt_d (rd data 5) ++ ", Manufacturer_Name=" ++ fmt_x true true 4 (get_le16 data 6)
       ++ ", Subversion=" ++ fmt_x true true 4 (get_le16 data 8) ++ "\n"
   else if code = 0x0d then
     "QoS Setup Complete: Status=" ++ fmt_d (rd data 2) ++ ", Connection_Handle="
       ++ fmt_d (get_le16 data 3) ++ ", Flags=" ++ fmt_x true true 2 (rd data 5)
       ++ ", Service_Type=" ++ fmt_d (rd data 6) ++ ", Token_Rate="
       ++ fmt_d_u32 (get_le32 data 7) ++ ", Peak_Bandwidth=" ++ fmt_d_u32 (get_le32 data 11)
       ++ ", Latency=" ++ fmt_d_u32 (get_le32 data 15) ++ ", Delay_Variation="
       ++ fmt_d_u32 (get_le32 data 19) ++ "\n"
   else if code = 0x0e then
     "Command Complete Event: Num_HCI_Command_Packets=" ++ fmt_d (rd data 2)
       ++ ", Command_Opcode=" ++ fmt_x true true 4 (get_le16 data 3)
       ++ ", Return_Parameters=" ++ fmt_d ((rd data 1 : Int) - 3) ++ " bytes\n"
       ++ print_hci_cmd_complete (get_le16 data 3) data 5
           (min (u32sub len 5) (to_unsigned 32 ((rd data 1 : Int) - 3))) cap
   else if code = 0x0f then
     "Command Status: Status=" ++ fmt_d (rd data 2) ++ ", Num_HCI_Command_Packets="
       ++ fmt_d (rd data 3) ++ ", Command_Opcode=" ++ fmt_x true true 4 (get_le16 data 4)
       ++ "\n"
   else if code = 0x12 then
     "Role Change: Status=" ++ fmt_d (rd data 2) ++ ", BD_ADDR=" ++ get_bt_addr data 3
       ++ ", New_Role=" ++ fmt_d (rd data 9) ++ "\n"
   else if code = 0x13 then
     "Number of Completed Packets " ++ fmt_d (rd data 2) ++ ":\n"
       ++ completed_packets_loop data (rd data 2) (rd data 2) 0
   else if code = 0x14 then
     "Mode Change: Status=" ++ fmt_d (rd data 2) ++ ", Connection_Handle="
       ++ fmt_d (get_le16 data 3) ++ ", Current_Mode=" ++ fmt_d (rd data 5) ++ ", Interval="
       ++ fmt_d (get_le16 data 6) ++ "\n"
   else if code = 0x16 then "PIN Code Request: BD_ADDR=" ++ get_bt_addr data 2 ++ "\n"
   else if code = 0x17 then "Link Key Request: BD_ADDR=" ++ get_bt_addr data 2 ++ "\n"
   else if code = 0x18 then
     "Link Key Notification: BD_ADDR=" ++ get_bt_addr data 2 ++ ", Link_Key="
       ++ fmt_x false true 8 (get_le32 data 8) ++ "_" ++ fmt_x false true 8 (get_le32 data 12)
       ++ "_" ++ fmt_x false true 8 (get_le32 data 16) ++ "_"
       ++ fmt_x false true 8 (get_le32 data 20) ++ ", Key_Type=" ++ fmt_d (rd data 24) ++ "\n"
   else if code = 0x1b then
     "Max Slots Change: Connection_Handle=" ++ fmt_d (get_le16 data 2) ++ ", LMP_Max_Slots="
       ++ fmt_d (rd data 4) ++ "\n"
   else if code = 0x1c then
     "Read Clock Offset Complete: Status=" ++ fmt_d (rd data 2) ++ ", Connection_Handle="
       ++ fmt_d (get_le16 data 3) ++ ", Clock_Offset=" ++ fmt_d (get_le16 data 5) ++ "\n"
   else
     "Unhandled event " ++ fmt_x true false 0 code ++ " (" ++ fmt_d (rd data 1)
       ++ " parameter bytes)\n")

/-! ## The feature mask of the event 0x0b, as the specification words it -/

/-- The 64-bit little-endian value of the eight bytes at offsets 4 to 11 of an event. -/
def feature_mask (data : Buf) : Nat :=
  ((List.range 8).map (fun k => rd data (4 + k) * 256 ^ k)).sum

/-- Bit `i` of a mask. -/
def mask_bit (mask i : Nat) : Bool := decide (mask / 2 ^ i % 2 = 1)

/-- One line per set bit of the mask among the entries of a table, in increasing order of
the index, each line naming the entry at the index of the bit. -/
def feature_text (table : List String) (mask : Nat) : String :=
  String.join ((table.enum.filter (fun p => mask_bit mask p.1)).map
    (fun p => "    " ++ p.2 ++ "\n"))

/-! ## BT-HID -/

/-- Source function `bt_hid_report_type`. -/
def bt_hid_report_type (type : Nat) : String :=
  if type &&& 3 = 0 then "Reserved"
  else if type &&& 3 = 1 then "Input"
  else if type &&& 3 = 2 then "Output"
  else if type &&& 3 = 3 then "Feature"
  else "CompilerBug"

/-- Source function `print_bt_hid`: the text written to `stdout`. -/
def print_bt_hid (data : Buf) (len : Nat) : String :=
  let kind := rd data 0 >>> 4
  if kind = 0 then
    "  BT-HID Handshake: Status=" ++ fmt_d ((rd data 0 &&& 15 : Nat) : Int) ++ "\n"
  else if kind = 1 then
    "  BT-HID Control: Operation=" ++ fmt_d ((rd data 0 &&& 15 : Nat) : Int) ++ "\n"
  else if kind = 4 then
    "  BT-HID Get_Report: Type=" ++ bt_hid_report_type (rd data 0)
      ++ (if len = 2 ∨ len = 4 then ", ReportId=" ++ fmt_d (rd data 1) else "")
      ++ (if rd data 0 &&& 8 ≠ 0 then
            ", BufferSize=" ++ fmt_d (get_le16 data (if len = 2 ∨ len = 4 then 2 else 1))
          else "")
      ++ "\n"
  else if kind = 5 then
    "  BT-HID Set_Report: Type=" ++ bt_hid_report_type (rd data 0) ++ ", Length="
      ++ fmt_d_u32 (u32sub len 1) ++ "\n"
  else if kind = 6 then
    "  BT-HID Get_Protocol: Protocol=" ++ (if rd data 1 &&& 1 ≠ 0 then "Report" else "Boot")
      ++ "\n"
  else if kind = 7 then
    "  BT-HID Set_Protocol: Protocol=" ++ (if rd data 0 &&& 1 ≠ 0 then "Report" else "Boot")
      ++ "\n"
  else if kind = 8 then "  BT-HID Get_Idle: Rate=" ++ fmt_d (rd data 1) ++ "\n"
  else if kind = 9 then "  BT-HID Set_Idle: Rate=" ++ fmt_d (rd data 1) ++ "\n"
  else if kind = 10 ∨ kind = 11 then
    "  BT-HID DAT" ++ fmt_c (if kind = 10 then 'A' else 'C') ++ ": Report="
      ++ bt_hid_report_type (rd data 0) ++ "\n"
  else
    "  BT-HID Unhandled (reserved) request: Type=" ++ fmt_d (kind : Int) ++ ", Parameter="
      ++ fmt_d ((rd data 0 &&& 15 : Nat) : Int) ++ ", Length=" ++ fmt_d_u32 (u32sub len 1)
      ++ "\n"

/-! ## The text behind the output items -/

/-- The pointer `data + off`. -/
def buf_at (data : Buf) (off : Nat) : Buf := fun i => data (off + i)

/-- Text that one output item stands for, `data` being the payload buffer (4096 bytes) at
the time of the call; `fuel` is the bound handed to `print_sdp`, and the result is `none`
when that bound is used up. -/
def Out.render (fuel : Nat) (data : Buf) : Out → Option String
  | Out.text s => some s
  | Out.call Decoder.hci_command off len => some (print_hci_command (buf_at data off) len)
  | Out.call Decoder.hci_event off len =>
    some (print_hci_event (buf_at data off) len (4096 - off))
  | Out.call Decoder.sdp off len => print_sdp fuel (buf_at data off) len
  | Out.call Decoder.bt_hid off len => some (print_bt_hid (buf_at data off) len)

/-- Text of a list of output items, in order. -/
def render_all (fuel : Nat) (data : Buf) : List Out → Option String
  | [] => some ""
  | o :: os =>
    match Out.render fuel data o, render_all fuel data os with
    | some s, some t => some (s ++ t)
    | _, _ => none

/-! ## The loop over the lines of a file -/

/-- The loop `while (isspace(input[pos - 1])) input[--pos] = 0` of `read_regular_file`, on
the characters of the string from the last one backwards: what is left of the string.  The
loop has no lower bound: for a string of white space only it clears every character and then
tests `input[-1]`, the byte before the array, and goes on backwards while it finds white
space there.  Whatever those bytes hold, the string left in the array is empty; the bytes
before the array are not part of the model. -/
def chomp_rev : List Char → List Char
  | [] => []
  | c :: cs => if isspace c then chomp_rev cs else c :: cs

/-- The statements "Chomp trailing whitespace" of `read_regular_file` on the string that
`fgets` stored: the string that `parse_usbmon` is called with. -/
def chomp (input : List Char) : List Char := (chomp_rev input.reverse).reverse

/-- The bytes of the array `input`, from `input[0]` on, when `parse_usbmon` is called: the
text that the chomp loop left, a NUL for every white-space character that the loop cleared,
the NUL that `fgets` stored after the string `l`, and behind it the bytes `old` that the
array held before the call of `fgets`, which `fgets` does not touch.  `l` is the string as
`strlen` finds it, so it holds no NUL. -/
def input_image (old l : List Char) : List Char :=
  chomp l ++ List.replicate (l.length - (chomp l).length + 1) NUL ++ old.drop (l.length + 1)

/-- The loop `while (fgets(input, sizeof(input), in))` of `read_regular_file` over the
strings that the successive calls of `fgets` store, from the tables, the record, the payload
buffer and the bytes `old` of the array `input` as they are before the first of them: the
result of every round.  `parse_usbmon` reads the array, so what it finds behind the end of a
line is what the lines before left there. -/
def read_lines (hextab : Nat → Nat) :
    List (List Char) → Tables → mon_packet → Buf → List Char → List LineResult
  | [], _, _, _, _ => []
  | l :: ls, st, pkt, data, old =>
    process_line hextab st pkt data (input_image old l)
      :: read_lines hextab ls (process_line hextab st pkt data (input_image old l)).tables
          (process_line hextab st pkt data (input_image old l)).pkt
          (process_line hextab st pkt data (input_image old l)).data (input_image old l)

/-- Source function `read_regular_file`: `lines` are the strings that the calls of `fgets`
store, `st` the tables, `data` and `old` the contents of the local arrays `data` and
`input`, which are not initialised, when the function is entered; the record is cleared by
`memset`. -/
def read_regular_file (hextab : Nat → Nat) (lines : List (List Char)) (st : Tables)
    (data : Buf) (old : List Char) : List LineResult :=
  read_lines hextab lines st mon_packet.zero data old

/-- The text that the rounds of the loop write to `stdout`, in order. -/
def stdout_text (fuel : Nat) : List LineResult → Option String
  | [] => some ""
  | r :: rs =>
    match render_all fuel r.data r.out, stdout_text fuel rs with
    | some s, some t => some (s ++ t)
    | _, _ => none

/-- Two records agree on the bytes of the union `s` and on the fields that the first `n`
sections of `parse_usbmon` fill in: 1 the identifier, 2 the timestamp, 3 the event type,
4 transfer type and direction, 5 the address, 6 the status block, 7 the length, 8 the data
flag and the captured length. -/
def agree (n : Nat) (p q : mon_packet) : Prop :=
  (∀ i, rd p.setup i = rd q.setup i)
  ∧ (1 ≤ n → p.id = q.id)
  ∧ (2 ≤ n → p.ts_sec = q.ts_sec ∧ p.ts_usec = q.ts_usec)
  ∧ (3 ≤ n → p.type = q.type)
  ∧ (4 ≤ n → p.xfer_type = q.xfer_type ∧ p.epnum = q.epnum)
  ∧ (5 ≤ n → p.busnum = q.busnum ∧ p.devnum = q.devnum)
  ∧ (6 ≤ n → p.flag_setup = q.flag_setup ∧ p.status = q.status ∧ p.interval = q.interval
      ∧ p.start_frame = q.start_frame)
  ∧ (7 ≤ n → p.length = q.length)
  ∧ (8 ≤ n → p.flag_data = q.flag_data ∧ p.len_cap = q.len_cap)

/-- Two states of `parse_usbmon` between sections are alike: both have returned the same
code, or both go on from the same place with records that agree up to section `n`. -/
def Stage.alike (n : Nat) : Stage → Stage → Prop
  | Stage.fail c p, Stage.fail c' q => c = c' ∧ agree 0 p q
  | Stage.ok p s, Stage.ok q s' => s = s' ∧ agree n p q
  | _, _ => False

/-! ## BT-HID lines, as the specification words them -/

/-- The operation that the top nibble of the BT-HID header selects. -/
def bt_hid_operation (k : Nat) : String :=
  if k = 0 then "Handshake:" else if k = 1 then "Control:"
  else if k = 4 then "Get_Report:" else if k = 5 then "Set_Report:"
  else if k = 6 then "Get_Protocol:" else if k = 7 then "Set_Protocol:"
  else if k = 8 then "Get_Idle:" else if k = 9 then "Set_Idle:"
  else if k = 10 then "DATA:" else if k = 11 then "DATC:"
  else "Unhandled (reserved) request:"

/-- The report type that the low two bits of the BT-HID header select. -/
def report_type_name (b : Nat) : String :=
  ["Reserved", "Input", "Output", "Feature"].getD (b % 4) ""

/-- The text `s` begins with the text `p`. -/
def starts_with (p s : String) : Prop := ∃ r, s.data = p.data ++ r

/-! ## The canonical text of a 128-bit UUID, as the specification words it -/

/-- The two lowercase hexadecimal digits of a byte. -/
def hex_byte (b : Nat) : List Char := [hexdigit (b / 16), hexdigit (b % 16)]

/-- The hexadecimal digits of the `n` bytes from `pos` on, in buffer order. -/
def hex_bytes (data : Buf) (pos : Nat) : Nat → List Char
  | 0 => []
  | n + 1 => hex_bytes data pos n ++ hex_byte (rd data (pos + n))

/-- The 16 bytes from `pos` on as 32 hexadecimal digits in the groups 8-4-4-4-12. -/
def uuid128_text (data : Buf) (pos : Nat) : String :=
  String.mk (hex_bytes data pos 4 ++ '-' :: (hex_bytes data (pos + 4) 2 ++ '-' ::
    (hex_bytes data (pos + 6) 2 ++ '-' :: (hex_bytes data (pos + 8) 2 ++ '-' ::
      hex_bytes data (pos + 10) 6))))

/-- The `w` hexadecimal digits of a number below `16 ^ w`, most significant first. -/
def hex_fixed : Nat → Nat → List Char
  | 0, _ => []
  | w + 1, n => hex_fixed w (n / 16) ++ [hexdigit (n % 16)]

/-! ## The line in the array `input` -/

theorem tset_same (t : Nat → Nat) (i v : Nat) : tset t i v i = v := by
  simp [tset]

theorem tset_other (t : Nat → Nat) (i v j : Nat) (h : j ≠ i) : tset t i v j = t j := by
  simp [tset, h]

theorem print_l2cap_conn_req (st : Tables) (d : Buf) (len : Nat)
    (hcid : get_le16 d 6 = L2CAP_SIGNALING) (hcmd : rd d 8 = L2CAP_CMD_CONN_REQ) :
    print_l2cap st d len =
      ({ st with pending_psm := tset st.pending_psm (rd d 9) (get_le16 d 12) },
        [Out.text (conn_req_line d)]) := by
  simp [print_l2cap, print_l2cap_signaling, hcid, hcmd, L2CAP_CMD_REJECT, L2CAP_CMD_CONN_REQ]

theorem print_l2cap_conn_resp (st : Tables) (d : Buf) (len : Nat)
    (hcid : get_le16 d 6 = L2CAP_SIGNALING) (hcmd : rd d 8 = L2CAP_CMD_CONN_RESP) :
    print_l2cap st d len =
      (if get_le16 d 16 = 1 then st
       else if get_le16 d 16 = 0 then
         { l2cap_psm := tset st.l2cap_psm (get_le16 d 12) (st.pending_psm (rd d 9)),
           pending_psm := tset st.pending_psm (rd d 9) 0 }
       else { st with pending_psm := tset st.pending_psm (rd d 9) 0 },
       [Out.text (conn_resp_line d)]) := by
  simp [print_l2cap, print_l2cap_signaling, hcid, hcmd, L2CAP_CMD_REJECT, L2CAP_CMD_CONN_REQ,
    L2CAP_CMD_CONN_RESP]

theorem print_l2cap_dynamic (st : Tables) (d : Buf) (len : Nat)
    (hcid : get_le16 d 6 ≥ L2CAP_DYNAMIC) :
    print_l2cap st d len =
      (st, print_l2cap_user_data (st.l2cap_psm (get_le16 d 6)) d (l2cap_limit d len)) := by
  have h1 : get_le16 d 6 ≠ L2CAP_SIGNALING := by
    simp only [L2CAP_DYNAMIC, L2CAP_SIGNALING] at *; omega
  simp [print_l2cap, h1, hcid]

theorem signaling_binding (st : Tables) (d : Buf) (lim : Nat) :
    (print_l2cap_signaling st d lim).1.l2cap_psm =
      if rd d 8 = L2CAP_CMD_CONN_RESP ∧ get_le16 d 16 = 0 then
        tset st.l2cap_psm (get_le16 d 12) (st.pending_psm (rd d 9))
      else st.l2cap_psm := by
  unfold print_l2cap_signaling
  simp only [L2CAP_CMD_REJECT, L2CAP_CMD_CONN_REQ, L2CAP_CMD_CONN_RESP, L2CAP_CMD_CFG_REQ,
    L2CAP_CMD_CFG_RESP, L2CAP_CMD_DISCONN_REQ, L2CAP_CMD_DISCONN_RESP, L2CAP_CMD_INFO_REQ,
    L2CAP_CMD_INFO_RESP]
  by_cases h1 : rd d 8 = 1
  · simp only [h1, if_true, if_false, false_and, Nat.reduceEqDiff]
  by_cases h2 : rd d 8 = 2
  · simp only [h2, if_true, if_false, false_and, Nat.reduceEqDiff]
  by_cases h3 : rd d 8 = 3
  · by_cases r1 : get_le16 d 16 = 1
    · simp only [h3, r1, if_true, if_false, and_false, Nat.reduceEqDiff]
    by_cases r0 : get_le16 d 16 = 0
    · simp only [h3, r0, if_true, if_false, and_self, Nat.reduceEqDiff]
    · simp only [h3, r1, r0, if_true, if_false, and_false, Nat.reduceEqDiff]
  by_cases h4 : rd d 8 = 4
  · simp only [h4, if_true, if_false, false_and, Nat.reduceEqDiff]
  by_cases h5 : rd d 8 = 5
  · simp only [h5, if_true, if_false, false_and, Nat.reduceEqDiff]
  by_cases h6 : rd d 8 = 6
  · simp only [h6, if_true, if_false, false_and, Nat.reduceEqDiff]
  by_cases h7 : rd d 8 = 7
  · simp only [h7, if_true, if_false, false_and, Nat.reduceEqDiff]
  by_cases h8 : rd d 8 = 10
  · simp only [h8, if_true, if_false, false_and, Nat.reduceEqDiff]
  by_cases h9 : rd d 8 = 11
  · simp only [h9, if_true, if_false, false_and, Nat.reduceEqDiff]
  simp only [h1, h2, h3, h4, h5, h6, h7, h8, h9, if_true, if_false, false_and]

/-- C1: a Connection-Request with id R and service S followed by a Connection-Response
for R with result 0 and destination channel C leaves `l2cap_psm[C] = S`, and a following
frame on channel C (C at least 0x0040) is handed to the decoder of S: the SDP decoder for
service 1, the BT-HID decoder for services 0x11 and 0x13, on the payload at offset 8. -/
theorem C1_channel_binding (st : Tables) (d1 d2 d3 : Buf) (len1 len2 len3 R S C : Nat)
    (h1cid : get_le16 d1 6 = L2CAP_SIGNALING) (h1cmd : rd d1 8 = L2CAP_CMD_CONN_REQ)
    (h1id : rd d1 9 = R) (h1psm : get_le16 d1 12 = S)
    (h2cid : get_le16 d2 6 = L2CAP_SIGNALING) (h2cmd : rd d2 8 = L2CAP_CMD_CONN_RESP)
    (h2id : rd d2 9 = R) (h2res : get_le16 d2 16 = 0) (h2dst : get_le16 d2 12 = C)
    (h3cid : get_le16 d3 6 = C) (hC : C ≥ L2CAP_DYNAMIC) :
    ((print_l2cap (print_l2cap st d1 len1).1 d2 len2).1.l2cap_psm C = S) ∧
    (S = 0x0001 →
      (print_l2cap (print_l2cap (print_l2cap st d1 len1).1 d2 len2).1 d3 len3).2
        = [Out.call Decoder.sdp 8 (l2cap_limit d3 len3)]) ∧
    (S = 0x0011 ∨ S = 0x0013 →
      (print_l2cap (print_l2cap (print_l2cap st d1 len1).1 d2 len2).1 d3 len3).2
        = [Out.call Decoder.bt_hid 8 (l2cap_limit d3 len3)]) := by
  have hb : (print_l2cap (print_l2cap st d1 len1).1 d2 len2).1.l2cap_psm C = S := by
    rw [print_l2cap_conn_req st d1 len1 h1cid h1cmd, print_l2cap_conn_resp _ d2 len2 h2cid h2cmd]
    simp [h2res, h2dst, h1id, h2id, h1psm, tset_same]
  have h3 : get_le16 d3 6 ≥ L2CAP_DYNAMIC := by rw [h3cid]; exact hC
  refine ⟨hb, ?_, ?_⟩
  · intro hS
    rw [print_l2cap_dynamic _ d3 len3 h3, h3cid, hb, hS]
    simp [print_l2cap_user_data]
  · intro hS
    rw [print_l2cap_dynamic _ d3 len3 h3, h3cid, hb]
    rcases hS with hS | hS <;> simp [print_l2cap_user_data, hS]

/-- Scenario B: request id 0x05, service 0x0001, destination channel 0x0041, then an SDP
request on channel 0x0041. -/
theorem C1_channel_binding_witness :
    (print_l2cap (print_l2cap Tables.empty
        (buf_of [0x2a, 0x20, 0x0c, 0x00, 0x08, 0x00, 0x01, 0x00,
                 0x02, 0x05, 0x04, 0x00, 0x01, 0x00, 0x40, 0x00]) 16).1
        (buf_of [0x2a, 0x20, 0x10, 0x00, 0x0c, 0x00, 0x01, 0x00,
                 0x03, 0x05, 0x08, 0x00, 0x41, 0x00, 0x40, 0x00, 0x00, 0x00, 0x00, 0x00])
        20).1.l2cap_psm 0x0041 = 0x0001 ∧
    (0x0001 = 0x0001 →
      (print_l2cap (print_l2cap (print_l2cap Tables.empty
        (buf_of [0x2a, 0x20, 0x0c, 0x00, 0x08, 0x00, 0x01, 0x00,
                 0x02, 0x05, 0x04, 0x00, 0x01, 0x00, 0x40, 0x00]) 16).1
        (buf_of [0x2a, 0x20, 0x10, 0x00, 0x0c, 0x00, 0x01, 0x00,
                 0x03, 0x05, 0x08, 0x00, 0x41, 0x00, 0x40, 0x00, 0x00, 0x00, 0x00, 0x00]) 20).1
        (buf_of [0x2a, 0x20, 0x0d, 0x00, 0x09, 0x00, 0x41, 0x00,
                 0x06, 0x00, 0x01, 0x00, 0x04, 0x35, 0x00, 0x00, 0x10]) 17).2
        = [Out.call Decoder.sdp 8
            (l2cap_limit (buf_of [0x2a, 0x20, 0x0d, 0x00, 0x09, 0x00, 0x41, 0x00,
                 0x06, 0x00, 0x01, 0x00, 0x04, 0x35, 0x00, 0x00, 0x10]) 17)]) ∧
    (0x0001 = 0x0011 ∨ 0x0001 = 0x0013 →
      (print_l2cap (print_l2cap (print_l2cap Tables.empty
        (buf_of [0x2a, 0x20, 0x0c, 0x00, 0x08, 0x00, 0x01, 0x00,
                 0x02, 0x05, 0x04, 0x00, 0x01, 0x00, 0x40, 0x00]) 16).1
        (buf_of [0x2a, 0x20, 0x10, 0x00, 0x0c, 0x00, 0x01, 0x00,
                 0x03, 0x05, 0x08, 0x00, 0x41, 0x00, 0x40, 0x00, 0x00, 0x00, 0x00, 0x00]) 20).1
        (buf_of [0x2a, 0x20, 0x0d, 0x00, 0x09, 0x00, 0x41, 0x00,
                 0x06, 0x00, 0x01, 0x00, 0x04, 0x35, 0x00, 0x00, 0x10]) 17).2
        = [Out.call Decoder.bt_hid 8
            (l2cap_limit (buf_of [0x2a, 0x20, 0x0d, 0x00, 0x09, 0x00, 0x41, 0x00,
                 0x06, 0x00, 0x01, 0x00, 0x04, 0x35, 0x00, 0x00, 0x10]) 17)]) :=
  C1_channel_binding Tables.empty _ _ _ 16 20 17 0x05 0x0001 0x0041
    (by decide) (by decide) (by decide) (by decide) (by decide) (by decide) (by decide)
    (by decide) (by decide) (by decide) (by decide)

/-- C2: a Connection-Response whose request id has no pending entry creates no binding
(every channel that was unbound stays unbound), and the call returns with the Connection
Response line as its only output: the words `L2CAP Connection Response`, then the request
id, the two channel numbers, the result and the status of the frame. -/
theorem C2_no_pending_no_binding (st : Tables) (d : Buf) (len : Nat)
    (hcid : get_le16 d 6 = L2CAP_SIGNALING) (hcmd : rd d 8 = L2CAP_CMD_CONN_RESP)
    (hpend : st.pending_psm (rd d 9) = 0) :
    (∀ c, st.l2cap_psm c = 0 → (print_l2cap st d len).1.l2cap_psm c = 0) ∧
    (print_l2cap st d len).2
      = [Out.text ("  L2CAP Connection Response (Id=" ++ fmt_x true true 2 (rd d 9)
          ++ ", Dest_CID=" ++ fmt_d (get_le16 d 12) ++ ", Source_CID="
          ++ fmt_d (get_le16 d 14) ++ ", Result=" ++ fmt_d (get_le16 d 16) ++ ", Status="
          ++ fmt_d (get_le16 d 18) ++ ")\n")] := by
  rw [print_l2cap_conn_resp st d len hcid hcmd]
  refine ⟨?_, rfl⟩
  intro c hc
  by_cases h1 : get_le16 d 16 = 1
  · simp [h1, hc]
  · by_cases h0 : get_le16 d 16 = 0
    · simp only [h1, h0, if_true, if_false]
      by_cases hcd : c = get_le16 d 12
      · subst hcd; simp [tset_same, hpend]
      · simp [tset_other _ _ _ _ hcd, hc]
    · simp [h1, h0, hc]

/-- A Connection-Response with result 0 for request id 7 on empty tables: no channel is
bound afterwards, and the output is the one line that shows the fields of the frame. -/
theorem C2_no_pending_no_binding_witness :
    get_le16 (buf_of [0x2a, 0x20, 0x10, 0x00, 0x0c, 0x00, 0x01, 0x00,
        0x03, 0x07, 0x08, 0x00, 0x41, 0x00, 0x40, 0x00, 0x00, 0x00, 0x00, 0x00]) 6
      = L2CAP_SIGNALING ∧
    (∀ c, Tables.empty.l2cap_psm c = 0 →
      (print_l2cap Tables.empty (buf_of [0x2a, 0x20, 0x10, 0x00, 0x0c, 0x00, 0x01, 0x00,
        0x03, 0x07, 0x08, 0x00, 0x41, 0x00, 0x40, 0x00, 0x00, 0x00, 0x00, 0x00]) 20).1.l2cap_psm c
        = 0) ∧
    (print_l2cap Tables.empty (buf_of [0x2a, 0x20, 0x10, 0x00, 0x0c, 0x00, 0x01, 0x00,
        0x03, 0x07, 0x08, 0x00, 0x41, 0x00, 0x40, 0x00, 0x00, 0x00, 0x00, 0x00]) 20).2
      = [Out.text
          "  L2CAP Connection Response (Id=0x7, Dest_CID=65, Source_CID=64, Result=0, Status=0)\n"] :=
  ⟨by decide,
   (C2_no_pending_no_binding Tables.empty _ 20 (by decide) (by decide) rfl).1,
   (C2_no_pending_no_binding Tables.empty (buf_of [0x2a, 0x20, 0x10, 0x00, 0x0c, 0x00, 0x01,
      0x00, 0x03, 0x07, 0x08, 0x00, 0x41, 0x00, 0x40, 0x00, 0x00, 0x00, 0x00, 0x00]) 20
      (by decide) (by decide) rfl).2.trans (by decide)⟩

/-- C3: for a Connection-Response with request id R, result 1 leaves both tables exactly as
they were; a result other than 0 and 1 sets `pending_psm[R]` to 0, keeps every other pending
entry and keeps the whole binding table. -/
theorem C3_conn_resp_result (st : Tables) (d : Buf) (len : Nat)
    (hcid : get_le16 d 6 = L2CAP_SIGNALING) (hcmd : rd d 8 = L2CAP_CMD_CONN_RESP) :
    (get_le16 d 16 = 1 → (print_l2cap st d len).1 = st) ∧
    (get_le16 d 16 ≠ 0 → get_le16 d 16 ≠ 1 →
      (print_l2cap st d len).1.pending_psm (rd d 9) = 0 ∧
      (∀ r, r ≠ rd d 9 → (print_l2cap st d len).1.pending_psm r = st.pending_psm r) ∧
      (print_l2cap st d len).1.l2cap_psm = st.l2cap_psm) := by
  rw [print_l2cap_conn_resp st d len hcid hcmd]
  refine ⟨fun h1 => by simp [h1], fun h0 h1 => ?_⟩
  simp only [h0, h1, if_false]
  exact ⟨tset_same _ _ _, fun r hr => tset_other _ _ _ _ hr, trivial⟩

/-- A refused connection (result 2) for request id 5 while service 0x11 is pending for it. -/
theorem C3_conn_resp_result_witness :
    get_le16 (buf_of [0x2a, 0x20, 0x10, 0x00, 0x0c, 0x00, 0x01, 0x00,
        0x03, 0x05, 0x08, 0x00, 0x41, 0x00, 0x40, 0x00, 0x02, 0x00, 0x00, 0x00]) 16 = 2 ∧
    (print_l2cap ⟨fun _ => 0, fun r => if r = 5 then 0x11 else 0⟩
      (buf_of [0x2a, 0x20, 0x10, 0x00, 0x0c, 0x00, 0x01, 0x00,
        0x03, 0x05, 0x08, 0x00, 0x41, 0x00, 0x40, 0x00, 0x02, 0x00, 0x00, 0x00])
      20).1.pending_psm 5 = 0 :=
  ⟨by decide,
   ((C3_conn_resp_result ⟨fun _ => 0, fun r => if r = 5 then 0x11 else 0⟩
      (buf_of [0x2a, 0x20, 0x10, 0x00, 0x0c, 0x00, 0x01, 0x00,
        0x03, 0x05, 0x08, 0x00, 0x41, 0x00, 0x40, 0x00, 0x02, 0x00, 0x00, 0x00]) 20
      (by decide) (by decide)).2 (by decide) (by decide)).1⟩

/-- C4: the binding table after `print_l2cap` equals the table before unless the frame is a
Connection-Response (command 0x03) on the signaling channel with result 0; every other
signaling command and every frame on another channel leaves all bindings in place. -/
theorem C4_binding_only_by_success (st : Tables) (d : Buf) (len : Nat)
    (h : ¬ (get_le16 d 6 = L2CAP_SIGNALING ∧ rd d 8 = L2CAP_CMD_CONN_RESP
            ∧ get_le16 d 16 = 0)) :
    (print_l2cap st d len).1.l2cap_psm = st.l2cap_psm := by
  by_cases hcid : get_le16 d 6 = L2CAP_SIGNALING
  · have hs : print_l2cap st d len = print_l2cap_signaling st d (l2cap_limit d len) := by
      simp only [print_l2cap, hcid, if_true]
    rw [hs, signaling_binding]
    by_cases hcmd : rd d 8 = L2CAP_CMD_CONN_RESP
    · have hres : get_le16 d 16 ≠ 0 := fun h0 => h ⟨hcid, hcmd, h0⟩
      simp [hres]
    · simp [hcmd]
  · by_cases hdyn : get_le16 d 6 ≥ L2CAP_DYNAMIC
    · rw [print_l2cap_dynamic st d len hdyn]
    · simp only [print_l2cap, hcid, hdyn, if_false]

/-- A Disconnection-Request (command 0x06) for channel 0x0041 while that channel is bound to
service 0x0011: the binding stays. -/
theorem C4_binding_only_by_success_witness :
    rd (buf_of [0x2a, 0x20, 0x0c, 0x00, 0x08, 0x00, 0x01, 0x00,
        0x06, 0x09, 0x04, 0x00, 0x41, 0x00, 0x40, 0x00]) 8 = L2CAP_CMD_DISCONN_REQ ∧
    (print_l2cap ⟨fun c => if c = 0x41 then 0x11 else 0, fun _ => 0⟩
      (buf_of [0x2a, 0x20, 0x0c, 0x00, 0x08, 0x00, 0x01, 0x00,
        0x06, 0x09, 0x04, 0x00, 0x41, 0x00, 0x40, 0x00]) 16).1.l2cap_psm
      = fun c => if c = 0x41 then 0x11 else 0 :=
  ⟨by decide,
   C4_binding_only_by_success ⟨fun c => if c = 0x41 then 0x11 else 0, fun _ => 0⟩
     (buf_of [0x2a, 0x20, 0x0c, 0x00, 0x08, 0x00, 0x01, 0x00,
        0x06, 0x09, 0x04, 0x00, 0x41, 0x00, 0x40, 0x00]) 16 (by decide)⟩

/-- C5: on a channel id of at least 0x0040 the bound service number alone selects the
decoder: 0x0001 hands the payload at offset 8 to the SDP decoder, 0x0011 and 0x0013 hand it
to the BT-HID decoder, 0 and every other number give exactly one line that names the channel
id and the L2CAP length and invoke no decoder; both tables are returned as they were. -/
theorem C5_data_channel_dispatch (st : Tables) (d : Buf) (len : Nat)
    (hcid : get_le16 d 6 ≥ L2CAP_DYNAMIC) :
    (print_l2cap st d len).1 = st ∧
    (st.l2cap_psm (get_le16 d 6) = 0x0001 →
      (print_l2cap st d len).2 = [Out.call Decoder.sdp 8 (l2cap_limit d len)]) ∧
    (st.l2cap_psm (get_le16 d 6) = 0x0011 ∨ st.l2cap_psm (get_le16 d 6) = 0x0013 →
      (print_l2cap st d len).2 = [Out.call Decoder.bt_hid 8 (l2cap_limit d len)]) ∧
    (st.l2cap_psm (get_le16 d 6) = 0 →
      (print_l2cap st d len).2 =
        [Out.text ("  User data on closed CID=" ++ fmt_d (get_le16 d 6) ++ "?! (Length="
          ++ fmt_d (get_le16 d 4) ++ ")\n")]) ∧
    (st.l2cap_psm (get_le16 d 6) ≠ 0 → st.l2cap_psm (get_le16 d 6) ≠ 0x0001 →
      st.l2cap_psm (get_le16 d 6) ≠ 0x0011 → st.l2cap_psm (get_le16 d 6) ≠ 0x0013 →
      (print_l2cap st d len).2 =
        [Out.text ("  User data on unhandled L2CAP PSM (CID=" ++ fmt_d (get_le16 d 6)
          ++ ", PSM=" ++ fmt_d (st.l2cap_psm (get_le16 d 6)) ++ ", Length="
          ++ fmt_d (get_le16 d 4) ++ ")\n")]) := by
  rw [print_l2cap_dynamic st d len hcid]
  refine ⟨rfl, ?_, ?_, ?_, ?_⟩
  · intro h; simp [print_l2cap_user_data, h]
  · intro h; rcases h with h | h <;> simp [print_l2cap_user_data, h]
  · intro h; simp [print_l2cap_user_data, h, closed_cid_line]
  · intro h0 h1 h2 h3; simp [print_l2cap_user_data, h0, h1, h2, h3, unhandled_psm_line]

/-- A data frame on channel 0x0041 while it is bound to the HID control service 0x0011. -/
theorem C5_data_channel_dispatch_witness :
    get_le16 (buf_of [0x2a, 0x20, 0x06, 0x00, 0x02, 0x00, 0x41, 0x00, 0x71, 0x00]) 6
      ≥ L2CAP_DYNAMIC ∧
    (print_l2cap ⟨fun c => if c = 0x41 then 0x11 else 0, fun _ => 0⟩
      (buf_of [0x2a, 0x20, 0x06, 0x00, 0x02, 0x00, 0x41, 0x00, 0x71, 0x00]) 10).2
      = [Out.call Decoder.bt_hid 8
          (l2cap_limit (buf_of [0x2a, 0x20, 0x06, 0x00, 0x02, 0x00, 0x41, 0x00, 0x71, 0x00])
            10)] :=
  ⟨by decide,
   (C5_data_channel_dispatch ⟨fun c => if c = 0x41 then 0x11 else 0, fun _ => 0⟩
      (buf_of [0x2a, 0x20, 0x06, 0x00, 0x02, 0x00, 0x41, 0x00, 0x71, 0x00]) 10
      (by decide)).2.2.1 (Or.inl (by decide))⟩

/-- C6: two Connection-Requests with the same id R and services S1 then S2, followed by a
Connection-Response for R with result 0 and destination channel C, bind C to S2; the tables
are those obtained without the first request, so S1 is lost. -/
theorem C6_request_id_reuse (st : Tables) (d1 d2 d3 : Buf) (len1 len2 len3 R S1 S2 C : Nat)
    (h1cid : get_le16 d1 6 = L2CAP_SIGNALING) (h1cmd : rd d1 8 = L2CAP_CMD_CONN_REQ)
    (h1id : rd d1 9 = R) (h1psm : get_le16 d1 12 = S1)
    (h2cid : get_le16 d2 6 = L2CAP_SIGNALING) (h2cmd : rd d2 8 = L2CAP_CMD_CONN_REQ)
    (h2id : rd d2 9 = R) (h2psm : get_le16 d2 12 = S2)
    (h3cid : get_le16 d3 6 = L2CAP_SIGNALING) (h3cmd : rd d3 8 = L2CAP_CMD_CONN_RESP)
    (h3id : rd d3 9 = R) (h3res : get_le16 d3 16 = 0) (h3dst : get_le16 d3 12 = C) :
    (print_l2cap (print_l2cap (print_l2cap st d1 len1).1 d2 len2).1 d3 len3).1.l2cap_psm C
      = S2 ∧
    (print_l2cap (print_l2cap (print_l2cap st d1 len1).1 d2 len2).1 d3 len3).1.l2cap_psm
      = (print_l2cap (print_l2cap st d2 len2).1 d3 len3).1.l2cap_psm ∧
    (print_l2cap (print_l2cap (print_l2cap st d1 len1).1 d2 len2).1 d3 len3).1.pending_psm
      = (print_l2cap (print_l2cap st d2 len2).1 d3 len3).1.pending_psm := by
  rw [print_l2cap_conn_req st d1 len1 h1cid h1cmd, print_l2cap_conn_req _ d2 len2 h2cid h2cmd,
    print_l2cap_conn_resp _ d3 len3 h3cid h3cmd, print_l2cap_conn_req st d2 len2 h2cid h2cmd,
    print_l2cap_conn_resp _ d3 len3 h3cid h3cmd]
  simp only [h3res, h1id, h2id, h3id, h1psm, h2psm, h3dst]
  refine ⟨by simp [tset_same], by simp [tset_same], ?_⟩
  funext r
  by_cases hr : r = R
  · subst hr; simp [tset]
  · simp [tset, hr]

/-- Two requests with id 0x05, for SDP (0x0001) and then HID control (0x0011), answered by
one successful response for channel 0x0041. -/
theorem C6_request_id_reuse_witness :
    (print_l2cap (print_l2cap (print_l2cap Tables.empty
        (buf_of [0x2a, 0x20, 0x0c, 0x00, 0x08, 0x00, 0x01, 0x00,
                 0x02, 0x05, 0x04, 0x00, 0x01, 0x00, 0x40, 0x00]) 16).1
        (buf_of [0x2a, 0x20, 0x0c, 0x00, 0x08, 0x00, 0x01, 0x00,
                 0x02, 0x05, 0x04, 0x00, 0x11, 0x00, 0x42, 0x00]) 16).1
        (buf_of [0x2a, 0x20, 0x10, 0x00, 0x0c, 0x00, 0x01, 0x00,
                 0x03, 0x05, 0x08, 0x00, 0x41, 0x00, 0x40, 0x00, 0x00, 0x00, 0x00, 0x00])
        20).1.l2cap_psm 0x0041 = 0x0011 :=
  (C6_request_id_reuse Tables.empty
        (buf_of [0x2a, 0x20, 0x0c, 0x00, 0x08, 0x00, 0x01, 0x00,
                 0x02, 0x05, 0x04, 0x00, 0x01, 0x00, 0x40, 0x00])
        (buf_of [0x2a, 0x20, 0x0c, 0x00, 0x08, 0x00, 0x01, 0x00,
                 0x02, 0x05, 0x04, 0x00, 0x11, 0x00, 0x42, 0x00])
        (buf_of [0x2a, 0x20, 0x10, 0x00, 0x0c, 0x00, 0x01, 0x00,
                 0x03, 0x05, 0x08, 0x00, 0x41, 0x00, 0x40, 0x00, 0x00, 0x00, 0x00, 0x00])
        16 16 20 0x05 0x0001 0x0011 0x0041
    (by decide) (by decide) (by decide) (by decide) (by decide) (by decide) (by decide)
    (by decide) (by decide) (by decide) (by decide) (by decide) (by decide)).1

/-! ## Capture-line parser: captured length -/

theorem Stage.nonzero_ok (p : mon_packet) (s : Cursor) : (Stage.ok p s).nonzero := trivial

theorem Stage.nonzero_fail (k : Nat) (p : mon_packet) : (Stage.fail (k + 1) p).nonzero :=
  Nat.succ_ne_zero k

theorem Stage.nonzero_ite (c : Prop) [Decidable c] (a b : Stage) (ha : a.nonzero)
    (hb : b.nonzero) : (if c then a else b).nonzero := by
  by_cases h : c
  · rw [if_pos h]; exact ha
  · rw [if_neg h]; exact hb

theorem Stage.bind_nonzero (s : Stage) (f : mon_packet → Cursor → Stage)
    (hs : s.nonzero) (hf : ∀ p c, (f p c).nonzero) : (s.bind f).nonzero := by
  cases s with
  | fail code pkt => exact hs
  | ok pkt sep => exact hf pkt sep

theorem parse_urb_id_nonzero (input : List Char) (pkt : mon_packet) :
    (parse_urb_id input pkt).nonzero := by
  simp only [parse_urb_id]
  repeat' (first | exact Stage.nonzero_ok _ _ | exact Stage.nonzero_fail _ _
                 | apply Stage.nonzero_ite)

theorem parse_timestamp_nonzero (pkt : mon_packet) (sep : Cursor) :
    (parse_timestamp pkt sep).nonzero := by
  simp only [parse_timestamp]
  repeat' (first | exact Stage.nonzero_ok _ _ | exact Stage.nonzero_fail _ _
                 | apply Stage.nonzero_ite)

theorem parse_event_type_nonzero (pkt : mon_packet) (sep : Cursor) :
    (parse_event_type pkt sep).nonzero := by
  simp only [parse_event_type]
  repeat' (first | exact Stage.nonzero_ok _ _ | exact Stage.nonzero_fail _ _
                 | apply Stage.nonzero_ite)

theorem parse_xfer_nonzero (pkt : mon_packet) (sep : Cursor) :
    (parse_xfer pkt sep).nonzero := by
  simp only [parse_xfer]
  repeat' (first | exact Stage.nonzero_ok _ _ | exact Stage.nonzero_fail _ _
                 | apply Stage.nonzero_ite)

theorem parse_address_nonzero (pkt : mon_packet) (sep : Cursor) :
    (parse_address pkt sep).nonzero := by
  simp only [parse_address]
  repeat' (first | exact Stage.nonzero_ok _ _ | exact Stage.nonzero_fail _ _
                 | apply Stage.nonzero_ite)

theorem parse_setup_nonzero (pkt : mon_packet) (sep : Cursor) :
    (parse_setup pkt sep).nonzero := by
  simp only [parse_setup]
  repeat' (first | exact Stage.nonzero_ok _ _ | exact Stage.nonzero_fail _ _
                 | apply Stage.nonzero_ite)

theorem parse_numeric_status_nonzero (pkt : mon_packet) (sep : Cursor) :
    (parse_numeric_status pkt sep).nonzero := by
  simp only [parse_numeric_status]
  repeat' (first | exact Stage.nonzero_ok _ _ | exact Stage.nonzero_fail _ _
                 | apply Stage.nonzero_ite)

theorem parse_status_nonzero (pkt : mon_packet) (sep : Cursor) :
    (parse_status pkt sep).nonzero := by
  simp only [parse_status]
  repeat' (first | exact Stage.nonzero_ok _ _ | exact Stage.nonzero_fail _ _
                 | exact parse_setup_nonzero _ _ | exact parse_numeric_status_nonzero _ _
                 | apply Stage.nonzero_ite)

theorem parse_length_nonzero (pkt : mon_packet) (sep : Cursor) :
    (parse_length pkt sep).nonzero := by
  simp only [parse_length]
  repeat' (first | exact Stage.nonzero_ok _ _ | exact Stage.nonzero_fail _ _
                 | apply Stage.nonzero_ite)

theorem parse_header_nonzero (input : List Char) (pkt : mon_packet) :
    (parse_header input pkt).nonzero := by
  unfold parse_header
  refine Stage.bind_nonzero _ _ (Stage.bind_nonzero _ _ (Stage.bind_nonzero _ _
    (Stage.bind_nonzero _ _ (Stage.bind_nonzero _ _ (parse_urb_id_nonzero _ _)
      parse_timestamp_nonzero) parse_event_type_nonzero) parse_xfer_nonzero)
        parse_address_nonzero) ?_
  intro p c
  exact Stage.bind_nonzero _ _ (parse_status_nonzero p c) parse_length_nonzero

/-- The counter of the payload loop stays within the declared length and the capacity. -/
theorem parse_data_loop_bound (hextab : Nat → Nat) (length data_len : Nat) :
    ∀ (fuel : Nat) (sep : Cursor) (data : Buf) (ii : Nat) (sep' : Cursor) (data' : Buf)
      (ii' : Nat), ii ≤ length → ii ≤ data_len →
      parse_data_loop hextab length data_len fuel sep data ii = LoopEnd.done sep' data' ii' →
      ii' ≤ length ∧ ii' ≤ data_len := by
  intro fuel
  induction fuel with
  | zero =>
    intro sep data ii sep' data' ii' h1 h2 h
    simp only [parse_data_loop, LoopEnd.done.injEq] at h
    obtain ⟨_, _, rfl⟩ := h
    exact ⟨h1, h2⟩
  | succ n ih =>
    intro sep data ii sep' data' ii' h1 h2 h
    simp only [parse_data_loop] at h
    by_cases hc : ii < length ∧ ii < data_len
    · rw [if_pos hc] at h
      by_cases h0 : (skip_space sep).peek 0 = NUL
      · rw [if_pos h0] at h
        simp only [LoopEnd.done.injEq] at h
        obtain ⟨_, _, rfl⟩ := h
        exact ⟨h1, h2⟩
      · rw [if_neg h0] at h
        by_cases hx : isxdigit ((skip_space sep).peek 0) = true
            ∧ isxdigit ((skip_space sep).peek 1) = true
        · rw [if_pos hx] at h
          exact ih _ _ _ _ _ _ (by omega) (by omega) h
        · rw [if_neg hx] at h
          exact LoopEnd.noConfusion h
    · rw [if_neg hc] at h
      simp only [LoopEnd.done.injEq] at h
      obtain ⟨_, _, rfl⟩ := h
      exact ⟨h1, h2⟩

theorem parse_data_bound (hextab : Nat → Nat) (pkt : mon_packet) (sep : Cursor) (data : Buf)
    (data_len : Nat) (h : (parse_data hextab pkt sep data data_len).code = 0) :
    (parse_data hextab pkt sep data data_len).pkt.len_cap
        ≤ (parse_data hextab pkt sep data data_len).pkt.length ∧
    (parse_data hextab pkt sep data data_len).pkt.len_cap ≤ data_len ∧
    ((parse_data hextab pkt sep data data_len).pkt.flag_data ≠ NUL →
      (parse_data hextab pkt sep data data_len).pkt.len_cap = 0) := by
  simp only [parse_data] at h ⊢
  by_cases h0 : (skip_space sep).peek 0 = NUL
  · rw [if_pos h0] at h; exact absurd h (Nat.succ_ne_zero _)
  · rw [if_neg h0] at h ⊢
    by_cases h1 : (skip_space sep).peek 0 = '='
    · rw [if_pos h1] at h ⊢
      cases hl : parse_data_loop hextab pkt.length data_len (pkt.length + 1)
          ((skip_space sep).adv 2) data 0 with
      | bad d => rw [hl] at h; exact absurd h (Nat.succ_ne_zero _)
      | done s d ii =>
        have hb := parse_data_loop_bound hextab pkt.length data_len _ _ _ _ _ _ _
          (Nat.zero_le _) (Nat.zero_le _) hl
        rw [hl] at h
        simp only at h ⊢
        by_cases h3 : s.peek 0 ≠ NUL
        · rw [if_pos h3] at h; exact absurd h (Nat.succ_ne_zero _)
        · rw [if_neg h3]
          exact ⟨hb.1, hb.2, fun hne => absurd rfl hne⟩
    · rw [if_neg h1] at h ⊢
      by_cases h3 : ((skip_space sep).adv 1).peek 0 ≠ NUL
      · rw [if_pos h3] at h; exact absurd h (Nat.succ_ne_zero _)
      · rw [if_neg h3]
        exact ⟨Nat.zero_le _, Nat.zero_le _, fun _ => rfl⟩

/-- C7: whenever `parse_usbmon` returns 0, the captured length is at most the declared length
and at most the capacity of the buffer, and it is 0 when the payload carries an elision
flag. -/
theorem C7_captured_length (hextab : Nat → Nat) (input : List Char) (pkt : mon_packet)
    (data : Buf) (data_len : Nat)
    (h : (parse_usbmon hextab input pkt data data_len).code = 0) :
    (parse_usbmon hextab input pkt data data_len).pkt.len_cap
        ≤ (parse_usbmon hextab input pkt data data_len).pkt.length ∧
    (parse_usbmon hextab input pkt data data_len).pkt.len_cap ≤ data_len ∧
    ((parse_usbmon hextab input pkt data data_len).pkt.flag_data ≠ NUL →
      (parse_usbmon hextab input pkt data data_len).pkt.len_cap = 0) := by
  have hn := parse_header_nonzero input pkt
  unfold parse_usbmon at h ⊢
  cases hh : parse_header input pkt with
  | fail code p =>
    rw [hh] at hn h
    exact absurd h hn
  | ok p sep =>
    rw [hh] at h
    exact parse_data_bound hextab p sep data data_len h

/-! ## Scanning lemmas -/

theorem digit_val_isdigit (c : Char) (h : digit_val c < 10) : isdigit c = true := by
  unfold digit_val at h
  by_cases hd : isdigit c = true
  · exact hd
  · rw [if_neg hd] at h
    by_cases hl : islower c = true
    · rw [if_pos hl] at h; omega
    · rw [if_neg hl] at h
      by_cases hu : isupper c = true
      · rw [if_pos hu] at h; omega
      · rw [if_neg hu] at h; omega

theorem digit_val_isxdigit (c : Char) (h : digit_val c < 16) : isxdigit c = true := by
  unfold digit_val at h
  unfold isxdigit
  by_cases hd : isdigit c = true
  · simp [hd]
  · rw [if_neg hd] at h
    by_cases hl : islower c = true
    · rw [if_pos hl] at h
      simp only [islower, decide_eq_true_eq] at hl
      have : 97 ≤ c.toNat ∧ c.toNat ≤ 102 := by omega
      simp [this]
    · rw [if_neg hl] at h
      by_cases hu : isupper c = true
      · rw [if_pos hu] at h
        simp only [isupper, decide_eq_true_eq] at hu
        have : 65 ≤ c.toNat ∧ c.toNat ≤ 70 := by omega
        simp [this]
      · rw [if_neg hu] at h; omega

theorem digit_val_not_space (c : Char) (h : digit_val c < 36) : isspace c = false := by
  unfold digit_val at h
  simp only [isspace, decide_eq_false_iff_not]
  by_cases hd : isdigit c = true
  · simp only [isdigit, decide_eq_true_eq] at hd; omega
  · rw [if_neg hd] at h
    by_cases hl : islower c = true
    · simp only [islower, decide_eq_true_eq] at hl; omega
    · rw [if_neg hl] at h
      by_cases hu : isupper c = true
      · simp only [isupper, decide_eq_true_eq] at hu; omega
      · rw [if_neg hu] at h; omega

theorem scan_digits_append (base : Nat) (ds rest : List Char)
    (hds : ∀ c ∈ ds, digit_val c < base)
    (hrest : ¬ digit_val (rest.getD 0 NUL) < base) :
    ∀ acc n, scan_digits base (ds ++ rest) acc n =
      (ds.foldl (fun a c => a * base + digit_val c) acc, n + ds.length) := by
  induction ds with
  | nil =>
    intro acc n
    cases rest with
    | nil => simp [scan_digits]
    | cons r rs =>
      have : ¬ digit_val r < base := by simpa using hrest
      simp [scan_digits, this]
  | cons d ds ih =>
    intro acc n
    have hd : digit_val d < base := hds d (List.mem_cons_self _ _)
    have ih' := ih (fun c hc => hds c (List.mem_cons_of_mem _ hc))
    rw [List.cons_append]
    simp only [scan_digits, hd, if_true]
    rw [ih']
    simp only [List.foldl_cons, List.length_cons]
    congr 1
    omega

theorem no_hex_lead (base : Nat) (ds rest : List Char) (hne : ds ≠ [])
    (hds : ∀ c ∈ ds, digit_val c < base) (hb : base ≤ 16)
    (hx : rest.getD 0 NUL ≠ 'x' ∧ rest.getD 0 NUL ≠ 'X') :
    ¬ (base = 16 ∧ (ds ++ rest).getD 0 NUL = '0'
        ∧ ((ds ++ rest).getD 1 NUL = 'x' ∨ (ds ++ rest).getD 1 NUL = 'X')
        ∧ digit_val ((ds ++ rest).getD 2 NUL) < 16) := by
  rintro ⟨_, _, h1, _⟩
  cases ds with
  | nil => exact hne rfl
  | cons d ds =>
    cases ds with
    | nil =>
      have : ([d] ++ rest).getD 1 NUL = rest.getD 0 NUL := by
        cases rest <;> simp
      rw [this] at h1
      rcases h1 with h1 | h1
      · exact hx.1 h1
      · exact hx.2 h1
    | cons d2 ds =>
      have h2 : digit_val d2 < 16 :=
        Nat.lt_of_lt_of_le (hds d2 (List.mem_cons_of_mem _ (List.mem_cons_self _ _))) hb
      have : (d :: d2 :: ds ++ rest).getD 1 NUL = d2 := by simp
      rw [this] at h1
      rcases h1 with h1 | h1
      · rw [h1] at h2; exact absurd h2 (by decide)
      · rw [h1] at h2; exact absurd h2 (by decide)

theorem digit_not_sign (c : Char) (h : digit_val c < 36) : c ≠ '-' ∧ c ≠ '+' := by
  constructor
  · intro hc; rw [hc] at h; exact absurd h (by decide)
  · intro hc; rw [hc] at h; exact absurd h (by decide)

theorem strto_subject_plain (base : Nat) (d : Char) (ds rest : List Char)
    (hds : ∀ c ∈ d :: ds, digit_val c < base) (hb : base ≤ 16)
    (hrest : ¬ digit_val (rest.getD 0 NUL) < base)
    (hx : rest.getD 0 NUL ≠ 'x' ∧ rest.getD 0 NUL ≠ 'X') :
    strto_subject base (d :: (ds ++ rest))
      = ⟨false, digits_val base (d :: ds), (d :: ds).length⟩ := by
  have hd36 : digit_val d < 36 :=
    Nat.lt_of_lt_of_le (hds d (List.mem_cons_self _ _)) (by omega)
  have hdsp := digit_val_not_space d hd36
  have hdsg := digit_not_sign d hd36
  have hscan := scan_digits_append base (d :: ds) rest hds hrest 0 0
  have hpx := no_hex_lead base (d :: ds) rest (List.cons_ne_nil _ _) hds hb hx
  rw [List.cons_append] at hscan hpx
  simp only [List.getD_cons_zero] at hpx
  have hws : count_space (d :: (ds ++ rest)) = 0 := by simp [count_space, hdsp]
  unfold strto_subject
  simp only [hws, List.drop_zero, List.getD_cons_zero, hdsg.1, hdsg.2, or_self, if_false,
    decide_False]
  rw [if_neg hpx, List.drop_zero, hscan]
  simp [digits_val]

theorem strto_subject_space (base : Nat) (d : Char) (ds rest : List Char)
    (hds : ∀ c ∈ d :: ds, digit_val c < base) (hb : base ≤ 16)
    (hrest : ¬ digit_val (rest.getD 0 NUL) < base)
    (hx : rest.getD 0 NUL ≠ 'x' ∧ rest.getD 0 NUL ≠ 'X') :
    strto_subject base (' ' :: d :: (ds ++ rest))
      = ⟨false, digits_val base (d :: ds), (d :: ds).length + 1⟩ := by
  have hd36 : digit_val d < 36 :=
    Nat.lt_of_lt_of_le (hds d (List.mem_cons_self _ _)) (by omega)
  have hdsp := digit_val_not_space d hd36
  have hdsg := digit_not_sign d hd36
  have hscan := scan_digits_append base (d :: ds) rest hds hrest 0 0
  have hpx := no_hex_lead base (d :: ds) rest (List.cons_ne_nil _ _) hds hb hx
  rw [List.cons_append] at hscan hpx
  simp only [List.getD_cons_zero] at hpx
  have hsp : isspace ' ' = true := by decide
  have hws : count_space (' ' :: d :: (ds ++ rest)) = 1 := by simp [count_space, hdsp, hsp]
  unfold strto_subject
  simp only [hws, List.drop_succ_cons, List.drop_zero, List.getD_cons_zero, hdsg.1, hdsg.2,
    or_self, if_false, decide_False]
  rw [if_neg hpx, List.drop_zero, hscan]
  simp [digits_val]; omega

theorem strto_subject_minus (base : Nat) (d : Char) (ds rest : List Char)
    (hds : ∀ c ∈ d :: ds, digit_val c < base) (hb : base ≤ 16)
    (hrest : ¬ digit_val (rest.getD 0 NUL) < base)
    (hx : rest.getD 0 NUL ≠ 'x' ∧ rest.getD 0 NUL ≠ 'X') :
    strto_subject base ('-' :: d :: (ds ++ rest))
      = ⟨true, digits_val base (d :: ds), (d :: ds).length + 1⟩ := by
  have hscan := scan_digits_append base (d :: ds) rest hds hrest 0 0
  have hpx := no_hex_lead base (d :: ds) rest (List.cons_ne_nil _ _) hds hb hx
  rw [List.cons_append] at hscan hpx
  simp only [List.getD_cons_zero] at hpx
  have hms : isspace '-' = false := by decide
  have hws : count_space ('-' :: d :: (ds ++ rest)) = 0 := by simp [count_space, hms]
  unfold strto_subject
  simp only [hws, List.drop_zero, List.getD_cons_zero, true_or, if_true, decide_True,
    List.drop_succ_cons]
  rw [if_neg hpx, List.drop_zero, hscan]
  simp [digits_val]; omega
theorem is_number_cons (base : Nat) (ds : List Char) (h : is_number base ds = true) :
    ∃ d ds', ds = d :: ds' ∧ ∀ c ∈ d :: ds', digit_val c < base := by
  cases ds with
  | nil => simp [is_number] at h
  | cons d ds' =>
    refine ⟨d, ds', rfl, ?_⟩
    simp only [is_number, List.isEmpty_cons, Bool.not_false, Bool.true_and, List.all_eq_true,
      decide_eq_true_eq] at h
    exact h

theorem stop_not_digit (base : Nat) (rest : List Char) (hb : base ≤ 16)
    (hstop : digit_val (rest.getD 0 NUL) = 36) :
    ¬ digit_val (rest.getD 0 NUL) < base ∧
      (rest.getD 0 NUL ≠ 'x' ∧ rest.getD 0 NUL ≠ 'X') := by
  refine ⟨by omega, ?_, ?_⟩
  · intro h; rw [h] at hstop; exact absurd hstop (by decide)
  · intro h; rw [h] at hstop; exact absurd hstop (by decide)

theorem strtol_plain (base : Nat) (ds rest : List Char) (hb : base ≤ 16)
    (hn : is_number base ds = true) (hstop : digit_val (rest.getD 0 NUL) = 36)
    (hv : digits_val base ds < 2 ^ 63) :
    strtol base (ds ++ rest) = ((digits_val base ds : Int), ds.length) := by
  obtain ⟨d, ds', rfl, hds⟩ := is_number_cons base ds hn
  obtain ⟨h1, h2⟩ := stop_not_digit base rest hb hstop
  unfold strtol
  rw [List.cons_append, strto_subject_plain base d ds' rest hds hb h1 h2]
  have : ¬ digits_val base (d :: ds') ≥ 2 ^ 63 := by omega
  simp only [this, if_false, if_true, Bool.false_eq_true, List.length_cons]

theorem strtol_space (base : Nat) (ds rest : List Char) (hb : base ≤ 16)
    (hn : is_number base ds = true) (hstop : digit_val (rest.getD 0 NUL) = 36)
    (hv : digits_val base ds < 2 ^ 63) :
    strtol base (' ' :: (ds ++ rest)) = ((digits_val base ds : Int), ds.length + 1) := by
  obtain ⟨d, ds', rfl, hds⟩ := is_number_cons base ds hn
  obtain ⟨h1, h2⟩ := stop_not_digit base rest hb hstop
  unfold strtol
  rw [List.cons_append, strto_subject_space base d ds' rest hds hb h1 h2]
  have : ¬ digits_val base (d :: ds') ≥ 2 ^ 63 := by omega
  simp only [this, if_false, if_true, Bool.false_eq_true, List.length_cons]

theorem strtol_minus (base : Nat) (ds rest : List Char) (hb : base ≤ 16)
    (hn : is_number base ds = true) (hstop : digit_val (rest.getD 0 NUL) = 36)
    (hv : digits_val base ds < 2 ^ 63) :
    strtol base ('-' :: (ds ++ rest)) = (-(digits_val base ds : Int), ds.length + 1) := by
  obtain ⟨d, ds', rfl, hds⟩ := is_number_cons base ds hn
  obtain ⟨h1, h2⟩ := stop_not_digit base rest hb hstop
  unfold strtol
  rw [List.cons_append, strto_subject_minus base d ds' rest hds hb h1 h2]
  have : ¬ digits_val base (d :: ds') ≥ 2 ^ 63 := by omega
  simp only [this, if_false, if_true, Bool.false_eq_true, List.length_cons]

theorem strtoull_plain (base : Nat) (ds rest : List Char) (hb : base ≤ 16)
    (hn : is_number base ds = true) (hstop : digit_val (rest.getD 0 NUL) = 36)
    (hv : digits_val base ds < 2 ^ 64) :
    strtoull base (ds ++ rest) = (digits_val base ds, ds.length) := by
  obtain ⟨d, ds', rfl, hds⟩ := is_number_cons base ds hn
  obtain ⟨h1, h2⟩ := stop_not_digit base rest hb hstop
  unfold strtoull
  rw [List.cons_append, strto_subject_plain base d ds' rest hds hb h1 h2]
  have : ¬ digits_val base (d :: ds') ≥ 2 ^ 64 := by omega
  simp only [this, if_false, if_true, Bool.false_eq_true, List.length_cons]

theorem strtoull_space (base : Nat) (ds rest : List Char) (hb : base ≤ 16)
    (hn : is_number base ds = true) (hstop : digit_val (rest.getD 0 NUL) = 36)
    (hv : digits_val base ds < 2 ^ 64) :
    strtoull base (' ' :: (ds ++ rest)) = (digits_val base ds, ds.length + 1) := by
  obtain ⟨d, ds', rfl, hds⟩ := is_number_cons base ds hn
  obtain ⟨h1, h2⟩ := stop_not_digit base rest hb hstop
  unfold strtoull
  rw [List.cons_append, strto_subject_space base d ds' rest hds hb h1 h2]
  have : ¬ digits_val base (d :: ds') ≥ 2 ^ 64 := by omega
  simp only [this, if_false, if_true, Bool.false_eq_true, List.length_cons]

/-! ## Cursor lemmas -/

theorem adv_append (p : Char) (ds rest : List Char) (hne : ds ≠ []) :
    (Cursor.mk p (ds ++ rest)).adv ds.length = ⟨last_char p ds, rest⟩ := by
  induction ds generalizing p with
  | nil => exact absurd rfl hne
  | cons d ds ih =>
    cases ds with
    | nil => simp [Cursor.adv, last_char]
    | cons d2 ds2 =>
      have := ih d (List.cons_ne_nil _ _)
      simp only [List.length_cons, Cursor.adv, List.cons_append, List.getD_cons_succ,
        List.drop_succ_cons, last_char, Cursor.mk.injEq] at this ⊢
      exact this

theorem adv_cons_append (p c : Char) (ds rest : List Char) (hne : ds ≠ []) :
    (Cursor.mk p (c :: (ds ++ rest))).adv (ds.length + 1) = ⟨last_char p ds, rest⟩ := by
  have h := adv_append p (c :: ds) rest (List.cons_ne_nil _ _)
  simp only [List.cons_append, List.length_cons] at h
  rw [h]
  cases ds with
  | nil => exact absurd rfl hne
  | cons d ds => simp [last_char]

theorem last_char_mem (p : Char) (ds : List Char) (hne : ds ≠ []) : last_char p ds ∈ ds := by
  induction ds generalizing p with
  | nil => exact absurd rfl hne
  | cons d ds ih =>
    cases ds with
    | nil => simp [last_char]
    | cons d2 ds2 =>
      have := ih d (List.cons_ne_nil _ _)
      simp only [last_char] at this ⊢
      exact List.mem_cons_of_mem _ this

theorem last_char_digit (base : Nat) (p : Char) (ds : List Char)
    (hn : is_number base ds = true) : digit_val (last_char p ds) < base := by
  obtain ⟨d, ds', rfl, hds⟩ := is_number_cons base ds hn
  exact hds _ (last_char_mem p (d :: ds') (List.cons_ne_nil _ _))

theorem is_number_ne_nil (base : Nat) (ds : List Char) (hn : is_number base ds = true) :
    ds ≠ [] := by
  obtain ⟨d, ds', rfl, _⟩ := is_number_cons base ds hn
  exact List.cons_ne_nil _ _

theorem skip_space_none (p c : Char) (rest : List Char) (h : isspace c = false) :
    skip_space ⟨p, c :: rest⟩ = ⟨p, c :: rest⟩ := by
  unfold skip_space skip_space_from
  simp [h]

theorem skip_space_one (p c : Char) (rest : List Char) (h : isspace c = false) :
    skip_space ⟨p, ' ' :: c :: rest⟩ = ⟨' ', c :: rest⟩ := by
  unfold skip_space skip_space_from
  have hsp : isspace ' ' = true := by decide
  simp only [hsp, if_true]
  unfold skip_space_from
  simp [h]

theorem skip_space_nil (p : Char) : skip_space ⟨p, []⟩ = ⟨p, []⟩ := by
  unfold skip_space skip_space_from
  rfl

/-! ## The sections of the parser on a line built from tokens -/

theorem stop_space (r : List Char) : digit_val ((' ' :: r).getD 0 NUL) = 36 := by
  rw [List.getD_cons_zero]; decide

theorem stop_colon (r : List Char) : digit_val ((':' :: r).getD 0 NUL) = 36 := by
  rw [List.getD_cons_zero]; decide

theorem stop_dot (r : List Char) : digit_val (('.' :: r).getD 0 NUL) = 36 := by
  rw [List.getD_cons_zero]; decide

theorem last_char_isdigit (p : Char) (ds : List Char) (hn : is_number 10 ds = true) :
    isdigit (last_char p ds) = true :=
  digit_val_isdigit _ (last_char_digit 10 p ds hn)

theorem last_char_isxdigit (p : Char) (ds : List Char) (hn : is_number 16 ds = true) :
    isxdigit (last_char p ds) = true :=
  digit_val_isxdigit _ (last_char_digit 16 p ds hn)

theorem length_ne_zero_of_number (base : Nat) (ds : List Char)
    (hn : is_number base ds = true) : ds.length ≠ 0 := by
  have := is_number_ne_nil base ds hn
  cases ds with
  | nil => exact absurd rfl this
  | cons d ds => simp

theorem parse_urb_id_tokens (id r : List Char) (pkt : mon_packet)
    (hn : is_number 16 id = true) (hl : isdigit (last_char NUL id) = true)
    (hv : digits_val 16 id < 2 ^ 64) :
    parse_urb_id (id ++ ' ' :: r) pkt
      = Stage.ok { pkt with id := digits_val 16 id } ⟨last_char NUL id, ' ' :: r⟩ := by
  simp only [parse_urb_id]
  rw [strtoull_plain 16 id (' ' :: r) (by omega) hn (stop_space r) hv]
  simp only
  rw [adv_append NUL id (' ' :: r) (is_number_ne_nil 16 id hn)]
  have h0 := length_ne_zero_of_number 16 id hn
  simp only [h0, hl, false_or, not_true_eq_false, if_false]

theorem parse_timestamp_counter (ts r : List Char) (p : Char) (pkt : mon_packet)
    (hn : is_number 10 ts = true) (hv : digits_val 10 ts < 2 ^ 64) :
    parse_timestamp pkt ⟨p, ' ' :: (ts ++ ' ' :: r)⟩
      = Stage.ok { pkt with ts_sec := ((digits_val 10 ts / 1000000 : Nat) : Int),
                            ts_usec := ((digits_val 10 ts % 1000000 : Nat) : Int) }
          ⟨last_char p ts, ' ' :: r⟩ := by
  simp only [parse_timestamp]
  rw [strtoull_space 10 ts (' ' :: r) (by omega) hn (stop_space r) hv]
  simp only
  rw [adv_cons_append p ' ' ts (' ' :: r) (is_number_ne_nil 10 ts hn)]
  have hd := last_char_isdigit p ts hn
  have hdot : ¬ (Cursor.mk (last_char p ts) (' ' :: r)).peek 0 = '.' := by
    simp only [Cursor.peek, List.getD_cons_zero]; decide
  simp only [hd, not_true_eq_false, if_false, hdot]
  have h1 : to_int64 (digits_val 10 ts / 1000000) = ((digits_val 10 ts / 1000000 : Nat) : Int) := by
    unfold to_int64; omega
  have h2 : to_int32 ((digits_val 10 ts % 1000000 : Nat) : Int)
      = ((digits_val 10 ts % 1000000 : Nat) : Int) := by
    unfold to_int32; omega
  rw [h1, h2]

theorem parse_timestamp_seconds (ts us r : List Char) (p : Char) (pkt : mon_packet)
    (hn : is_number 10 ts = true) (hv : digits_val 10 ts < 2 ^ 63)
    (hu : is_number 10 us = true) (hw : digits_val 10 us ≤ 999999) :
    parse_timestamp pkt ⟨p, ' ' :: (ts ++ '.' :: (us ++ ' ' :: r))⟩
      = Stage.ok { pkt with ts_sec := (digits_val 10 ts : Int),
                            ts_usec := (digits_val 10 us : Int) }
          ⟨last_char '.' us, ' ' :: r⟩ := by
  simp only [parse_timestamp]
  rw [strtoull_space 10 ts ('.' :: (us ++ ' ' :: r)) (by omega) hn (stop_dot _) (by omega)]
  simp only
  rw [adv_cons_append p ' ' ts ('.' :: (us ++ ' ' :: r)) (is_number_ne_nil 10 ts hn)]
  have hd := last_char_isdigit p ts hn
  have hdot : (Cursor.mk (last_char p ts) ('.' :: (us ++ ' ' :: r))).peek 0 = '.' := by
    simp only [Cursor.peek, List.getD_cons_zero]
  have hadv : (Cursor.mk (last_char p ts) ('.' :: (us ++ ' ' :: r))).adv 1
      = ⟨'.', us ++ ' ' :: r⟩ := by
    simp [Cursor.adv]
  simp only [hd, not_true_eq_false, if_false, hdot, if_true, hadv]
  rw [strtoull_plain 10 us (' ' :: r) (by omega) hu (stop_space r) (by omega)]
  simp only
  rw [adv_append '.' us (' ' :: r) (is_number_ne_nil 10 us hu)]
  have hd2 := last_char_isdigit '.' us hu
  have h1 : to_int64 (digits_val 10 ts) = (digits_val 10 ts : Int) := by
    unfold to_int64; omega
  have h2 : to_int32 ((digits_val 10 us : Nat) : Int) = (digits_val 10 us : Int) := by
    unfold to_int32; omega
  have h3 : ¬ ((digits_val 10 us : Int) < 0) := by omega
  have h4 : ¬ ((digits_val 10 us : Int) > 999999) := by omega
  simp only [hd2, h1, h2, h3, h4, not_true_eq_false, or_self, if_false]
theorem isalpha_not_space (c : Char) (h : isalpha c = true) : isspace c = false := by
  simp only [isalpha, islower, isupper, Bool.or_eq_true, decide_eq_true_eq] at h
  simp only [isspace, decide_eq_false_iff_not]
  omega

theorem parse_event_type_tokens (ph p : Char) (r : List Char) (pkt : mon_packet)
    (ha : isalpha ph = true) :
    parse_event_type pkt ⟨p, ' ' :: ph :: ' ' :: r⟩
      = Stage.ok { pkt with type := ph } ⟨' ', r⟩ := by
  simp only [parse_event_type]
  rw [skip_space_one p ph (' ' :: r) (isalpha_not_space ph ha)]
  simp only [Cursor.peek, List.getD_cons_zero, ha, not_true_eq_false, if_false, Cursor.adv,
    List.getD_cons_succ, List.drop_succ_cons, List.drop_zero]

theorem kind_not_space (k : Char) (hk : k = 'Z' ∨ k = 'I' ∨ k = 'C' ∨ k = 'B') :
    isspace k = false := by
  rcases hk with h | h | h | h <;> (rw [h]; decide)

theorem parse_xfer_tokens (k d p : Char) (r : List Char) (pkt : mon_packet)
    (hk : k = 'Z' ∨ k = 'I' ∨ k = 'C' ∨ k = 'B') (hd : d = 'i' ∨ d = 'o') :
    parse_xfer pkt ⟨p, k :: d :: r⟩
      = Stage.ok { pkt with xfer_type := kind_code k,
                            epnum := (if d = 'i' then 0x80 else 0) } ⟨p, k :: d :: r⟩ := by
  simp only [parse_xfer]
  rw [skip_space_none p k (d :: r) (kind_not_space k hk)]
  simp only [Cursor.peek, List.getD_cons_zero, List.getD_cons_succ]
  have h5 : ¬ (k ≠ 'Z' ∧ k ≠ 'I' ∧ k ≠ 'C' ∧ k ≠ 'B') := by
    rcases hk with h | h | h | h <;> simp [h]
  rw [if_neg h5]
  rcases hd with h | h
  · subst h
    simp only [if_true, kind_code]
  · subst h
    have : ¬ ('o' = 'i') := by decide
    simp only [this, if_false, if_true, kind_code]

theorem to_unsigned_natCast (w n : Nat) (h : n < 2 ^ w) : to_unsigned w (n : Int) = n := by
  unfold to_unsigned
  have : ((2 : Int) ^ w) = ((2 ^ w : Nat) : Int) := by push_cast; rfl
  rw [this, ← Int.natCast_mod, Int.toNat_natCast, Nat.mod_eq_of_lt h]

theorem or_lt_256 (a e : Nat) (ha : a = 0x80 ∨ a = 0) (he : e < 128) : (a ||| e) < 256 := by
  have h1 : a < 2 ^ 8 := by rcases ha with h | h <;> (rw [h]; decide)
  have h2 : e < 2 ^ 8 := by omega
  exact Nat.or_lt_two_pow h1 h2

theorem parse_address_tokens (k d p : Char) (bus dev ep r : List Char) (pkt : mon_packet)
    (hb : is_number 10 bus = true) (hbv : digits_val 10 bus < 65536)
    (hd : is_number 10 dev = true) (hdv : digits_val 10 dev < 256)
    (he : is_number 10 ep = true) (hev : digits_val 10 ep < 128)
    (hep : pkt.epnum = 0x80 ∨ pkt.epnum = 0) :
    parse_address pkt ⟨p, k :: d :: ':' :: (bus ++ ':' :: (dev ++ ':' :: (ep ++ ' ' :: r)))⟩
      = Stage.ok { pkt with busnum := digits_val 10 bus, devnum := digits_val 10 dev,
                            epnum := pkt.epnum ||| digits_val 10 ep }
          ⟨last_char ':' ep, ' ' :: r⟩ := by
  simp only [parse_address]
  have h2 : ¬ (Cursor.mk p (k :: d :: ':' :: (bus ++ ':' :: (dev ++ ':' :: (ep ++ ' ' :: r))))).peek 2
      ≠ ':' := by
    simp [Cursor.peek]
  have hadv3 : (Cursor.mk p (k :: d :: ':' :: (bus ++ ':' :: (dev ++ ':' :: (ep ++ ' ' :: r))))).adv 3
      = ⟨':', bus ++ ':' :: (dev ++ ':' :: (ep ++ ' ' :: r))⟩ := by
    simp [Cursor.adv]
  rw [if_neg h2, hadv3]
  simp only
  rw [strtol_plain 10 bus _ (by omega) hb (stop_colon _) (by omega)]
  simp only
  rw [adv_append ':' bus _ (is_number_ne_nil 10 bus hb)]
  have c1 : ¬ (¬ isdigit (last_char ':' bus) = true
      ∨ (Cursor.mk (last_char ':' bus) (':' :: (dev ++ ':' :: (ep ++ ' ' :: r)))).peek 0 ≠ ':') := by
    simp [Cursor.peek, last_char_isdigit ':' bus hb]
  have a1 : (Cursor.mk (last_char ':' bus) (':' :: (dev ++ ':' :: (ep ++ ' ' :: r)))).adv 1
      = ⟨':', dev ++ ':' :: (ep ++ ' ' :: r)⟩ := by
    simp [Cursor.adv]
  rw [if_neg c1, a1]
  simp only
  rw [strtol_plain 10 dev _ (by omega) hd (stop_colon _) (by omega)]
  simp only
  rw [adv_append ':' dev _ (is_number_ne_nil 10 dev hd)]
  have c2 : ¬ (¬ isdigit (last_char ':' dev) = true
      ∨ (Cursor.mk (last_char ':' dev) (':' :: (ep ++ ' ' :: r))).peek 0 ≠ ':') := by
    simp [Cursor.peek, last_char_isdigit ':' dev hd]
  have a2 : (Cursor.mk (last_char ':' dev) (':' :: (ep ++ ' ' :: r))).adv 1
      = ⟨':', ep ++ ' ' :: r⟩ := by
    simp [Cursor.adv]
  rw [if_neg c2, a2]
  simp only
  rw [strtol_plain 10 ep _ (by omega) he (stop_space _) (by omega)]
  simp only
  rw [adv_append ':' ep _ (is_number_ne_nil 10 ep he)]
  have c3 : ¬ (¬ isdigit (last_char ':' ep) = true
      ∨ (Cursor.mk (last_char ':' ep) (' ' :: r)).peek 0 ≠ ' ') := by
    simp [Cursor.peek, last_char_isdigit ':' ep he]
  rw [if_neg c3]
  rw [to_unsigned_natCast 16 _ (by omega), to_unsigned_natCast 8 _ (by omega),
    to_unsigned_natCast 7 _ (by omega),
    Nat.mod_eq_of_lt (or_lt_256 _ _ hep hev)]
theorem last_char_irrel (p q : Char) (ds : List Char) (hne : ds ≠ []) :
    last_char p ds = last_char q ds := by
  cases ds with
  | nil => exact absurd rfl hne
  | cons d ds => simp [last_char]

theorem parse_length_space (len r : List Char) (p : Char) (pkt : mon_packet)
    (hn : is_number 10 len = true) (hv : digits_val 10 len < 2 ^ 31) :
    parse_length pkt ⟨p, ' ' :: (len ++ ' ' :: r)⟩
      = Stage.ok { pkt with length := digits_val 10 len } ⟨last_char NUL len, ' ' :: r⟩ := by
  simp only [parse_length]
  rw [strtol_space 10 len (' ' :: r) (by omega) hn (stop_space r) (by omega)]
  simp only
  rw [adv_cons_append p ' ' len (' ' :: r) (is_number_ne_nil 10 len hn),
    last_char_irrel p NUL len (is_number_ne_nil 10 len hn)]
  have c : ¬ (¬ isdigit (last_char NUL len) = true
      ∨ ((Cursor.mk (last_char NUL len) (' ' :: r)).peek 0 ≠ NUL
          ∧ ¬ isspace ((Cursor.mk (last_char NUL len) (' ' :: r)).peek 0) = true)) := by
    have hsp : isspace ' ' = true := by decide
    simp [Cursor.peek, last_char_isdigit NUL len hn, hsp]
  rw [if_neg c, to_unsigned_natCast 32 _ (by omega)]

theorem parse_length_plain (len r : List Char) (p : Char) (pkt : mon_packet)
    (hn : is_number 10 len = true) (hv : digits_val 10 len < 2 ^ 31) :
    parse_length pkt ⟨p, len ++ ' ' :: r⟩
      = Stage.ok { pkt with length := digits_val 10 len } ⟨last_char NUL len, ' ' :: r⟩ := by
  simp only [parse_length]
  rw [strtol_plain 10 len (' ' :: r) (by omega) hn (stop_space r) (by omega)]
  simp only
  rw [adv_append p len (' ' :: r) (is_number_ne_nil 10 len hn),
    last_char_irrel p NUL len (is_number_ne_nil 10 len hn)]
  have c : ¬ (¬ isdigit (last_char NUL len) = true
      ∨ ((Cursor.mk (last_char NUL len) (' ' :: r)).peek 0 ≠ NUL
          ∧ ¬ isspace ((Cursor.mk (last_char NUL len) (' ' :: r)).peek 0) = true)) := by
    have hsp : isspace ' ' = true := by decide
    simp [Cursor.peek, last_char_isdigit NUL len hn, hsp]
  rw [if_neg c, to_unsigned_natCast 32 _ (by omega)]

theorem setup_field_first (f r : List Char) (q : Char) (hn : is_number 16 f = true)
    (hv : digits_val 16 f < 65536) :
    setup_field ⟨q, 's' :: ' ' :: (f ++ ' ' :: r)⟩
      = ((digits_val 16 f : Int), ⟨last_char 's' f, ' ' :: r⟩) := by
  have hadv : (Cursor.mk q ('s' :: ' ' :: (f ++ ' ' :: r))).adv 1
      = ⟨'s', ' ' :: (f ++ ' ' :: r)⟩ := by simp [Cursor.adv]
  simp only [setup_field, hadv]
  rw [strtol_space 16 f (' ' :: r) (by omega) hn (stop_space r) (by omega)]
  simp only
  rw [adv_cons_append 's' ' ' f (' ' :: r) (is_number_ne_nil 16 f hn)]

theorem setup_field_next (f r : List Char) (q : Char) (hn : is_number 16 f = true)
    (hv : digits_val 16 f < 65536) :
    setup_field ⟨q, ' ' :: (f ++ ' ' :: r)⟩
      = ((digits_val 16 f : Int), ⟨last_char ' ' f, ' ' :: r⟩) := by
  have hadv : (Cursor.mk q (' ' :: (f ++ ' ' :: r))).adv 1
      = ⟨' ', f ++ ' ' :: r⟩ := by simp [Cursor.adv]
  simp only [setup_field, hadv]
  rw [strtol_plain 16 f (' ' :: r) (by omega) hn (stop_space r) (by omega)]
  simp only
  rw [adv_append ' ' f (' ' :: r) (is_number_ne_nil 16 f hn)]

theorem setup_bad_field (q : Char) (f r : List Char) (hn : is_number 16 f = true) :
    setup_bad ⟨last_char q f, ' ' :: r⟩ = false := by
  simp [setup_bad, Cursor.peek, last_char_isxdigit q f hn]

theorem parse_setup_tokens (f0 f1 f2 f3 f4 r : List Char) (q : Char) (pkt : mon_packet)
    (h0 : is_number 16 f0 = true) (v0 : digits_val 16 f0 < 256)
    (h1 : is_number 16 f1 = true) (v1 : digits_val 16 f1 < 256)
    (h2 : is_number 16 f2 = true) (v2 : digits_val 16 f2 < 65536)
    (h3 : is_number 16 f3 = true) (v3 : digits_val 16 f3 < 65536)
    (h4 : is_number 16 f4 = true) (v4 : digits_val 16 f4 < 65536) :
    parse_setup pkt
        ⟨q, 's' :: ' ' :: (f0 ++ ' ' :: (f1 ++ ' ' :: (f2 ++ ' ' :: (f3 ++ ' ' :: (f4 ++ ' ' :: r)))))⟩
      = Stage.ok
          { pkt with
            flag_setup := NUL, status := 0,
            setup := setup_bytes pkt.setup (digits_val 16 f0) (digits_val 16 f1)
              (digits_val 16 f2) (digits_val 16 f3) (digits_val 16 f4) }
          ⟨last_char ' ' f4, ' ' :: r⟩ := by
  simp only [parse_setup]
  rw [setup_field_first f0 _ q h0 (by omega)]
  simp only [setup_bad_field 's' f0 _ h0, Bool.false_eq_true, if_false]
  rw [setup_field_next f1 _ _ h1 (by omega)]
  simp only [setup_bad_field ' ' f1 _ h1, Bool.false_eq_true, if_false]
  rw [setup_field_next f2 _ _ h2 (by omega)]
  simp only [setup_bad_field ' ' f2 _ h2, Bool.false_eq_true, if_false]
  rw [setup_field_next f3 _ _ h3 (by omega)]
  simp only [setup_bad_field ' ' f3 _ h3, Bool.false_eq_true, if_false]
  rw [setup_field_next f4 _ _ h4 (by omega)]
  simp only [setup_bad_field ' ' f4 _ h4, Bool.false_eq_true, if_false]
  rw [to_unsigned_natCast 8 _ (by omega), to_unsigned_natCast 8 _ (by omega),
    to_unsigned_natCast 16 _ (by omega), to_unsigned_natCast 16 _ (by omega),
    to_unsigned_natCast 16 _ (by omega)]
  rfl
theorem to_int32_small (z : Int) (h1 : -(2 ^ 31) ≤ z) (h2 : z < 2 ^ 31) : to_int32 z = z := by
  unfold to_int32; omega

/-- The first number of a numeric status block, with its optional minus sign. -/
theorem numeric_head (neg : Bool) (st rest : List Char) (q : Char)
    (hn : is_number 10 st = true) (hv : digits_val 10 st < 2 ^ 31)
    (hstop : digit_val (rest.getD 0 NUL) = 36) :
    strtol 10 ((if neg then ['-'] else []) ++ (st ++ rest))
        = ((if neg then -(digits_val 10 st : Int) else (digits_val 10 st : Int)),
            (if neg then st.length + 1 else st.length)) ∧
    (Cursor.mk q ((if neg then ['-'] else []) ++ (st ++ rest))).adv
        (if neg then st.length + 1 else st.length) = ⟨last_char NUL st, rest⟩ := by
  have hne := is_number_ne_nil 10 st hn
  cases neg with
  | false =>
    simp only [Bool.false_eq_true, if_false, List.nil_append]
    exact ⟨strtol_plain 10 st rest (by omega) hn hstop (by omega),
      by rw [adv_append q st rest hne, last_char_irrel q NUL st hne]⟩
  | true =>
    simp only [if_true, List.singleton_append]
    exact ⟨strtol_minus 10 st rest (by omega) hn hstop (by omega),
      by rw [adv_cons_append q '-' st rest hne, last_char_irrel q NUL st hne]⟩

/-- A further field of a numeric status block: a colon and a number. -/
theorem numeric_field (f rest : List Char) (d : Char) (hd : isdigit d = true)
    (hn : is_number 10 f = true) (hv : digits_val 10 f < 2 ^ 31)
    (hstop : digit_val (rest.getD 0 NUL) = 36) :
    ¬ (¬ isdigit (Cursor.mk d (':' :: (f ++ rest))).prev = true
        ∨ (Cursor.mk d (':' :: (f ++ rest))).peek 0 ≠ ':') ∧
    strtol 10 ((Cursor.mk d (':' :: (f ++ rest))).adv 1).rest
        = ((digits_val 10 f : Int), f.length) ∧
    ((Cursor.mk d (':' :: (f ++ rest))).adv 1).adv f.length = ⟨last_char NUL f, rest⟩ := by
  have hne := is_number_ne_nil 10 f hn
  have hadv : (Cursor.mk d (':' :: (f ++ rest))).adv 1 = ⟨':', f ++ rest⟩ := by
    simp [Cursor.adv]
  refine ⟨by simp [Cursor.peek, hd], ?_, ?_⟩
  · rw [hadv]; exact strtol_plain 10 f rest (by omega) hn hstop (by omega)
  · rw [hadv, adv_append ':' f rest hne, last_char_irrel ':' NUL f hne]

theorem numeric_last (d : Char) (r : List Char) (hd : isdigit d = true) :
    ¬ (¬ isdigit (Cursor.mk d (' ' :: r)).prev = true
        ∨ (Cursor.mk d (' ' :: r)).peek 0 ≠ ' ') := by
  simp [Cursor.peek, hd]

theorem parse_numeric_plain (neg : Bool) (st r : List Char) (q : Char) (pkt : mon_packet)
    (hx : pkt.xfer_type = XFER_CTRL ∨ pkt.xfer_type = XFER_BULK)
    (hn : is_number 10 st = true) (hv : digits_val 10 st < 2 ^ 31) :
    parse_numeric_status pkt ⟨q, (if neg then ['-'] else []) ++ (st ++ ' ' :: r)⟩
      = Stage.ok
          { pkt with
            flag_setup := '-',
            status := (if neg then -(digits_val 10 st : Int) else (digits_val 10 st : Int)) }
          ⟨last_char NUL st, ' ' :: r⟩ := by
  obtain ⟨h1, h2⟩ := numeric_head neg st (' ' :: r) q hn hv (stop_space r)
  have hk : ¬ (pkt.xfer_type = XFER_ISOC ∨ pkt.xfer_type = XFER_INTR) := by
    rcases hx with h | h <;> (rw [h]; decide)
  have hl := numeric_last (last_char NUL st) r (last_char_isdigit NUL st hn)
  have hi : to_int32 (if neg then -(digits_val 10 st : Int) else (digits_val 10 st : Int))
      = (if neg then -(digits_val 10 st : Int) else (digits_val 10 st : Int)) := by
    apply to_int32_small <;> split <;> omega
  simp only [parse_numeric_status, h1, h2, hk, if_false, hl, hi]

theorem parse_numeric_intr (neg : Bool) (st iv r : List Char) (q : Char) (pkt : mon_packet)
    (hx : pkt.xfer_type = XFER_INTR)
    (hn : is_number 10 st = true) (hv : digits_val 10 st < 2 ^ 31)
    (hni : is_number 10 iv = true) (hvi : digits_val 10 iv < 2 ^ 31) :
    parse_numeric_status pkt
        ⟨q, (if neg then ['-'] else []) ++ (st ++ ':' :: (iv ++ ' ' :: r))⟩
      = Stage.ok
          { pkt with
            flag_setup := '-',
            status := (if neg then -(digits_val 10 st : Int) else (digits_val 10 st : Int)),
            interval := (digits_val 10 iv : Int) }
          ⟨last_char NUL iv, ' ' :: r⟩ := by
  obtain ⟨h1, h2⟩ := numeric_head neg st (':' :: (iv ++ ' ' :: r)) q hn hv (stop_colon _)
  obtain ⟨f1, f2, f3⟩ := numeric_field iv (' ' :: r) (last_char NUL st)
    (last_char_isdigit NUL st hn) hni hvi (stop_space r)
  have hz : ¬ (XFER_INTR = XFER_ISOC) := by decide
  have hl := numeric_last (last_char NUL iv) r (last_char_isdigit NUL iv hni)
  have hi : to_int32 (if neg then -(digits_val 10 st : Int) else (digits_val 10 st : Int))
      = (if neg then -(digits_val 10 st : Int) else (digits_val 10 st : Int)) := by
    apply to_int32_small <;> split <;> omega
  have hi2 : to_int32 (digits_val 10 iv : Int) = (digits_val 10 iv : Int) := by
    apply to_int32_small <;> omega
  simp only [parse_numeric_status, h1, h2, hx, hz, false_or, if_true, if_false, f1, f2, f3, hl,
    hi, hi2]

theorem parse_numeric_isoc (neg : Bool) (st iv sf r : List Char) (q : Char)
    (pkt : mon_packet) (hx : pkt.xfer_type = XFER_ISOC) (ht : pkt.type ≠ 'C')
    (hn : is_number 10 st = true) (hv : digits_val 10 st < 2 ^ 31)
    (hni : is_number 10 iv = true) (hvi : digits_val 10 iv < 2 ^ 31)
    (hns : is_number 10 sf = true) (hvs : digits_val 10 sf < 2 ^ 31) :
    parse_numeric_status pkt
        ⟨q, (if neg then ['-'] else []) ++ (st ++ ':' :: (iv ++ ':' :: (sf ++ ' ' :: r)))⟩
      = Stage.ok
          { pkt with
            flag_setup := '-',
            status := (if neg then -(digits_val 10 st : Int) else (digits_val 10 st : Int)),
            interval := (digits_val 10 iv : Int),
            start_frame := (digits_val 10 sf : Int) }
          ⟨last_char NUL sf, ' ' :: r⟩ := by
  obtain ⟨h1, h2⟩ := numeric_head neg st (':' :: (iv ++ ':' :: (sf ++ ' ' :: r))) q hn hv
    (stop_colon _)
  obtain ⟨f1, f2, f3⟩ := numeric_field iv (':' :: (sf ++ ' ' :: r)) (last_char NUL st)
    (last_char_isdigit NUL st hn) hni hvi (stop_colon _)
  obtain ⟨g1, g2, g3⟩ := numeric_field sf (' ' :: r) (last_char NUL iv)
    (last_char_isdigit NUL iv hni) hns hvs (stop_space r)
  have hl := numeric_last (last_char NUL sf) r (last_char_isdigit NUL sf hns)
  have hi : to_int32 (if neg then -(digits_val 10 st : Int) else (digits_val 10 st : Int))
      = (if neg then -(digits_val 10 st : Int) else (digits_val 10 st : Int)) := by
    apply to_int32_small <;> split <;> omega
  have hi2 : to_int32 (digits_val 10 iv : Int) = (digits_val 10 iv : Int) := by
    apply to_int32_small <;> omega
  have hi3 : to_int32 (digits_val 10 sf : Int) = (digits_val 10 sf : Int) := by
    apply to_int32_small <;> omega
  simp only [parse_numeric_status, h1, h2, hx, ht, true_or, if_true, if_false, f1, f2, f3, g1, g2,
    g3, hl, hi, hi2, hi3]

theorem parse_numeric_isoc_c (neg : Bool) (st iv sf ec r : List Char) (q : Char)
    (pkt : mon_packet) (hx : pkt.xfer_type = XFER_ISOC) (ht : pkt.type = 'C')
    (hn : is_number 10 st = true) (hv : digits_val 10 st < 2 ^ 31)
    (hni : is_number 10 iv = true) (hvi : digits_val 10 iv < 2 ^ 31)
    (hns : is_number 10 sf = true) (hvs : digits_val 10 sf < 2 ^ 31)
    (hne : is_number 10 ec = true) (hve : digits_val 10 ec < 2 ^ 31) :
    parse_numeric_status pkt
        ⟨q, (if neg then ['-'] else [])
          ++ (st ++ ':' :: (iv ++ ':' :: (sf ++ ':' :: (ec ++ ' ' :: r))))⟩
      = Stage.ok
          { pkt with
            flag_setup := '-',
            status := (if neg then -(digits_val 10 st : Int) else (digits_val 10 st : Int)),
            interval := (digits_val 10 iv : Int),
            start_frame := (digits_val 10 sf : Int),
            setup := set_iso_error_count pkt.setup (digits_val 10 ec : Int) }
          ⟨last_char NUL ec, ' ' :: r⟩ := by
  obtain ⟨h1, h2⟩ := numeric_head neg st (':' :: (iv ++ ':' :: (sf ++ ':' :: (ec ++ ' ' :: r))))
    q hn hv (stop_colon _)
  obtain ⟨f1, f2, f3⟩ := numeric_field iv (':' :: (sf ++ ':' :: (ec ++ ' ' :: r)))
    (last_char NUL st) (last_char_isdigit NUL st hn) hni hvi (stop_colon _)
  obtain ⟨g1, g2, g3⟩ := numeric_field sf (':' :: (ec ++ ' ' :: r)) (last_char NUL iv)
    (last_char_isdigit NUL iv hni) hns hvs (stop_colon _)
  obtain ⟨e1, e2, e3⟩ := numeric_field ec (' ' :: r) (last_char NUL sf)
    (last_char_isdigit NUL sf hns) hne hve (stop_space r)
  have hl := numeric_last (last_char NUL ec) r (last_char_isdigit NUL ec hne)
  have hi : to_int32 (if neg then -(digits_val 10 st : Int) else (digits_val 10 st : Int))
      = (if neg then -(digits_val 10 st : Int) else (digits_val 10 st : Int)) := by
    apply to_int32_small <;> split <;> omega
  have hi2 : to_int32 (digits_val 10 iv : Int) = (digits_val 10 iv : Int) := by
    apply to_int32_small <;> omega
  have hi3 : to_int32 (digits_val 10 sf : Int) = (digits_val 10 sf : Int) := by
    apply to_int32_small <;> omega
  simp only [parse_numeric_status, h1, h2, hx, ht, true_or, if_true, if_false, f1, f2, f3, g1, g2,
    g3, e1, e2, e3, hl, hi, hi2, hi3]

theorem status_setup_tokens (f0 f1 f2 f3 f4 len r : List Char) (p : Char) (kind phase : Char)
    (pkt : mon_packet)
    (hv : (StatusTokens.setup f0 f1 f2 f3 f4).valid kind phase = true)
    (hn : is_number 10 len = true) (hlv : digits_val 10 len < 2 ^ 31) :
    (parse_status pkt ⟨p, ' ' :: (status_text kind phase (StatusTokens.setup f0 f1 f2 f3 f4)
        ++ ' ' :: (len ++ ' ' :: r))⟩).bind parse_length
      = Stage.ok { status_packet kind phase pkt (StatusTokens.setup f0 f1 f2 f3 f4) with
                   length := digits_val 10 len } ⟨last_char NUL len, ' ' :: r⟩ := by
  simp only [StatusTokens.valid, Bool.and_eq_true, decide_eq_true_eq] at hv
  obtain ⟨⟨⟨⟨⟨⟨⟨⟨⟨h0, v0⟩, h1⟩, v1⟩, h2⟩, v2⟩, h3⟩, v3⟩, h4⟩, v4⟩ := hv
  have htxt : ' ' :: (status_text kind phase (StatusTokens.setup f0 f1 f2 f3 f4)
        ++ ' ' :: (len ++ ' ' :: r))
      = ' ' :: 's' :: ' ' :: (f0 ++ ' ' :: (f1 ++ ' ' :: (f2 ++ ' ' :: (f3 ++ ' ' ::
          (f4 ++ ' ' :: (len ++ ' ' :: r)))))) := by
    simp [status_text, List.append_assoc]
  rw [htxt]
  simp only [parse_status]
  rw [skip_space_one p 's' _ (by decide)]
  simp only [Cursor.peek, List.getD_cons_zero, if_true]
  rw [parse_setup_tokens f0 f1 f2 f3 f4 _ ' ' _ h0 v0 h1 v1 h2 v2 h3 v3 h4 v4]
  simp only [Stage.bind]
  rw [parse_length_space len r _ _ hn hlv]
  rfl

theorem status_in_progress_tokens (len r : List Char) (p : Char) (kind phase : Char)
    (pkt : mon_packet) (ht : pkt.type = phase)
    (hv : StatusTokens.in_progress.valid kind phase = true)
    (hn : is_number 10 len = true) (hlv : digits_val 10 len < 2 ^ 31) :
    (parse_status pkt ⟨p, ' ' :: (status_text kind phase StatusTokens.in_progress
        ++ ' ' :: (len ++ ' ' :: r))⟩).bind parse_length
      = Stage.ok { status_packet kind phase pkt StatusTokens.in_progress with
                   length := digits_val 10 len } ⟨last_char NUL len, ' ' :: r⟩ := by
  simp only [StatusTokens.valid, decide_eq_true_eq] at hv
  have htxt : ' ' :: (status_text kind phase StatusTokens.in_progress
        ++ ' ' :: (len ++ ' ' :: r))
      = ' ' :: '-' :: ' ' :: (len ++ ' ' :: r) := by
    simp [status_text]
  rw [htxt]
  simp only [parse_status]
  rw [skip_space_one p '-' _ (by decide)]
  have c1 : ¬ ('-' = 's') := by decide
  have c2 : ¬ (isdigit ' ' = true) := by decide
  have c3 : pkt.type = 'S' := by rw [ht, hv]
  simp only [Cursor.peek, List.getD_cons_zero, List.getD_cons_succ, c1, if_false, c2,
    not_false_eq_true, true_and, eq_true c3, if_true, Cursor.adv, List.drop_succ_cons,
    List.drop_zero, Bool.false_eq_true, and_self, and_true, Stage.bind]
  rw [parse_length_plain len r _ _ hn hlv]
  rfl

theorem status_flag_tokens (c : Char) (len r : List Char) (p : Char) (kind phase : Char)
    (pkt : mon_packet)
    (hv : (StatusTokens.flag c).valid kind phase = true)
    (hn : is_number 10 len = true) (hlv : digits_val 10 len < 2 ^ 31) :
    (parse_status pkt ⟨p, ' ' :: (status_text kind phase (StatusTokens.flag c)
        ++ ' ' :: (len ++ ' ' :: r))⟩).bind parse_length
      = Stage.ok { status_packet kind phase pkt (StatusTokens.flag c) with
                   length := digits_val 10 len } ⟨last_char NUL len, ' ' :: r⟩ := by
  simp only [StatusTokens.valid, Bool.and_eq_true, decide_eq_true_eq, Bool.not_eq_true',
    ne_eq] at hv
  obtain ⟨⟨⟨cs, cm, cn⟩, cd⟩, csp⟩ := hv
  have htxt : ' ' :: (status_text kind phase (StatusTokens.flag c)
        ++ ' ' :: (len ++ ' ' :: r))
      = ' ' :: c :: ' ' :: (len ++ ' ' :: r) := by
    simp [status_text]
  rw [htxt]
  simp only [parse_status]
  rw [skip_space_one p c _ csp]
  simp only [Cursor.peek, List.getD_cons_zero, List.getD_cons_succ, cs, cm, cd, if_false,
    false_and, Bool.false_eq_true, or_self, Cursor.adv, List.drop_succ_cons,
    List.drop_zero, Stage.bind]
  rw [parse_length_plain len r _ _ hn hlv]
  rfl
theorem parse_status_numeric_branch (neg : Bool) (st rest : List Char) (p : Char)
    (pkt : mon_packet) (hn : is_number 10 st = true) :
    parse_status pkt ⟨p, ' ' :: ((if neg then ['-'] else []) ++ (st ++ rest))⟩
      = parse_numeric_status { pkt with start_frame := 0, interval := 0 }
          ⟨' ', (if neg then ['-'] else []) ++ (st ++ rest)⟩ := by
  obtain ⟨d, st', rfl, hds⟩ := is_number_cons 10 st hn
  have hd : isdigit d = true := digit_val_isdigit d (hds d (List.mem_cons_self _ _))
  have hdsp : isspace d = false :=
    digit_val_not_space d (Nat.lt_of_lt_of_le (hds d (List.mem_cons_self _ _)) (by omega))
  have hds' : d ≠ 's' := by
    intro h; rw [h] at hd; exact absurd hd (by decide)
  have hdm : d ≠ '-' := by
    intro h; rw [h] at hd; exact absurd hd (by decide)
  cases neg with
  | false =>
    simp only [Bool.false_eq_true, if_false, List.nil_append, List.cons_append, parse_status]
    rw [skip_space_one p d _ hdsp]
    simp only [Cursor.peek, List.getD_cons_zero, hds', hdm, if_false, false_and, hd, true_or,
      if_true]
  | true =>
    simp only [if_true, List.singleton_append, List.cons_append, List.nil_append, parse_status]
    rw [skip_space_one p '-' _ (by decide)]
    have c1 : ¬ ('-' = 's') := by decide
    simp only [Cursor.peek, List.getD_cons_zero, List.getD_cons_succ, c1, if_false, hd,
      not_true_eq_false, false_and, and_false, and_self, or_true, true_and, if_true]

theorem kind_code_Z : kind_code 'Z' = XFER_ISOC := by decide
theorem kind_code_I : kind_code 'I' = XFER_INTR := by decide
theorem kind_code_C : kind_code 'C' = XFER_CTRL := by decide
theorem kind_code_B : kind_code 'B' = XFER_BULK := by decide

theorem status_numeric_tokens (neg : Bool) (st iv sf ec len r : List Char) (p : Char)
    (kind phase : Char) (pkt : mon_packet)
    (hk : kind = 'Z' ∨ kind = 'I' ∨ kind = 'C' ∨ kind = 'B')
    (hx : pkt.xfer_type = kind_code kind) (ht : pkt.type = phase)
    (hv : (StatusTokens.numeric neg st iv sf ec).valid kind phase = true)
    (hn : is_number 10 len = true) (hlv : digits_val 10 len < 2 ^ 31) :
    (parse_status pkt ⟨p, ' ' :: (status_text kind phase (StatusTokens.numeric neg st iv sf ec)
        ++ ' ' :: (len ++ ' ' :: r))⟩).bind parse_length
      = Stage.ok { status_packet kind phase pkt (StatusTokens.numeric neg st iv sf ec) with
                   length := digits_val 10 len } ⟨last_char NUL len, ' ' :: r⟩ := by
  simp only [StatusTokens.valid, Bool.and_eq_true, Bool.or_eq_true, decide_eq_true_eq] at hv
  obtain ⟨⟨⟨⟨hst, vst⟩, hiv⟩, hsf⟩, hec⟩ := hv
  rcases hk with rfl | rfl | rfl | rfl
  · -- isochronous
    have hiv' : is_number 10 iv = true ∧ digits_val 10 iv < 2 ^ 31 := by
      rcases hiv with h | h
      · exact absurd rfl h.1
      · exact h
    have hsf' : is_number 10 sf = true ∧ digits_val 10 sf < 2 ^ 31 := by
      rcases hsf with h | h
      · exact absurd rfl h
      · exact h
    rw [kind_code_Z] at hx
    by_cases hc : phase = 'C'
    · subst hc
      have hec' : is_number 10 ec = true ∧ digits_val 10 ec < 2 ^ 31 := by
        rcases hec with h | h
        · rcases h with h | h <;> exact absurd rfl h
        · exact h
      have htxt : ' ' :: (status_text 'Z' 'C' (StatusTokens.numeric neg st iv sf ec)
            ++ ' ' :: (len ++ ' ' :: r))
          = ' ' :: ((if neg then ['-'] else []) ++ (st ++ ':' :: (iv ++ ':' :: (sf ++ ':' ::
              (ec ++ ' ' :: (len ++ ' ' :: r)))))) := by
        simp [status_text, List.append_assoc]
      rw [htxt, parse_status_numeric_branch neg st _ p pkt hst,
        parse_numeric_isoc_c neg st iv sf ec _ ' '
          { pkt with start_frame := 0, interval := 0 } hx ht hst vst hiv'.1 hiv'.2 hsf'.1 hsf'.2
          hec'.1 hec'.2]
      simp only [Stage.bind]
      rw [parse_length_space len r _ _ hn hlv]
      simp [status_packet]
    · have htxt : ' ' :: (status_text 'Z' phase (StatusTokens.numeric neg st iv sf ec)
            ++ ' ' :: (len ++ ' ' :: r))
          = ' ' :: ((if neg then ['-'] else []) ++ (st ++ ':' :: (iv ++ ':' :: (sf ++ ' ' ::
              (len ++ ' ' :: r))))) := by
        simp [status_text, List.append_assoc, hc]
      have ht' : pkt.type ≠ 'C' := by rw [ht]; exact hc
      rw [htxt, parse_status_numeric_branch neg st _ p pkt hst,
        parse_numeric_isoc neg st iv sf _ ' '
          { pkt with start_frame := 0, interval := 0 } hx ht' hst vst hiv'.1 hiv'.2 hsf'.1 hsf'.2]
      simp only [Stage.bind]
      rw [parse_length_space len r _ _ hn hlv]
      simp [status_packet, hc]
  · -- interrupt
    have hiv' : is_number 10 iv = true ∧ digits_val 10 iv < 2 ^ 31 := by
      rcases hiv with h | h
      · exact absurd rfl h.2
      · exact h
    rw [kind_code_I] at hx
    have htxt : ' ' :: (status_text 'I' phase (StatusTokens.numeric neg st iv sf ec)
          ++ ' ' :: (len ++ ' ' :: r))
        = ' ' :: ((if neg then ['-'] else []) ++ (st ++ ':' :: (iv ++ ' ' ::
            (len ++ ' ' :: r)))) := by
      simp [status_text, List.append_assoc]
    rw [htxt, parse_status_numeric_branch neg st _ p pkt hst,
      parse_numeric_intr neg st iv _ ' '
        { pkt with start_frame := 0, interval := 0 } hx hst vst hiv'.1 hiv'.2]
    simp only [Stage.bind]
    rw [parse_length_space len r _ _ hn hlv]
    simp [status_packet]
  · -- control
    rw [kind_code_C] at hx
    have htxt : ' ' :: (status_text 'C' phase (StatusTokens.numeric neg st iv sf ec)
          ++ ' ' :: (len ++ ' ' :: r))
        = ' ' :: ((if neg then ['-'] else []) ++ (st ++ ' ' :: (len ++ ' ' :: r))) := by
      simp [status_text, List.append_assoc]
    rw [htxt, parse_status_numeric_branch neg st _ p pkt hst,
      parse_numeric_plain neg st _ ' '
        { pkt with start_frame := 0, interval := 0 } (Or.inl hx) hst vst]
    simp only [Stage.bind]
    rw [parse_length_space len r _ _ hn hlv]
    simp [status_packet]
  · -- bulk
    rw [kind_code_B] at hx
    have htxt : ' ' :: (status_text 'B' phase (StatusTokens.numeric neg st iv sf ec)
          ++ ' ' :: (len ++ ' ' :: r))
        = ' ' :: ((if neg then ['-'] else []) ++ (st ++ ' ' :: (len ++ ' ' :: r))) := by
      simp [status_text, List.append_assoc]
    rw [htxt, parse_status_numeric_branch neg st _ p pkt hst,
      parse_numeric_plain neg st _ ' '
        { pkt with start_frame := 0, interval := 0 } (Or.inr hx) hst vst]
    simp only [Stage.bind]
    rw [parse_length_space len r _ _ hn hlv]
    simp [status_packet]
theorem Stage.bind_ok (p : mon_packet) (s : Cursor) (f : mon_packet → Cursor → Stage) :
    (Stage.ok p s).bind f = f p s := rfl

theorem status_length_tokens (st : StatusTokens) (len r : List Char) (p : Char)
    (kind phase : Char) (pkt : mon_packet)
    (hk : kind = 'Z' ∨ kind = 'I' ∨ kind = 'C' ∨ kind = 'B')
    (hx : pkt.xfer_type = kind_code kind) (ht : pkt.type = phase)
    (hv : st.valid kind phase = true)
    (hn : is_number 10 len = true) (hlv : digits_val 10 len < 2 ^ 31) :
    (parse_status pkt ⟨p, ' ' :: (status_text kind phase st
        ++ ' ' :: (len ++ ' ' :: r))⟩).bind parse_length
      = Stage.ok { status_packet kind phase pkt st with length := digits_val 10 len }
          ⟨last_char NUL len, ' ' :: r⟩ := by
  cases st with
  | setup f0 f1 f2 f3 f4 => exact status_setup_tokens f0 f1 f2 f3 f4 len r p kind phase pkt hv hn hlv
  | in_progress => exact status_in_progress_tokens len r p kind phase pkt ht hv hn hlv
  | numeric neg st iv sf ec =>
    exact status_numeric_tokens neg st iv sf ec len r p kind phase pkt hk hx ht hv hn hlv
  | flag c => exact status_flag_tokens c len r p kind phase pkt hv hn hlv

/-- The sections of `parse_usbmon` before the payload succeed on a line built from valid
tokens, and fill the record with the values that the tokens denote. -/
theorem parse_header_tokens (t : LineTokens) (r : List Char) (pkt : mon_packet)
    (hv : t.valid = true) :
    parse_header (header_text t ++ ' ' :: r) pkt
      = Stage.ok (header_packet t pkt) ⟨last_char NUL t.len, ' ' :: r⟩ := by
  obtain ⟨id, ts, usec, phase, kind, dir, bus, dev, ep, status, len⟩ := t
  simp only [LineTokens.valid, Bool.and_eq_true, decide_eq_true_eq] at hv
  obtain ⟨⟨⟨⟨⟨⟨⟨⟨⟨⟨⟨⟨⟨⟨⟨⟨hid, hidl⟩, hidv⟩, hts⟩, husec⟩, hph⟩, hkind⟩, hdir⟩, hbus⟩, hbusv⟩,
    hdev⟩, hdevv⟩, hep⟩, hepv⟩, hst⟩, hlen⟩, hlenv⟩ := hv
  have hep0 : (if dir = 'i' then 0x80 else 0) = 0x80 ∨ (if dir = 'i' then 0x80 else 0) = 0 := by
    by_cases h : dir = 'i'
    · left; simp [h]
    · right; simp [h]
  cases usec with
  | none =>
    simp only [decide_eq_true_eq] at husec
    have htxt : header_text ⟨id, ts, none, phase, kind, dir, bus, dev, ep, status, len⟩
          ++ ' ' :: r
        = id ++ ' ' :: (ts ++ ' ' :: phase :: ' ' :: kind :: dir :: ':' :: (bus ++ ':' ::
            (dev ++ ':' :: (ep ++ ' ' :: (status_text kind phase status ++ ' ' ::
              (len ++ ' ' :: r)))))) := by
      simp [header_text, List.append_assoc]
    rw [htxt]
    simp only [parse_header]
    rw [parse_urb_id_tokens id _ pkt hid hidl hidv]
    simp only [Stage.bind_ok]
    rw [parse_timestamp_counter ts _ _ _ hts husec]
    simp only [Stage.bind_ok]
    rw [parse_event_type_tokens phase _ _ _ hph]
    simp only [Stage.bind_ok]
    rw [parse_xfer_tokens kind dir _ _ _ hkind hdir]
    simp only [Stage.bind_ok]
    rw [parse_address_tokens kind dir _ bus dev ep _ _ hbus hbusv hdev hdevv hep hepv hep0]
    simp only [Stage.bind_ok]
    rw [status_length_tokens status len r _ kind phase _ hkind rfl rfl hst hlen hlenv]
    rfl
  | some us =>
    simp only [Bool.and_eq_true, decide_eq_true_eq] at husec
    obtain ⟨⟨htsv, hus⟩, husv⟩ := husec
    have htxt : header_text ⟨id, ts, some us, phase, kind, dir, bus, dev, ep, status, len⟩
          ++ ' ' :: r
        = id ++ ' ' :: (ts ++ '.' :: (us ++ ' ' :: phase :: ' ' :: kind :: dir :: ':' ::
            (bus ++ ':' :: (dev ++ ':' :: (ep ++ ' ' :: (status_text kind phase status ++ ' ' ::
              (len ++ ' ' :: r))))))) := by
      simp [header_text, List.append_assoc]
    rw [htxt]
    simp only [parse_header]
    rw [parse_urb_id_tokens id _ pkt hid hidl hidv]
    simp only [Stage.bind_ok]
    rw [parse_timestamp_seconds ts us _ _ _ hts htsv hus husv]
    simp only [Stage.bind_ok]
    rw [parse_event_type_tokens phase _ _ _ hph]
    simp only [Stage.bind_ok]
    rw [parse_xfer_tokens kind dir _ _ _ hkind hdir]
    simp only [Stage.bind_ok]
    rw [parse_address_tokens kind dir _ bus dev ep _ _ hbus hbusv hdev hdevv hep hepv hep0]
    simp only [Stage.bind_ok]
    rw [status_length_tokens status len r _ kind phase _ hkind rfl rfl hst hlen hlenv]
    rfl

/-! ## The payload section on a data block built from tokens -/

theorem hex_digit_table :
    ∀ n, n < 128 → ((48 ≤ n ∧ n ≤ 57) ∨ (97 ≤ n ∧ n ≤ 102) ∨ (65 ≤ n ∧ n ≤ 70)) →
      init_hex hextab_zero (n % 256) % 256 =
        (if 48 ≤ n ∧ n ≤ 57 then n - 48
         else if 97 ≤ n ∧ n ≤ 122 then n - 97 + 10
         else if 65 ≤ n ∧ n ≤ 90 then n - 65 + 10 else 36) := by
  decide

/-- After `init_hex`, `fromhex` gives every hexadecimal digit its value. -/
theorem fromhex_init (c : Char) (h : isxdigit c = true) :
    fromhex (init_hex hextab_zero) c = digit_val c := by
  simp only [isxdigit, isdigit, Bool.or_eq_true, decide_eq_true_eq] at h
  have hr : (48 ≤ c.toNat ∧ c.toNat ≤ 57) ∨ (97 ≤ c.toNat ∧ c.toNat ≤ 102)
      ∨ (65 ≤ c.toNat ∧ c.toNat ≤ 70) := by
    rcases h with (h | h) | h
    · exact Or.inl h
    · exact Or.inr (Or.inl h)
    · exact Or.inr (Or.inr h)
  have hlt : c.toNat < 128 := by omega
  have key := hex_digit_table c.toNat hlt hr
  simp only [fromhex, digit_val, isdigit, islower, isupper, decide_eq_true_eq]
  exact key
theorem skip_space_from_run (ws : List Char) (c : Char) (rest : List Char)
    (hws : ws.all isspace = true) (hc : isspace c = false) :
    ∀ q, skip_space_from q (ws ++ c :: rest) = ⟨last_char q ws, c :: rest⟩ := by
  induction ws with
  | nil =>
    intro q
    rw [List.nil_append]
    unfold skip_space_from
    simp [hc, last_char]
  | cons w ws ih =>
    intro q
    simp only [List.all_cons, Bool.and_eq_true] at hws
    rw [List.cons_append]
    unfold skip_space_from
    simp only [hws.1, if_true, last_char]
    exact ih hws.2 w

theorem isxdigit_not_space (c : Char) (h : isxdigit c = true) : isspace c = false := by
  simp only [isxdigit, isdigit, Bool.or_eq_true, decide_eq_true_eq] at h
  simp only [isspace, decide_eq_false_iff_not]
  omega

theorem isxdigit_ne_nul (c : Char) (h : isxdigit c = true) : c ≠ NUL := by
  intro hc; rw [hc] at h; exact absurd h (by decide)

theorem isxdigit_digit_val (c : Char) (h : isxdigit c = true) : digit_val c < 16 := by
  simp only [isxdigit, isdigit, Bool.or_eq_true, decide_eq_true_eq] at h
  simp only [digit_val, isdigit, islower, isupper, decide_eq_true_eq]
  split_ifs <;> omega

theorem nibbles_byte : ∀ a, a < 16 → ∀ b, b < 16 → (a <<< 4) ||| b = a * 16 + b := by
  decide

theorem pair_byte_lt (p : List Char × Char × Char) (h1 : isxdigit p.2.1 = true)
    (h2 : isxdigit p.2.2 = true) : pair_byte p < 256 := by
  have a := isxdigit_digit_val _ h1
  have b := isxdigit_digit_val _ h2
  unfold pair_byte; omega

/-- The payload loop on a run of valid hex pairs that fits the declared length and the
buffer: it ends at the end of the line, having stored the bytes of the pairs from index `ii`
on and nothing else. -/
theorem parse_data_loop_pairs (length data_len : Nat) (ps : List (List Char × Char × Char)) :
    ∀ (fuel : Nat) (q : Char) (data : Buf) (ii : Nat),
      pairs_valid ps = true → ps.length + 1 ≤ fuel →
      ii + ps.length ≤ length → ii + ps.length ≤ data_len →
      ∃ q' data',
        parse_data_loop (init_hex hextab_zero) length data_len fuel ⟨q, pairs_text ps⟩ data ii
          = LoopEnd.done ⟨q', []⟩ data' (ii + ps.length) ∧
        (∀ j, j < ii ∨ ii + ps.length ≤ j → data' j = data j) ∧
        (∀ k, k < ps.length → data' (ii + k) = (ps.map pair_byte).getD k 0) := by
  induction ps with
  | nil =>
    intro fuel q data ii _ hf _ _
    obtain ⟨f, rfl⟩ : ∃ f, fuel = f + 1 := ⟨fuel - 1, by simp at hf; omega⟩
    refine ⟨q, data, ?_, fun _ _ => rfl, fun k hk => absurd hk (by simp)⟩
    simp only [pairs_text, parse_data_loop, skip_space_nil, Cursor.peek, List.getD_nil,
      if_true, List.length_nil, Nat.add_zero, ite_self]
  | cons p ps ih =>
    intro fuel q data ii hv hf hl hd
    obtain ⟨ws, hi, lo⟩ := p
    simp only [pairs_valid, Bool.and_eq_true] at hv
    obtain ⟨⟨⟨hws, hhi⟩, hlo⟩, hps⟩ := hv
    simp only [List.length_cons] at hf hl hd
    obtain ⟨f, rfl⟩ : ∃ f, fuel = f + 1 := ⟨fuel - 1, by omega⟩
    have hcond : ii < length ∧ ii < data_len := ⟨by omega, by omega⟩
    have hskip : skip_space ⟨q, pairs_text ((ws, hi, lo) :: ps)⟩
        = ⟨last_char q ws, hi :: lo :: pairs_text ps⟩ := by
      simp only [skip_space, pairs_text]
      exact skip_space_from_run ws hi _ hws (isxdigit_not_space hi hhi) q
    obtain ⟨q', data', h1, h2, h3⟩ := ih f lo
      (wr data ii ((fromhex (init_hex hextab_zero) hi <<< 4)
        ||| fromhex (init_hex hextab_zero) lo)) (ii + 1) hps (by omega) (by omega) (by omega)
    refine ⟨q', data', ?_, ?_, ?_⟩
    · simp only [parse_data_loop, hcond, and_self, if_true, hskip, Cursor.peek,
        List.getD_cons_zero, List.getD_cons_succ, isxdigit_ne_nul hi hhi, if_false, hhi, hlo,
        Cursor.adv, List.drop_succ_cons, List.drop_zero, List.length_cons]
      rw [h1]
      congr 1
      omega
    · intro j hj
      simp only [List.length_cons] at hj
      rw [h2 j (by omega)]
      simp only [wr]
      rw [if_neg (by omega)]
    · intro k hk
      cases k with
      | zero =>
        rw [Nat.add_zero, h2 ii (Or.inl (by omega))]
        simp only [wr, if_true, List.map_cons, List.getD_cons_zero]
        rw [fromhex_init hi hhi, fromhex_init lo hlo,
          nibbles_byte _ (isxdigit_digit_val hi hhi) _ (isxdigit_digit_val lo hlo)]
        exact Nat.mod_eq_of_lt (pair_byte_lt (ws, hi, lo) hhi hlo)
      | succ k =>
        have := h3 k (by simp only [List.length_cons] at hk; omega)
        rw [show ii + (k + 1) = ii + 1 + k by omega, this]
        simp only [List.map_cons, List.getD_cons_succ]

theorem parse_data_flag (c q : Char) (pkt : mon_packet) (data : Buf) (data_len : Nat)
    (hextab : Nat → Nat) (hv : (DataTokens.flag c).valid pkt.length data_len = true) :
    parse_data hextab pkt ⟨q, data_text (DataTokens.flag c)⟩ data data_len
      = ⟨0, data_packet pkt (DataTokens.flag c), data⟩ := by
  simp only [DataTokens.valid, Bool.and_eq_true, decide_eq_true_eq, Bool.not_eq_true',
    ne_eq] at hv
  obtain ⟨⟨ce, cn⟩, csp⟩ := hv
  simp only [parse_data, data_text]
  rw [skip_space_one q c [] csp]
  simp only [Cursor.peek, List.getD_cons_zero, cn, ce, if_false, Cursor.adv, List.drop_succ_cons,
    List.drop_zero, List.getD_nil, ne_eq, not_true_eq_false, data_packet]

theorem parse_data_hex (ps : List (List Char × Char × Char)) (q : Char) (pkt : mon_packet)
    (data : Buf) (data_len : Nat)
    (hv : (DataTokens.hex ps).valid pkt.length data_len = true) :
    ∃ data',
      parse_data (init_hex hextab_zero) pkt ⟨q, data_text (DataTokens.hex ps)⟩ data data_len
        = ⟨0, data_packet pkt (DataTokens.hex ps), data'⟩ ∧
      (∀ j, ps.length ≤ j → data' j = data j) ∧
      (∀ k, k < ps.length → data' k = (ps.map pair_byte).getD k 0) := by
  simp only [DataTokens.valid, Bool.and_eq_true, decide_eq_true_eq] at hv
  obtain ⟨hpv, _, hl, hd⟩ := hv
  obtain ⟨q', data', h1, h2, h3⟩ := parse_data_loop_pairs pkt.length data_len ps
    (pkt.length + 1) ' ' data 0 hpv (by omega) (by omega) (by omega)
  refine ⟨data', ?_, fun j hj => h2 j (Or.inr (by omega)), fun k hk => by
    have := h3 k hk; rwa [Nat.zero_add] at this⟩
  simp only [parse_data, data_text]
  rw [skip_space_one q '=' _ (by decide)]
  have c1 : ¬ ('=' = NUL) := by decide
  simp only [Cursor.peek, List.getD_cons_zero, c1, if_false, if_true, Cursor.adv,
    List.getD_cons_succ, List.drop_succ_cons, List.drop_zero]
  rw [h1]
  simp only [Nat.zero_add, List.getD_nil, ne_eq, not_true_eq_false, if_false, data_packet]

/-- A line built from valid tokens and a valid data block is parsed with return value 0;
the record holds the values that the tokens denote, the buffer holds the bytes of the data
block and is unchanged behind them. -/
theorem parse_usbmon_tokens (t : LineTokens) (d : DataTokens) (pkt : mon_packet) (data : Buf)
    (data_len : Nat) (hv : t.valid = true)
    (hd : d.valid (digits_val 10 t.len) data_len = true) :
    (parse_usbmon (init_hex hextab_zero) (line_text t d) pkt data data_len).code = 0 ∧
    (parse_usbmon (init_hex hextab_zero) (line_text t d) pkt data data_len).pkt
      = data_packet (header_packet t pkt) d ∧
    (∀ j, (payload_bytes d).length ≤ j →
      (parse_usbmon (init_hex hextab_zero) (line_text t d) pkt data data_len).data j = data j) ∧
    (∀ k, k < (payload_bytes d).length →
      (parse_usbmon (init_hex hextab_zero) (line_text t d) pkt data data_len).data k
        = (payload_bytes d).getD k 0) := by
  have hlen : (header_packet t pkt).length = digits_val 10 t.len := rfl
  cases d with
  | flag c =>
    have htxt : line_text t (DataTokens.flag c) = header_text t ++ ' ' :: [c] := rfl
    have hp := parse_data_flag c (last_char NUL t.len) (header_packet t pkt) data data_len
      (init_hex hextab_zero) (by rw [hlen]; exact hd)
    simp only [data_text] at hp
    unfold parse_usbmon
    rw [htxt, parse_header_tokens t [c] pkt hv]
    simp only [hp, payload_bytes, List.length_nil, true_and]
    exact ⟨fun _ _ => trivial, fun k hk => absurd hk (Nat.not_lt_zero k)⟩
  | hex ps =>
    have htxt : line_text t (DataTokens.hex ps)
        = header_text t ++ ' ' :: ('=' :: ' ' :: pairs_text ps) := rfl
    obtain ⟨data', hp, h2, h3⟩ := parse_data_hex ps (last_char NUL t.len)
      (header_packet t pkt) data data_len (by rw [hlen]; exact hd)
    simp only [data_text] at hp
    unfold parse_usbmon
    rw [htxt, parse_header_tokens t _ pkt hv]
    simp only [hp, payload_bytes, List.length_map, true_and]
    exact ⟨h2, h3⟩

/-! ## Reading back what the parser stored -/

theorem rd_wr_same (d : Buf) (i v : Nat) : rd (wr d i v) i = v % 256 := by
  simp [rd, wr]

theorem rd_wr_other (d : Buf) (i v j : Nat) (h : j ≠ i) : rd (wr d i v) j = rd d j := by
  simp [rd, wr, h]

theorem rd_put_le16_lo (d : Buf) (off v : Nat) : rd (put_le16 d off v) off = v % 256 := by
  unfold put_le16
  rw [rd_wr_other _ _ _ _ (by omega), rd_wr_same, Nat.shiftRight_zero]
  have : v &&& 255 = v % 256 := Nat.and_pow_two_sub_one_eq_mod v 8
  rw [this, Nat.mod_mod]

theorem rd_put_le16_hi (d : Buf) (off v : Nat) :
    rd (put_le16 d off v) (off + 1) = v / 256 % 256 := by
  unfold put_le16
  rw [rd_wr_same]
  have : (v >>> 8) &&& 255 = (v >>> 8) % 256 := Nat.and_pow_two_sub_one_eq_mod (v >>> 8) 8
  rw [this, Nat.mod_mod, Nat.shiftRight_eq_div_pow]

theorem rd_put_le16_other (d : Buf) (off v j : Nat) (h1 : j ≠ off) (h2 : j ≠ off + 1) :
    rd (put_le16 d off v) j = rd d j := by
  unfold put_le16
  rw [rd_wr_other _ _ _ _ h2, rd_wr_other _ _ _ _ h1]

theorem le16_join (a b : Nat) (ha : a < 256) (hb : b < 256) :
    (a ||| (b <<< 8)) % 2 ^ 16 = a + b * 256 := by
  have h := Nat.mul_add_lt_is_or (i := 8) (b := a) (by omega) b
  rw [Nat.shiftLeft_eq, Nat.lor_comm, Nat.mul_comm b (2 ^ 8), ← h]
  omega

theorem get_le16_bytes (d : Buf) (off : Nat) :
    get_le16 d off = rd d off + rd d (off + 1) * 256 := by
  unfold get_le16
  exact le16_join _ _ (Nat.mod_lt _ (by omega)) (Nat.mod_lt _ (by omega))

/-- Reading back a 16-bit value that `put_le16` stored. -/
theorem get_le16_put_le16 (d : Buf) (off v : Nat) (hv : v < 65536) :
    get_le16 (put_le16 d off v) off = v := by
  rw [get_le16_bytes, rd_put_le16_lo, rd_put_le16_hi]
  omega

theorem le32_join (a b c e : Nat) (ha : a < 256) (hb : b < 256) (hc : c < 256)
    (he : e < 256) :
    (a ||| (b <<< 8) ||| (c <<< 16) ||| (e <<< 24)) % 2 ^ 32
      = a + b * 256 + c * 65536 + e * 16777216 := by
  have h1 := Nat.mul_add_lt_is_or (i := 8) (b := a) (by omega) b
  have h2 := Nat.mul_add_lt_is_or (i := 16) (b := a + b * 256) (by omega) c
  have h3 := Nat.mul_add_lt_is_or (i := 24) (b := a + b * 256 + c * 65536) (by omega) e
  have e1 : a ||| (b <<< 8) = a + b * 256 := by
    rw [Nat.shiftLeft_eq, Nat.lor_comm, Nat.mul_comm b (2 ^ 8), ← h1]; omega
  have e2 : (a + b * 256) ||| (c <<< 16) = a + b * 256 + c * 65536 := by
    rw [Nat.shiftLeft_eq, Nat.lor_comm, Nat.mul_comm c (2 ^ 16), ← h2]; omega
  have e3 : (a + b * 256 + c * 65536) ||| (e <<< 24)
      = a + b * 256 + c * 65536 + e * 16777216 := by
    rw [Nat.shiftLeft_eq, Nat.lor_comm, Nat.mul_comm e (2 ^ 24), ← h3]; omega
  rw [e1, e2, e3]
  omega

theorem print_data_loop_bytes (data : Buf) (bs : List Nat) :
    ∀ ii, (∀ k, k < bs.length → data (ii + k) = bs.getD k 0) → (∀ b ∈ bs, b < 256) →
      print_data_loop data bs.length ii = hex_dump bs ii := by
  induction bs with
  | nil => intro ii _ _; rfl
  | cons b bs ih =>
    intro ii h hb
    have hb0 : b < 256 := hb b (List.mem_cons_self _ _)
    have h0 : rd data ii = b := by
      have := h 0 (by simp)
      simp only [Nat.add_zero, List.getD_cons_zero] at this
      rw [rd, this, Nat.mod_eq_of_lt hb0]
    have ih' := ih (ii + 1)
      (fun k hk => by
        have := h (k + 1) (by simp only [List.length_cons]; omega)
        rw [show ii + 1 + k = ii + (k + 1) by omega, this]
        simp only [List.getD_cons_succ])
      (fun c hc => hb c (List.mem_cons_of_mem _ hc))
    have a1 : b >>> 4 = b / 16 := Nat.shiftRight_eq_div_pow b 4
    have a2 : b &&& 15 = b % 16 := Nat.and_pow_two_sub_one_eq_mod b 4
    simp only [List.length_cons, print_data_loop, hex_dump, h0, ih', a1, a2]
    rw [String.append_assoc _ (fmt_c _) (fmt_c _)]
    rfl

theorem pairs_bytes_lt (ps : List (List Char × Char × Char)) (hv : pairs_valid ps = true) :
    ∀ b ∈ ps.map pair_byte, b < 256 := by
  induction ps with
  | nil => intro b hb; simp at hb
  | cons p ps ih =>
    obtain ⟨ws, hi, lo⟩ := p
    simp only [pairs_valid, Bool.and_eq_true] at hv
    obtain ⟨⟨⟨_, hhi⟩, hlo⟩, hps⟩ := hv
    intro b hb
    simp only [List.map_cons, List.mem_cons] at hb
    rcases hb with rfl | hb
    · exact pair_byte_lt (ws, hi, lo) hhi hlo
    · exact ih hps b hb

/-- The captured length of the line
`00000001 1.000000 S Co:1:002:0 s 20 00 0000 0000 0003 3 = 030c00`. -/
theorem C7_captured_length_witness :
    (parse_usbmon (init_hex hextab_zero)
      "00000001 1.000000 S Co:1:002:0 s 20 00 0000 0000 0003 3 = 030c00".toList
      mon_packet.zero (fun _ => 0) 4096).code = 0 ∧
    (parse_usbmon (init_hex hextab_zero)
      "00000001 1.000000 S Co:1:002:0 s 20 00 0000 0000 0003 3 = 030c00".toList
      mon_packet.zero (fun _ => 0) 4096).pkt.len_cap ≤ 4096 :=
  ⟨by with_unfolding_all decide,
   (C7_captured_length (init_hex hextab_zero)
      "00000001 1.000000 S Co:1:002:0 s 20 00 0000 0000 0003 3 = 030c00".toList
      mon_packet.zero (fun _ => 0) 4096 (by with_unfolding_all decide)).2.1⟩

/-- C9: when the sections before the payload accept a line with declared length n and stop
at a data block that is `=`, a space and n valid hex pairs (of either case, with any white
space between them), n between 1 and the buffer capacity, then after `init_hex` the line is
parsed with return value 0 and `len_cap = n`, the first n bytes of the buffer are the bytes
of the pairs, and `print_usbmon` writes these bytes in order as lowercase hex pairs. -/
theorem C9_payload_round_trip (hdr : List Char) (pkt pk : mon_packet) (q : Char)
    (ps : List (List Char × Char × Char)) (data : Buf) (data_len : Nat)
    (hh : parse_header (hdr ++ data_text (DataTokens.hex ps)) pkt
      = Stage.ok pk ⟨q, data_text (DataTokens.hex ps)⟩)
    (hn : pk.length = ps.length) (h1 : 1 ≤ ps.length) (hd : ps.length ≤ data_len)
    (hpv : pairs_valid ps = true) :
    (parse_usbmon (init_hex hextab_zero) (hdr ++ data_text (DataTokens.hex ps)) pkt data
      data_len).code = 0 ∧
    (parse_usbmon (init_hex hextab_zero) (hdr ++ data_text (DataTokens.hex ps)) pkt data
      data_len).pkt.len_cap = ps.length ∧
    (∀ k, k < ps.length →
      (parse_usbmon (init_hex hextab_zero) (hdr ++ data_text (DataTokens.hex ps)) pkt data
        data_len).data k = (ps.map pair_byte).getD k 0) ∧
    print_usbmon_data
      (parse_usbmon (init_hex hextab_zero) (hdr ++ data_text (DataTokens.hex ps)) pkt data
        data_len).pkt
      (parse_usbmon (init_hex hextab_zero) (hdr ++ data_text (DataTokens.hex ps)) pkt data
        data_len).data
      = " " ++ fmt_d_u32 ps.length ++ (" =" ++ hex_dump (ps.map pair_byte) 0) ∧
    ∃ head,
      print_usbmon
        (parse_usbmon (init_hex hextab_zero) (hdr ++ data_text (DataTokens.hex ps)) pkt data
          data_len).pkt
        (parse_usbmon (init_hex hextab_zero) (hdr ++ data_text (DataTokens.hex ps)) pkt data
          data_len).data
        = head ++ (" =" ++ hex_dump (ps.map pair_byte) 0) ++ "\n" := by
  have hvalid : (DataTokens.hex ps).valid pk.length data_len = true := by
    simp only [DataTokens.valid, hpv, Bool.true_and, decide_eq_true_eq]
    omega
  obtain ⟨data', hp, _, h3⟩ := parse_data_hex ps q pk data data_len hvalid
  have hr : parse_usbmon (init_hex hextab_zero) (hdr ++ data_text (DataTokens.hex ps)) pkt data
      data_len = ⟨0, data_packet pk (DataTokens.hex ps), data'⟩ := by
    unfold parse_usbmon
    rw [hh]
    exact hp
  rw [hr]
  have hloop := print_data_loop_bytes data' (ps.map pair_byte) 0
    (fun k hk => by rw [Nat.zero_add]; exact h3 k (by rwa [List.length_map] at hk))
    (pairs_bytes_lt ps hpv)
  rw [List.length_map] at hloop
  have hne : ¬ ps.length = 0 := by omega
  have hdata : print_usbmon_data (data_packet pk (DataTokens.hex ps)) data'
      = " " ++ fmt_d_u32 ps.length ++ (" =" ++ hex_dump (ps.map pair_byte) 0) := by
    simp only [print_usbmon_data, data_packet, hn, hne, if_false, ne_eq, not_true_eq_false,
      hloop, Nat.lt_irrefl, String.append_empty]
  refine ⟨rfl, rfl, h3, hdata, ?_⟩
  refine ⟨print_usbmon_head (data_packet pk (DataTokens.hex ps))
    ++ print_usbmon_status (data_packet pk (DataTokens.hex ps)) ++ " "
    ++ fmt_d_u32 ps.length, ?_⟩
  unfold print_usbmon
  rw [hdata]
  simp only [String.append_assoc]

/-- The payload of the line `00000001 1.000000 C Bi:1:002:2 0 4 = 0A0b 0C 0d`: upper and
lower case digits, a group of two pairs and two single pairs. -/
theorem C9_payload_round_trip_witness :
    header_text
        ⟨"00000001".toList, "1".toList, some "000000".toList, 'C', 'B', 'i', "1".toList,
          "002".toList, "2".toList, StatusTokens.numeric false "0".toList [] [] [],
          "4".toList⟩
      ++ data_text (DataTokens.hex [([], '0', 'A'), ([], '0', 'b'), ([' '], '0', 'C'),
          ([' '], '0', 'd')])
      = "00000001 1.000000 C Bi:1:002:2 0 4 = 0A0b 0C 0d".toList ∧
    [([], '0', 'A'), ([], '0', 'b'), ([' '], '0', 'C'), ([' '], '0', 'd')].map pair_byte
      = [0x0a, 0x0b, 0x0c, 0x0d] ∧
    hex_dump [0x0a, 0x0b, 0x0c, 0x0d] 0 = " 0a0b0c0d" ∧
    (parse_usbmon (init_hex hextab_zero)
      (header_text
          ⟨"00000001".toList, "1".toList, some "000000".toList, 'C', 'B', 'i', "1".toList,
            "002".toList, "2".toList, StatusTokens.numeric false "0".toList [] [] [],
            "4".toList⟩
        ++ data_text (DataTokens.hex [([], '0', 'A'), ([], '0', 'b'), ([' '], '0', 'C'),
            ([' '], '0', 'd')]))
      mon_packet.zero (fun _ => 0) 4096).pkt.len_cap = 4 :=
  ⟨by decide, by decide, by decide,
   (C9_payload_round_trip
      (header_text
        ⟨"00000001".toList, "1".toList, some "000000".toList, 'C', 'B', 'i', "1".toList,
          "002".toList, "2".toList, StatusTokens.numeric false "0".toList [] [] [],
          "4".toList⟩)
      mon_packet.zero
      (header_packet
        ⟨"00000001".toList, "1".toList, some "000000".toList, 'C', 'B', 'i', "1".toList,
          "002".toList, "2".toList, StatusTokens.numeric false "0".toList [] [] [],
          "4".toList⟩ mon_packet.zero)
      (last_char NUL "4".toList)
      [([], '0', 'A'), ([], '0', 'b'), ([' '], '0', 'C'), ([' '], '0', 'd')]
      (fun _ => 0) 4096
      (parse_header_tokens
        ⟨"00000001".toList, "1".toList, some "000000".toList, 'C', 'B', 'i', "1".toList,
          "002".toList, "2".toList, StatusTokens.numeric false "0".toList [] [] [],
          "4".toList⟩ _ mon_packet.zero (by decide))
      (by decide) (by decide) (by decide) (by decide)).2.1⟩

/-! ## Classification of an HCI command line -/

theorem setup_bytes_hci (s : Buf) (w : Nat) :
    rd (setup_bytes s 0x20 0 0 0 w) 0 = 0x20 ∧ rd (setup_bytes s 0x20 0 0 0 w) 1 = 0 ∧
    rd (setup_bytes s 0x20 0 0 0 w) 2 = 0 ∧ rd (setup_bytes s 0x20 0 0 0 w) 3 = 0 ∧
    rd (setup_bytes s 0x20 0 0 0 w) 4 = 0 ∧ rd (setup_bytes s 0x20 0 0 0 w) 5 = 0 := by
  unfold setup_bytes
  refine ⟨?_, ?_, ?_, ?_, ?_, ?_⟩
  · rw [rd_put_le16_other _ _ _ _ (by omega) (by omega),
      rd_put_le16_other _ _ _ _ (by omega) (by omega),
      rd_put_le16_other _ _ _ _ (by omega) (by omega),
      rd_wr_other _ _ _ _ (by omega), rd_wr_same]
  · rw [rd_put_le16_other _ _ _ _ (by omega) (by omega),
      rd_put_le16_other _ _ _ _ (by omega) (by omega),
      rd_put_le16_other _ _ _ _ (by omega) (by omega), rd_wr_same]
  · rw [rd_put_le16_other _ _ _ _ (by omega) (by omega),
      rd_put_le16_other _ _ _ _ (by omega) (by omega), rd_put_le16_lo]
  · rw [rd_put_le16_other _ _ _ _ (by omega) (by omega),
      rd_put_le16_other _ _ _ _ (by omega) (by omega), rd_put_le16_hi]
  · rw [rd_put_le16_other _ _ _ _ (by omega) (by omega), rd_put_le16_lo]
  · rw [rd_put_le16_other _ _ _ _ (by omega) (by omega), rd_put_le16_hi]

/-- Counterexample to C10 as stated: the line of Scenario A ends after the declared length 4, so
`parse_usbmon` returns 21 and the driver writes the diagnostic line alone; and the same
line completed with a data block is parsed but, being of direction `i`, is not handed to any
decoder. -/
theorem C10_counterexample :
    (parse_usbmon (init_hex hextab_zero)
      "00000001 1.000000 S Ci:0:0:0 s 20 00 0000 0000 0000 4".toList
      mon_packet.zero (fun _ => 0) 4096).code = 21 ∧
    (process_line (init_hex hextab_zero) Tables.empty mon_packet.zero (fun _ => 0)
      "00000001 1.000000 S Ci:0:0:0 s 20 00 0000 0000 0000 4".toList).out
      = [Out.text " .. parse failure 21\n"] ∧
    (parse_usbmon (init_hex hextab_zero)
      "00000001 1.000000 S Ci:0:0:0 s 20 00 0000 0000 0000 4 = 00000000".toList
      mon_packet.zero (fun _ => 0) 4096).code = 0 ∧
    (process_line (init_hex hextab_zero) Tables.empty mon_packet.zero (fun _ => 0)
      "00000001 1.000000 S Ci:0:0:0 s 20 00 0000 0000 0000 4 = 00000000".toList).out
      = [Out.text "0000000000000001 1.000000 S Ci:0:000:0 s 20 00 0000 0000 0000 4 = 00000000\n"]
    := by
  with_unfolding_all decide

/-- C10, amended: every line built from valid tokens that is a submission (`S`) of a control
transfer (`C`) of direction `o` on endpoint 0 with the setup block
`s 20 00 0000 0000 <wLength>` and a data block of hex pairs is parsed with return value 0 and
handed by `print_bluetooth` to the HCI command decoder, with the tables unchanged; when its
first two payload bytes are 00 00 the decoder writes `HCI_NoOp`. -/
theorem C10_hci_command (t : LineTokens) (ps : List (List Char × Char × Char))
    (wlen : List Char) (st : Tables) (pkt : mon_packet) (data : Buf) (data_len : Nat)
    (hv : t.valid = true) (hph : t.phase = 'S') (hk : t.kind = 'C') (hdir : t.dir = 'o')
    (hep : digits_val 10 t.ep = 0)
    (hst : t.status
      = StatusTokens.setup "20".toList "00".toList "0000".toList "0000".toList wlen)
    (hd : (DataTokens.hex ps).valid (digits_val 10 t.len) data_len = true) :
    (parse_usbmon (init_hex hextab_zero) (line_text t (DataTokens.hex ps)) pkt data
      data_len).code = 0 ∧
    print_bluetooth st
      (parse_usbmon (init_hex hextab_zero) (line_text t (DataTokens.hex ps)) pkt data
        data_len).pkt
      (parse_usbmon (init_hex hextab_zero) (line_text t (DataTokens.hex ps)) pkt data
        data_len).data
      = (st, [Out.call Decoder.hci_command 0 ps.length, Out.text "\n"]) ∧
    (2 ≤ ps.length → (ps.map pair_byte).getD 0 0 = 0 → (ps.map pair_byte).getD 1 0 = 0 →
      print_hci_command
        (parse_usbmon (init_hex hextab_zero) (line_text t (DataTokens.hex ps)) pkt data
          data_len).data ps.length = "  HCI_NoOp\n") := by
  obtain ⟨h0, h1, _, h3⟩ := parse_usbmon_tokens t (DataTokens.hex ps) pkt data data_len hv hd
  refine ⟨h0, ?_, ?_⟩
  · rw [h1]
    obtain ⟨id, ts, usec, phase, kind, dir, bus, dev, ep, status, len⟩ := t
    simp only at hph hk hdir hep hst
    subst hph hk hdir hst
    obtain ⟨r0, r1, r2, r3, r4, r5⟩ := setup_bytes_hci pkt.setup (digits_val 16 wlen)
    have hcmd : is_hci_command (data_packet
        (header_packet ⟨id, ts, usec, 'S', 'C', 'o', bus, dev, ep,
          StatusTokens.setup "20".toList "00".toList "0000".toList "0000".toList wlen, len⟩ pkt)
        (DataTokens.hex ps)) = true := by
      have e1 : digits_val 16 "20".toList = 0x20 := by decide
      have e2 : digits_val 16 "00".toList = 0 := by decide
      have e3 : digits_val 16 "0000".toList = 0 := by decide
      have e4 : ¬ ('o' = 'i') := by decide
      have e5 : kind_code 'C' = XFER_CTRL := by decide
      simp only [is_hci_command, data_packet, header_packet, status_packet, e1, e2, e3, e4, e5,
        hep, if_false, r0, r1, r2, r3, r4, r5, Nat.or_self, true_or, and_self, decide_True]
    rw [print_bluetooth, if_pos hcmd]
    rfl
  · intro h2 b0 b1
    have d0 := h3 0 (by simp only [payload_bytes, List.length_map]; omega)
    have d1 := h3 1 (by simp only [payload_bytes, List.length_map]; omega)
    simp only [payload_bytes] at d0 d1
    rw [b0] at d0
    rw [b1] at d1
    have hop : get_le16 (parse_usbmon (init_hex hextab_zero)
        (line_text t (DataTokens.hex ps)) pkt data data_len).data 0 = 0 := by
      rw [get_le16_bytes]
      simp only [rd, d0, d1]
    simp only [print_hci_command, hop, if_true]

/-- The classification of the line
`00000001 1.000000 S Co:1:002:0 s 20 00 0000 0000 0003 3 = 000000`. -/
theorem C10_hci_command_witness :
    line_text
      ⟨"00000001".toList, "1".toList, some "000000".toList, 'S', 'C', 'o', "1".toList,
        "002".toList, "0".toList,
        StatusTokens.setup "20".toList "00".toList "0000".toList "0000".toList "0003".toList,
        "3".toList⟩
      (DataTokens.hex [([], '0', '0'), ([], '0', '0'), ([], '0', '0')])
      = "00000001 1.000000 S Co:1:002:0 s 20 00 0000 0000 0003 3 = 000000".toList ∧
    print_bluetooth Tables.empty
      (parse_usbmon (init_hex hextab_zero)
        (line_text
          ⟨"00000001".toList, "1".toList, some "000000".toList, 'S', 'C', 'o', "1".toList,
            "002".toList, "0".toList,
            StatusTokens.setup "20".toList "00".toList "0000".toList "0000".toList
              "0003".toList, "3".toList⟩
          (DataTokens.hex [([], '0', '0'), ([], '0', '0'), ([], '0', '0')]))
        mon_packet.zero (fun _ => 0) 4096).pkt
      (parse_usbmon (init_hex hextab_zero)
        (line_text
          ⟨"00000001".toList, "1".toList, some "000000".toList, 'S', 'C', 'o', "1".toList,
            "002".toList, "0".toList,
            StatusTokens.setup "20".toList "00".toList "0000".toList "0000".toList
              "0003".toList, "3".toList⟩
          (DataTokens.hex [([], '0', '0'), ([], '0', '0'), ([], '0', '0')]))
        mon_packet.zero (fun _ => 0) 4096).data
      = (Tables.empty, [Out.call Decoder.hci_command 0 3, Out.text "\n"]) ∧
    print_hci_command
      (parse_usbmon (init_hex hextab_zero)
        (line_text
          ⟨"00000001".toList, "1".toList, some "000000".toList, 'S', 'C', 'o', "1".toList,
            "002".toList, "0".toList,
            StatusTokens.setup "20".toList "00".toList "0000".toList "0000".toList
              "0003".toList, "3".toList⟩
          (DataTokens.hex [([], '0', '0'), ([], '0', '0'), ([], '0', '0')]))
        mon_packet.zero (fun _ => 0) 4096).data 3 = "  HCI_NoOp\n" :=
  ⟨by decide,
   (C10_hci_command
      ⟨"00000001".toList, "1".toList, some "000000".toList, 'S', 'C', 'o', "1".toList,
        "002".toList, "0".toList,
        StatusTokens.setup "20".toList "00".toList "0000".toList "0000".toList "0003".toList,
        "3".toList⟩
      [([], '0', '0'), ([], '0', '0'), ([], '0', '0')] "0003".toList Tables.empty
      mon_packet.zero (fun _ => 0) 4096 (by decide) rfl rfl rfl (by decide) rfl
      (by decide)).2.1,
   (C10_hci_command
      ⟨"00000001".toList, "1".toList, some "000000".toList, 'S', 'C', 'o', "1".toList,
        "002".toList, "0".toList,
        StatusTokens.setup "20".toList "00".toList "0000".toList "0000".toList "0003".toList,
        "3".toList⟩
      [([], '0', '0'), ([], '0', '0'), ([], '0', '0')] "0003".toList Tables.empty
      mon_packet.zero (fun _ => 0) 4096 (by decide) rfl rfl rfl (by decide) rfl
      (by decide)).2.2 (by decide) (by decide) (by decide)⟩

/-! ## The three rules of the classifier -/

theorem cfg_option_loop_text (data : Buf) (base limit : Nat) :
    ∀ fuel ii, ∀ o ∈ cfg_option_loop data base limit fuel ii, ∃ s, o = Out.text s := by
  intro fuel
  induction fuel with
  | zero => intro ii o ho; simp [cfg_option_loop] at ho
  | succ n ih =>
    intro ii o ho
    unfold cfg_option_loop at ho
    by_cases h : u32sub ii base < limit
    · rw [if_pos h, List.mem_append] at ho
      rcases ho with ho | ho
      · unfold print_l2cap_config_options at ho
        simp only [List.mem_cons, List.mem_singleton, List.not_mem_nil, or_false] at ho
        rcases ho with ho | ho <;> exact ⟨_, ho⟩
      · exact ih _ o ho
    · rw [if_neg h] at ho
      simp at ho

theorem print_l2cap_signaling_text (st : Tables) (d : Buf) (lim : Nat) :
    ∀ o ∈ (print_l2cap_signaling st d lim).2, ∃ s, o = Out.text s := by
  have hc := cfg_option_loop_text d
  unfold print_l2cap_signaling
  simp only [L2CAP_CMD_REJECT, L2CAP_CMD_CONN_REQ, L2CAP_CMD_CONN_RESP, L2CAP_CMD_CFG_REQ,
    L2CAP_CMD_CFG_RESP, L2CAP_CMD_DISCONN_REQ, L2CAP_CMD_DISCONN_RESP, L2CAP_CMD_INFO_REQ,
    L2CAP_CMD_INFO_RESP]
  by_cases h1 : rd d 8 = 1
  · simp only [h1, if_true, if_false, Nat.reduceEqDiff]; simp
  by_cases h2 : rd d 8 = 2
  · simp only [h2, if_true, if_false, Nat.reduceEqDiff]; simp
  by_cases h3 : rd d 8 = 3
  · simp only [h3, if_true, if_false, Nat.reduceEqDiff]; simp
  by_cases h4 : rd d 8 = 4
  · simp only [h4, if_true, if_false, Nat.reduceEqDiff]
    intro o ho
    rcases List.mem_cons.1 ho with ho | ho
    · exact ⟨_, ho⟩
    · exact hc _ _ _ _ o ho
  by_cases h5 : rd d 8 = 5
  · simp only [h5, if_true, if_false, Nat.reduceEqDiff]
    intro o ho
    rcases List.mem_cons.1 ho with ho | ho
    · exact ⟨_, ho⟩
    · exact hc _ _ _ _ o ho
  by_cases h6 : rd d 8 = 6
  · simp only [h6, if_true, if_false, Nat.reduceEqDiff]; simp
  by_cases h7 : rd d 8 = 7
  · simp only [h7, if_true, if_false, Nat.reduceEqDiff]; simp
  by_cases h8 : rd d 8 = 10
  · simp only [h8, if_true, if_false, Nat.reduceEqDiff]; simp
  by_cases h9 : rd d 8 = 11
  · simp only [h9, if_true, if_false, Nat.reduceEqDiff]; simp
  simp only [h1, h2, h3, h4, h5, h6, h7, h8, h9, if_false]; simp

/-- No item written by `print_l2cap` is the output of an HCI decoder. -/
theorem print_l2cap_items (st : Tables) (data : Buf) (len : Nat) :
    ∀ o ∈ (print_l2cap st data len).2,
      (∀ a b, o ≠ Out.call Decoder.hci_command a b)
      ∧ (∀ a b, o ≠ Out.call Decoder.hci_event a b) := by
  unfold print_l2cap
  by_cases h1 : get_le16 data 6 = L2CAP_SIGNALING
  · simp only [h1, if_true]
    intro o ho
    obtain ⟨s, rfl⟩ := print_l2cap_signaling_text st data (l2cap_limit data len) o ho
    exact ⟨fun a b => by simp, fun a b => by simp⟩
  by_cases h2 : get_le16 data 6 ≥ L2CAP_DYNAMIC
  · simp only [h1, h2, if_true, if_false]
    unfold print_l2cap_user_data
    split_ifs
    all_goals
      intro o ho
      simp only [List.mem_singleton] at ho
      subst ho
      exact ⟨fun a b => by simp, fun a b => by simp⟩
  · simp only [h1, h2, if_false]
    intro o ho
    simp only [List.mem_singleton] at ho
    subst ho
    exact ⟨fun a b => by simp, fun a b => by simp⟩

theorem rules_exclusive (pkt : mon_packet) :
    ¬ (is_hci_command pkt = true ∧ is_hci_event pkt = true)
    ∧ ¬ (is_hci_command pkt = true ∧ is_l2cap pkt = true)
    ∧ ¬ (is_hci_event pkt = true ∧ is_l2cap pkt = true) := by
  simp only [is_hci_command, is_hci_event, is_l2cap, decide_eq_true_eq, XFER_CTRL, XFER_INTR,
    XFER_BULK]
  refine ⟨?_, ?_, ?_⟩ <;> (rintro ⟨h1, h2⟩; omega)


/-- The four forms of the result of `print_bluetooth`, by the condition that holds. -/
theorem print_bluetooth_cases (st : Tables) (pkt : mon_packet) (data : Buf) :
    (is_hci_command pkt = true →
      print_bluetooth st pkt data
        = (st, [Out.call Decoder.hci_command 0 pkt.len_cap, Out.text "\n"]))
    ∧ (is_hci_event pkt = true →
      print_bluetooth st pkt data
        = (st, [Out.call Decoder.hci_event 0 pkt.len_cap, Out.text "\n"]))
    ∧ (is_l2cap pkt = true →
      print_bluetooth st pkt data
        = ((print_l2cap st data pkt.len_cap).1,
            (print_l2cap st data pkt.len_cap).2 ++ [Out.text "\n"]))
    ∧ (is_hci_command pkt = false → is_hci_event pkt = false → is_l2cap pkt = false →
      print_bluetooth st pkt data = (st, [])) := by
  obtain ⟨e1, e2, e3⟩ := rules_exclusive pkt
  refine ⟨fun h => ?_, fun h => ?_, fun h => ?_, fun h1 h2 h3 => ?_⟩
  · rw [print_bluetooth, if_pos h]
  · have h1 : ¬ is_hci_command pkt = true := fun h1 => e1 ⟨h1, h⟩
    rw [print_bluetooth, if_neg h1, if_pos h]
  · have h1 : ¬ is_hci_command pkt = true := fun h1 => e2 ⟨h1, h⟩
    have h2 : ¬ is_hci_event pkt = true := fun h2 => e3 ⟨h2, h⟩
    rw [print_bluetooth, if_neg h1, if_neg h2, if_pos h]
  · rw [print_bluetooth, if_neg (by simp [h1]), if_neg (by simp [h2]), if_neg (by simp [h3])]

/-- The items that `print_bluetooth` writes under the third condition are those of
`print_l2cap` and a line feed: none is the output of an HCI decoder. -/
theorem l2cap_block_items (st : Tables) (data : Buf) (len : Nat) :
    ∀ o ∈ (print_l2cap st data len).2 ++ [Out.text "\n"],
      (∀ a b, o ≠ Out.call Decoder.hci_command a b)
      ∧ (∀ a b, o ≠ Out.call Decoder.hci_event a b) := by
  intro o ho
  rcases List.mem_append.1 ho with ho | ho
  · exact print_l2cap_items st data len o ho
  · simp only [List.mem_singleton] at ho
    subst ho
    exact ⟨fun a b => by simp, fun a b => by simp⟩

/-- The HCI command decoder is invoked exactly under the first condition. -/
theorem hci_command_call_iff (st : Tables) (pkt : mon_packet) (data : Buf) :
    (∃ a b, Out.call Decoder.hci_command a b ∈ (print_bluetooth st pkt data).2)
      ↔ is_hci_command pkt = true := by
  obtain ⟨c1, c2, c3, c4⟩ := print_bluetooth_cases st pkt data
  constructor
  · rintro ⟨a, b, h⟩
    by_contra h1
    by_cases h2 : is_hci_event pkt = true
    · rw [c2 h2] at h
      simp at h
    by_cases h3 : is_l2cap pkt = true
    · rw [c3 h3] at h
      exact (l2cap_block_items st data pkt.len_cap _ h).1 a b rfl
    · rw [c4 (by simpa using h1) (by simpa using h2) (by simpa using h3)] at h
      simp at h
  · intro h
    exact ⟨0, pkt.len_cap, by rw [c1 h]; simp⟩

/-- The HCI event decoder is invoked exactly under the second condition. -/
theorem hci_event_call_iff (st : Tables) (pkt : mon_packet) (data : Buf) :
    (∃ a b, Out.call Decoder.hci_event a b ∈ (print_bluetooth st pkt data).2)
      ↔ is_hci_event pkt = true := by
  obtain ⟨c1, c2, c3, c4⟩ := print_bluetooth_cases st pkt data
  constructor
  · rintro ⟨a, b, h⟩
    by_contra h2
    by_cases h1 : is_hci_command pkt = true
    · rw [c1 h1] at h
      simp at h
    by_cases h3 : is_l2cap pkt = true
    · rw [c3 h3] at h
      exact (l2cap_block_items st data pkt.len_cap _ h).2 a b rfl
    · rw [c4 (by simpa using h1) (by simpa using h2) (by simpa using h3)] at h
      simp at h
  · intro h
    exact ⟨0, pkt.len_cap, by rw [c2 h]; simp⟩

/-- The result of `print_bluetooth` is that of `print_l2cap`, closed by a line feed, exactly
under the third condition. -/
theorem l2cap_block_iff (st : Tables) (pkt : mon_packet) (data : Buf) :
    print_bluetooth st pkt data
        = ((print_l2cap st data pkt.len_cap).1,
            (print_l2cap st data pkt.len_cap).2 ++ [Out.text "\n"])
      ↔ is_l2cap pkt = true := by
  obtain ⟨c1, c2, c3, c4⟩ := print_bluetooth_cases st pkt data
  constructor
  · intro h
    by_contra h3
    have hi := l2cap_block_items st data pkt.len_cap
    by_cases h1 : is_hci_command pkt = true
    · rw [c1 h1] at h
      have := congrArg Prod.snd h
      simp only at this
      exact (hi (Out.call Decoder.hci_command 0 pkt.len_cap) (by rw [← this]; simp)).1 _ _ rfl
    by_cases h2 : is_hci_event pkt = true
    · rw [c2 h2] at h
      have := congrArg Prod.snd h
      simp only at this
      exact (hi (Out.call Decoder.hci_event 0 pkt.len_cap) (by rw [← this]; simp)).2 _ _ rfl
    · rw [c4 (by simpa using h1) (by simpa using h2) (by simpa using h3)] at h
      have := congrArg Prod.snd h
      simp at this
  · exact c3
/-- Counterexample to C16 as stated: the line
`00000001 1.000000 S Co:1:002:0 s 20 00 0000 0000 0003 3 >` is parsed into a submission of a
control transfer on endpoint 0 with the setup packet captured, request type 0x20, request 0
and all bytes of wValue and wIndex zero, yet `print_bluetooth` writes nothing for it: its
data block is the flag `>`, and the first condition also asks for `flag_data == 0`. -/
theorem C16_counterexample :
    (parse_usbmon (init_hex hextab_zero)
      "00000001 1.000000 S Co:1:002:0 s 20 00 0000 0000 0003 3 >".toList
      mon_packet.zero (fun _ => 0) 4096).code = 0 ∧
    (parse_usbmon (init_hex hextab_zero)
      "00000001 1.000000 S Co:1:002:0 s 20 00 0000 0000 0003 3 >".toList
      mon_packet.zero (fun _ => 0) 4096).pkt.type = 'S' ∧
    (parse_usbmon (init_hex hextab_zero)
      "00000001 1.000000 S Co:1:002:0 s 20 00 0000 0000 0003 3 >".toList
      mon_packet.zero (fun _ => 0) 4096).pkt.xfer_type = XFER_CTRL ∧
    (parse_usbmon (init_hex hextab_zero)
      "00000001 1.000000 S Co:1:002:0 s 20 00 0000 0000 0003 3 >".toList
      mon_packet.zero (fun _ => 0) 4096).pkt.epnum = 0 ∧
    (parse_usbmon (init_hex hextab_zero)
      "00000001 1.000000 S Co:1:002:0 s 20 00 0000 0000 0003 3 >".toList
      mon_packet.zero (fun _ => 0) 4096).pkt.flag_setup = NUL ∧
    (List.range 6).map (rd (parse_usbmon (init_hex hextab_zero)
      "00000001 1.000000 S Co:1:002:0 s 20 00 0000 0000 0003 3 >".toList
      mon_packet.zero (fun _ => 0) 4096).pkt.setup) = [0x20, 0, 0, 0, 0, 0] ∧
    (process_line (init_hex hextab_zero) Tables.empty mon_packet.zero (fun _ => 0)
      "00000001 1.000000 S Co:1:002:0 s 20 00 0000 0000 0003 3 >".toList).out
      = [Out.text "0000000000000001 1.000000 S Co:1:002:0 s 20 00 0000 0000 0003 3 >\n"] := by
  with_unfolding_all decide

/-- C16, amended: `print_bluetooth` invokes the HCI command decoder exactly when the event is
a submission (`S`) of a control transfer whose endpoint byte is 0 (endpoint number 0,
direction out), with the setup packet captured (`flag_setup == 0`), without a data flag
(`flag_data == 0`), with request type 0x20, request 0x00 or 0xE0 and the four bytes of
wValue and wIndex zero; it then writes the output of that decoder on the captured payload
and a line feed and leaves the tables alone.  An event whose setup packet was not captured
never reaches the HCI command decoder. -/
theorem C16_hci_command_rule (st : Tables) (pkt : mon_packet) (data : Buf) :
    ((∃ a b, Out.call Decoder.hci_command a b ∈ (print_bluetooth st pkt data).2)
      ↔ (pkt.type = 'S' ∧ pkt.xfer_type = XFER_CTRL ∧ pkt.epnum = 0
          ∧ pkt.flag_setup = NUL ∧ pkt.flag_data = NUL
          ∧ rd pkt.setup 0 = 0x20 ∧ (rd pkt.setup 1 = 0x00 ∨ rd pkt.setup 1 = 0xE0)
          ∧ rd pkt.setup 2 = 0 ∧ rd pkt.setup 3 = 0 ∧ rd pkt.setup 4 = 0 ∧ rd pkt.setup 5 = 0))
    ∧ ((∃ a b, Out.call Decoder.hci_command a b ∈ (print_bluetooth st pkt data).2) →
        print_bluetooth st pkt data
          = (st, [Out.call Decoder.hci_command 0 pkt.len_cap, Out.text "\n"]))
    ∧ (pkt.flag_setup ≠ NUL →
        ∀ a b, Out.call Decoder.hci_command a b ∉ (print_bluetooth st pkt data).2) := by
  have hiff := hci_command_call_iff st pkt data
  have hc : is_hci_command pkt = true
      ↔ (pkt.type = 'S' ∧ pkt.xfer_type = XFER_CTRL ∧ pkt.epnum = 0
          ∧ pkt.flag_setup = NUL ∧ pkt.flag_data = NUL
          ∧ rd pkt.setup 0 = 0x20 ∧ (rd pkt.setup 1 = 0x00 ∨ rd pkt.setup 1 = 0xE0)
          ∧ rd pkt.setup 2 = 0 ∧ rd pkt.setup 3 = 0 ∧ rd pkt.setup 4 = 0
          ∧ rd pkt.setup 5 = 0) := by
    simp only [is_hci_command, decide_eq_true_eq]
  refine ⟨hiff.trans hc, fun h => (print_bluetooth_cases st pkt data).1 (hiff.1 h), ?_⟩
  intro hs a b hmem
  exact hs (hc.1 (hiff.1 ⟨a, b, hmem⟩)).2.2.2.1

/-- The first rule on two records: the submission of an HCI command with three captured
payload bytes, and the same record with the setup packet not captured. -/
theorem C16_hci_command_rule_witness :
    print_bluetooth Tables.empty
      { mon_packet.zero with type := 'S', xfer_type := XFER_CTRL, len_cap := 3, length := 3,
                             setup := buf_of [0x20, 0, 0, 0, 0, 0, 3, 0] } (fun _ => 0)
      = (Tables.empty, [Out.call Decoder.hci_command 0 3, Out.text "\n"]) ∧
    (∀ a b, Out.call Decoder.hci_command a b ∉
      (print_bluetooth Tables.empty
        { mon_packet.zero with type := 'S', xfer_type := XFER_CTRL, len_cap := 3, length := 3,
                               flag_setup := '-',
                               setup := buf_of [0x20, 0, 0, 0, 0, 0, 3, 0] } (fun _ => 0)).2) :=
  ⟨(C16_hci_command_rule Tables.empty
      { mon_packet.zero with type := 'S', xfer_type := XFER_CTRL, len_cap := 3, length := 3,
                             setup := buf_of [0x20, 0, 0, 0, 0, 0, 3, 0] } (fun _ => 0)).2.1
      ⟨0, 3, by decide⟩,
   (C16_hci_command_rule Tables.empty
      { mon_packet.zero with type := 'S', xfer_type := XFER_CTRL, len_cap := 3, length := 3,
                             flag_setup := '-',
                             setup := buf_of [0x20, 0, 0, 0, 0, 0, 3, 0] } (fun _ => 0)).2.2
      (by decide)⟩

set_option maxRecDepth 100000 in
theorem epnum_input_bits :
    ∀ e < 256, (e ≥ 0x81 ↔ (e &&& 0x80 ≠ 0 ∧ 1 ≤ e &&& 127)) := by
  decide

/-- C17: `print_bluetooth` invokes the HCI event decoder exactly when the event is a
completion (`C`) of an interrupt transfer with endpoint byte at least 0x81, without a data
flag and with status 0; it then writes the output of that decoder on the captured payload
and a line feed and leaves the tables alone.  For an endpoint byte (below 256) the bound
0x81 says: direction in, endpoint number at least 1. -/
theorem C17_hci_event_rule (st : Tables) (pkt : mon_packet) (data : Buf) :
    ((∃ a b, Out.call Decoder.hci_event a b ∈ (print_bluetooth st pkt data).2)
      ↔ (pkt.type = 'C' ∧ pkt.xfer_type = XFER_INTR ∧ pkt.epnum ≥ 0x81
          ∧ pkt.flag_data = NUL ∧ pkt.status = 0))
    ∧ ((∃ a b, Out.call Decoder.hci_event a b ∈ (print_bluetooth st pkt data).2) →
        print_bluetooth st pkt data
          = (st, [Out.call Decoder.hci_event 0 pkt.len_cap, Out.text "\n"]))
    ∧ (pkt.epnum < 256 →
        (pkt.epnum ≥ 0x81 ↔ (PKT_INPUT pkt = true ∧ 1 ≤ pkt.epnum &&& 127))) := by
  have hiff := hci_event_call_iff st pkt data
  have hc : is_hci_event pkt = true
      ↔ (pkt.type = 'C' ∧ pkt.xfer_type = XFER_INTR ∧ pkt.epnum ≥ 0x81
          ∧ pkt.flag_data = NUL ∧ pkt.status = 0) := by
    simp only [is_hci_event, decide_eq_true_eq]
  refine ⟨hiff.trans hc, fun h => (print_bluetooth_cases st pkt data).2.1 (hiff.1 h), ?_⟩
  intro hlt
  simp only [PKT_INPUT, decide_eq_true_eq]
  exact epnum_input_bits _ hlt

/-- The second rule on the completion of an interrupt transfer on endpoint 1, direction in,
with 6 captured bytes. -/
theorem C17_hci_event_rule_witness :
    print_bluetooth Tables.empty
      { mon_packet.zero with type := 'C', xfer_type := XFER_INTR, epnum := 0x81, len_cap := 6,
                             length := 6 } (fun _ => 0)
      = (Tables.empty, [Out.call Decoder.hci_event 0 6, Out.text "\n"]) ∧
    ((0x81 : Nat) ≥ 0x81 ↔
      (PKT_INPUT { mon_packet.zero with type := 'C', xfer_type := XFER_INTR, epnum := 0x81,
                                        len_cap := 6, length := 6 } = true
        ∧ 1 ≤ 0x81 &&& 127)) :=
  ⟨(C17_hci_event_rule Tables.empty
      { mon_packet.zero with type := 'C', xfer_type := XFER_INTR, epnum := 0x81, len_cap := 6,
                             length := 6 } (fun _ => 0)).2.1 ⟨0, 6, by decide⟩,
   (C17_hci_event_rule Tables.empty
      { mon_packet.zero with type := 'C', xfer_type := XFER_INTR, epnum := 0x81, len_cap := 6,
                             length := 6 } (fun _ => 0)).2.2 (by decide)⟩

/-- C18: the result of `print_bluetooth` is that of `print_l2cap` on the captured payload,
closed by a line feed, exactly when the event is a bulk transfer with a non-zero endpoint
number, without a data flag, with declared length above 0, and of phase `C` when the
direction is in, `S` when it is out.  No event satisfies two of the three conditions, and
an event that satisfies none leaves the tables alone and writes nothing. -/
theorem C18_l2cap_rule (st : Tables) (pkt : mon_packet) (data : Buf) :
    (print_bluetooth st pkt data
        = ((print_l2cap st data pkt.len_cap).1,
            (print_l2cap st data pkt.len_cap).2 ++ [Out.text "\n"])
      ↔ (pkt.xfer_type = XFER_BULK ∧ pkt.epnum &&& 127 ≠ 0 ∧ pkt.flag_data = NUL
          ∧ pkt.length > 0
          ∧ ((pkt.epnum &&& 0x80 ≠ 0 ∧ pkt.type = 'C')
              ∨ (pkt.epnum &&& 0x80 = 0 ∧ pkt.type = 'S'))))
    ∧ ¬ ((∃ a b, Out.call Decoder.hci_command a b ∈ (print_bluetooth st pkt data).2)
          ∧ (∃ a b, Out.call Decoder.hci_event a b ∈ (print_bluetooth st pkt data).2))
    ∧ ((∃ a b, Out.call Decoder.hci_command a b ∈ (print_bluetooth st pkt data).2)
          ∨ (∃ a b, Out.call Decoder.hci_event a b ∈ (print_bluetooth st pkt data).2) →
        print_bluetooth st pkt data
          ≠ ((print_l2cap st data pkt.len_cap).1,
              (print_l2cap st data pkt.len_cap).2 ++ [Out.text "\n"]))
    ∧ (pkt.xfer_type ≠ XFER_CTRL → pkt.xfer_type ≠ XFER_INTR → pkt.xfer_type ≠ XFER_BULK →
        print_bluetooth st pkt data = (st, []))
    ∧ ((¬ ∃ a b, Out.call Decoder.hci_command a b ∈ (print_bluetooth st pkt data).2) →
        (¬ ∃ a b, Out.call Decoder.hci_event a b ∈ (print_bluetooth st pkt data).2) →
        print_bluetooth st pkt data
          ≠ ((print_l2cap st data pkt.len_cap).1,
              (print_l2cap st data pkt.len_cap).2 ++ [Out.text "\n"]) →
        print_bluetooth st pkt data = (st, [])) := by
  have h1 := hci_command_call_iff st pkt data
  have h2 := hci_event_call_iff st pkt data
  have h3 := l2cap_block_iff st pkt data
  obtain ⟨e1, e2, e3⟩ := rules_exclusive pkt
  obtain ⟨_, _, _, c4⟩ := print_bluetooth_cases st pkt data
  have hc : is_l2cap pkt = true
      ↔ (pkt.xfer_type = XFER_BULK ∧ pkt.epnum &&& 127 ≠ 0 ∧ pkt.flag_data = NUL
          ∧ pkt.length > 0
          ∧ ((pkt.epnum &&& 0x80 ≠ 0 ∧ pkt.type = 'C')
              ∨ (pkt.epnum &&& 0x80 = 0 ∧ pkt.type = 'S'))) := by
    simp only [is_l2cap, PKT_INPUT, decide_eq_true_eq]
    by_cases hin : pkt.epnum &&& 0x80 = 0
    · simp [hin, Nat.pos_iff_ne_zero]
    · simp [hin, Nat.pos_iff_ne_zero]
  refine ⟨h3.trans hc, ?_, ?_, ?_, ?_⟩
  · rintro ⟨a, b⟩
    exact e1 ⟨h1.1 a, h2.1 b⟩
  · rintro (a | b) h
    · exact e2 ⟨h1.1 a, h3.1 h⟩
    · exact e3 ⟨h2.1 b, h3.1 h⟩
  · intro k1 k2 k3
    apply c4
    · simp only [is_hci_command, decide_eq_false_iff_not]
      exact fun h => k1 h.2.1
    · simp only [is_hci_event, decide_eq_false_iff_not]
      exact fun h => k2 h.2.1
    · simp only [is_l2cap, decide_eq_false_iff_not]
      exact fun h => k3 h.1
  · intro n1 n2 n3
    apply c4
    · simpa using fun h => n1 (h1.2 h)
    · simpa using fun h => n2 (h2.2 h)
    · simpa using fun h => n3 (h3.2 h)

/-- The third rule on the completion of a bulk transfer on endpoint 2, direction in, that
carries a frame on channel 2 (neither the signaling channel nor a dynamic one). -/
theorem C18_l2cap_rule_witness :
    (print_bluetooth Tables.empty
      { mon_packet.zero with type := 'C', xfer_type := XFER_BULK, epnum := 0x82, len_cap := 8,
                             length := 8 } (buf_of [1, 0, 4, 0, 0, 0, 2, 0])).2
      = [Out.text "  Unhandled L2CAP fragment (Handle=0x1, L2CAP_Length=0, L2CAP_CID=2)\n",
         Out.text "\n"] ∧
    print_bluetooth Tables.empty { mon_packet.zero with xfer_type := 7 } (fun _ => 0)
      = (Tables.empty, []) :=
  ⟨(congrArg Prod.snd ((C18_l2cap_rule Tables.empty
      { mon_packet.zero with type := 'C', xfer_type := XFER_BULK, epnum := 0x82, len_cap := 8,
                             length := 8 } (buf_of [1, 0, 4, 0, 0, 0, 2, 0])).1.2
      (by decide))).trans (by decide),
   (C18_l2cap_rule Tables.empty { mon_packet.zero with xfer_type := 7 } (fun _ => 0)).2.2.2.1
      (by decide) (by decide) (by decide)⟩

/-! ## A device number that is not followed by a colon -/

theorem Stage.bind_fail (code : Nat) (p : mon_packet) (f : mon_packet → Cursor → Stage) :
    (Stage.fail code p).bind f = Stage.fail code p := rfl

/-- The number of characters that `strtol` in base 10 consumes of a digit string that is
followed by anything but a digit. -/
theorem strtol_dec_length (ds rest : List Char) (hn : is_number 10 ds = true)
    (hstop : isdigit (rest.getD 0 NUL) = false) :
    (strtol 10 (ds ++ rest)).2 = ds.length := by
  obtain ⟨d, ds', rfl, hds⟩ := is_number_cons 10 ds hn
  have hrest : ¬ digit_val (rest.getD 0 NUL) < 10 := by
    intro h
    rw [digit_val_isdigit _ h] at hstop
    exact absurd hstop (by decide)
  have hd36 : digit_val d < 36 :=
    Nat.lt_of_lt_of_le (hds d (List.mem_cons_self _ _)) (by omega)
  have hdsp := digit_val_not_space d hd36
  have hdsg := digit_not_sign d hd36
  have hscan := scan_digits_append 10 (d :: ds') rest hds hrest 0 0
  rw [List.cons_append] at hscan
  have hws : count_space (d :: (ds' ++ rest)) = 0 := by simp [count_space, hdsp]
  have h16 : ¬ ((10 : Nat) = 16) := by omega
  unfold strtol
  rw [List.cons_append]
  unfold strto_subject
  simp only [hws, List.drop_zero, List.getD_cons_zero, hdsg.1, hdsg.2, or_self, if_false,
    decide_False, h16, false_and, hscan]
  simp

/-- The section "Bus, device ID and actual endpoint" returns 9 when the device number is
not followed by a colon. -/
theorem parse_address_dev_fail (k d p : Char) (bus dev rest : List Char) (pkt : mon_packet)
    (hb : is_number 10 bus = true) (hbv : digits_val 10 bus < 65536)
    (hd : is_number 10 dev = true)
    (hrest : rest.getD 0 NUL ≠ ':' ∧ isdigit (rest.getD 0 NUL) = false) :
    parse_address pkt ⟨p, k :: d :: ':' :: (bus ++ ':' :: (dev ++ rest))⟩
      = Stage.fail 9 { pkt with busnum := digits_val 10 bus,
                                devnum := to_unsigned 8 (strtol 10 (dev ++ rest)).1 } := by
  simp only [parse_address]
  have h2 : ¬ (Cursor.mk p (k :: d :: ':' :: (bus ++ ':' :: (dev ++ rest)))).peek 2 ≠ ':' := by
    simp [Cursor.peek]
  have hadv3 : (Cursor.mk p (k :: d :: ':' :: (bus ++ ':' :: (dev ++ rest)))).adv 3
      = ⟨':', bus ++ ':' :: (dev ++ rest)⟩ := by
    simp [Cursor.adv]
  rw [if_neg h2, hadv3]
  simp only
  rw [strtol_plain 10 bus _ (by omega) hb (stop_colon _) (by omega)]
  simp only
  rw [adv_append ':' bus _ (is_number_ne_nil 10 bus hb)]
  have c1 : ¬ (¬ isdigit (last_char ':' bus) = true
      ∨ (Cursor.mk (last_char ':' bus) (':' :: (dev ++ rest))).peek 0 ≠ ':') := by
    simp [Cursor.peek, last_char_isdigit ':' bus hb]
  have a1 : (Cursor.mk (last_char ':' bus) (':' :: (dev ++ rest))).adv 1
      = ⟨':', dev ++ rest⟩ := by
    simp [Cursor.adv]
  rw [if_neg c1, a1]
  simp only
  rw [strtol_dec_length dev rest hd hrest.2, adv_append ':' dev _ (is_number_ne_nil 10 dev hd)]
  have c2 : ¬ isdigit (last_char ':' dev) = true
      ∨ (Cursor.mk (last_char ':' dev) rest).peek 0 ≠ ':' := Or.inr hrest.1
  rw [if_pos c2, to_unsigned_natCast 16 _ (by omega)]

/-- On a line whose tokens up to the bus number are valid and whose device number is not
followed by a colon, the sections before the payload return 9 with a record in which only
fields up to the device number are set. -/
theorem parse_header_dev_fail (id ts : List Char) (usec : Option (List Char))
    (phase kind dir : Char) (bus dev rest : List Char) (pkt : mon_packet)
    (hv : address_valid id ts usec phase kind dir bus = true)
    (hd : is_number 10 dev = true)
    (hrest : rest.getD 0 NUL ≠ ':' ∧ isdigit (rest.getD 0 NUL) = false) :
    ∃ pk, parse_header (address_text id ts usec phase kind dir bus dev ++ rest) pkt
        = Stage.fail 9 pk
      ∧ pk.length = pkt.length ∧ pk.len_cap = pkt.len_cap ∧ pk.flag_data = pkt.flag_data
      ∧ pk.flag_setup = pkt.flag_setup ∧ pk.status = pkt.status := by
  simp only [address_valid, Bool.and_eq_true, decide_eq_true_eq] at hv
  obtain ⟨⟨⟨⟨⟨⟨⟨⟨⟨hid, hidl⟩, hidv⟩, hts⟩, husec⟩, hph⟩, hkind⟩, hdir⟩, hbus⟩, hbusv⟩ := hv
  cases usec with
  | none =>
    simp only [decide_eq_true_eq] at husec
    have htxt : address_text id ts none phase kind dir bus dev ++ rest
        = id ++ ' ' :: (ts ++ ' ' :: phase :: ' ' :: kind :: dir :: ':' :: (bus ++ ':' ::
            (dev ++ rest))) := by
      simp [address_text, List.append_assoc]
    rw [htxt]
    simp only [parse_header]
    rw [parse_urb_id_tokens id _ pkt hid hidl hidv]
    simp only [Stage.bind_ok]
    rw [parse_timestamp_counter ts _ _ _ hts husec]
    simp only [Stage.bind_ok]
    rw [parse_event_type_tokens phase _ _ _ hph]
    simp only [Stage.bind_ok]
    rw [parse_xfer_tokens kind dir _ _ _ hkind hdir]
    simp only [Stage.bind_ok]
    rw [parse_address_dev_fail kind dir _ bus dev rest _ hbus hbusv hd hrest]
    simp only [Stage.bind_fail]
    exact ⟨_, rfl, rfl, rfl, rfl, rfl, rfl⟩
  | some us =>
    simp only [Bool.and_eq_true, decide_eq_true_eq] at husec
    obtain ⟨⟨htsv, hus⟩, husv⟩ := husec
    have htxt : address_text id ts (some us) phase kind dir bus dev ++ rest
        = id ++ ' ' :: (ts ++ '.' :: (us ++ ' ' :: phase :: ' ' :: kind :: dir :: ':' ::
            (bus ++ ':' :: (dev ++ rest)))) := by
      simp [address_text, List.append_assoc]
    rw [htxt]
    simp only [parse_header]
    rw [parse_urb_id_tokens id _ pkt hid hidl hidv]
    simp only [Stage.bind_ok]
    rw [parse_timestamp_seconds ts us _ _ _ hts htsv hus husv]
    simp only [Stage.bind_ok]
    rw [parse_event_type_tokens phase _ _ _ hph]
    simp only [Stage.bind_ok]
    rw [parse_xfer_tokens kind dir _ _ _ hkind hdir]
    simp only [Stage.bind_ok]
    rw [parse_address_dev_fail kind dir _ bus dev rest _ hbus hbusv hd hrest]
    simp only [Stage.bind_fail]
    exact ⟨_, rfl, rfl, rfl, rfl, rfl, rfl⟩

/-- The device number without its colon, on the lines that get that far: on every line whose
identifier (ending in a decimal digit), timestamp, phase, kind, direction and bus number are
valid tokens and whose device number (a string of decimal digits) is followed by anything
but a colon or another digit, `parse_usbmon` returns 9, the code of the device number, and
does not reach the length or the payload: it leaves the payload buffer and the fields
`length`, `len_cap` and `flag_data` of the record as they were; the driver writes the line
` .. parse failure 9` and nothing else, and leaves the tables alone. -/
theorem device_colon_code_nine (hextab : Nat → Nat) (st : Tables) (id ts : List Char)
    (usec : Option (List Char)) (phase kind dir : Char) (bus dev rest : List Char)
    (pkt : mon_packet) (data : Buf) (data_len : Nat)
    (hv : address_valid id ts usec phase kind dir bus = true)
    (hd : is_number 10 dev = true)
    (hrest : rest.getD 0 NUL ≠ ':' ∧ isdigit (rest.getD 0 NUL) = false) :
    (parse_usbmon hextab (address_text id ts usec phase kind dir bus dev ++ rest) pkt data
      data_len).code = 9
    ∧ (parse_usbmon hextab (address_text id ts usec phase kind dir bus dev ++ rest) pkt data
      data_len).data = data
    ∧ (parse_usbmon hextab (address_text id ts usec phase kind dir bus dev ++ rest) pkt data
      data_len).pkt.length = pkt.length
    ∧ (parse_usbmon hextab (address_text id ts usec phase kind dir bus dev ++ rest) pkt data
      data_len).pkt.len_cap = pkt.len_cap
    ∧ (parse_usbmon hextab (address_text id ts usec phase kind dir bus dev ++ rest) pkt data
      data_len).pkt.flag_data = pkt.flag_data
    ∧ (process_line hextab st pkt data
        (address_text id ts usec phase kind dir bus dev ++ rest)).out
        = [Out.text " .. parse failure 9\n"]
    ∧ (process_line hextab st pkt data
        (address_text id ts usec phase kind dir bus dev ++ rest)).tables = st
    ∧ (process_line hextab st pkt data
        (address_text id ts usec phase kind dir bus dev ++ rest)).data = data := by
  obtain ⟨pk, hp, h1, h2, h3, _, _⟩ :=
    parse_header_dev_fail id ts usec phase kind dir bus dev rest pkt hv hd hrest
  have hr : ∀ n, parse_usbmon hextab (address_text id ts usec phase kind dir bus dev ++ rest)
      pkt data n = ⟨9, pk, data⟩ := by
    intro n
    unfold parse_usbmon
    rw [hp]
  have h9 : ¬ ((9 : Nat) = 0) := by omega
  refine ⟨by rw [hr], by rw [hr], by rw [hr]; exact h1, by rw [hr]; exact h2,
    by rw [hr]; exact h3, ?_, ?_, ?_⟩
  · unfold process_line
    simp only [hr, h9, if_false]
    rfl
  · unfold process_line
    simp only [hr, h9, if_false]
  · unfold process_line
    simp only [hr, h9, if_false]

/-- The lines `00000001 1.000000 S Co:1:002 0 s 20 00 0000 0000 0000 0` (a space where the
colon should be) and `00000001 1000000 C Ii:1:002` (the line ends after the device number)
give the code 9. -/
theorem device_colon_code_nine_example :
    address_text "00000001".toList "1".toList (some "000000".toList) 'S' 'C' 'o' "1".toList
        "002".toList ++ " 0 s 20 00 0000 0000 0000 0".toList
      = "00000001 1.000000 S Co:1:002 0 s 20 00 0000 0000 0000 0".toList
    ∧ (process_line (init_hex hextab_zero) Tables.empty mon_packet.zero (fun _ => 0)
        (address_text "00000001".toList "1".toList (some "000000".toList) 'S' 'C' 'o'
          "1".toList "002".toList ++ " 0 s 20 00 0000 0000 0000 0".toList)).out
        = [Out.text " .. parse failure 9\n"]
    ∧ (parse_usbmon (init_hex hextab_zero)
        (address_text "00000001".toList "1000000".toList none 'C' 'I' 'i' "1".toList
          "002".toList ++ []) mon_packet.zero (fun _ => 0) 4096).code = 9 :=
  ⟨by decide,
   (device_colon_code_nine (init_hex hextab_zero) Tables.empty "00000001".toList "1".toList
      (some "000000".toList) 'S' 'C' 'o' "1".toList "002".toList
      " 0 s 20 00 0000 0000 0000 0".toList mon_packet.zero (fun _ => 0) 4096
      (by decide) (by decide) (by decide)).2.2.2.2.2.1,
   (device_colon_code_nine (init_hex hextab_zero) Tables.empty "00000001".toList "1000000".toList
      none 'C' 'I' 'i' "1".toList "002".toList [] mon_packet.zero (fun _ => 0) 4096
      (by decide) (by decide) (by decide)).1⟩

/-- C11 at a failing input: the line `0000000f 1.000000 S Co:1:002 0 s 20 00 0000 0000 0000 0`
has a well-formed identifier, timestamp, phase, kind, direction and bus number, and a space
where the colon after the device number should be.  `parse_usbmon` returns 1, the code of
the identifier, not 9, and the driver writes ` .. parse failure 1`: the identifier is read in
base 16 and its last character is then tested with `isdigit`, so a line whose identifier
ends in one of the digits a to f does not get to the check of the device number.  The same
line with the identifier `00000001` returns 9, leaves the payload buffer and the fields
`length`, `len_cap` and `flag_data` as they were, and gives ` .. parse failure 9`. -/
theorem C11_letter_identifier_hides_device_code :
    (parse_usbmon (init_hex hextab_zero)
      "0000000f 1.000000 S Co:1:002 0 s 20 00 0000 0000 0000 0".toList
      mon_packet.zero (fun _ => 0) 4096).code = 1
    ∧ (process_line (init_hex hextab_zero) Tables.empty mon_packet.zero (fun _ => 0)
      "0000000f 1.000000 S Co:1:002 0 s 20 00 0000 0000 0000 0".toList).out
      = [Out.text " .. parse failure 1\n"]
    ∧ (parse_usbmon (init_hex hextab_zero)
      "00000001 1.000000 S Co:1:002 0 s 20 00 0000 0000 0000 0".toList
      mon_packet.zero (fun _ => 0) 4096).code = 9
    ∧ (parse_usbmon (init_hex hextab_zero)
      "00000001 1.000000 S Co:1:002 0 s 20 00 0000 0000 0000 0".toList
      { mon_packet.zero with length := 5, len_cap := 4, flag_data := '<' }
      (buf_of [1, 2, 3, 4]) 4096).pkt.length = 5
    ∧ (parse_usbmon (init_hex hextab_zero)
      "00000001 1.000000 S Co:1:002 0 s 20 00 0000 0000 0000 0".toList
      { mon_packet.zero with length := 5, len_cap := 4, flag_data := '<' }
      (buf_of [1, 2, 3, 4]) 4096).pkt.len_cap = 4
    ∧ (parse_usbmon (init_hex hextab_zero)
      "00000001 1.000000 S Co:1:002 0 s 20 00 0000 0000 0000 0".toList
      { mon_packet.zero with length := 5, len_cap := 4, flag_data := '<' }
      (buf_of [1, 2, 3, 4]) 4096).pkt.flag_data = '<'
    ∧ (process_line (init_hex hextab_zero) Tables.empty mon_packet.zero (fun _ => 0)
      "00000001 1.000000 S Co:1:002 0 s 20 00 0000 0000 0000 0".toList).out
      = [Out.text " .. parse failure 9\n"] := by
  with_unfolding_all decide

/-! ## The line written for an HCI command -/

theorem digitChar_ne_nl : ∀ n < 16, Nat.digitChar n ≠ '\n' := by
  decide

theorem toDigitsCore_no_nl (b : Nat) (hb0 : 0 < b) (hb : b ≤ 16) :
    ∀ fuel n ds, (∀ c ∈ ds, c ≠ '\n') → ∀ c ∈ Nat.toDigitsCore b fuel n ds, c ≠ '\n' := by
  intro fuel
  induction fuel with
  | zero => intro n ds h c hc; exact h c (by simpa [Nat.toDigitsCore] using hc)
  | succ f ih =>
    intro n ds h c hc
    unfold Nat.toDigitsCore at hc
    have hd : ∀ c ∈ Nat.digitChar (n % b) :: ds, c ≠ '\n' := by
      intro c hc
      rcases List.mem_cons.1 hc with rfl | hc
      · exact digitChar_ne_nl _ (Nat.lt_of_lt_of_le (Nat.mod_lt _ hb0) hb)
      · exact h c hc
    by_cases h0 : n / b = 0
    · simp only [h0, if_true] at hc
      exact hd c hc
    · simp only [h0, if_false] at hc
      exact ih _ _ hd c hc

theorem toDigits_no_nl (b n : Nat) (hb0 : 0 < b) (hb : b ≤ 16) :
    ∀ c ∈ Nat.toDigits b n, c ≠ '\n' :=
  toDigitsCore_no_nl b hb0 hb _ _ _ (by simp)

theorem count_nl_zero (l : List Char) (h : ∀ c ∈ l, c ≠ '\n') : l.count '\n' = 0 :=
  List.count_eq_zero.2 (fun hm => h _ hm rfl)

theorem fmt_d_count (z : Int) : (fmt_d z).data.count '\n' = 0 := by
  apply count_nl_zero
  unfold fmt_d
  cases z with
  | ofNat n =>
    show ∀ c ∈ (Nat.repr n).data, c ≠ '\n'
    exact toDigits_no_nl 10 n (by omega) (by omega)
  | negSucc n =>
    show ∀ c ∈ ("-" ++ Nat.repr (n + 1)).data, c ≠ '\n'
    intro c hc
    rw [String.data_append, List.mem_append] at hc
    rcases hc with hc | hc
    · have : c = '-' := by simpa using hc
      rw [this]; decide
    · exact toDigits_no_nl 10 _ (by omega) (by omega) c hc

theorem fmt_d_u32_count (n : Nat) : (fmt_d_u32 n).data.count '\n' = 0 :=
  fmt_d_count _

theorem pad_left_no_nl (p : Char) (hp : p ≠ '\n') (w : Nat) (s : List Char)
    (h : ∀ c ∈ s, c ≠ '\n') : ∀ c ∈ pad_left p w s, c ≠ '\n' := by
  intro c hc
  unfold pad_left at hc
  rcases List.mem_append.1 hc with hc | hc
  · rw [(List.mem_replicate.1 hc).2]; exact hp
  · exact h c hc

theorem fmt_x_count (alt zero : Bool) (w n : Nat) : (fmt_x alt zero w n).data.count '\n' = 0 := by
  apply count_nl_zero
  unfold fmt_x
  have hlead : ∀ c ∈ (if alt = true ∧ n ≠ 0 then ['0', 'x'] else ([] : List Char)), c ≠ '\n' := by
    intro c hc
    split_ifs at hc
    · simp only [List.mem_cons, List.mem_singleton, List.not_mem_nil, or_false] at hc
      rcases hc with rfl | rfl <;> decide
    · simp at hc
  intro c hc
  cases zero with
  | true =>
    simp only [if_true] at hc
    rcases List.mem_append.1 hc with hc | hc
    · exact hlead c hc
    · exact pad_left_no_nl '0' (by decide) _ _ (toDigits_no_nl 16 n (by omega) (by omega)) c hc
  | false =>
    simp only [Bool.false_eq_true, if_false] at hc
    refine pad_left_no_nl ' ' (by decide) _ _ ?_ c hc
    intro c hc
    rcases List.mem_append.1 hc with hc | hc
    · exact hlead c hc
    · exact toDigits_no_nl 16 n (by omega) (by omega) c hc

theorem count_append_zero (a b : String) (ha : a.data.count '\n' = 0)
    (hb : b.data.count '\n' = 0) : (a ++ b).data.count '\n' = 0 := by
  rw [String.data_append, List.count_append, ha, hb]

theorem get_bt_addr_count (data : Buf) (off : Nat) :
    (get_bt_addr data off).data.count '\n' = 0 := by
  unfold get_bt_addr
  simp only [String.data_append, List.count_append, fmt_x_count]
  rfl

theorem one_line_append (p l : String) (hp : p.data.count '\n' = 0) (hl : one_line l) :
    one_line (p ++ l) := by
  obtain ⟨h1, h2⟩ := hl
  constructor
  · rw [String.data_append, List.count_append, hp, h1]
  · rw [String.data_append, List.getLast?_append, h2]
    rfl
theorem one_line_lit_append (p l : String) (hp : p.data.count '\n' = 0)
    (h1 : l.data.count '\n' = 1) (h2 : l.data.getLast? = some '\n') : one_line (p ++ l) :=
  one_line_append p l hp ⟨h1, h2⟩

/-- Every text that `print_hci_command` writes is one line. -/
theorem print_hci_command_one_line (data : Buf) (len : Nat) :
    one_line (print_hci_command data len) := by
  unfold print_hci_command
  show one_line (if get_le16 data 0 = 0 then _ else _)
  by_cases h0 : get_le16 data 0 = 0x0000
  · rw [if_pos h0]
    exact ⟨rfl, rfl⟩
  rw [if_neg h0]
  by_cases h1 : get_le16 data 0 = 0x0401
  · rw [if_pos h1]
    exact one_line_lit_append _ _ (count_append_zero _ _ (count_append_zero _ _
      (count_append_zero _ _ (count_append_zero _ _ (count_append_zero _ _ rfl (fmt_x_count _ _ _
      _)) rfl) (fmt_d_count _)) rfl) (fmt_d_count _)) rfl rfl
  rw [if_neg h1]
  by_cases h2 : get_le16 data 0 = 0x0402
  · rw [if_pos h2]
    exact ⟨rfl, rfl⟩
  rw [if_neg h2]
  by_cases h3 : get_le16 data 0 = 0x0405
  · rw [if_pos h3]
    exact one_line_lit_append _ _ (count_append_zero _ _ (count_append_zero _ _
      (count_append_zero _ _ (count_append_zero _ _ (count_append_zero _ _ (count_append_zero _ _
      (count_append_zero _ _ (count_append_zero _ _ (count_append_zero _ _ rfl (get_bt_addr_count
      _ _)) rfl) (fmt_x_count _ _ _ _)) rfl) (fmt_d_count _)) rfl) (fmt_d_count _)) rfl)
      (fmt_d_count _)) rfl rfl
  rw [if_neg h3]
  by_cases h4 : get_le16 data 0 = 0x0406
  · rw [if_pos h4]
    exact one_line_lit_append _ _ (count_append_zero _ _ (count_append_zero _ _
      (count_append_zero _ _ rfl (fmt_d_count _)) rfl) (fmt_d_count _)) rfl rfl
  rw [if_neg h4]
  by_cases h5 : get_le16 data 0 = 0x0409
  · rw [if_pos h5]
    exact one_line_lit_append _ _ (count_append_zero _ _ (count_append_zero _ _
      (count_append_zero _ _ rfl (get_bt_addr_count _ _)) rfl) (fmt_d_count _)) rfl rfl
  rw [if_neg h5]
  by_cases h6 : get_le16 data 0 = 0x040b
  · rw [if_pos h6]
    exact one_line_lit_append _ _ (count_append_zero _ _ (count_append_zero _ _
      (count_append_zero _ _ (count_append_zero _ _ (count_append_zero _ _ (count_append_zero _ _
      (count_append_zero _ _ (count_append_zero _ _ (count_append_zero _ _ rfl (get_bt_addr_count
      _ _)) rfl) (fmt_x_count _ _ _ _)) rfl) (fmt_x_count _ _ _ _)) rfl) (fmt_x_count _ _ _ _))
      rfl) (fmt_x_count _ _ _ _)) rfl rfl
  rw [if_neg h6]
  by_cases h7 : get_le16 data 0 = 0x040c
  · rw [if_pos h7]
    exact one_line_lit_append _ _ (count_append_zero _ _ rfl (get_bt_addr_count _ _)) rfl rfl
  rw [if_neg h7]
  by_cases h8 : get_le16 data 0 = 0x040d
  · rw [if_pos h8]
    exact one_line_lit_append _ _ (count_append_zero _ _ (count_append_zero _ _
      (count_append_zero _ _ (count_append_zero _ _ (count_append_zero _ _ (count_append_zero _ _
      (count_append_zero _ _ (count_append_zero _ _ (count_append_zero _ _ (count_append_zero _ _
      (count_append_zero _ _ rfl (get_bt_addr_count _ _)) rfl) (fmt_d_count _)) rfl) (fmt_x_count
      _ _ _ _)) rfl) (fmt_x_count _ _ _ _)) rfl) (fmt_x_count _ _ _ _)) rfl) (fmt_x_count _ _ _
      _)) rfl rfl
  rw [if_neg h8]
  by_cases h9 : get_le16 data 0 = 0x0411
  · rw [if_pos h9]
    exact one_line_lit_append _ _ (count_append_zero _ _ rfl (fmt_d_count _)) rfl rfl
  rw [if_neg h9]
  by_cases h10 : get_le16 data 0 = 0x0413
  · rw [if_pos h10]
    exact one_line_lit_append _ _ (count_append_zero _ _ rfl (get_bt_addr_count _ _)) rfl rfl
  rw [if_neg h10]
  by_cases h11 : get_le16 data 0 = 0x0419
  · rw [if_pos h11]
    exact one_line_lit_append _ _ (count_append_zero _ _ (count_append_zero _ _
      (count_append_zero _ _ (count_append_zero _ _ (count_append_zero _ _ rfl (get_bt_addr_count
      _ _)) rfl) (fmt_d_count _)) rfl) (fmt_d_count _)) rfl rfl
  rw [if_neg h11]
  by_cases h12 : get_le16 data 0 = 0x041b
  · rw [if_pos h12]
    exact one_line_lit_append _ _ (count_append_zero _ _ rfl (fmt_d_count _)) rfl rfl
  rw [if_neg h12]
  by_cases h13 : get_le16 data 0 = 0x041d
  · rw [if_pos h13]
    exact one_line_lit_append _ _ (count_append_zero _ _ rfl (fmt_d_count _)) rfl rfl
  rw [if_neg h13]
  by_cases h14 : get_le16 data 0 = 0x041f
  · rw [if_pos h14]
    exact one_line_lit_append _ _ (count_append_zero _ _ rfl (fmt_d_count _)) rfl rfl
  rw [if_neg h14]
  by_cases h15 : get_le16 data 0 = 0x0807
  · rw [if_pos h15]
    exact one_line_lit_append _ _ (count_append_zero _ _ (count_append_zero _ _
      (count_append_zero _ _ (count_append_zero _ _ (count_append_zero _ _ (count_append_zero _ _
      (count_append_zero _ _ (count_append_zero _ _ (count_append_zero _ _ (count_append_zero _ _
      (count_append_zero _ _ (count_append_zero _ _ (count_append_zero _ _ rfl (fmt_d_count _))
      rfl) (fmt_x_count _ _ _ _)) rfl) (fmt_d_count _)) rfl) (fmt_d_u32_count _)) rfl)
      (fmt_d_u32_count _)) rfl) (fmt_d_u32_count _)) rfl) (fmt_d_u32_count _)) rfl rfl
  rw [if_neg h15]
  by_cases h16 : get_le16 data 0 = 0x0809
  · rw [if_pos h16]
    exact one_line_lit_append _ _ (count_append_zero _ _ rfl (fmt_d_count _)) rfl rfl
  rw [if_neg h16]
  by_cases h17 : get_le16 data 0 = 0x080d
  · rw [if_pos h17]
    exact one_line_lit_append _ _ (count_append_zero _ _ (count_append_zero _ _
      (count_append_zero _ _ rfl (fmt_d_count _)) rfl) (fmt_x_count _ _ _ _)) rfl rfl
  rw [if_neg h17]
  by_cases h18 : get_le16 data 0 = 0x080e
  · rw [if_pos h18]
    exact ⟨rfl, rfl⟩
  rw [if_neg h18]
  by_cases h19 : get_le16 data 0 = 0x080f
  · rw [if_pos h19]
    exact one_line_lit_append _ _ (count_append_zero _ _ rfl (fmt_x_count _ _ _ _)) rfl rfl
  rw [if_neg h19]
  by_cases h20 : get_le16 data 0 = 0x0c01
  · rw [if_pos h20]
    exact one_line_lit_append _ _ (count_append_zero _ _ (count_append_zero _ _
      (count_append_zero _ _ rfl (fmt_x_count _ _ _ _)) rfl) (fmt_x_count _ _ _ _)) rfl rfl
  rw [if_neg h20]
  by_cases h21 : get_le16 data 0 = 0x0c03
  · rw [if_pos h21]
    exact ⟨rfl, rfl⟩
  rw [if_neg h21]
  by_cases h22 : get_le16 data 0 = 0x0c05
  · rw [if_pos h22]
    exact one_line_lit_append _ _ (count_append_zero _ _ (count_append_zero _ _
      (count_append_zero _ _ rfl (fmt_d_count _)) rfl) (fmt_d_count _)) rfl rfl
  rw [if_neg h22]
  by_cases h23 : get_le16 data 0 = 0x0c0d
  · rw [if_pos h23]
    exact one_line_lit_append _ _ (count_append_zero _ _ (count_append_zero _ _
      (count_append_zero _ _ rfl (get_bt_addr_count _ _)) rfl) (fmt_d_count _)) rfl rfl
  rw [if_neg h23]
  by_cases h24 : get_le16 data 0 = 0x0c14
  · rw [if_pos h24]
    exact ⟨rfl, rfl⟩
  rw [if_neg h24]
  by_cases h25 : get_le16 data 0 = 0x0c16
  · rw [if_pos h25]
    exact one_line_lit_append _ _ (count_append_zero _ _ rfl (fmt_d_count _)) rfl rfl
  rw [if_neg h25]
  by_cases h26 : get_le16 data 0 = 0x0c18
  · rw [if_pos h26]
    exact one_line_lit_append _ _ (count_append_zero _ _ rfl (fmt_d_count _)) rfl rfl
  rw [if_neg h26]
  by_cases h27 : get_le16 data 0 = 0x0c19
  · rw [if_pos h27]
    exact ⟨rfl, rfl⟩
  rw [if_neg h27]
  by_cases h28 : get_le16 data 0 = 0x0c1a
  · rw [if_pos h28]
    exact one_line_lit_append _ _ (count_append_zero _ _ rfl (fmt_d_count _)) rfl rfl
  rw [if_neg h28]
  by_cases h29 : get_le16 data 0 = 0x0c23
  · rw [if_pos h29]
    exact ⟨rfl, rfl⟩
  rw [if_neg h29]
  by_cases h30 : get_le16 data 0 = 0x0c24
  · rw [if_pos h30]
    exact one_line_lit_append _ _ (count_append_zero _ _ rfl (fmt_x_count _ _ _ _)) rfl rfl
  rw [if_neg h30]
  by_cases h31 : get_le16 data 0 = 0x0c25
  · rw [if_pos h31]
    exact ⟨rfl, rfl⟩
  rw [if_neg h31]
  by_cases h32 : get_le16 data 0 = 0x0c28
  · rw [if_pos h32]
    exact one_line_lit_append _ _ (count_append_zero _ _ (count_append_zero _ _
      (count_append_zero _ _ rfl (fmt_d_count _)) rfl) (fmt_d_count _)) rfl rfl
  rw [if_neg h32]
  by_cases h33 : get_le16 data 0 = 0x0c2d
  · rw [if_pos h33]
    exact one_line_lit_append _ _ (count_append_zero _ _ (count_append_zero _ _
      (count_append_zero _ _ rfl (fmt_d_count _)) rfl) (fmt_d_count _)) rfl rfl
  rw [if_neg h33]
  by_cases h34 : get_le16 data 0 = 0x0c36
  · rw [if_pos h34]
    exact one_line_lit_append _ _ (count_append_zero _ _ rfl (fmt_d_count _)) rfl rfl
  rw [if_neg h34]
  by_cases h35 : get_le16 data 0 = 0x0c37
  · rw [if_pos h35]
    exact one_line_lit_append _ _ (count_append_zero _ _ (count_append_zero _ _
      (count_append_zero _ _ rfl (fmt_d_count _)) rfl) (fmt_d_count _)) rfl rfl
  rw [if_neg h35]
  by_cases h36 : get_le16 data 0 = 0x1001
  · rw [if_pos h36]
    exact ⟨rfl, rfl⟩
  rw [if_neg h36]
  by_cases h37 : get_le16 data 0 = 0x1003
  · rw [if_pos h37]
    exact ⟨rfl, rfl⟩
  rw [if_neg h37]
  by_cases h38 : get_le16 data 0 = 0x1005
  · rw [if_pos h38]
    exact ⟨rfl, rfl⟩
  rw [if_neg h38]
  by_cases h39 : get_le16 data 0 = 0x1009
  · rw [if_pos h39]
    exact ⟨rfl, rfl⟩
  rw [if_neg h39]
  by_cases h40 : get_le16 data 0 = 0x1403
  · rw [if_pos h40]
    exact one_line_lit_append _ _ (count_append_zero _ _ rfl (fmt_d_count _)) rfl rfl
  rw [if_neg h40]
  by_cases h41 : get_le16 data 0 = 0x1405
  · rw [if_pos h41]
    exact one_line_lit_append _ _ (count_append_zero _ _ rfl (fmt_d_count _)) rfl rfl
  rw [if_neg h41]
  exact one_line_lit_append _ _ (count_append_zero _ _ (count_append_zero _ _ (count_append_zero
    _ _ (count_append_zero _ _ (count_append_zero _ _ rfl (fmt_x_count _ _ _ _)) rfl)
    (fmt_d_count _)) rfl) (fmt_d_count _)) rfl rfl
theorem names_command_append (s t : String) (h : names_command s) : names_command (s ++ t) := by
  obtain ⟨r, hr⟩ := h
  exact ⟨r ++ t.data, by rw [String.data_append, hr, List.append_assoc]⟩

/-- For an opcode that has a case, `print_hci_command` writes a line that begins with
`  HCI_`. -/
theorem print_hci_command_known (data : Buf) (len : Nat)
    (h : get_le16 data 0 ∈ hci_command_opcodes) :
    names_command (print_hci_command data len) := by
  unfold print_hci_command
  show names_command (if get_le16 data 0 = 0 then _ else _)
  by_cases h0 : get_le16 data 0 = 0x0000
  · rw [if_pos h0]
    exact ⟨_, rfl⟩
  rw [if_neg h0]
  by_cases h1 : get_le16 data 0 = 0x0401
  · rw [if_pos h1]
    exact (names_command_append _ _ (names_command_append _ _ (names_command_append _ _
      (names_command_append _ _ (names_command_append _ _ (names_command_append _ _ ⟨_,
      rfl⟩))))))
  rw [if_neg h1]
  by_cases h2 : get_le16 data 0 = 0x0402
  · rw [if_pos h2]
    exact ⟨_, rfl⟩
  rw [if_neg h2]
  by_cases h3 : get_le16 data 0 = 0x0405
  · rw [if_pos h3]
    exact (names_command_append _ _ (names_command_append _ _ (names_command_append _ _
      (names_command_append _ _ (names_command_append _ _ (names_command_append _ _
      (names_command_append _ _ (names_command_append _ _ (names_command_append _ _
      (names_command_append _ _ ⟨_, rfl⟩))))))))))
  rw [if_neg h3]
  by_cases h4 : get_le16 data 0 = 0x0406
  · rw [if_pos h4]
    exact (names_command_append _ _ (names_command_append _ _ (names_command_append _ _
      (names_command_append _ _ ⟨_, rfl⟩))))
  rw [if_neg h4]
  by_cases h5 : get_le16 data 0 = 0x0409
  · rw [if_pos h5]
    exact (names_command_append _ _ (names_command_append _ _ (names_command_append _ _
      (names_command_append _ _ ⟨_, rfl⟩))))
  rw [if_neg h5]
  by_cases h6 : get_le16 data 0 = 0x040b
  · rw [if_pos h6]
    exact (names_command_append _ _ (names_command_append _ _ (names_command_append _ _
      (names_command_append _ _ (names_command_append _ _ (names_command_append _ _
      (names_command_append _ _ (names_command_append _ _ (names_command_append _ _
      (names_command_append _ _ ⟨_, rfl⟩))))))))))
  rw [if_neg h6]
  by_cases h7 : get_le16 data 0 = 0x040c
  · rw [if_pos h7]
    exact (names_command_append _ _ (names_command_append _ _ ⟨_, rfl⟩))
  rw [if_neg h7]
  by_cases h8 : get_le16 data 0 = 0x040d
  · rw [if_pos h8]
    exact (names_command_append _ _ (names_command_append _ _ (names_command_append _ _
      (names_command_append _ _ (names_command_append _ _ (names_command_append _ _
      (names_command_append _ _ (names_command_append _ _ (names_command_append _ _
      (names_command_append _ _ (names_command_append _ _ (names_command_append _ _ ⟨_,
      rfl⟩))))))))))))
  rw [if_neg h8]
  by_cases h9 : get_le16 data 0 = 0x0411
  · rw [if_pos h9]
    exact (names_command_append _ _ (names_command_append _ _ ⟨_, rfl⟩))
  rw [if_neg h9]
  by_cases h10 : get_le16 data 0 = 0x0413
  · rw [if_pos h10]
    exact (names_command_append _ _ (names_command_append _ _ ⟨_, rfl⟩))
  rw [if_neg h10]
  by_cases h11 : get_le16 data 0 = 0x0419
  · rw [if_pos h11]
    exact (names_command_append _ _ (names_command_append _ _ (names_command_append _ _
      (names_command_append _ _ (names_command_append _ _ (names_command_append _ _ ⟨_,
      rfl⟩))))))
  rw [if_neg h11]
  by_cases h12 : get_le16 data 0 = 0x041b
  · rw [if_pos h12]
    exact (names_command_append _ _ (names_command_append _ _ ⟨_, rfl⟩))
  rw [if_neg h12]
  by_cases h13 : get_le16 data 0 = 0x041d
  · rw [if_pos h13]
    exact (names_command_append _ _ (names_command_append _ _ ⟨_, rfl⟩))
  rw [if_neg h13]
  by_cases h14 : get_le16 data 0 = 0x041f
  · rw [if_pos h14]
    exact (names_command_append _ _ (names_command_append _ _ ⟨_, rfl⟩))
  rw [if_neg h14]
  by_cases h15 : get_le16 data 0 = 0x0807
  · rw [if_pos h15]
    exact (names_command_append _ _ (names_command_append _ _ (names_command_append _ _
      (names_command_append _ _ (names_command_append _ _ (names_command_append _ _
      (names_command_append _ _ (names_command_append _ _ (names_command_append _ _
      (names_command_append _ _ (names_command_append _ _ (names_command_append _ _
      (names_command_append _ _ (names_command_append _ _ ⟨_, rfl⟩))))))))))))))
  rw [if_neg h15]
  by_cases h16 : get_le16 data 0 = 0x0809
  · rw [if_pos h16]
    exact (names_command_append _ _ (names_command_append _ _ ⟨_, rfl⟩))
  rw [if_neg h16]
  by_cases h17 : get_le16 data 0 = 0x080d
  · rw [if_pos h17]
    exact (names_command_append _ _ (names_command_append _ _ (names_command_append _ _
      (names_command_append _ _ ⟨_, rfl⟩))))
  rw [if_neg h17]
  by_cases h18 : get_le16 data 0 = 0x080e
  · rw [if_pos h18]
    exact ⟨_, rfl⟩
  rw [if_neg h18]
  by_cases h19 : get_le16 data 0 = 0x080f
  · rw [if_pos h19]
    exact (names_command_append _ _ (names_command_append _ _ ⟨_, rfl⟩))
  rw [if_neg h19]
  by_cases h20 : get_le16 data 0 = 0x0c01
  · rw [if_pos h20]
    exact (names_command_append _ _ (names_command_append _ _ (names_command_append _ _
      (names_command_append _ _ ⟨_, rfl⟩))))
  rw [if_neg h20]
  by_cases h21 : get_le16 data 0 = 0x0c03
  · rw [if_pos h21]
    exact ⟨_, rfl⟩
  rw [if_neg h21]
  by_cases h22 : get_le16 data 0 = 0x0c05
  · rw [if_pos h22]
    exact (names_command_append _ _ (names_command_append _ _ (names_command_append _ _
      (names_command_append _ _ ⟨_, rfl⟩))))
  rw [if_neg h22]
  by_cases h23 : get_le16 data 0 = 0x0c0d
  · rw [if_pos h23]
    exact (names_command_append _ _ (names_command_append _ _ (names_command_append _ _
      (names_command_append _ _ ⟨_, rfl⟩))))
  rw [if_neg h23]
  by_cases h24 : get_le16 data 0 = 0x0c14
  · rw [if_pos h24]
    exact ⟨_, rfl⟩
  rw [if_neg h24]
  by_cases h25 : get_le16 data 0 = 0x0c16
  · rw [if_pos h25]
    exact (names_command_append _ _ (names_command_append _ _ ⟨_, rfl⟩))
  rw [if_neg h25]
  by_cases h26 : get_le16 data 0 = 0x0c18
  · rw [if_pos h26]
    exact (names_command_append _ _ (names_command_append _ _ ⟨_, rfl⟩))
  rw [if_neg h26]
  by_cases h27 : get_le16 data 0 = 0x0c19
  · rw [if_pos h27]
    exact ⟨_, rfl⟩
  rw [if_neg h27]
  by_cases h28 : get_le16 data 0 = 0x0c1a
  · rw [if_pos h28]
    exact (names_command_append _ _ (names_command_append _ _ ⟨_, rfl⟩))
  rw [if_neg h28]
  by_cases h29 : get_le16 data 0 = 0x0c23
  · rw [if_pos h29]
    exact ⟨_, rfl⟩
  rw [if_neg h29]
  by_cases h30 : get_le16 data 0 = 0x0c24
  · rw [if_pos h30]
    exact (names_command_append _ _ (names_command_append _ _ ⟨_, rfl⟩))
  rw [if_neg h30]
  by_cases h31 : get_le16 data 0 = 0x0c25
  · rw [if_pos h31]
    exact ⟨_, rfl⟩
  rw [if_neg h31]
  by_cases h32 : get_le16 data 0 = 0x0c28
  · rw [if_pos h32]
    exact (names_command_append _ _ (names_command_append _ _ (names_command_append _ _
      (names_command_append _ _ ⟨_, rfl⟩))))
  rw [if_neg h32]
  by_cases h33 : get_le16 data 0 = 0x0c2d
  · rw [if_pos h33]
    exact (names_command_append _ _ (names_command_append _ _ (names_command_append _ _
      (names_command_append _ _ ⟨_, rfl⟩))))
  rw [if_neg h33]
  by_cases h34 : get_le16 data 0 = 0x0c36
  · rw [if_pos h34]
    exact (names_command_append _ _ (names_command_append _ _ ⟨_, rfl⟩))
  rw [if_neg h34]
  by_cases h35 : get_le16 data 0 = 0x0c37
  · rw [if_pos h35]
    exact (names_command_append _ _ (names_command_append _ _ (names_command_append _ _
      (names_command_append _ _ ⟨_, rfl⟩))))
  rw [if_neg h35]
  by_cases h36 : get_le16 data 0 = 0x1001
  · rw [if_pos h36]
    exact ⟨_, rfl⟩
  rw [if_neg h36]
  by_cases h37 : get_le16 data 0 = 0x1003
  · rw [if_pos h37]
    exact ⟨_, rfl⟩
  rw [if_neg h37]
  by_cases h38 : get_le16 data 0 = 0x1005
  · rw [if_pos h38]
    exact ⟨_, rfl⟩
  rw [if_neg h38]
  by_cases h39 : get_le16 data 0 = 0x1009
  · rw [if_pos h39]
    exact ⟨_, rfl⟩
  rw [if_neg h39]
  by_cases h40 : get_le16 data 0 = 0x1403
  · rw [if_pos h40]
    exact (names_command_append _ _ (names_command_append _ _ ⟨_, rfl⟩))
  rw [if_neg h40]
  by_cases h41 : get_le16 data 0 = 0x1405
  · rw [if_pos h41]
    exact (names_command_append _ _ (names_command_append _ _ ⟨_, rfl⟩))
  rw [if_neg h41]
  exfalso
  simp only [hci_command_opcodes, List.mem_cons, List.mem_singleton, List.not_mem_nil,
    or_false] at h
  omega

/-- For an opcode without a case, `print_hci_command` writes the generic line that names the
opcode, its upper 6 bits and its lower 10 bits. -/
theorem print_hci_command_unknown (data : Buf) (len : Nat)
    (h : get_le16 data 0 ∉ hci_command_opcodes) :
    print_hci_command data len
      = "  Unhandled HCI command with opcode " ++ fmt_x true true 4 (get_le16 data 0)
          ++ " (OGF " ++ fmt_d ((get_le16 data 0 / 1024 : Nat) : Int) ++ " OCF "
          ++ fmt_d ((get_le16 data 0 % 1024 : Nat) : Int) ++ ")\n" := by
  simp only [hci_command_opcodes, List.mem_cons, List.mem_singleton, List.not_mem_nil,
    or_false, not_or] at h
  obtain ⟨h0, h1, h2, h3, h4, h5, h6, h7, h8, h9, h10, h11, h12, h13, h14, h15, h16, h17, h18,
    h19, h20, h21, h22, h23, h24, h25, h26, h27, h28, h29, h30, h31, h32, h33, h34, h35, h36,
    h37, h38, h39, h40, h41⟩ := h
  unfold print_hci_command
  show (if get_le16 data 0 = 0 then _ else _) = _
  rw [if_neg h0, if_neg h1, if_neg h2, if_neg h3, if_neg h4, if_neg h5, if_neg h6, if_neg h7,
    if_neg h8, if_neg h9, if_neg h10, if_neg h11, if_neg h12, if_neg h13, if_neg h14, if_neg h15,
    if_neg h16, if_neg h17, if_neg h18, if_neg h19, if_neg h20, if_neg h21, if_neg h22, if_neg
    h23, if_neg h24, if_neg h25, if_neg h26, if_neg h27, if_neg h28, if_neg h29, if_neg h30,
    if_neg h31, if_neg h32, if_neg h33, if_neg h34, if_neg h35, if_neg h36, if_neg h37, if_neg
    h38, if_neg h39, if_neg h40, if_neg h41]
  rw [Nat.shiftRight_eq_div_pow, show (1023 : Nat) = 2 ^ 10 - 1 from rfl,
    Nat.and_pow_two_sub_one_eq_mod]

/-- C19: for every payload and captured length `print_hci_command` writes exactly one line
(one line feed, at the end), chosen by the opcode `data[0] + 256 * data[1]`: for an opcode
that has a case a line that begins with `  HCI_`; for every other opcode the line
`  Unhandled HCI command with opcode <opcode> (OGF <g> OCF <c>)` with `g = opcode >> 10`
below 64, `c = opcode & 0x3FF` below 1024 and `opcode = g * 1024 + c`; for opcode 0 the line
`  HCI_NoOp`. -/
theorem C19_hci_command_line (data : Buf) (len : Nat) :
    one_line (print_hci_command data len)
    ∧ get_le16 data 0 = rd data 0 + 256 * rd data 1
    ∧ (get_le16 data 0 ∈ hci_command_opcodes → names_command (print_hci_command data len))
    ∧ (get_le16 data 0 ∉ hci_command_opcodes →
        print_hci_command data len
          = "  Unhandled HCI command with opcode " ++ fmt_x true true 4 (get_le16 data 0)
              ++ " (OGF " ++ fmt_d ((get_le16 data 0 >>> 10 : Nat) : Int) ++ " OCF "
              ++ fmt_d ((get_le16 data 0 &&& 0x3FF : Nat) : Int) ++ ")\n")
    ∧ get_le16 data 0 >>> 10 < 64 ∧ get_le16 data 0 &&& 0x3FF < 1024
    ∧ get_le16 data 0 = (get_le16 data 0 >>> 10) * 1024 + (get_le16 data 0 &&& 0x3FF)
    ∧ (get_le16 data 0 = 0 → print_hci_command data len = "  HCI_NoOp\n") := by
  have hlt : get_le16 data 0 < 65536 := by
    unfold get_le16
    exact Nat.mod_lt _ (by omega)
  have hs : get_le16 data 0 >>> 10 = get_le16 data 0 / 1024 := Nat.shiftRight_eq_div_pow _ _
  have ha : get_le16 data 0 &&& 0x3FF = get_le16 data 0 % 1024 :=
    Nat.and_pow_two_sub_one_eq_mod _ 10
  refine ⟨print_hci_command_one_line data len, ?_, print_hci_command_known data len, ?_, ?_, ?_,
    ?_, ?_⟩
  · have hb := get_le16_bytes data 0
    rw [Nat.zero_add] at hb
    omega
  · intro h
    rw [hs, ha]
    exact print_hci_command_unknown data len h
  · rw [hs]; omega
  · rw [ha]; omega
  · rw [hs, ha]; omega
  · intro h
    unfold print_hci_command
    show (if get_le16 data 0 = 0 then _ else _) = _
    rw [if_pos h]

/-- The lines written for the opcode 0x1234, which has no case, for the opcode 0x0c03
(`HCI_Reset`) and for the opcode 0. -/
theorem C19_hci_command_line_witness :
    print_hci_command (buf_of [0x34, 0x12, 0]) 3
      = "  Unhandled HCI command with opcode 0x1234 (OGF 4 OCF 564)\n"
    ∧ names_command (print_hci_command (buf_of [0x03, 0x0c, 0]) 3)
    ∧ print_hci_command (buf_of [0, 0, 0]) 3 = "  HCI_NoOp\n" :=
  ⟨((C19_hci_command_line (buf_of [0x34, 0x12, 0]) 3).2.2.2.1 (by decide)).trans (by decide),
   (C19_hci_command_line (buf_of [0x03, 0x0c, 0]) 3).2.2.1 (by decide),
   (C19_hci_command_line (buf_of [0, 0, 0]) 3).2.2.2.2.2.2.2 (by decide)⟩

/-! ## SDP data elements -/

theorem be32_join (a b c e : Nat) (ha : a < 256) (hb : b < 256) (hc : c < 256)
    (he : e < 256) :
    ((a <<< 24) ||| (b <<< 16) ||| (c <<< 8) ||| e) % 2 ^ 32
      = a * 16777216 + b * 65536 + c * 256 + e := by
  have h : (a <<< 24) ||| (b <<< 16) ||| (c <<< 8) ||| e
      = e ||| (c <<< 8) ||| (b <<< 16) ||| (a <<< 24) := by
    rw [Nat.lor_comm ((a <<< 24) ||| (b <<< 16) ||| (c <<< 8)) e,
      Nat.lor_comm ((a <<< 24) ||| (b <<< 16)) (c <<< 8), Nat.lor_comm (a <<< 24) (b <<< 16),
      ← Nat.lor_assoc, ← Nat.lor_assoc]
  rw [h, le32_join e c b a he hc hb ha]
  omega

theorem get_be32_bytes (d : Buf) (off : Nat) :
    get_be32 d off
      = rd d off * 16777216 + rd d (off + 1) * 65536 + rd d (off + 2) * 256 + rd d (off + 3) := by
  unfold get_be32
  exact be32_join _ _ _ _ (Nat.mod_lt _ (by omega)) (Nat.mod_lt _ (by omega))
    (Nat.mod_lt _ (by omega)) (Nat.mod_lt _ (by omega))

/-- A four-byte unsigned integer that is followed by at least one more byte of the buffer. -/
theorem print_sdp_data_uint4 (data : Buf) (len fuel pos : Nat) (hlen : len < 2 ^ 32)
    (hpos : pos + 6 ≤ len) (htag : rd data pos = 0x0A) :
    print_sdp_data data len (fuel + 1) pos
      = some ⟨0, pos + 5, "uint4(" ++ fmt_x true false 0 (get_be32 data (pos + 1)) ++ ")"⟩ := by
  have h1 : u32add pos 1 = pos + 1 := by unfold u32add; omega
  have hs : sdp_size data 0x0A (pos + 1) = (4, pos + 1) := by
    unfold sdp_size
    rw [if_neg (by decide), if_neg (by decide), if_pos (by decide)]
  have hc : sdp_clip 4 (pos + 1) len = (0, 4) := by
    unfold sdp_clip u32sub
    have : ¬ (4 > ((len % 2 ^ 32 + (2 ^ 32 - (pos + 1) % 2 ^ 32)) % 2 ^ 32 % 2 ^ 32
        + (2 ^ 32 - 1 % 2 ^ 32)) % 2 ^ 32) := by omega
    rw [if_neg this]
  have hsc : sdp_scalar data 0x0A (pos + 1) 4 0
      = ("uint" ++ fmt_d_u32 4 ++ "(" ++ sdp_integer data (pos + 1) 4 false ++ ")", pos + 1, 4) := by
    unfold sdp_scalar
    rfl
  have hi : sdp_integer data (pos + 1) 4 false = fmt_x true false 0 (get_be32 data (pos + 1)) := by
    unfold sdp_integer
    rfl
  have ht : ¬ ((0x0A : Nat) >>> 3 = 6 ∨ (0x0A : Nat) >>> 3 = 7) := by decide
  have hu : u32add (pos + 1) 4 = pos + 5 := by unfold u32add; omega
  have e1 : to_int32 0 = 0 := by decide
  have e2 : "uint" ++ fmt_d_u32 4 ++ "(" = "uint4(" := by decide
  unfold print_sdp_data
  rw [if_pos (by omega)]
  simp only [htag, h1, hs, hc, ht, if_false, hsc, hi, hu, ne_eq, not_true_eq_false, e1, e2,
    String.append_empty]

theorem fmt_x_alt (v : Nat) :
    (v ≠ 0 → fmt_x true false 0 v = String.mk ('0' :: 'x' :: Nat.toDigits 16 v))
    ∧ fmt_x true false 0 0 = "0" := by
  refine ⟨fun h => ?_, by decide⟩
  unfold fmt_x pad_left
  simp [h]

/-- C12 at a failing input: a one-byte unsigned integer (tag 0x08) whose tag is the last
byte of the buffer (`len = 1`).  After the tag `pos == len`, the bound `len - pos - 1` of the
truncation check wraps to 0xFFFFFFFF, no truncation is found, and the byte at index `len` is
read and printed: two buffers that agree below `len` give different texts, with return
value 0 and without the marker ` ...`.  The same through `print_sdp` on a response PDU of 8
bytes. -/
theorem C12_read_past_end :
    print_sdp_data (buf_of [0x08, 0x41]) 1 1 0 = some ⟨0, 2, "uint1(65)"⟩
    ∧ print_sdp_data (buf_of [0x08, 0x42]) 1 1 0 = some ⟨0, 2, "uint1(66)"⟩
    ∧ print_sdp 1 (buf_of [0x07, 0, 1, 0, 3, 0, 1, 0x08, 0x41]) 8
        = some ("  SDP_ServiceSearchAttributeResponse(AttributeListsByteCount=1, "
            ++ "AttributeLists=uint1(65), ContinuationState=? bytes\n")
    ∧ print_sdp 1 (buf_of [0x07, 0, 1, 0, 3, 0, 1, 0x08, 0x42]) 8
        = some ("  SDP_ServiceSearchAttributeResponse(AttributeListsByteCount=1, "
            ++ "AttributeLists=uint1(66), ContinuationState=? bytes\n") := by
  decide

/-- Counterexample to C13 as stated: the value 0 is written as `uint4(0)`, since the
conversion `%#x` writes no `0x` before a zero; and an element whose four value bytes are the
last four bytes of the buffer is cut to three bytes and reported as truncated, since the
truncation check keeps the last byte of the buffer out of every element. -/
theorem C13_counterexample :
    print_sdp_data (buf_of [0x0A, 0, 0, 0, 0, 0xFF]) 6 1 0 = some ⟨0, 5, "uint4(0)"⟩
    ∧ print_sdp_data (buf_of [0x0A, 1, 2, 3, 4]) 5 1 0 = some ⟨1, 4, "uint3() ..."⟩ := by
  decide

/-- C13 (Scenario C), amended: for every buffer of length `len` in which a data element
starts at `pos` with the tag byte 0x0A and its four value bytes are followed by at least one
more byte of the buffer, `print_sdp_data` returns 0, advances the position by 5 and writes
`uint4(`, the big-endian value of the four bytes in the conversion `%#x`, and `)`; the
conversion writes `0x` and the hexadecimal digits for a value other than zero, and `0` for
zero. -/
theorem C13_uint4 (data : Buf) (len fuel pos : Nat) (hlen : len < 2 ^ 32)
    (hpos : pos + 6 ≤ len) (htag : rd data pos = 0x0A) :
    print_sdp_data data len (fuel + 1) pos
      = some ⟨0, pos + 5,
          "uint4(" ++ fmt_x true false 0
            (rd data (pos + 1) * 2 ^ 24 + rd data (pos + 2) * 2 ^ 16 + rd data (pos + 3) * 2 ^ 8
              + rd data (pos + 4)) ++ ")"⟩
    ∧ (rd data (pos + 1) * 2 ^ 24 + rd data (pos + 2) * 2 ^ 16 + rd data (pos + 3) * 2 ^ 8
          + rd data (pos + 4) ≠ 0 →
        fmt_x true false 0
            (rd data (pos + 1) * 2 ^ 24 + rd data (pos + 2) * 2 ^ 16 + rd data (pos + 3) * 2 ^ 8
              + rd data (pos + 4))
          = String.mk ('0' :: 'x' :: Nat.toDigits 16
              (rd data (pos + 1) * 2 ^ 24 + rd data (pos + 2) * 2 ^ 16
                + rd data (pos + 3) * 2 ^ 8 + rd data (pos + 4))))
    ∧ fmt_x true false 0 0 = "0" := by
  refine ⟨?_, (fmt_x_alt _).1, (fmt_x_alt 0).2⟩
  rw [print_sdp_data_uint4 data len fuel pos hlen hpos htag, get_be32_bytes]
  rfl

/-- Scenario C on the element `0a 01 02 03 04` followed by one more byte. -/
theorem C13_uint4_witness :
    print_sdp_data (buf_of [0x0A, 1, 2, 3, 4, 0]) 6 1 0 = some ⟨0, 5, "uint4(0x1020304)"⟩ :=
  ((C13_uint4 (buf_of [0x0A, 1, 2, 3, 4, 0]) 6 0 0 (by decide) (by decide) (by decide)).1).trans
    (by decide)

/-- The fixed widths of the size classes 0 to 4 and the one-byte length field of the size
class 5. -/
theorem sdp_size_classes (data : Buf) (tag pos : Nat) :
    (tag &&& 7 = 0 → sdp_size data tag pos = (1, pos))
    ∧ (tag &&& 7 = 1 → sdp_size data tag pos = (2, pos))
    ∧ (tag &&& 7 = 2 → sdp_size data tag pos = (4, pos))
    ∧ (tag &&& 7 = 3 → sdp_size data tag pos = (8, pos))
    ∧ (tag &&& 7 = 4 → sdp_size data tag pos = (16, pos))
    ∧ (tag &&& 7 = 5 → sdp_size data tag pos = (rd data pos, u32add pos 1)) := by
  unfold sdp_size
  refine ⟨?_, ?_, ?_, ?_, ?_, ?_⟩ <;> (intro h; simp [h])

/-- C14 at two failing inputs: a text string with a 16-bit length field (tag 0x26) that holds
2, and one with a 32-bit length field (tag 0x27) that holds 2, each at the start of the
buffer.  The switch takes the width from the first bytes of the buffer, tag byte included
(0x2600 and 0x27000000), not from the length field after the tag, so that either element is
reported as truncated. -/
theorem C14_length_field_from_buffer_start :
    get_be16 (buf_of [0x26, 0x00, 0x02, 0x41, 0x42, 0x00]) 1 = 2
    ∧ sdp_size (buf_of [0x26, 0x00, 0x02, 0x41, 0x42, 0x00]) 0x26 1 = (0x2600, 3)
    ∧ print_sdp_data (buf_of [0x26, 0x00, 0x02, 0x41, 0x42, 0x00]) 6 1 0
        = some ⟨0x2600 - 2, 5, "\"AB\" ..."⟩
    ∧ get_be32 (buf_of [0x27, 0x00, 0x00, 0x00, 0x02, 0x41, 0x42, 0x00]) 1 = 2
    ∧ sdp_size (buf_of [0x27, 0x00, 0x00, 0x00, 0x02, 0x41, 0x42, 0x00]) 0x27 1
        = (0x27000000, 5)
    ∧ print_sdp_data (buf_of [0x27, 0x00, 0x00, 0x00, 0x02, 0x41, 0x42, 0x00]) 8 1 0
        = some ⟨0x27000000 - 2, 7, "\"AB\" ..."⟩ := by
  decide

/-- C15 at a failing input: a sequence (tag 0x37, at position 4) whose width, 0xFFFFFFFF, is
cut to the 8 bytes that remain, with `more = -9` in the `int`; its only sub-element (tag
0x0C at position 9, 16 bytes wide) is truncated and returns 9.  The enclosing call closes
the bracket, and returns `more + sub_more = 0`. -/
theorem C15_truncation_cancelled :
    print_sdp_data
        (buf_of [0xFF, 0xFF, 0xFF, 0xFF, 0x37, 0, 0, 0, 0, 0x0C, 1, 2, 3, 4, 5, 6, 7, 8]) 18 1 9
      = some ⟨9, 17, "uint7() ..."⟩
    ∧ print_sdp_data
        (buf_of [0xFF, 0xFF, 0xFF, 0xFF, 0x37, 0, 0, 0, 0, 0x0C, 1, 2, 3, 4, 5, 6, 7, 8]) 18 2 4
      = some ⟨0, 17, "seq \x7b uint7() ... \x7d"⟩ := by
  decide

/-! ## The Command Complete event -/

/-- The text written for a Command Complete event: the header line, then the text of
`print_hci_cmd_complete` for the echoed opcode on the bytes from offset 5 on. -/
theorem print_hci_event_command_complete (data : Buf) (len cap : Nat)
    (h : rd data 0 = 0x0e) :
    print_hci_event data len cap
      = "  HCI event: " ++ ("Command Complete Event: Num_HCI_Command_Packets="
          ++ fmt_d (rd data 2) ++ ", Command_Opcode=" ++ fmt_x true true 4 (get_le16 data 3)
          ++ ", Return_Parameters=" ++ fmt_d ((rd data 1 : Int) - 3) ++ " bytes\n"
          ++ print_hci_cmd_complete (get_le16 data 3) data 5
              (min (u32sub len 5) (to_unsigned 32 ((rd data 1 : Int) - 3))) cap) := by
  unfold print_hci_event
  simp only [h]
  rfl

/-- For an opcode without a case, `print_hci_cmd_complete` writes the one line
`HCI unhandled command completion`. -/
theorem print_hci_cmd_complete_unknown (opcode : Nat) (data : Buf) (off len cap : Nat)
    (h : opcode ∉ hci_cmd_complete_opcodes) :
    print_hci_cmd_complete opcode data off len cap
      = "  HCI unhandled command completion (opcode=" ++ fmt_x true true 4 opcode ++ ")\n" := by
  simp only [hci_cmd_complete_opcodes, List.mem_cons, List.mem_singleton, List.not_mem_nil,
    or_false, not_or] at h
  obtain ⟨h0, h1, h2, h3, h4, h5, h6, h7, h8, h9, h10, h11, h12, h13, h14, h15, h16, h17, h18,
    h19, h20, h21, h22, h23, h24, h25, h26, h27, h28⟩ := h
  unfold print_hci_cmd_complete
  rw [if_neg h0, if_neg h1, if_neg h2, if_neg h3, if_neg h4, if_neg h5, if_neg h6, if_neg h7,
    if_neg h8, if_neg h9, if_neg h10, if_neg h11, if_neg h12, if_neg h13, if_neg h14,
    if_neg h15, if_neg h16, if_neg h17, if_neg h18, if_neg h19, if_neg h20, if_neg h21,
    if_neg h22, if_neg h23, if_neg h24, if_neg h25, if_neg h26, if_neg h27, if_neg h28]

/-- C20 at a failing input: the Command Complete event
`0e 0a 01 0b 04 00 11 22 33 44 55 66`, which echoes the opcode 0x040b
(`HCI_Link_Key_Request_Reply`) and returns the status byte 0 and the address
`11:22:33:44:55:66`.  The case of this opcode reads the status as the 16 bits at the offsets
5 and 6 and the address from the offset 7 on: it shows `Status=4352` and an address shifted by
one byte.  The case of the opcode 0x1009 (`HCI_Read_BD_ADDR`), on the same return
parameters, shows the status byte and the address after it. -/
theorem C20_status_width :
    rd (buf_of [0x0e, 0x0a, 0x01, 0x0b, 0x04, 0x00, 0x11, 0x22, 0x33, 0x44, 0x55, 0x66]) 5 = 0
    ∧ print_hci_event
        (buf_of [0x0e, 0x0a, 0x01, 0x0b, 0x04, 0x00, 0x11, 0x22, 0x33, 0x44, 0x55, 0x66]) 12 4096
      = "  HCI event: Command Complete Event: Num_HCI_Command_Packets=1, Command_Opcode=0x40b, "
          ++ "Return_Parameters=7 bytes\n"
          ++ "  HCI_Link_Key_Request_Reply: Status=4352, BD_ADDR=22:33:44:55:66:00\n"
    ∧ print_hci_event
        (buf_of [0x0e, 0x0a, 0x01, 0x09, 0x10, 0x00, 0x11, 0x22, 0x33, 0x44, 0x55, 0x66]) 12 4096
      = "  HCI event: Command Complete Event: Num_HCI_Command_Packets=1, Command_Opcode=0x1009, "
          ++ "Return_Parameters=7 bytes\n"
          ++ "  HCI_Read_BD_ADDR: Status=0, BD_ADDR=11:22:33:44:55:66\n" := by
  exact ⟨by decide, rfl, rfl⟩

/-! ## Lines that the parser takes or refuses against the capture grammar -/

/-- C22 at a failing input: the line `00000001 1.4294967296 C Ii:1:002:1 0:8 3 = 010203`,
whose microseconds part 4294967296 is above 999999.  The value is stored in the `int32_t`
field before it is compared, so it is 0 when the check runs: the line is taken, with
`ts_usec = 0`, and is printed with the timestamp `1.000000`.  The part 1000000, and an empty
part, are refused with 3. -/
theorem C22_usec_narrowed_before_check :
    (parse_usbmon (init_hex hextab_zero)
      "00000001 1.4294967296 C Ii:1:002:1 0:8 3 = 010203".toList
      mon_packet.zero (fun _ => 0) 4096).code = 0
    ∧ (parse_usbmon (init_hex hextab_zero)
      "00000001 1.4294967296 C Ii:1:002:1 0:8 3 = 010203".toList
      mon_packet.zero (fun _ => 0) 4096).pkt.ts_usec = 0
    ∧ (process_line (init_hex hextab_zero) Tables.empty mon_packet.zero (fun _ => 0)
      "00000001 1.4294967296 C Ii:1:002:1 0:8 3 = 010203".toList).out
      = [Out.text "0000000000000001 1.000000 C Ii:1:002:1 0:8 3 = 010203\n",
         Out.call Decoder.hci_event 0 3, Out.text "\n"]
    ∧ (parse_usbmon (init_hex hextab_zero)
      "00000001 1.1000000 C Ii:1:002:1 0:8 3 = 010203".toList
      mon_packet.zero (fun _ => 0) 4096).code = 3
    ∧ (parse_usbmon (init_hex hextab_zero)
      "00000001 1. C Ii:1:002:1 0:8 3 = 010203".toList
      mon_packet.zero (fun _ => 0) 4096).code = 3 := by
  with_unfolding_all decide

/-- C23 at a failing input: the line `00000001 1.000000 C Co:1:002:0 0 0`, of declared length
0 and without a data block, is refused with 21.  The same line with the data flag `<` is
taken, with `length = 0` and `len_cap = 0`, and `print_usbmon`, which writes no data block
for the length 0, prints it as the line that is refused. -/
theorem C23_zero_length_line_refused :
    (parse_usbmon (init_hex hextab_zero) "00000001 1.000000 C Co:1:002:0 0 0".toList
      mon_packet.zero (fun _ => 0) 4096).code = 21
    ∧ (process_line (init_hex hextab_zero) Tables.empty mon_packet.zero (fun _ => 0)
      "00000001 1.000000 C Co:1:002:0 0 0".toList).out = [Out.text " .. parse failure 21\n"]
    ∧ (parse_usbmon (init_hex hextab_zero) "00000001 1.000000 C Co:1:002:0 0 0 <".toList
      mon_packet.zero (fun _ => 0) 4096).code = 0
    ∧ (parse_usbmon (init_hex hextab_zero) "00000001 1.000000 C Co:1:002:0 0 0 <".toList
      mon_packet.zero (fun _ => 0) 4096).pkt.length = 0
    ∧ (parse_usbmon (init_hex hextab_zero) "00000001 1.000000 C Co:1:002:0 0 0 <".toList
      mon_packet.zero (fun _ => 0) 4096).pkt.len_cap = 0
    ∧ (process_line (init_hex hextab_zero) Tables.empty mon_packet.zero (fun _ => 0)
      "00000001 1.000000 C Co:1:002:0 0 0 <".toList).out
      = [Out.text "0000000000000001 1.000000 C Co:1:002:0 0 0\n"] := by
  with_unfolding_all decide

/-- C24 at a failing input: the line `0000000f 1.000000 C Ii:1:002:1 0:8 3 = 010203`, whose
identifier ends in the hexadecimal digit `f`, is refused with 1: the identifier is read in
base 16 and its last character is then tested with `isdigit`.  The identifier `000000f0` is
taken, with the value 0xf0, and is printed with 16 hexadecimal digits; a line without an
identifier is refused with 1. -/
theorem C24_identifier_ending_in_letter :
    (parse_usbmon (init_hex hextab_zero)
      "0000000f 1.000000 C Ii:1:002:1 0:8 3 = 010203".toList
      mon_packet.zero (fun _ => 0) 4096).code = 1
    ∧ (process_line (init_hex hextab_zero) Tables.empty mon_packet.zero (fun _ => 0)
      "0000000f 1.000000 C Ii:1:002:1 0:8 3 = 010203".toList).out
      = [Out.text " .. parse failure 1\n"]
    ∧ (parse_usbmon (init_hex hextab_zero)
      "000000f0 1.000000 C Ii:1:002:1 0:8 3 = 010203".toList
      mon_packet.zero (fun _ => 0) 4096).code = 0
    ∧ (parse_usbmon (init_hex hextab_zero)
      "000000f0 1.000000 C Ii:1:002:1 0:8 3 = 010203".toList
      mon_packet.zero (fun _ => 0) 4096).pkt.id = 0xf0
    ∧ (process_line (init_hex hextab_zero) Tables.empty mon_packet.zero (fun _ => 0)
      "000000f0 1.000000 C Ii:1:002:1 0:8 3 = 010203".toList).out
      = [Out.text "00000000000000f0 1.000000 C Ii:1:002:1 0:8 3 = 010203\n",
         Out.call Decoder.hci_event 0 3, Out.text "\n"]
    ∧ (parse_usbmon (init_hex hextab_zero) "S Co:1:002:0 0 0 <".toList
      mon_packet.zero (fun _ => 0) 4096).code = 1 := by
  with_unfolding_all decide

/-- C28 at a failing input: the line `00000001 C Ii:1:002:1 0:8 3 = 010203` has no timestamp.
`strtoull` consumes nothing, the character before the pointer is the last digit of the
identifier, and the check of the timestamp, which does not compare the pointer with its
start as the check of the identifier does, passes: the line is taken with the timestamp 0
and printed with `0.000000`. -/
theorem C28_missing_timestamp_taken :
    (parse_usbmon (init_hex hextab_zero) "00000001 C Ii:1:002:1 0:8 3 = 010203".toList
      mon_packet.zero (fun _ => 0) 4096).code = 0
    ∧ (parse_usbmon (init_hex hextab_zero) "00000001 C Ii:1:002:1 0:8 3 = 010203".toList
      mon_packet.zero (fun _ => 0) 4096).pkt.ts_sec = 0
    ∧ (parse_usbmon (init_hex hextab_zero) "00000001 C Ii:1:002:1 0:8 3 = 010203".toList
      mon_packet.zero (fun _ => 0) 4096).pkt.ts_usec = 0
    ∧ (process_line (init_hex hextab_zero) Tables.empty mon_packet.zero (fun _ => 0)
      "00000001 C Ii:1:002:1 0:8 3 = 010203".toList).out
      = [Out.text "0000000000000001 0.000000 C Ii:1:002:1 0:8 3 = 010203\n",
         Out.call Decoder.hci_event 0 3, Out.text "\n"] := by
  with_unfolding_all decide

/-! ## Configuration options and empty sequences -/

/-- C29 at a failing input: a Configuration-Response, captured in full, whose option area
holds two options, `01 02 a0 02` (MTU 672) and `7f 00` (type 127 without value bytes), and
fills the signaling payload (`data_len = 12`).  The loop of the response compares `ii - 10`
with the limit, two more than the 6 bytes before the option area account for, and ends
before the last option: one option line is written.  The loop of the request, which
compares `ii - 12`, writes both lines for the same option area. -/
theorem C29_response_last_option_skipped :
    (print_l2cap Tables.empty
      (buf_of [0x01, 0x00, 0x14, 0x00, 0x10, 0x00, 0x01, 0x00, 0x05, 0x01, 0x0c, 0x00, 0x40,
        0x00, 0x00, 0x00, 0x00, 0x00, 0x01, 0x02, 0xa0, 0x02, 0x7f, 0x00]) 24).2
      = [Out.text "  L2CAP Configuration Response (Id=0x1, Source_CID=64, Flags=0, Result=0):\n",
         Out.text "    Reqd ", Out.text "MTU = 672\n"]
    ∧ (print_l2cap Tables.empty
      (buf_of [0x01, 0x00, 0x12, 0x00, 0x0e, 0x00, 0x01, 0x00, 0x04, 0x01, 0x0a, 0x00, 0x40,
        0x00, 0x00, 0x00, 0x01, 0x02, 0xa0, 0x02, 0x7f, 0x00]) 22).2
      = [Out.text "  L2CAP Configuration Request (Id=0x1, Dest_CID=64, Flags=0):\n",
         Out.text "    Reqd ", Out.text "MTU = 672\n",
         Out.text "    Reqd ", Out.text "unknown option 127 (0 bytes)\n"] := by
  decide

/-- C30 at a failing input: the empty sequence `35 00` followed by the element `08 41` and
one more byte.  The loop over the sub-elements is a `do ... while`: it decodes the element
after the sequence as a sub-element and writes it between the brackets; the position is
then set to the end of the header, and the call for the following element decodes the same
bytes again. -/
theorem C30_empty_sequence_takes_next_element :
    print_sdp_data (buf_of [0x35, 0x00, 0x08, 0x41, 0x00]) 5 2 0
      = some ⟨0, 2, "seq \x7b uint1(65) \x7d"⟩
    ∧ print_sdp_data (buf_of [0x35, 0x00, 0x08, 0x41, 0x00]) 5 1 2
      = some ⟨0, 4, "uint1(65)"⟩ := by
  decide

/-! ## The feature list of the event Read Remote Supported Features Complete -/

theorem get_le32_bytes (d : Buf) (off : Nat) :
    get_le32 d off = rd d off + rd d (off + 1) * 256 + rd d (off + 2) * 65536
      + rd d (off + 3) * 16777216 := by
  unfold get_le32
  exact le32_join _ _ _ _ (Nat.mod_lt _ (by omega)) (Nat.mod_lt _ (by omega))
    (Nat.mod_lt _ (by omega)) (Nat.mod_lt _ (by omega))

theorem rd_lt (d : Buf) (i : Nat) : rd d i < 256 := Nat.mod_lt _ (by omega)

theorem feature_mask_bytes (data : Buf) :
    feature_mask data = rd data 4 + rd data 5 * 256 + rd data 6 * 65536
      + rd data 7 * 16777216 + rd data 8 * 4294967296 + rd data 9 * 1099511627776
      + rd data 10 * 281474976710656 + rd data 11 * 72057594037927936 := by
  simp only [feature_mask, List.range, List.range.loop, List.map, List.sum_cons, List.sum_nil]
  norm_num
  ring

theorem feature_mask_halves (data : Buf) :
    feature_mask data = get_le32 data 4 + 4294967296 * get_le32 data 8 := by
  rw [feature_mask_bytes, get_le32_bytes, get_le32_bytes]
  ring

theorem feature_mask_low (data : Buf) : feature_mask data % 2 ^ 32 = get_le32 data 4 := by
  have h : get_le32 data 4 < 2 ^ 32 := Nat.mod_lt _ (by norm_num)
  rw [feature_mask_halves]
  omega

theorem feature_mask_high (data : Buf) : feature_mask data / 2 ^ 32 = get_le32 data 8 := by
  have h : get_le32 data 4 < 2 ^ 32 := Nat.mod_lt _ (by norm_num)
  rw [feature_mask_halves]
  omega
/-- The test of the loop of the case 0x0b reads bit `ii` of the little-endian mask. -/
theorem feature_test_bit (data : Buf) (ii : Nat) (h : ii < 64) :
    decide ((rd data (ii / 8 + 4) >>> (ii % 8)) &&& 1 ≠ 0) = mask_bit (feature_mask data) ii := by
  have h4 := rd_lt data 4
  have h5 := rd_lt data 5
  have h6 := rd_lt data 6
  have h7 := rd_lt data 7
  have h8 := rd_lt data 8
  have h9 := rd_lt data 9
  have h10 := rd_lt data 10
  have h11 := rd_lt data 11
  unfold mask_bit
  rw [feature_mask_bytes, Nat.and_one_is_mod, Nat.shiftRight_eq_div_pow]
  apply decide_eq_decide.mpr
  interval_cases ii <;> simp only [Nat.reduceDiv, Nat.reduceAdd, Nat.reduceMod, Nat.reducePow] <;> omega
theorem string_join_cons (s : String) (l : List String) :
    String.join (s :: l) = s ++ String.join l := by
  have h : ∀ (l : List String) (a : String),
      List.foldl (fun r s => r ++ s) a l = a ++ List.foldl (fun r s => r ++ s) "" l := by
    intro l
    induction l with
    | nil => intro a; simp
    | cons x xs ih =>
      intro a
      rw [List.foldl_cons, List.foldl_cons, ih (a ++ x), ih ("" ++ x), String.empty_append,
        String.append_assoc]
  unfold String.join
  rw [List.foldl_cons, h l ("" ++ s), String.empty_append]

/-- The loop of the case 0x0b writes one line for each entry whose test holds. -/
theorem lmp_feature_loop_enum (data : Buf) (fs : List String) (ii : Nat) :
    lmp_feature_loop data fs ii
      = String.join (((fs.enumFrom ii).filter
          (fun p => decide ((rd data (p.1 / 8 + 4) >>> (p.1 % 8)) &&& 1 ≠ 0))).map
          (fun p => "    " ++ p.2 ++ "\n")) := by
  induction fs generalizing ii with
  | nil => rfl
  | cons f fs ih =>
    rw [lmp_feature_loop, ih (ii + 1), List.enumFrom_cons, List.filter_cons]
    by_cases hc : (rd data (ii / 8 + 4) >>> (ii % 8)) &&& 1 ≠ 0
    · rw [if_pos hc, if_pos (decide_eq_true hc), List.map_cons, string_join_cons]
    · rw [if_neg hc, if_neg (fun h => hc (of_decide_eq_true h)), String.empty_append]

theorem lmp_feature_loop_mask (data : Buf) :
    lmp_feature_loop data lmp_features 0 = feature_text lmp_features (feature_mask data) := by
  rw [lmp_feature_loop_enum]
  unfold feature_text
  rw [List.enum_eq_enumFrom]
  congr 2
  apply List.filter_congr
  intro p hp
  have h := List.fst_lt_add_of_mem_enumFrom hp
  exact feature_test_bit data p.1 (by simpa using h)

theorem count_join_lines (c : Char) (g : Nat × String → String) (l : List (Nat × String))
    (h : ∀ p ∈ l, (g p).data.count c = 1) :
    (String.join (l.map g)).data.count c = l.length := by
  induction l with
  | nil => rfl
  | cons x xs ih =>
    rw [List.map_cons, string_join_cons, String.data_append, List.count_append,
      h x (List.mem_cons_self _ _), ih (fun p hp => h p (List.mem_cons_of_mem _ hp)),
      List.length_cons, Nat.add_comm]

theorem lmp_features_no_newline : ∀ f ∈ lmp_features, f.data.count '\n' = 0 := by decide

theorem feature_text_lines (mask : Nat) :
    (feature_text lmp_features mask).data.count '\n'
      = ((List.range 64).filter (mask_bit mask)).length := by
  unfold feature_text
  rw [count_join_lines]
  · have h : (lmp_features.enum.filter (fun p => mask_bit mask p.1)).length
        = ((lmp_features.enum.filter (mask_bit mask ∘ Prod.fst)).map Prod.fst).length := by
      rw [List.length_map]
      rfl
    rw [h, ← List.filter_map, List.enum_map_fst]
    rfl
  · intro p hp
    have hm := (List.mem_filter.mp hp).1
    have h2 : p.2 ∈ lmp_features := by
      rw [List.enum_eq_zip_range] at hm
      exact (List.of_mem_zip hm).2
    rw [String.data_append, String.data_append, List.count_append, List.count_append,
      lmp_features_no_newline _ h2]
    rfl
/-- C21: for the event code 0x0b the text is the header line, whose LMP_Features field shows
the two halves of the 64-bit little-endian mask of the bytes 4 to 11, followed by one line
for each index from 0 to 63, in increasing order, whose bit is set in that same mask, the
line naming the entry of the table at that index; the number of these lines is the number
of set bits, and the table has 64 entries, so no line about its size follows. -/
theorem C21_feature_lines_follow_mask (data : Buf) (len cap : Nat) (h : rd data 0 = 0x0b) :
    print_hci_event data len cap
        = "  HCI event: " ++ ("Read Remote Supported Features Complete: Status="
            ++ fmt_d (rd data 2) ++ ", Connection_Handle=" ++ fmt_d (get_le16 data 3)
            ++ ", LMP_Features=" ++ fmt_x true true 8 (feature_mask data % 2 ^ 32) ++ "_"
            ++ fmt_x true true 8 (feature_mask data / 2 ^ 32) ++ "\n"
            ++ feature_text lmp_features (feature_mask data))
      ∧ (feature_text lmp_features (feature_mask data)).data.count '\n'
          = ((List.range 64).filter (mask_bit (feature_mask data))).length
      ∧ lmp_features.length = 64 := by
  refine ⟨?_, feature_text_lines _, rfl⟩
  unfold print_hci_event
  simp only [h]
  rw [if_neg (by decide), if_neg (by decide), if_neg (by decide), if_neg (by decide),
    if_neg (by decide), if_neg (by decide), if_neg (by decide), if_neg (by decide),
    if_neg (by decide), if_pos trivial, if_neg (by decide), String.append_empty,
    lmp_feature_loop_mask, feature_mask_low, feature_mask_high]

theorem C21_feature_lines_follow_mask_witness :
    rd (buf_of [0x0b, 0x0b, 0x00, 0x29, 0x00, 0x05, 0x80, 0x00, 0x00, 0x00, 0x00, 0x80,
        0x00]) 0 = 0x0b
      ∧ print_hci_event (buf_of [0x0b, 0x0b, 0x00, 0x29, 0x00, 0x05, 0x80, 0x00, 0x00, 0x00,
          0x00, 0x80, 0x00]) 13 4096
        = "  HCI event: Read Remote Supported Features Complete: Status=0, Connection_Handle=41, LMP_Features=0x800500_0x80000000\n    Park state\n    Channel quality driven data rate (CQDDR)\n    Broadcast encryption\n    Extended features\n" :=
  ⟨by decide,
   (C21_feature_lines_follow_mask (buf_of [0x0b, 0x0b, 0x00, 0x29, 0x00, 0x05, 0x80, 0x00,
      0x00, 0x00, 0x00, 0x80, 0x00]) 13 4096 (by decide)).1.trans (by rfl)⟩

/-! ## The bytes that the command printer reads -/

theorem get_le16_agree (d e : Buf) (n off : Nat) (h : ∀ i, i < n → rd d i = rd e i)
    (ho : off + 1 < n) : get_le16 d off = get_le16 e off := by
  unfold get_le16
  rw [h off (by omega), h (off + 1) ho]

theorem get_le24_agree (d e : Buf) (n off : Nat) (h : ∀ i, i < n → rd d i = rd e i)
    (ho : off + 2 < n) : get_le24 d off = get_le24 e off := by
  unfold get_le24
  rw [h off (by omega), h (off + 1) (by omega), h (off + 2) ho]

theorem get_le32_agree (d e : Buf) (n off : Nat) (h : ∀ i, i < n → rd d i = rd e i)
    (ho : off + 3 < n) : get_le32 d off = get_le32 e off := by
  unfold get_le32
  rw [h off (by omega), h (off + 1) (by omega), h (off + 2) (by omega), h (off + 3) ho]

theorem get_bt_addr_agree (d e : Buf) (n off : Nat) (h : ∀ i, i < n → rd d i = rd e i)
    (ho : off + 5 < n) : get_bt_addr d off = get_bt_addr e off := by
  unfold get_bt_addr
  rw [h off (by omega), h (off + 1) (by omega), h (off + 2) (by omega),
    h (off + 3) (by omega), h (off + 4) (by omega), h (off + 5) ho]

/-- C27, amended: the line that `print_hci_command` writes is the same for two buffers
that agree on the bytes at the offsets 0 to 25, whatever the two captured lengths are: the
length is not consulted, and no case reads a byte beyond offset 25. -/
theorem C27_first_26_bytes (data data' : Buf) (len len' : Nat)
    (h : ∀ i, i < 26 → rd data i = rd data' i) :
    print_hci_command data len = print_hci_command data' len' := by
  have e0 : get_le16 data 0 = get_le16 data' 0 := get_le16_agree data data' 26 0 h (by decide)
  unfold print_hci_command
  show (if get_le16 data 0 = 0 then _ else _) = (if get_le16 data' 0 = 0 then _ else _)
  rw [e0]
  by_cases h0 : get_le16 data' 0 = 0x0000
  · rw [if_pos h0, if_pos h0]
  rw [if_neg h0, if_neg h0]
  by_cases h1 : get_le16 data' 0 = 0x0401
  · rw [if_pos h1, if_pos h1]
    rw [get_le24_agree data data' 26 3 h (by decide), h 4 (by decide), h 5 (by decide)]
  rw [if_neg h1, if_neg h1]
  by_cases h2 : get_le16 data' 0 = 0x0402
  · rw [if_pos h2, if_pos h2]
  rw [if_neg h2, if_neg h2]
  by_cases h3 : get_le16 data' 0 = 0x0405
  · rw [if_pos h3, if_pos h3]
    rw [get_bt_addr_agree data data' 26 3 h (by decide), get_le16_agree data data' 26 9 h (by
      decide), h 11 (by decide), get_le16_agree data data' 26 13 h (by decide), h 15 (by decide)]
  rw [if_neg h3, if_neg h3]
  by_cases h4 : get_le16 data' 0 = 0x0406
  · rw [if_pos h4, if_pos h4]
    rw [get_le16_agree data data' 26 3 h (by decide), h 5 (by decide)]
  rw [if_neg h4, if_neg h4]
  by_cases h5 : get_le16 data' 0 = 0x0409
  · rw [if_pos h5, if_pos h5]
    rw [get_bt_addr_agree data data' 26 3 h (by decide), h 9 (by decide)]
  rw [if_neg h5, if_neg h5]
  by_cases h6 : get_le16 data' 0 = 0x040b
  · rw [if_pos h6, if_pos h6]
    rw [get_bt_addr_agree data data' 26 3 h (by decide), get_le32_agree data data' 26 9 h (by
      decide), get_le32_agree data data' 26 13 h (by decide), get_le32_agree data data' 26 17 h
      (by decide), get_le32_agree data data' 26 21 h (by decide)]
  rw [if_neg h6, if_neg h6]
  by_cases h7 : get_le16 data' 0 = 0x040c
  · rw [if_pos h7, if_pos h7]
    rw [get_bt_addr_agree data data' 26 3 h (by decide)]
  rw [if_neg h7, if_neg h7]
  by_cases h8 : get_le16 data' 0 = 0x040d
  · rw [if_pos h8, if_pos h8]
    rw [get_bt_addr_agree data data' 26 3 h (by decide), h 9 (by decide), get_le32_agree data
      data' 26 10 h (by decide), get_le32_agree data data' 26 14 h (by decide), get_le32_agree
      data data' 26 18 h (by decide), get_le32_agree data data' 26 22 h (by decide)]
  rw [if_neg h8, if_neg h8]
  by_cases h9 : get_le16 data' 0 = 0x0411
  · rw [if_pos h9, if_pos h9]
    rw [get_le16_agree data data' 26 3 h (by decide)]
  rw [if_neg h9, if_neg h9]
  by_cases h10 : get_le16 data' 0 = 0x0413
  · rw [if_pos h10, if_pos h10]
    rw [get_bt_addr_agree data data' 26 3 h (by decide)]
  rw [if_neg h10, if_neg h10]
  by_cases h11 : get_le16 data' 0 = 0x0419
  · rw [if_pos h11, if_pos h11]
    rw [get_bt_addr_agree data data' 26 3 h (by decide), h 9 (by decide), get_le16_agree data
      data' 26 11 h (by decide)]
  rw [if_neg h11, if_neg h11]
  by_cases h12 : get_le16 data' 0 = 0x041b
  · rw [if_pos h12, if_pos h12]
    rw [get_le16_agree data data' 26 3 h (by decide)]
  rw [if_neg h12, if_neg h12]
  by_cases h13 : get_le16 data' 0 = 0x041d
  · rw [if_pos h13, if_pos h13]
    rw [get_le16_agree data data' 26 3 h (by decide)]
  rw [if_neg h13, if_neg h13]
  by_cases h14 : get_le16 data' 0 = 0x041f
  · rw [if_pos h14, if_pos h14]
    rw [get_le16_agree data data' 26 3 h (by decide)]
  rw [if_neg h14, if_neg h14]
  by_cases h15 : get_le16 data' 0 = 0x0807
  · rw [if_pos h15, if_pos h15]
    rw [get_le16_agree data data' 26 3 h (by decide), h 5 (by decide), h 6 (by decide),
      get_le32_agree data data' 26 7 h (by decide), get_le32_agree data data' 26 11 h (by
      decide), get_le32_agree data data' 26 15 h (by decide), get_le32_agree data data' 26 19 h
      (by decide)]
  rw [if_neg h15, if_neg h15]
  by_cases h16 : get_le16 data' 0 = 0x0809
  · rw [if_pos h16, if_pos h16]
    rw [get_le16_agree data data' 26 3 h (by decide)]
  rw [if_neg h16, if_neg h16]
  by_cases h17 : get_le16 data' 0 = 0x080d
  · rw [if_pos h17, if_pos h17]
    rw [get_le16_agree data data' 26 3 h (by decide), get_le16_agree data data' 26 5 h (by
      decide)]
  rw [if_neg h17, if_neg h17]
  by_cases h18 : get_le16 data' 0 = 0x080e
  · rw [if_pos h18, if_pos h18]
  rw [if_neg h18, if_neg h18]
  by_cases h19 : get_le16 data' 0 = 0x080f
  · rw [if_pos h19, if_pos h19]
    rw [get_le16_agree data data' 26 3 h (by decide)]
  rw [if_neg h19, if_neg h19]
  by_cases h20 : get_le16 data' 0 = 0x0c01
  · rw [if_pos h20, if_pos h20]
    rw [get_le32_agree data data' 26 3 h (by decide), get_le32_agree data data' 26 7 h (by
      decide)]
  rw [if_neg h20, if_neg h20]
  by_cases h21 : get_le16 data' 0 = 0x0c03
  · rw [if_pos h21, if_pos h21]
  rw [if_neg h21, if_neg h21]
  by_cases h22 : get_le16 data' 0 = 0x0c05
  · rw [if_pos h22, if_pos h22]
    rw [h 3 (by decide), h 4 (by decide)]
  rw [if_neg h22, if_neg h22]
  by_cases h23 : get_le16 data' 0 = 0x0c0d
  · rw [if_pos h23, if_pos h23]
    rw [get_bt_addr_agree data data' 26 3 h (by decide), h 9 (by decide)]
  rw [if_neg h23, if_neg h23]
  by_cases h24 : get_le16 data' 0 = 0x0c14
  · rw [if_pos h24, if_pos h24]
  rw [if_neg h24, if_neg h24]
  by_cases h25 : get_le16 data' 0 = 0x0c16
  · rw [if_pos h25, if_pos h25]
    rw [get_le16_agree data data' 26 3 h (by decide)]
  rw [if_neg h25, if_neg h25]
  by_cases h26 : get_le16 data' 0 = 0x0c18
  · rw [if_pos h26, if_pos h26]
    rw [get_le16_agree data data' 26 3 h (by decide)]
  rw [if_neg h26, if_neg h26]
  by_cases h27 : get_le16 data' 0 = 0x0c19
  · rw [if_pos h27, if_pos h27]
  rw [if_neg h27, if_neg h27]
  by_cases h28 : get_le16 data' 0 = 0x0c1a
  · rw [if_pos h28, if_pos h28]
    rw [h 3 (by decide)]
  rw [if_neg h28, if_neg h28]
  by_cases h29 : get_le16 data' 0 = 0x0c23
  · rw [if_pos h29, if_pos h29]
  rw [if_neg h29, if_neg h29]
  by_cases h30 : get_le16 data' 0 = 0x0c24
  · rw [if_pos h30, if_pos h30]
    rw [get_le24_agree data data' 26 3 h (by decide)]
  rw [if_neg h30, if_neg h30]
  by_cases h31 : get_le16 data' 0 = 0x0c25
  · rw [if_pos h31, if_pos h31]
  rw [if_neg h31, if_neg h31]
  by_cases h32 : get_le16 data' 0 = 0x0c28
  · rw [if_pos h32, if_pos h32]
    rw [get_le16_agree data data' 26 3 h (by decide), get_le16_agree data data' 26 5 h (by
      decide)]
  rw [if_neg h32, if_neg h32]
  by_cases h33 : get_le16 data' 0 = 0x0c2d
  · rw [if_pos h33, if_pos h33]
    rw [get_le16_agree data data' 26 3 h (by decide), h 5 (by decide)]
  rw [if_neg h33, if_neg h33]
  by_cases h34 : get_le16 data' 0 = 0x0c36
  · rw [if_pos h34, if_pos h34]
    rw [get_le16_agree data data' 26 3 h (by decide)]
  rw [if_neg h34, if_neg h34]
  by_cases h35 : get_le16 data' 0 = 0x0c37
  · rw [if_pos h35, if_pos h35]
    rw [get_le16_agree data data' 26 3 h (by decide), get_le16_agree data data' 26 5 h (by
      decide)]
  rw [if_neg h35, if_neg h35]
  by_cases h36 : get_le16 data' 0 = 0x1001
  · rw [if_pos h36, if_pos h36]
  rw [if_neg h36, if_neg h36]
  by_cases h37 : get_le16 data' 0 = 0x1003
  · rw [if_pos h37, if_pos h37]
  rw [if_neg h37, if_neg h37]
  by_cases h38 : get_le16 data' 0 = 0x1005
  · rw [if_pos h38, if_pos h38]
  rw [if_neg h38, if_neg h38]
  by_cases h39 : get_le16 data' 0 = 0x1009
  · rw [if_pos h39, if_pos h39]
  rw [if_neg h39, if_neg h39]
  by_cases h40 : get_le16 data' 0 = 0x1403
  · rw [if_pos h40, if_pos h40]
    rw [get_le16_agree data data' 26 3 h (by decide)]
  rw [if_neg h40, if_neg h40]
  by_cases h41 : get_le16 data' 0 = 0x1405
  · rw [if_pos h41, if_pos h41]
    rw [get_le16_agree data data' 26 3 h (by decide)]
  rw [if_neg h41, if_neg h41]

theorem C27_first_26_bytes_witness :
    (∀ i, i < 26 → rd (buf_of [0x05, 0x04, 0x0d, 0x11, 0x22, 0x33, 0x44, 0x55, 0x66, 0x18,
        0xcc, 0x01, 0x00, 0x00, 0x00, 0x01]) i
      = rd (buf_of [0x05, 0x04, 0x0d, 0x11, 0x22, 0x33, 0x44, 0x55, 0x66, 0x18, 0xcc, 0x01,
        0x00, 0x00, 0x00, 0x01, 0x00, 0x00, 0x00, 0x00, 0x00, 0x00, 0x00, 0x00, 0x00, 0x00,
        0x77]) i)
      ∧ print_hci_command (buf_of [0x05, 0x04, 0x0d, 0x11, 0x22, 0x33, 0x44, 0x55, 0x66, 0x18,
          0xcc, 0x01, 0x00, 0x00, 0x00, 0x01]) 16
        = print_hci_command (buf_of [0x05, 0x04, 0x0d, 0x11, 0x22, 0x33, 0x44, 0x55, 0x66,
          0x18, 0xcc, 0x01, 0x00, 0x00, 0x00, 0x01, 0x00, 0x00, 0x00, 0x00, 0x00, 0x00, 0x00,
          0x00, 0x00, 0x00, 0x77]) 27 :=
  ⟨by decide, C27_first_26_bytes _ _ 16 27 (by decide)⟩

/-- C27: two buffers that agree on their first `len = 3` bytes, an `HCI_Inquiry` command of
which only the opcode and the length byte were captured, give different lines: the fields
are decoded from the bytes at the offsets 3, 4 and 5. -/
theorem C27_counterexample :
    (∀ i, i < 3 → rd (buf_of [0x01, 0x04, 0x05]) i
        = rd (buf_of [0x01, 0x04, 0x05, 0x33, 0x8b, 0x9e, 0x08, 0x00]) i)
      ∧ print_hci_command (buf_of [0x01, 0x04, 0x05]) 3
        = "  HCI_Inquiry(LAP=000000, Inquiry_Length=0, Num_Responses=0)\n"
      ∧ print_hci_command (buf_of [0x01, 0x04, 0x05, 0x33, 0x8b, 0x9e, 0x08, 0x00]) 3
        = "  HCI_Inquiry(LAP=9e8b33, Inquiry_Length=139, Num_Responses=158)\n" :=
  ⟨by decide, by rfl, by rfl⟩

/-- The bound 26 is reached: the case 0x040d shows the byte at offset 25. -/
theorem print_hci_command_offset_25 :
    (∀ i, i < 25 → rd (buf_of [0x0d, 0x04]) i
        = rd (buf_of [0x0d, 0x04, 0, 0, 0, 0, 0, 0, 0, 0, 0, 0, 0, 0, 0, 0, 0, 0, 0, 0, 0, 0,
          0, 0, 0, 0xab]) i)
      ∧ print_hci_command (buf_of [0x0d, 0x04]) 2
        = "  HCI_PIN_Code_Request_Reply(BD_ADDR=00:00:00:00:00:00, PIN_Code_Length=0, PIN_Code=00000000_00000000_00000000_00000000\n"
      ∧ print_hci_command (buf_of [0x0d, 0x04, 0, 0, 0, 0, 0, 0, 0, 0, 0, 0, 0, 0, 0, 0, 0, 0,
          0, 0, 0, 0, 0, 0, 0, 0xab]) 2
        = "  HCI_PIN_Code_Request_Reply(BD_ADDR=00:00:00:00:00:00, PIN_Code_Length=0, PIN_Code=00000000_00000000_00000000_ab000000\n" :=
  ⟨by decide, by rfl, by rfl⟩

/-! ## Independence of a round from the record it starts with -/

theorem agree_mono (n m : Nat) (p q : mon_packet) (h : agree n p q) (hm : m ≤ n) :
    agree m p q := by
  obtain ⟨h0, h1, h2, h3, h4, h5, h6, h7, h8⟩ := h
  exact ⟨h0, fun k => h1 (by omega), fun k => h2 (by omega), fun k => h3 (by omega),
    fun k => h4 (by omega), fun k => h5 (by omega), fun k => h6 (by omega),
    fun k => h7 (by omega), fun k => h8 (by omega)⟩

theorem Stage.alike_ite (n : Nat) (c : Prop) [Decidable c] (a b a' b' : Stage)
    (ha : Stage.alike n a a') (hb : Stage.alike n b b') :
    Stage.alike n (if c then a else b) (if c then a' else b') := by
  by_cases h : c
  · rw [if_pos h, if_pos h]; exact ha
  · rw [if_neg h, if_neg h]; exact hb

theorem Stage.alike_ite_iff {n : Nat} {c c' : Prop} [Decidable c] [Decidable c']
    {a b a' b' : Stage} (e : c ↔ c') (ha : Stage.alike n a a') (hb : Stage.alike n b b') :
    Stage.alike n (if c then a else b) (if c' then a' else b') := by
  by_cases h : c
  · rw [if_pos h, if_pos (e.mp h)]; exact ha
  · rw [if_neg h, if_neg (fun k => h (e.mpr k))]; exact hb

theorem Stage.alike_fail (n c : Nat) (p q : mon_packet) (h : agree 0 p q) :
    Stage.alike n (Stage.fail c p) (Stage.fail c q) := ⟨rfl, h⟩

theorem Stage.alike_ok (n : Nat) (s : Cursor) (p q : mon_packet) (h : agree n p q) :
    Stage.alike n (Stage.ok p s) (Stage.ok q s) := ⟨rfl, h⟩

theorem Stage.alike_bind (n m : Nat) (a b : Stage) (f : mon_packet → Cursor → Stage)
    (h : Stage.alike n a b)
    (hf : ∀ p q s, agree n p q → Stage.alike m (f p s) (f q s)) :
    Stage.alike m (a.bind f) (b.bind f) := by
  cases a with
  | fail c p =>
    cases b with
    | fail c' q => exact h
    | ok q s' => exact h.elim
  | ok p s =>
    cases b with
    | fail c' q => exact h.elim
    | ok q s' =>
      obtain ⟨hs, hp⟩ := h
      subst hs
      exact hf p q s hp

theorem parse_urb_id_alike (input : List Char) (p q : mon_packet) (h : agree 0 p q) :
    Stage.alike 1 (parse_urb_id input p) (parse_urb_id input q) := by
  simp only [parse_urb_id]
  apply Stage.alike_ite
  · exact Stage.alike_fail _ _ _ _ ⟨h.1, by simp⟩
  · exact Stage.alike_ok _ _ _ _ ⟨h.1, by simp⟩


theorem wr_agree (a b : Buf) (k v : Nat) (h : ∀ i, rd a i = rd b i) :
    ∀ i, rd (wr a k v) i = rd (wr b k v) i := by
  intro i
  by_cases hi : i = k
  · subst hi; rw [rd_wr_same, rd_wr_same]
  · rw [rd_wr_other _ _ _ _ hi, rd_wr_other _ _ _ _ hi, h i]

theorem put_le16_agree (a b : Buf) (k v : Nat) (h : ∀ i, rd a i = rd b i) :
    ∀ i, rd (put_le16 a k v) i = rd (put_le16 b k v) i := by
  unfold put_le16
  exact wr_agree _ _ _ _ (wr_agree _ _ _ _ h)

theorem set_iso_error_count_agree (a b : Buf) (z : Int) (h : ∀ i, rd a i = rd b i) :
    ∀ i, rd (set_iso_error_count a z) i = rd (set_iso_error_count b z) i := by
  unfold set_iso_error_count
  exact wr_agree _ _ _ _ (wr_agree _ _ _ _ (wr_agree _ _ _ _ (wr_agree _ _ _ _ h)))

theorem parse_timestamp_alike (p q : mon_packet) (s : Cursor) (h : agree 1 p q) :
    Stage.alike 2 (parse_timestamp p s) (parse_timestamp q s) := by
  obtain ⟨h0, h1, -⟩ := h
  have e1 := h1 (by decide)
  simp only [parse_timestamp]
  repeat' apply Stage.alike_ite
  all_goals
    first
    | exact Stage.alike_fail _ _ _ _ ⟨h0, by simp⟩
    | exact Stage.alike_ok _ _ _ _ ⟨h0, by simp [e1]⟩

theorem parse_event_type_alike (p q : mon_packet) (s : Cursor) (h : agree 2 p q) :
    Stage.alike 3 (parse_event_type p s) (parse_event_type q s) := by
  obtain ⟨h0, h1, h2, -⟩ := h
  have e1 := h1 (by decide)
  have e2 := h2 (by decide)
  simp only [parse_event_type]
  repeat' apply Stage.alike_ite
  all_goals
    first
    | exact Stage.alike_fail _ _ _ _ ⟨h0, by simp⟩
    | exact Stage.alike_ok _ _ _ _ ⟨h0, by simp [e1, e2]⟩

theorem parse_xfer_alike (p q : mon_packet) (s : Cursor) (h : agree 3 p q) :
    Stage.alike 4 (parse_xfer p s) (parse_xfer q s) := by
  obtain ⟨h0, h1, h2, h3, -⟩ := h
  have e1 := h1 (by decide)
  have e2 := h2 (by decide)
  have e3 := h3 (by decide)
  simp only [parse_xfer]
  repeat' apply Stage.alike_ite
  all_goals
    first
    | exact Stage.alike_fail _ _ _ _ ⟨h0, by simp⟩
    | exact Stage.alike_ok _ _ _ _ ⟨h0, by simp [e1, e2, e3]⟩

theorem parse_address_alike (p q : mon_packet) (s : Cursor) (h : agree 4 p q) :
    Stage.alike 5 (parse_address p s) (parse_address q s) := by
  obtain ⟨h0, h1, h2, h3, h4, -⟩ := h
  have e1 := h1 (by decide)
  have e2 := h2 (by decide)
  have e3 := h3 (by decide)
  have e4 := h4 (by decide)
  simp only [parse_address]
  repeat' apply Stage.alike_ite
  all_goals
    first
    | exact Stage.alike_fail _ _ _ _ ⟨h0, by simp⟩
    | exact Stage.alike_ok _ _ _ _ ⟨h0, by simp [e1, e2, e3, e4]⟩

theorem parse_setup_alike (p q : mon_packet) (s : Cursor) (h : agree 5 p q)
    (hi : p.interval = q.interval) (hf : p.start_frame = q.start_frame) :
    Stage.alike 6 (parse_setup p s) (parse_setup q s) := by
  obtain ⟨h0, h1, h2, h3, h4, h5, -⟩ := h
  have e1 := h1 (by decide)
  have e2 := h2 (by decide)
  have e3 := h3 (by decide)
  have e4 := h4 (by decide)
  have e5 := h5 (by decide)
  have w0 := fun v => wr_agree _ _ 0 v h0
  have w1 := fun v v1 => wr_agree _ _ 1 v1 (w0 v)
  have w2 := fun v v1 v2 => put_le16_agree _ _ 2 v2 (w1 v v1)
  have w3 := fun v v1 v2 v3 => put_le16_agree _ _ 4 v3 (w2 v v1 v2)
  have w4 := fun v v1 v2 v3 v4 => put_le16_agree _ _ 6 v4 (w3 v v1 v2 v3)
  simp only [parse_setup]
  repeat' apply Stage.alike_ite
  all_goals
    first
    | exact Stage.alike_fail _ _ _ _ ⟨w0 _, by simp⟩
    | exact Stage.alike_fail _ _ _ _ ⟨w1 _ _, by simp⟩
    | exact Stage.alike_fail _ _ _ _ ⟨w2 _ _ _, by simp⟩
    | exact Stage.alike_fail _ _ _ _ ⟨w3 _ _ _ _, by simp⟩
    | exact Stage.alike_fail _ _ _ _ ⟨w4 _ _ _ _ _, by simp⟩
    | exact Stage.alike_ok _ _ _ _ ⟨w4 _ _ _ _ _, by simp [e1, e2, e3, e4, e5, hi, hf]⟩

theorem parse_numeric_status_alike (p q : mon_packet) (s : Cursor) (h : agree 5 p q)
    (hi : p.interval = q.interval) (hf : p.start_frame = q.start_frame) :
    Stage.alike 6 (parse_numeric_status p s) (parse_numeric_status q s) := by
  obtain ⟨h0, h1, h2, h3, h4, h5, -⟩ := h
  have e1 := h1 (by decide)
  have e2 := h2 (by decide)
  have e3 := h3 (by decide)
  have e4 := h4 (by decide)
  have e5 := h5 (by decide)
  have w0 := fun v => set_iso_error_count_agree _ _ v h0
  simp only [parse_numeric_status, e3, e4.1]
  repeat' apply Stage.alike_ite
  all_goals
    first
    | exact Stage.alike_fail _ _ _ _ ⟨h0, by simp⟩
    | exact Stage.alike_fail _ _ _ _ ⟨w0 _, by simp⟩
    | exact Stage.alike_ok _ _ _ _ ⟨h0, by simp [e1, e2, e3, e4, e5, hi, hf]⟩
    | exact Stage.alike_ok _ _ _ _ ⟨w0 _, by simp [e1, e2, e3, e4, e5, hi, hf]⟩

theorem agree_status_start (p q : mon_packet) (h : agree 5 p q) :
    agree 5 { p with start_frame := 0, interval := 0 }
      { q with start_frame := 0, interval := 0 } := by
  obtain ⟨h0, h1, h2, h3, h4, h5, -⟩ := h
  exact ⟨h0, h1, h2, h3, h4, h5, fun k => absurd k (by decide), fun k => absurd k (by decide),
    fun k => absurd k (by decide)⟩

theorem parse_status_alike (p q : mon_packet) (s : Cursor) (h : agree 5 p q) :
    Stage.alike 6 (parse_status p s) (parse_status q s) := by
  have hs := agree_status_start p q h
  obtain ⟨h0, h1, h2, h3, h4, h5, -⟩ := h
  have e1 := h1 (by decide)
  have e2 := h2 (by decide)
  have e3 := h3 (by decide)
  have e4 := h4 (by decide)
  have e5 := h5 (by decide)
  have ec : ∀ A B : Prop, (A ∧ B ∧ p.type = 'S') ↔ (A ∧ B ∧ q.type = 'S') :=
    fun A B => by rw [e3]
  simp only [parse_status]
  repeat' (first | exact parse_setup_alike _ _ _ hs rfl rfl
                 | exact parse_numeric_status_alike _ _ _ hs rfl rfl
                 | apply Stage.alike_ite | apply Stage.alike_ite_iff (ec _ _))
  all_goals
    first
    | exact parse_setup_alike _ _ _ hs rfl rfl
    | exact parse_numeric_status_alike _ _ _ hs rfl rfl
    | exact Stage.alike_ok _ _ _ _ ⟨h0, by simp [e1, e2, e3, e4, e5]⟩

theorem parse_length_alike (p q : mon_packet) (s : Cursor) (h : agree 6 p q) :
    Stage.alike 7 (parse_length p s) (parse_length q s) := by
  obtain ⟨h0, h1, h2, h3, h4, h5, h6, -⟩ := h
  have e1 := h1 (by decide)
  have e2 := h2 (by decide)
  have e3 := h3 (by decide)
  have e4 := h4 (by decide)
  have e5 := h5 (by decide)
  have e6 := h6 (by decide)
  simp only [parse_length]
  repeat' apply Stage.alike_ite
  all_goals
    first
    | exact Stage.alike_fail _ _ _ _ ⟨h0, by simp⟩
    | exact Stage.alike_ok _ _ _ _ ⟨h0, by simp [e1, e2, e3, e4, e5, e6]⟩

/-- The sections of `parse_usbmon` before the payload take two records that agree on the
union `s` to the same return code, or to the same place in the line with records that agree
on every field filled in so far. -/
theorem parse_header_alike (input : List Char) (p q : mon_packet) (h : agree 0 p q) :
    Stage.alike 7 (parse_header input p) (parse_header input q) := by
  unfold parse_header
  refine Stage.alike_bind 5 7 _ _ _ (Stage.alike_bind 4 5 _ _ _ (Stage.alike_bind 3 4 _ _ _
    (Stage.alike_bind 2 3 _ _ _ (Stage.alike_bind 1 2 _ _ _ (parse_urb_id_alike input p q h)
      ?_) ?_) ?_) ?_) ?_
  · exact fun p q s h => parse_timestamp_alike p q s h
  · exact fun p q s h => parse_event_type_alike p q s h
  · exact fun p q s h => parse_xfer_alike p q s h
  · exact fun p q s h => parse_address_alike p q s h
  · intro p q s h
    exact Stage.alike_bind 6 7 _ _ _ (parse_status_alike p q s h)
      (fun p q s h => parse_length_alike p q s h)

/-- The payload section of `parse_usbmon` takes two records that agree on the fields filled
in before it to the same return code and the same buffer, and on success to records that
agree on every field that a section fills in. -/
theorem parse_data_alike (hextab : Nat → Nat) (p q : mon_packet) (s : Cursor) (data : Buf)
    (cap : Nat) (h : agree 7 p q) :
    (parse_data hextab p s data cap).code = (parse_data hextab q s data cap).code
      ∧ (parse_data hextab p s data cap).data = (parse_data hextab q s data cap).data
      ∧ agree 0 (parse_data hextab p s data cap).pkt (parse_data hextab q s data cap).pkt
      ∧ ((parse_data hextab p s data cap).code = 0 →
          agree 8 (parse_data hextab p s data cap).pkt (parse_data hextab q s data cap).pkt) := by
  have h00 := agree_mono 7 0 p q h (by decide)
  obtain ⟨h0, h1, h2, h3, h4, h5, h6, h7, -⟩ := h
  have e1 := h1 (by decide)
  have e2 := h2 (by decide)
  have e3 := h3 (by decide)
  have e4 := h4 (by decide)
  have e5 := h5 (by decide)
  have e6 := h6 (by decide)
  have e7 := h7 (by decide)
  generalize hA : parse_data hextab p s data cap = A
  generalize hB : parse_data hextab q s data cap = B
  simp only [parse_data] at hA hB
  by_cases c1 : (skip_space s).peek 0 = NUL
  · rw [if_pos c1] at hA hB
    subst hA hB
    exact ⟨rfl, rfl, h00, fun k => absurd k (by simp)⟩
  rw [if_neg c1] at hA hB
  by_cases c2 : (skip_space s).peek 0 = '='
  · rw [if_pos c2] at hA hB
    rw [e7] at hA
    cases hl : parse_data_loop hextab q.length cap (q.length + 1) ((skip_space s).adv 2)
        data 0 with
    | bad d =>
      rw [hl] at hA hB
      simp only at hA hB
      subst hA hB
      exact ⟨rfl, rfl, ⟨h0, by simp⟩, fun k => absurd k (by simp)⟩
    | done sep d ii =>
      rw [hl] at hA hB
      simp only at hA hB
      by_cases c3 : sep.peek 0 ≠ NUL
      · rw [if_pos c3] at hA hB
        subst hA hB
        exact ⟨rfl, rfl, ⟨h0, by simp⟩, fun k => absurd k (by simp)⟩
      · rw [if_neg c3] at hA hB
        subst hA hB
        exact ⟨rfl, rfl, ⟨h0, by simp⟩, fun _ => ⟨h0, by simp [e1, e2, e3, e4, e5, e6]⟩⟩
  · rw [if_neg c2] at hA hB
    by_cases c3 : ((skip_space s).adv 1).peek 0 ≠ NUL
    · rw [if_pos c3] at hA hB
      subst hA hB
      exact ⟨rfl, rfl, ⟨h0, by simp⟩, fun k => absurd k (by simp)⟩
    · rw [if_neg c3] at hA hB
      subst hA hB
      exact ⟨rfl, rfl, ⟨h0, by simp⟩, fun _ => ⟨h0, by simp [e1, e2, e3, e4, e5, e6, e7]⟩⟩

/-- Independence of `parse_usbmon` from the record it is handed: two records that agree on
the bytes of the union `s` give the same return code and the same buffer; the records left
agree on the union again and, on success, on every field that a section fills in. -/
theorem parse_usbmon_alike (hextab : Nat → Nat) (input : List Char) (p q : mon_packet)
    (data : Buf) (cap : Nat) (h : agree 0 p q) :
    (parse_usbmon hextab input p data cap).code = (parse_usbmon hextab input q data cap).code
      ∧ (parse_usbmon hextab input p data cap).data
          = (parse_usbmon hextab input q data cap).data
      ∧ agree 0 (parse_usbmon hextab input p data cap).pkt
          (parse_usbmon hextab input q data cap).pkt
      ∧ ((parse_usbmon hextab input p data cap).code = 0 →
          agree 8 (parse_usbmon hextab input p data cap).pkt
            (parse_usbmon hextab input q data cap).pkt) := by
  have hh := parse_header_alike input p q h
  unfold parse_usbmon
  cases hp : parse_header input p with
  | fail c p' =>
    cases hq : parse_header input q with
    | fail c' q' =>
      rw [hp, hq] at hh
      have hz := parse_header_nonzero input p
      rw [hp] at hz
      exact ⟨hh.1, rfl, hh.2, fun k => absurd k hz⟩
    | ok q' s' => rw [hp, hq] at hh; exact hh.elim
  | ok p' s =>
    cases hq : parse_header input q with
    | fail c' q' => rw [hp, hq] at hh; exact hh.elim
    | ok q' s' =>
      rw [hp, hq] at hh
      obtain ⟨hs, ha⟩ := hh
      subst hs
      exact parse_data_alike hextab p' q' s data cap ha

/-- The transfer summary reads the record only in fields that `parse_usbmon` has filled in
and in the union `s`. -/
theorem print_usbmon_agree (p q : mon_packet) (data : Buf) (h : agree 8 p q) :
    print_usbmon p data = print_usbmon q data := by
  obtain ⟨h0, h1, h2, h3, h4, h5, h6, h7, h8⟩ := h
  have e1 := h1 (by decide)
  obtain ⟨e2, e2'⟩ := h2 (by decide)
  have e3 := h3 (by decide)
  obtain ⟨e4, e4'⟩ := h4 (by decide)
  obtain ⟨e5, e5'⟩ := h5 (by decide)
  obtain ⟨e6, e6a, e6b, e6c⟩ := h6 (by decide)
  have e7 := h7 (by decide)
  obtain ⟨e8, e8'⟩ := h8 (by decide)
  have g16 : ∀ k, get_le16 p.setup k = get_le16 q.setup k :=
    fun k => get_le16_agree _ _ (k + 2) k (fun i _ => h0 i) (by omega)
  have g32 : ∀ k, get_le32 p.setup k = get_le32 q.setup k :=
    fun k => get_le32_agree _ _ (k + 4) k (fun i _ => h0 i) (by omega)
  simp only [print_usbmon, print_usbmon_head, print_usbmon_status, print_usbmon_data, PKT_INPUT,
    iso_error_count, e1, e2, e2', e3, e4, e4', e5, e5', e6, e6a, e6b, e6c, e7, e8, e8', h0, g16,
    g32]

/-- The classifier reads the record only in fields that `parse_usbmon` has filled in and in
the union `s`. -/
theorem print_bluetooth_agree (st : Tables) (p q : mon_packet) (data : Buf)
    (h : agree 8 p q) : print_bluetooth st p data = print_bluetooth st q data := by
  obtain ⟨h0, h1, h2, h3, h4, h5, h6, h7, h8⟩ := h
  have e3 := h3 (by decide)
  obtain ⟨e4, e4'⟩ := h4 (by decide)
  obtain ⟨e6, e6a, e6b, e6c⟩ := h6 (by decide)
  have e7 := h7 (by decide)
  obtain ⟨e8, e8'⟩ := h8 (by decide)
  simp only [print_bluetooth, is_hci_command, is_hci_event, is_l2cap, PKT_INPUT, e3, e4, e4',
    e6, e6a, e7, e8, e8', h0]

/-- One round of the loop of `read_regular_file` from two records that agree on the bytes of
the union `s`: the items written, the tables and the buffer are the same, and the records
left agree on the union again. -/
theorem process_line_agree (hextab : Nat → Nat) (st : Tables) (p q : mon_packet) (data : Buf)
    (input : List Char) (h : agree 0 p q) :
    (process_line hextab st p data input).out = (process_line hextab st q data input).out
      ∧ (process_line hextab st p data input).tables
          = (process_line hextab st q data input).tables
      ∧ (process_line hextab st p data input).data
          = (process_line hextab st q data input).data
      ∧ agree 0 (process_line hextab st p data input).pkt
          (process_line hextab st q data input).pkt := by
  obtain ⟨hc, hd, ha, hs⟩ := parse_usbmon_alike hextab input p q data 4096 h
  simp only [process_line]
  by_cases c : (parse_usbmon hextab input p data 4096).code = 0
  · rw [if_pos c, if_pos (hc ▸ c)]
    have e1 := print_usbmon_agree _ _ (parse_usbmon hextab input p data 4096).data (hs c)
    have e2 := print_bluetooth_agree st _ _ (parse_usbmon hextab input p data 4096).data (hs c)
    rw [← hd]
    exact ⟨by rw [e1, e2], by rw [e2], rfl, ha⟩
  · rw [if_neg c, if_neg (hc ▸ c)]
    exact ⟨by rw [hc], rfl, hd, ha⟩

/-! ## One round of the loop -/

theorem be16_join (a b : Nat) (hb : b < 256) (ha : a < 256) :
    ((a <<< 8) ||| b) % 2 ^ 16 = a * 256 + b := by
  rw [Nat.lor_comm]
  exact (le16_join b a hb ha).trans (Nat.add_comm _ _)

theorem get_be16_bytes (d : Buf) (off : Nat) :
    get_be16 d off = rd d off * 256 + rd d (off + 1) := by
  unfold get_be16
  exact be16_join _ _ (rd_lt _ _) (rd_lt _ _)

theorem le24_join (a b c : Nat) (ha : a < 256) (hb : b < 256) (hc : c < 256) :
    (a ||| (b <<< 8) ||| (c <<< 16)) % 2 ^ 32 = a + b * 256 + c * 65536 := by
  have h := le32_join a b c 0 ha hb hc (by decide)
  rw [Nat.zero_shiftLeft, Nat.or_zero] at h
  rw [h]
  omega

theorem get_le24_bytes (d : Buf) (off : Nat) :
    get_le24 d off = rd d off + rd d (off + 1) * 256 + rd d (off + 2) * 65536 := by
  unfold get_le24
  exact le24_join _ _ _ (rd_lt _ _) (rd_lt _ _) (rd_lt _ _)

/-- C40: `get_be16` and `get_be32` give the big-endian value of the two and four bytes at
the pointer, `get_le16`, `get_le24` and `get_le32` the little-endian value of the two, three
and four bytes, below 2^16, 2^24 and 2^32; `get_le16` of the two bytes that `put_le16`
stores is the 16-bit value that was handed to `put_le16`. -/
theorem C40_byte_order (d : Buf) (off x : Nat) :
    get_be16 d off = rd d off * 256 + rd d (off + 1)
      ∧ get_be16 d off < 2 ^ 16
      ∧ get_be32 d off
          = rd d off * 2 ^ 24 + rd d (off + 1) * 2 ^ 16 + rd d (off + 2) * 2 ^ 8 + rd d (off + 3)
      ∧ get_be32 d off < 2 ^ 32
      ∧ get_le16 d off = rd d off + rd d (off + 1) * 256
      ∧ get_le16 d off < 2 ^ 16
      ∧ get_le24 d off = rd d off + rd d (off + 1) * 2 ^ 8 + rd d (off + 2) * 2 ^ 16
      ∧ get_le24 d off < 2 ^ 24
      ∧ get_le32 d off
          = rd d off + rd d (off + 1) * 2 ^ 8 + rd d (off + 2) * 2 ^ 16 + rd d (off + 3) * 2 ^ 24
      ∧ get_le32 d off < 2 ^ 32
      ∧ rd d off < 256
      ∧ get_le16 (put_le16 d off (x % 2 ^ 16)) off = x % 2 ^ 16 := by
  have h0 := rd_lt d off
  have h1 := rd_lt d (off + 1)
  have h2 := rd_lt d (off + 2)
  have h3 := rd_lt d (off + 3)
  refine ⟨get_be16_bytes d off, ?_, ?_, ?_, get_le16_bytes d off, ?_, ?_, ?_, ?_, ?_, h0,
    get_le16_put_le16 d off _ (Nat.mod_lt _ (by decide))⟩
  · rw [get_be16_bytes]; omega
  · rw [get_be32_bytes]; omega
  · rw [get_be32_bytes]; omega
  · rw [get_le16_bytes]; omega
  · rw [get_le24_bytes]; omega
  · rw [get_le24_bytes]; omega
  · rw [get_le32_bytes]; omega
  · rw [get_le32_bytes]; omega

/-! ## Frame of a successful Connection-Response -/

/-- C38: a Connection-Response with result 0 stores the pending service of its request id in
the binding of its Dest_CID and changes no other binding, that of the Source_CID of the
same response (when it is another channel) included; in the table of pending requests the
entry of the request id becomes 0 and every other entry stays. -/
theorem C38_success_changes_one_binding (st : Tables) (d : Buf) (len : Nat)
    (hcid : get_le16 d 6 = L2CAP_SIGNALING) (hcmd : rd d 8 = L2CAP_CMD_CONN_RESP)
    (hres : get_le16 d 16 = 0) :
    (∀ c, c ≠ get_le16 d 12 → (print_l2cap st d len).1.l2cap_psm c = st.l2cap_psm c)
      ∧ (get_le16 d 14 ≠ get_le16 d 12 →
          (print_l2cap st d len).1.l2cap_psm (get_le16 d 14) = st.l2cap_psm (get_le16 d 14))
      ∧ (print_l2cap st d len).1.l2cap_psm (get_le16 d 12) = st.pending_psm (rd d 9)
      ∧ (∀ r, r ≠ rd d 9 → (print_l2cap st d len).1.pending_psm r = st.pending_psm r)
      ∧ (print_l2cap st d len).1.pending_psm (rd d 9) = 0 := by
  rw [print_l2cap_conn_resp st d len hcid hcmd]
  simp only [hres, if_true, show ¬ ((0 : Nat) = 1) from by decide, if_false]
  exact ⟨fun c hc => tset_other _ _ _ _ hc, fun hc => tset_other _ _ _ _ hc, tset_same _ _ _,
    fun r hr => tset_other _ _ _ _ hr, tset_same _ _ _⟩

/-- A successful response for request id 5 with Dest_CID 0x41 and Source_CID 0x40, while
service 0x11 is pending for id 5, service 0x01 for id 6, and channel 0x40 is bound. -/
theorem C38_success_changes_one_binding_witness :
    get_le16 (buf_of [0x2a, 0x20, 0x10, 0x00, 0x0c, 0x00, 0x01, 0x00,
        0x03, 0x05, 0x08, 0x00, 0x41, 0x00, 0x40, 0x00, 0x00, 0x00, 0x00, 0x00]) 16 = 0
      ∧ (print_l2cap ⟨fun c => if c = 0x40 then 0x13 else 0,
            fun r => if r = 5 then 0x11 else if r = 6 then 0x01 else 0⟩
          (buf_of [0x2a, 0x20, 0x10, 0x00, 0x0c, 0x00, 0x01, 0x00,
            0x03, 0x05, 0x08, 0x00, 0x41, 0x00, 0x40, 0x00, 0x00, 0x00, 0x00, 0x00])
          20).1.l2cap_psm 0x40 = 0x13
      ∧ (print_l2cap ⟨fun c => if c = 0x40 then 0x13 else 0,
            fun r => if r = 5 then 0x11 else if r = 6 then 0x01 else 0⟩
          (buf_of [0x2a, 0x20, 0x10, 0x00, 0x0c, 0x00, 0x01, 0x00,
            0x03, 0x05, 0x08, 0x00, 0x41, 0x00, 0x40, 0x00, 0x00, 0x00, 0x00, 0x00])
          20).1.l2cap_psm 0x41 = 0x11
      ∧ (print_l2cap ⟨fun c => if c = 0x40 then 0x13 else 0,
            fun r => if r = 5 then 0x11 else if r = 6 then 0x01 else 0⟩
          (buf_of [0x2a, 0x20, 0x10, 0x00, 0x0c, 0x00, 0x01, 0x00,
            0x03, 0x05, 0x08, 0x00, 0x41, 0x00, 0x40, 0x00, 0x00, 0x00, 0x00, 0x00])
          20).1.pending_psm 6 = 0x01 :=
  ⟨by decide,
   (C38_success_changes_one_binding _ _ 20 (by decide) (by decide) (by decide)).2.1 (by decide),
   (C38_success_changes_one_binding _ _ 20 (by decide) (by decide) (by decide)).2.2.1,
   (C38_success_changes_one_binding _ _ 20 (by decide) (by decide) (by decide)).2.2.2.1 6
     (by decide)⟩

/-- C39: a Connection-Response with result 0 whose request id has no pending entry stores 0
in the binding of its Dest_CID, whatever that channel was bound to, and a data frame on that
channel that follows is written as user data on a closed channel. -/
theorem C39_response_without_request_unbinds (st : Tables) (d d2 : Buf) (len len2 : Nat)
    (hcid : get_le16 d 6 = L2CAP_SIGNALING) (hcmd : rd d 8 = L2CAP_CMD_CONN_RESP)
    (hres : get_le16 d 16 = 0) (hpend : st.pending_psm (rd d 9) = 0)
    (hch : get_le16 d2 6 = get_le16 d 12) (hdyn : get_le16 d2 6 ≥ L2CAP_DYNAMIC) :
    (print_l2cap st d len).1.l2cap_psm (get_le16 d 12) = 0
      ∧ (print_l2cap (print_l2cap st d len).1 d2 len2).2 = [Out.text (closed_cid_line d2)]
      ∧ (print_l2cap (print_l2cap st d len).1 d2 len2).1 = (print_l2cap st d len).1 := by
  have h1 : (print_l2cap st d len).1.l2cap_psm (get_le16 d 12) = 0 := by
    rw [print_l2cap_conn_resp st d len hcid hcmd]
    simp only [hres, if_true, show ¬ ((0 : Nat) = 1) from by decide, if_false]
    rw [tset_same, hpend]
  refine ⟨h1, ?_, ?_⟩
  · rw [print_l2cap_dynamic _ d2 len2 hdyn, hch, h1]
    rfl
  · rw [print_l2cap_dynamic _ d2 len2 hdyn]

/-- Channel 0x41 is bound to service 0x11; a successful response for request id 7, which has
no pending entry, names it as Dest_CID, and a data frame on 0x41 follows. -/
theorem C39_response_without_request_unbinds_witness :
    (⟨fun c => if c = 0x41 then 0x11 else 0, fun _ => 0⟩ : Tables).l2cap_psm 0x41 = 0x11
      ∧ (print_l2cap ⟨fun c => if c = 0x41 then 0x11 else 0, fun _ => 0⟩
          (buf_of [0x2a, 0x20, 0x10, 0x00, 0x0c, 0x00, 0x01, 0x00,
            0x03, 0x07, 0x08, 0x00, 0x41, 0x00, 0x40, 0x00, 0x00, 0x00, 0x00, 0x00])
          20).1.l2cap_psm 0x41 = 0
      ∧ (print_l2cap (print_l2cap ⟨fun c => if c = 0x41 then 0x11 else 0, fun _ => 0⟩
          (buf_of [0x2a, 0x20, 0x10, 0x00, 0x0c, 0x00, 0x01, 0x00,
            0x03, 0x07, 0x08, 0x00, 0x41, 0x00, 0x40, 0x00, 0x00, 0x00, 0x00, 0x00]) 20).1
          (buf_of [0x2a, 0x20, 0x06, 0x00, 0x02, 0x00, 0x41, 0x00, 0xa1, 0x01]) 10).2
        = [Out.text "  User data on closed CID=65?! (Length=2)\n"] :=
  ⟨rfl,
   (C39_response_without_request_unbinds _ _
      (buf_of [0x2a, 0x20, 0x06, 0x00, 0x02, 0x00, 0x41, 0x00, 0xa1, 0x01]) 20 10
      (by decide) (by decide) (by decide) rfl (by decide) (by decide)).1,
   (C39_response_without_request_unbinds _ _
      (buf_of [0x2a, 0x20, 0x06, 0x00, 0x02, 0x00, 0x41, 0x00, 0xa1, 0x01]) 20 10
      (by decide) (by decide) (by decide) rfl (by decide) (by decide)).2.1.trans (by rfl)⟩

/-! ## BT-HID -/

theorem starts_with_append (p s t : String) (h : starts_with p s) : starts_with p (s ++ t) := by
  obtain ⟨r, hr⟩ := h
  exact ⟨r ++ t.data, by rw [String.data_append, hr, List.append_assoc]⟩

theorem and_three_lt (t : Nat) : t &&& 3 < 4 := by
  have h : t &&& 3 = t % 4 := Nat.and_pow_two_sub_one_eq_mod t 2
  rw [h]
  exact Nat.mod_lt _ (by decide)

/-- The report type is named by the low two bits; the fallback string is never returned. -/
theorem bt_hid_report_type_name (t : Nat) :
    bt_hid_report_type t = report_type_name t ∧ bt_hid_report_type t ≠ "CompilerBug" := by
  have h : t &&& 3 = t % 4 := Nat.and_pow_two_sub_one_eq_mod t 2
  have hlt : t % 4 < 4 := Nat.mod_lt _ (by decide)
  unfold bt_hid_report_type report_type_name
  rw [h]
  generalize t % 4 = m at hlt
  interval_cases m <;> exact ⟨by decide, by decide⟩

theorem bt_hid_report_type_count (t : Nat) : (bt_hid_report_type t).data.count '\n' = 0 := by
  have h : t &&& 3 = t % 4 := Nat.and_pow_two_sub_one_eq_mod t 2
  have hlt : t % 4 < 4 := Nat.mod_lt _ (by decide)
  unfold bt_hid_report_type
  rw [h]
  generalize t % 4 = m at hlt
  interval_cases m <;> decide

theorem one_line_snoc (p : String) (hp : p.data.count '\n' = 0) : one_line (p ++ "\n") :=
  one_line_lit_append p "\n" hp rfl rfl

theorem count_ite_zero (c : Prop) [Decidable c] (a b : String) (ha : a.data.count '\n' = 0)
    (hb : b.data.count '\n' = 0) : (if c then a else b).data.count '\n' = 0 := by
  by_cases h : c
  · rw [if_pos h]; exact ha
  · rw [if_neg h]; exact hb

theorem fmt_c_count (c : Char) (h : c ≠ '\n') : (fmt_c c).data.count '\n' = 0 := by
  apply count_nl_zero
  intro x hx
  simp only [fmt_c, List.mem_singleton] at hx
  rw [hx]; exact h

/-- Every text that `print_bt_hid` writes is one line. -/
theorem print_bt_hid_one_line (data : Buf) (len : Nat) : one_line (print_bt_hid data len) := by
  unfold print_bt_hid
  show one_line (if rd data 0 >>> 4 = 0 then _ else _)
  by_cases h0 : rd data 0 >>> 4 = 0
  · rw [if_pos h0]
    exact one_line_snoc _ (count_append_zero _ _ rfl (fmt_d_count _))
  rw [if_neg h0]
  by_cases h1 : rd data 0 >>> 4 = 1
  · rw [if_pos h1]
    exact one_line_snoc _ (count_append_zero _ _ rfl (fmt_d_count _))
  rw [if_neg h1]
  by_cases h4 : rd data 0 >>> 4 = 4
  · rw [if_pos h4]
    exact one_line_snoc _ (count_append_zero _ _ (count_append_zero _ _
      (count_append_zero _ _ rfl (bt_hid_report_type_count _))
      (count_ite_zero _ _ _ (count_append_zero _ _ rfl (fmt_d_count _)) rfl))
      (count_ite_zero _ _ _ (count_append_zero _ _ rfl (fmt_d_count _)) rfl))
  rw [if_neg h4]
  by_cases h5 : rd data 0 >>> 4 = 5
  · rw [if_pos h5]
    exact one_line_snoc _ (count_append_zero _ _ (count_append_zero _ _
      (count_append_zero _ _ rfl (bt_hid_report_type_count _)) rfl) (fmt_d_u32_count _))
  rw [if_neg h5]
  by_cases h6 : rd data 0 >>> 4 = 6
  · rw [if_pos h6]
    exact one_line_snoc _ (count_append_zero _ _ rfl (count_ite_zero _ _ _ rfl rfl))
  rw [if_neg h6]
  by_cases h7 : rd data 0 >>> 4 = 7
  · rw [if_pos h7]
    exact one_line_snoc _ (count_append_zero _ _ rfl (count_ite_zero _ _ _ rfl rfl))
  rw [if_neg h7]
  by_cases h8 : rd data 0 >>> 4 = 8
  · rw [if_pos h8]
    exact one_line_snoc _ (count_append_zero _ _ rfl (fmt_d_count _))
  rw [if_neg h8]
  by_cases h9 : rd data 0 >>> 4 = 9
  · rw [if_pos h9]
    exact one_line_snoc _ (count_append_zero _ _ rfl (fmt_d_count _))
  rw [if_neg h9]
  by_cases h10 : rd data 0 >>> 4 = 10 ∨ rd data 0 >>> 4 = 11
  · rw [if_pos h10]
    exact one_line_snoc _ (count_append_zero _ _ (count_append_zero _ _
      (count_append_zero _ _ rfl (fmt_c_count _ (by split_ifs <;> decide))) rfl)
      (bt_hid_report_type_count _))
  rw [if_neg h10]
  exact one_line_snoc _ (count_append_zero _ _ (count_append_zero _ _ (count_append_zero _ _
    (count_append_zero _ _ (count_append_zero _ _ rfl (fmt_d_count _)) rfl) (fmt_d_count _))
    rfl) (fmt_d_u32_count _))

theorem starts_with_same (p q t : String) (h : q.data = p.data) : starts_with (p ++ t) (q ++ t) :=
  ⟨[], by rw [String.data_append, String.data_append, h, List.append_nil]⟩

theorem starts_with_lit (p q t : String) (r : List Char) (h : q.data = p.data ++ r) :
    starts_with p (q ++ t) :=
  ⟨r ++ t.data, by rw [String.data_append, h, List.append_assoc]⟩

theorem bt_hid_operation_reserved (k : Nat) (h0 : k ≠ 0) (h1 : k ≠ 1) (h4 : k ≠ 4) (h5 : k ≠ 5)
    (h6 : k ≠ 6) (h7 : k ≠ 7) (h8 : k ≠ 8) (h9 : k ≠ 9) (h10 : k ≠ 10) (h11 : k ≠ 11) :
    bt_hid_operation k = "Unhandled (reserved) request:" := by
  unfold bt_hid_operation
  rw [if_neg h0, if_neg h1, if_neg h4, if_neg h5, if_neg h6, if_neg h7, if_neg h8, if_neg h9,
    if_neg h10, if_neg h11]

/-- The line that `print_bt_hid` writes names the operation of the top nibble. -/
theorem print_bt_hid_operation (data : Buf) (len : Nat) :
    starts_with ("  BT-HID " ++ bt_hid_operation (rd data 0 >>> 4)) (print_bt_hid data len) := by
  unfold print_bt_hid
  show starts_with _ (if rd data 0 >>> 4 = 0 then _ else _)
  by_cases h0 : rd data 0 >>> 4 = 0
  · rw [if_pos h0, h0]
    exact starts_with_append _ _ _ (starts_with_lit _ _ _ " Status=".data rfl)
  rw [if_neg h0]
  by_cases h1 : rd data 0 >>> 4 = 1
  · rw [if_pos h1, h1]
    exact starts_with_append _ _ _ (starts_with_lit _ _ _ " Operation=".data rfl)
  rw [if_neg h1]
  by_cases h4 : rd data 0 >>> 4 = 4
  · rw [if_pos h4, h4]
    exact starts_with_append _ _ _ (starts_with_append _ _ _ (starts_with_append _ _ _
      (starts_with_lit _ _ _ " Type=".data rfl)))
  rw [if_neg h4]
  by_cases h5 : rd data 0 >>> 4 = 5
  · rw [if_pos h5, h5]
    exact starts_with_append _ _ _ (starts_with_append _ _ _ (starts_with_append _ _ _
      (starts_with_lit _ _ _ " Type=".data rfl)))
  rw [if_neg h5]
  by_cases h6 : rd data 0 >>> 4 = 6
  · rw [if_pos h6, h6]
    exact starts_with_append _ _ _ (starts_with_lit _ _ _ " Protocol=".data rfl)
  rw [if_neg h6]
  by_cases h7 : rd data 0 >>> 4 = 7
  · rw [if_pos h7, h7]
    exact starts_with_append _ _ _ (starts_with_lit _ _ _ " Protocol=".data rfl)
  rw [if_neg h7]
  by_cases h8 : rd data 0 >>> 4 = 8
  · rw [if_pos h8, h8]
    exact starts_with_append _ _ _ (starts_with_lit _ _ _ " Rate=".data rfl)
  rw [if_neg h8]
  by_cases h9 : rd data 0 >>> 4 = 9
  · rw [if_pos h9, h9]
    exact starts_with_append _ _ _ (starts_with_lit _ _ _ " Rate=".data rfl)
  rw [if_neg h9]
  by_cases h10 : rd data 0 >>> 4 = 10
  · rw [if_pos (Or.inl h10), h10]
    exact starts_with_append _ _ _ (starts_with_lit _ _ _ " Report=".data rfl)
  by_cases h11 : rd data 0 >>> 4 = 11
  · rw [if_pos (Or.inr h11), h11]
    exact starts_with_append _ _ _ (starts_with_lit _ _ _ " Report=".data rfl)
  rw [if_neg (fun h => h.elim h10 h11),
    bt_hid_operation_reserved _ h0 h1 h4 h5 h6 h7 h8 h9 h10 h11]
  exact starts_with_append _ _ _ (starts_with_append _ _ _ (starts_with_append _ _ _
    (starts_with_append _ _ _ (starts_with_append _ _ _
      (starts_with_lit _ _ _ " Type=".data rfl)))))

/-- The line of a reserved top nibble. -/
theorem print_bt_hid_reserved (data : Buf) (len : Nat)
    (h : rd data 0 >>> 4 = 2 ∨ rd data 0 >>> 4 = 3 ∨ 12 ≤ rd data 0 >>> 4) :
    print_bt_hid data len
      = "  BT-HID Unhandled (reserved) request: Type=" ++ fmt_d ((rd data 0 >>> 4 : Nat) : Int)
          ++ ", Parameter=" ++ fmt_d ((rd data 0 &&& 15 : Nat) : Int) ++ ", Length="
          ++ fmt_d_u32 (u32sub len 1) ++ "\n" := by
  unfold print_bt_hid
  show (if rd data 0 >>> 4 = 0 then _ else _) = _
  repeat rw [if_neg (by omega)]

/-- The lines that show a report type show the name of the low two bits of the header. -/
theorem print_bt_hid_report_type (data : Buf) (len : Nat) :
    (rd data 0 >>> 4 = 4 →
        starts_with ("  BT-HID Get_Report: Type=" ++ report_type_name (rd data 0))
          (print_bt_hid data len))
      ∧ (rd data 0 >>> 4 = 5 →
        starts_with ("  BT-HID Set_Report: Type=" ++ report_type_name (rd data 0))
          (print_bt_hid data len))
      ∧ (rd data 0 >>> 4 = 10 →
        print_bt_hid data len = "  BT-HID DATA: Report=" ++ report_type_name (rd data 0) ++ "\n")
      ∧ (rd data 0 >>> 4 = 11 →
        print_bt_hid data len
          = "  BT-HID DATC: Report=" ++ report_type_name (rd data 0) ++ "\n") := by
  have e := (bt_hid_report_type_name (rd data 0)).1
  refine ⟨fun h => ?_, fun h => ?_, fun h => ?_, fun h => ?_⟩
  · unfold print_bt_hid
    show starts_with _ (if rd data 0 >>> 4 = 0 then _ else _)
    rw [if_neg (by omega), if_neg (by omega), if_pos h, e]
    exact starts_with_append _ _ _ (starts_with_append _ _ _ (starts_with_append _ _ _
      ⟨[], by rw [List.append_nil]⟩))
  · unfold print_bt_hid
    show starts_with _ (if rd data 0 >>> 4 = 0 then _ else _)
    rw [if_neg (by omega), if_neg (by omega), if_neg (by omega), if_pos h, e]
    exact starts_with_append _ _ _ (starts_with_append _ _ _ (starts_with_append _ _ _
      ⟨[], by rw [List.append_nil]⟩))
  · unfold print_bt_hid
    show (if rd data 0 >>> 4 = 0 then _ else _) = _
    repeat rw [if_neg (by omega)]
    rw [if_pos (Or.inl h), e, if_pos h]
    rfl
  · unfold print_bt_hid
    show (if rd data 0 >>> 4 = 0 then _ else _) = _
    repeat rw [if_neg (by omega)]
    rw [if_pos (Or.inr h), e, if_neg (by omega)]
    rfl

/-- C33: for every payload `print_bt_hid` writes one line; the line begins with the
operation that the top nibble of the header byte selects (0 handshake, 1 control, 4 and 5
get and set report, 6 and 7 get and set protocol, 8 and 9 get and set idle, 10 and 11 data,
every other value the line of a reserved request); the line of a reserved request shows the
top nibble as type and the bottom nibble as parameter; the report type shown by the report
and data lines is the name of the low two bits of the header, and `bt_hid_report_type` never
returns its fallback string. -/
theorem C33_bt_hid_line (data : Buf) (len : Nat) :
    one_line (print_bt_hid data len)
      ∧ rd data 0 / 16 < 16
      ∧ starts_with ("  BT-HID " ++ bt_hid_operation (rd data 0 / 16)) (print_bt_hid data len)
      ∧ (rd data 0 / 16 = 2 ∨ rd data 0 / 16 = 3 ∨ 12 ≤ rd data 0 / 16 →
          print_bt_hid data len
            = "  BT-HID Unhandled (reserved) request: Type="
                ++ fmt_d ((rd data 0 / 16 : Nat) : Int) ++ ", Parameter="
                ++ fmt_d ((rd data 0 % 16 : Nat) : Int) ++ ", Length="
                ++ fmt_d_u32 (u32sub len 1) ++ "\n")
      ∧ (rd data 0 / 16 = 4 →
          starts_with ("  BT-HID Get_Report: Type=" ++ report_type_name (rd data 0))
            (print_bt_hid data len))
      ∧ (rd data 0 / 16 = 5 →
          starts_with ("  BT-HID Set_Report: Type=" ++ report_type_name (rd data 0))
            (print_bt_hid data len))
      ∧ (rd data 0 / 16 = 10 →
          print_bt_hid data len
            = "  BT-HID DATA: Report=" ++ report_type_name (rd data 0) ++ "\n")
      ∧ (rd data 0 / 16 = 11 →
          print_bt_hid data len
            = "  BT-HID DATC: Report=" ++ report_type_name (rd data 0) ++ "\n")
      ∧ (∀ t, bt_hid_report_type t = report_type_name t ∧ bt_hid_report_type t ≠ "CompilerBug")
      := by
  have e4 : rd data 0 >>> 4 = rd data 0 / 16 := Nat.shiftRight_eq_div_pow _ 4
  have e15 : rd data 0 &&& 15 = rd data 0 % 16 := Nat.and_pow_two_sub_one_eq_mod _ 4
  have hlt := rd_lt data 0
  have hr := print_bt_hid_reserved data len
  have ho := print_bt_hid_operation data len
  have ht := print_bt_hid_report_type data len
  rw [e4] at ho ht
  rw [e4, e15] at hr
  exact ⟨print_bt_hid_one_line data len, by omega, ho, hr, ht.1, ht.2.1, ht.2.2.1, ht.2.2.2,
    bt_hid_report_type_name⟩

/-- The headers a2 (data, output report), 4b (get report, feature, with buffer size) and c5
(reserved). -/
theorem C33_bt_hid_line_witness :
    print_bt_hid (buf_of [0xa2, 0x01, 0x02]) 3 = "  BT-HID DATA: Report=Output\n"
      ∧ starts_with "  BT-HID Get_Report: Type=Feature" (print_bt_hid (buf_of [0x4b, 0x01]) 4)
      ∧ print_bt_hid (buf_of [0xc5]) 1
        = "  BT-HID Unhandled (reserved) request: Type=12, Parameter=5, Length=0\n" :=
  ⟨((C33_bt_hid_line (buf_of [0xa2, 0x01, 0x02]) 3).2.2.2.2.2.2.1 (by decide)).trans (by rfl),
   (C33_bt_hid_line (buf_of [0x4b, 0x01]) 4).2.2.2.2.1 (by decide),
   ((C33_bt_hid_line (buf_of [0xc5]) 1).2.2.2.1 (by decide)).trans (by rfl)⟩

/-! ## Inquiry Result -/

theorem count_line (p : String) (n : Nat) (hp : p.data.count '\n' = 0) :
    (p ++ "\n").data.count '\n' + n = n + 1 := by
  rw [(one_line_snoc p hp).1, Nat.add_comm]

/-- The loop of the case 0x02 writes one line for each round. -/
theorem inquiry_result_loop_lines (data : Buf) (count : Nat) :
    ∀ n ii, (inquiry_result_loop data count n ii).data.count '\n' = n := by
  intro n
  induction n with
  | zero => intro ii; rfl
  | succ n ih =>
    intro ii
    rw [inquiry_result_loop, String.data_append, List.count_append, ih (ii + 1)]
    exact count_line _ n (count_append_zero _ _ (count_append_zero _ _ (count_append_zero _ _
      (count_append_zero _ _ (count_append_zero _ _ (count_append_zero _ _
        (count_append_zero _ _ rfl (get_bt_addr_count _ _)) rfl) (fmt_d_count _)) rfl)
          (fmt_x_count _ _ _ _)) rfl) (fmt_d_count _))

/-- The text of an Inquiry Result event: the header line, and one line for each of the
responses that the byte at offset 2 announces. -/
theorem print_hci_event_inquiry_result (data : Buf) (len cap : Nat) (h : rd data 0 = 0x02) :
    print_hci_event data len cap
        = "  HCI event: " ++ ("Inquiry Result: " ++ fmt_d (rd data 2) ++ " responses:\n"
            ++ inquiry_result_loop data (rd data 2) (rd data 2) 0)
      ∧ (inquiry_result_loop data (rd data 2) (rd data 2) 0).data.count '\n' = rd data 2 := by
  refine ⟨?_, inquiry_result_loop_lines _ _ _ _⟩
  unfold print_hci_event
  simp only [h]
  rw [if_neg (by decide), if_neg (by decide), if_pos trivial]

/-- C34 at a failing input: an Inquiry Result with two responses whose page-scan repetition
modes (1 and 2), classes (0x000504 and 0x5a020c) and clock offsets (0x1234 and 0x5678)
differ.  The second line shows the address of the second device with the mode, the class and
the clock offset of the first: the three fields are read at offsets computed from the count,
not from the index of the round. -/
theorem C34_later_lines_repeat_first_device :
    print_hci_event (buf_of [0x02, 0x1d, 0x02, 0x11, 0x22, 0x33, 0x44, 0x55, 0x66, 0xaa, 0xbb,
        0xcc, 0xdd, 0xee, 0xff, 0x01, 0x02, 0x00, 0x00, 0x00, 0x00, 0x04, 0x05, 0x00, 0x0c,
        0x02, 0x5a, 0x34, 0x12, 0x78, 0x56]) 31 4096
      = "  HCI event: Inquiry Result: 2 responses:\n"
          ++ "    Addr 11:22:33:44:55:66, page scan rep mode 1, class 0x504, clock ofs 4660\n"
          ++ "    Addr aa:bb:cc:dd:ee:ff, page scan rep mode 1, class 0x504, clock ofs 4660\n"
      ∧ rd (buf_of [0x02, 0x1d, 0x02, 0x11, 0x22, 0x33, 0x44, 0x55, 0x66, 0xaa, 0xbb,
        0xcc, 0xdd, 0xee, 0xff, 0x01, 0x02, 0x00, 0x00, 0x00, 0x00, 0x04, 0x05, 0x00, 0x0c,
        0x02, 0x5a, 0x34, 0x12, 0x78, 0x56]) (6 * 2 + 3 + 1) = 2
      ∧ get_le24 (buf_of [0x02, 0x1d, 0x02, 0x11, 0x22, 0x33, 0x44, 0x55, 0x66, 0xaa, 0xbb,
        0xcc, 0xdd, 0xee, 0xff, 0x01, 0x02, 0x00, 0x00, 0x00, 0x00, 0x04, 0x05, 0x00, 0x0c,
        0x02, 0x5a, 0x34, 0x12, 0x78, 0x56]) (9 * 2 + 3 + 3 * 1) = 0x5a020c
      ∧ get_le16 (buf_of [0x02, 0x1d, 0x02, 0x11, 0x22, 0x33, 0x44, 0x55, 0x66, 0xaa, 0xbb,
        0xcc, 0xdd, 0xee, 0xff, 0x01, 0x02, 0x00, 0x00, 0x00, 0x00, 0x04, 0x05, 0x00, 0x0c,
        0x02, 0x5a, 0x34, 0x12, 0x78, 0x56]) (12 * 2 + 3 + 2 * 1) = 0x5678 := by
  refine ⟨by rfl, by decide, by decide, by decide⟩

/-! ## The size of the table of feature names -/

/-- C35: the table `lmp_features` has 64 entries, and for an event with the code 0x0b the
text of `print_hci_event` ends with the lines of the loop over the table: the line of the
self-check (`.. why were there N lmp_features[]?`) is not written. -/
theorem C35_feature_table_size (data : Buf) (len cap : Nat) (h : rd data 0 = 0x0b) :
    lmp_features.length = 64
      ∧ print_hci_event data len cap
        = "  HCI event: " ++ ("Read Remote Supported Features Complete: Status="
            ++ fmt_d (rd data 2) ++ ", Connection_Handle=" ++ fmt_d (get_le16 data 3)
            ++ ", LMP_Features=" ++ fmt_x true true 8 (get_le32 data 4) ++ "_"
            ++ fmt_x true true 8 (get_le32 data 8) ++ "\n"
            ++ lmp_feature_loop data lmp_features 0)
      ∧ (∀ f, f ∈ lmp_features → ¬ starts_with "   .. why" ("    " ++ f ++ "\n")) := by
  refine ⟨rfl, ?_, ?_⟩
  · unfold print_hci_event
    simp only [h]
    rw [if_neg (by decide), if_neg (by decide), if_neg (by decide), if_neg (by decide),
      if_neg (by decide), if_neg (by decide), if_neg (by decide), if_neg (by decide),
      if_neg (by decide), if_pos trivial, if_neg (by decide), String.append_empty]
  · intro f _ hs
    obtain ⟨r, hr⟩ := hs
    rw [String.data_append, String.data_append] at hr
    exact absurd (show (' ' : Char) = '.' from congrArg (fun l => l.getD 3 'x') hr) (by decide)

/-- An event whose mask has the bits 0 and 63 set: two lines follow the header and nothing
follows them. -/
theorem C35_feature_table_size_witness :
    rd (buf_of [0x0b, 0x0b, 0x00, 0x29, 0x01, 0x00, 0x00, 0x00, 0x00, 0x00, 0x00, 0x80]) 0 = 0x0b
      ∧ print_hci_event (buf_of [0x0b, 0x0b, 0x00, 0x29, 0x01, 0x00, 0x00, 0x00, 0x00, 0x00,
          0x00, 0x80]) 12 4096
        = "  HCI event: Read Remote Supported Features Complete: Status=0, Connection_Handle=297, LMP_Features=0x000001_0x80000000\n    3 slot packets\n    Extended features\n" :=
  ⟨by decide,
   (C35_feature_table_size (buf_of [0x0b, 0x0b, 0x00, 0x29, 0x01, 0x00, 0x00, 0x00, 0x00, 0x00,
      0x00, 0x80]) 12 4096 (by decide)).2.1.trans
     (by rw [lmp_feature_loop_mask]; rfl)⟩

/-! ## The walk over the configuration options -/

theorem u32sub_small (a b : Nat) (hb : b ≤ a) (ha : a < 2 ^ 32) : u32sub a b = a - b := by
  unfold u32sub
  omega

theorem u32add_small (a b : Nat) (h : a + b < 2 ^ 32) : u32add a b = a + b := by
  unfold u32add
  omega

/-- The walk ends by its own test before the bound on its rounds is used up: one more round
allowed changes nothing, since every round adds at least 2 to `ii`. -/
theorem cfg_option_loop_fuel (data : Buf) (base limit : Nat) (hb : base ≤ 18)
    (hl : limit ≤ 65535) :
    ∀ fuel ii, base ≤ ii → ii < 2 ^ 17 → limit + base < fuel + ii →
      cfg_option_loop data base limit (fuel + 1) ii = cfg_option_loop data base limit fuel ii := by
  intro fuel
  induction fuel with
  | zero =>
    intro ii h1 h2 h3
    have e := u32sub_small ii base h1 (by omega)
    rw [cfg_option_loop, cfg_option_loop, if_neg (by rw [e]; omega)]
  | succ n ih =>
    intro ii h1 h2 h3
    have e := u32sub_small ii base h1 (by omega)
    have hr := rd_lt data (ii + 1)
    rw [cfg_option_loop, cfg_option_loop.eq_def data base limit (n + 1) ii]
    by_cases hc : u32sub ii base < limit
    · rw [if_pos hc]
      simp only [if_pos hc]
      rw [e] at hc
      have e2 := u32add_small ii (2 + rd data (ii + 1)) (by omega)
      rw [ih _ (by rw [e2]; omega) (by rw [e2]; omega) (by rw [e2]; omega)]
    · rw [if_neg hc]
      simp only [if_neg hc]

/-- The number of items that the walk writes: two for each round, and at most
`(limit + base + 1 - ii) / 2` rounds. -/
theorem cfg_option_loop_length (data : Buf) (base limit : Nat) (hb : base ≤ 18)
    (hl : limit ≤ 65535) :
    ∀ fuel ii, base ≤ ii → ii < 2 ^ 17 →
      (cfg_option_loop data base limit fuel ii).length ≤ 2 * ((limit + base + 1 - ii) / 2) := by
  intro fuel
  induction fuel with
  | zero => intro ii _ _; rw [cfg_option_loop]; exact Nat.zero_le _
  | succ n ih =>
    intro ii h1 h2
    have e := u32sub_small ii base h1 (by omega)
    have hr := rd_lt data (ii + 1)
    rw [cfg_option_loop]
    by_cases hc : u32sub ii base < limit
    · rw [if_pos hc, List.length_append]
      rw [e] at hc
      have e2 := u32add_small ii (2 + rd data (ii + 1)) (by omega)
      have h := ih (u32add ii (2 + rd data (ii + 1))) (by rw [e2]; omega) (by rw [e2]; omega)
      rw [e2] at h
      have hp : (print_l2cap_config_options data (ii + 2)).length = 2 := rfl
      rw [e2, hp]
      omega
    · rw [if_neg hc]; exact Nat.zero_le _

theorem cfg_option_loop_more_fuel (data : Buf) (base limit ii : Nat) (hb : base ≤ 18)
    (hl : limit ≤ 65535) (h1 : base ≤ ii) (h2 : ii < 2 ^ 17) :
    ∀ k, cfg_option_loop data base limit (limit + 1 + k) ii
      = cfg_option_loop data base limit (limit + 1) ii := by
  intro k
  induction k with
  | zero => rfl
  | succ n ih =>
    rw [← ih]
    exact cfg_option_loop_fuel data base limit hb hl (limit + 1 + n) ii h1 h2 (by omega)

/-- The number of items that `print_l2cap_signaling` writes. -/
theorem print_l2cap_signaling_length (st : Tables) (d : Buf) (lim : Nat) :
    (print_l2cap_signaling st d lim).2.length ≤ 1 + 2 * 32766 := by
  have hlim : min (u32sub lim 4) (get_le16 d 10) ≤ 65535 := by
    have h : get_le16 d 10 < 65536 := Nat.mod_lt _ (by decide)
    unfold min
    split_ifs <;> omega
  have hq := cfg_option_loop_length d 12 _ (by decide) hlim
    (min (u32sub lim 4) (get_le16 d 10) + 1) 16 (by decide) (by decide)
  have hp := cfg_option_loop_length d 10 _ (by decide) hlim
    (min (u32sub lim 4) (get_le16 d 10) + 1) 18 (by decide) (by decide)
  unfold print_l2cap_signaling
  simp only [L2CAP_CMD_REJECT, L2CAP_CMD_CONN_REQ, L2CAP_CMD_CONN_RESP, L2CAP_CMD_CFG_REQ,
    L2CAP_CMD_CFG_RESP, L2CAP_CMD_DISCONN_REQ, L2CAP_CMD_DISCONN_RESP, L2CAP_CMD_INFO_REQ,
    L2CAP_CMD_INFO_RESP]
  by_cases h1 : rd d 8 = 1
  · simp only [h1, if_true, if_false, Nat.reduceEqDiff]; simp
  by_cases h2 : rd d 8 = 2
  · simp only [h2, if_true, if_false, Nat.reduceEqDiff]; simp
  by_cases h3 : rd d 8 = 3
  · simp only [h3, if_true, if_false, Nat.reduceEqDiff]; simp
  by_cases h4 : rd d 8 = 4
  · simp only [h4, if_true, if_false, Nat.reduceEqDiff, List.length_cons]
    omega
  by_cases h5 : rd d 8 = 5
  · simp only [h5, if_true, if_false, Nat.reduceEqDiff, List.length_cons]
    omega
  by_cases h6 : rd d 8 = 6
  · simp only [h6, if_true, if_false, Nat.reduceEqDiff]; simp
  by_cases h7 : rd d 8 = 7
  · simp only [h7, if_true, if_false, Nat.reduceEqDiff]; simp
  by_cases h8 : rd d 8 = 10
  · simp only [h8, if_true, if_false, Nat.reduceEqDiff]; simp
  by_cases h9 : rd d 8 = 11
  · simp only [h9, if_true, if_false, Nat.reduceEqDiff]; simp
  simp only [h1, h2, h3, h4, h5, h6, h7, h8, h9, if_false]; simp

/-- C37: the walk over the configuration options of a Configuration-Request (offset 16,
fixed part 12) and of a Configuration-Response (offset 18, fixed part 10) ends for every
frame: the bound of the walk is at most 65535, every round adds 2 and the length byte to the
offset, so the walk ends by its own test within the `limit + 1` rounds that the model allows
(allowing more rounds gives the same items), it writes at most 32768 option lines (two items
each), and `print_l2cap` as a whole writes at most `1 + 2 * 32768` items. -/
theorem C37_option_walk_ends (st : Tables) (data : Buf) (len limit0 k : Nat) :
    min (u32sub limit0 4) (get_le16 data 10) ≤ 65535
      ∧ cfg_option_loop data 12 (min (u32sub limit0 4) (get_le16 data 10))
            (min (u32sub limit0 4) (get_le16 data 10) + 1 + k) 16
          = cfg_option_loop data 12 (min (u32sub limit0 4) (get_le16 data 10))
            (min (u32sub limit0 4) (get_le16 data 10) + 1) 16
      ∧ cfg_option_loop data 10 (min (u32sub limit0 4) (get_le16 data 10))
            (min (u32sub limit0 4) (get_le16 data 10) + 1 + k) 18
          = cfg_option_loop data 10 (min (u32sub limit0 4) (get_le16 data 10))
            (min (u32sub limit0 4) (get_le16 data 10) + 1) 18
      ∧ (cfg_option_loop data 12 (min (u32sub limit0 4) (get_le16 data 10))
            (min (u32sub limit0 4) (get_le16 data 10) + 1) 16).length ≤ 2 * 32768
      ∧ (cfg_option_loop data 10 (min (u32sub limit0 4) (get_le16 data 10))
            (min (u32sub limit0 4) (get_le16 data 10) + 1) 18).length ≤ 2 * 32768
      ∧ (print_l2cap st data len).2.length ≤ 1 + 2 * 32768 := by
  have hlim : min (u32sub limit0 4) (get_le16 data 10) ≤ 65535 := by
    have h : get_le16 data 10 < 65536 := Nat.mod_lt _ (by decide)
    unfold min
    split_ifs <;> omega
  have hq := cfg_option_loop_length data 12 _ (by decide) hlim
    (min (u32sub limit0 4) (get_le16 data 10) + 1) 16 (by decide) (by decide)
  have hp := cfg_option_loop_length data 10 _ (by decide) hlim
    (min (u32sub limit0 4) (get_le16 data 10) + 1) 18 (by decide) (by decide)
  refine ⟨hlim,
    cfg_option_loop_more_fuel data 12 _ 16 (by decide) hlim (by decide) (by decide) k,
    cfg_option_loop_more_fuel data 10 _ 18 (by decide) hlim (by decide) (by decide) k,
    by omega, by omega, ?_⟩
  unfold print_l2cap
  by_cases h1 : get_le16 data 6 = L2CAP_SIGNALING
  · simp only [h1, if_true]
    exact Nat.le_trans (print_l2cap_signaling_length st data _) (by decide)
  by_cases h2 : get_le16 data 6 ≥ L2CAP_DYNAMIC
  · simp only [h1, h2, if_true, if_false]
    unfold print_l2cap_user_data
    split_ifs <;> simp
  · simp only [h1, h2, if_false]
    simp

/-! ## SDP booleans -/

/-- A boolean (tag 0x28: type 5, one value byte) that is not truncated: the test
`pos < size` compares the position after the tag, which is at least 1, with the size 1, so
the value byte is never shown. -/
theorem print_sdp_data_bool (data : Buf) (len fuel pos : Nat) (hlen : len < 2 ^ 32)
    (hpos : pos + 3 ≤ len) (htag : rd data pos = 0x28) :
    print_sdp_data data len (fuel + 1) pos = some ⟨0, pos + 2, "bool()"⟩ := by
  have h1 : u32add pos 1 = pos + 1 := by unfold u32add; omega
  have hs : sdp_size data 0x28 (pos + 1) = (1, pos + 1) := by
    unfold sdp_size
    rw [if_pos (by decide)]
  have hc : sdp_clip 1 (pos + 1) len = (0, 1) := by
    unfold sdp_clip u32sub
    have : ¬ (1 > ((len % 2 ^ 32 + (2 ^ 32 - (pos + 1) % 2 ^ 32)) % 2 ^ 32 % 2 ^ 32
        + (2 ^ 32 - 1 % 2 ^ 32)) % 2 ^ 32) := by omega
    rw [if_neg this]
  have hsc : sdp_scalar data 0x28 (pos + 1) 1 0 = ("bool(" ++ ")", pos + 1, 1) := by
    unfold sdp_scalar
    rw [if_neg (by decide), if_neg (by decide), if_neg (by decide), if_neg (by decide),
      if_neg (by decide), if_neg (by decide), if_pos (by decide), if_neg (by omega)]
  have ht : ¬ ((0x28 : Nat) >>> 3 = 6 ∨ (0x28 : Nat) >>> 3 = 7) := by decide
  have hu : u32add (pos + 1) 1 = pos + 2 := by unfold u32add; omega
  have e1 : to_int32 0 = 0 := by decide
  have e2 : "bool(" ++ ")" = "bool()" := by decide
  unfold print_sdp_data
  rw [if_pos (by omega)]
  simp only [htag, h1, hs, hc, ht, if_false, hsc, hu, ne_eq, not_true_eq_false, e1, e2,
    String.append_empty]

/-- C31 at two failing inputs: a boolean with the value byte 1 and one with the value byte
0, each followed by one more byte of the buffer.  Both are written as `bool()`: neither
`true` nor `false` is shown.  The position is advanced by 2 and the return value is 0. -/
theorem C31_boolean_value_not_shown :
    print_sdp_data (buf_of [0x28, 0x01, 0x00]) 3 1 0 = some ⟨0, 2, "bool()"⟩
      ∧ print_sdp_data (buf_of [0x28, 0x00, 0x00]) 3 1 0 = some ⟨0, 2, "bool()"⟩
      ∧ print_sdp_data (buf_of [0x35, 0x02, 0x28, 0x01, 0x00]) 5 2 0
          = some ⟨0, 4, "seq \x7b bool() \x7d"⟩ := by
  decide

/-! ## Fixed-width hexadecimal conversions -/

theorem digitChar_hexdigit : ∀ n, n < 16 → Nat.digitChar n = hexdigit n := by decide

theorem hex_fixed_zero (w : Nat) : hex_fixed w 0 = List.replicate w '0' := by
  induction w with
  | zero => rfl
  | succ w ih =>
    rw [hex_fixed, Nat.zero_div, ih, List.replicate_succ']
    rfl

theorem hex_fixed_length (w n : Nat) : (hex_fixed w n).length = w := by
  induction w generalizing n with
  | zero => rfl
  | succ w ih => rw [hex_fixed, List.length_append, ih]; rfl

/-- The digits that `Nat.toDigitsCore` puts before the accumulator, filled up with zeros to
the width `w`, are the `w` digits of the number. -/
theorem toDigitsCore_hex_fixed (w : Nat) :
    ∀ fuel n ds, n < fuel → n < 16 ^ (w + 1) →
      ∃ z, z + (Nat.toDigitsCore 16 fuel n ds).length = w + 1 + ds.length
        ∧ List.replicate z '0' ++ Nat.toDigitsCore 16 fuel n ds = hex_fixed (w + 1) n ++ ds := by
  induction w with
  | zero =>
    intro fuel n ds hf hn
    obtain ⟨f, rfl⟩ : ∃ f, fuel = f + 1 := ⟨fuel - 1, by omega⟩
    have h0 : n / 16 = 0 := by omega
    have hm : n % 16 = n := by omega
    refine ⟨0, ?_, ?_⟩
    · rw [Nat.toDigitsCore]
      simp only [h0, if_true, List.length_cons]
      omega
    · rw [Nat.toDigitsCore]
      simp only [h0, if_true, hex_fixed, List.replicate, List.nil_append, hm,
        digitChar_hexdigit n (by omega), List.cons_append]
  | succ w ih =>
    intro fuel n ds hf hn
    obtain ⟨f, rfl⟩ : ∃ f, fuel = f + 1 := ⟨fuel - 1, by omega⟩
    have hd : Nat.digitChar (n % 16) = hexdigit (n % 16) :=
      digitChar_hexdigit _ (Nat.mod_lt _ (by decide))
    by_cases h0 : n / 16 = 0
    · refine ⟨w + 1, ?_, ?_⟩
      · rw [Nat.toDigitsCore]
        simp only [h0, if_true, List.length_cons]
        omega
      · rw [Nat.toDigitsCore]
        simp only [h0, if_true]
        rw [hex_fixed, h0, hex_fixed_zero, hd, List.append_assoc]
        rfl
    · have hq : n / 16 < 16 ^ (w + 1) := by
        have : 16 ^ (w + 1 + 1) = 16 ^ (w + 1) * 16 := Nat.pow_succ _ _
        omega
      obtain ⟨z, hz1, hz2⟩ := ih f (n / 16) (Nat.digitChar (n % 16) :: ds) (by omega) hq
      refine ⟨z, ?_, ?_⟩
      · rw [Nat.toDigitsCore]
        simp only [h0, if_false]
        rw [List.length_cons] at hz1
        omega
      · rw [Nat.toDigitsCore]
        simp only [h0, if_false]
        rw [hz2, hex_fixed.eq_def (w + 1 + 1), hd, List.append_assoc]
        rfl

/-- The conversions `%02x`, `%04x` and `%08x` of a number that fits the width. -/
theorem fmt_x_fixed (w n : Nat) (hn : n < 16 ^ (w + 1)) :
    fmt_x false true (w + 1) n = String.mk (hex_fixed (w + 1) n) := by
  obtain ⟨z, hz1, hz2⟩ := toDigitsCore_hex_fixed w (n + 1) n [] (by omega) hn
  rw [List.length_nil, Nat.add_zero] at hz1
  rw [List.append_nil] at hz2
  have hz : z = w + 1 - (Nat.toDigits 16 n).length := by
    unfold Nat.toDigits
    omega
  unfold fmt_x pad_left
  simp only [Bool.false_eq_true, false_and, if_false, if_true, List.length_nil, Nat.sub_zero,
    List.nil_append]
  rw [← hz]
  congr 1

theorem hex_fixed_byte (w a b : Nat) (hb : b < 256) :
    hex_fixed (w + 2) (a * 256 + b) = hex_fixed w a ++ hex_byte b := by
  rw [hex_fixed, hex_fixed, List.append_assoc]
  unfold hex_byte
  have e1 : (a * 256 + b) / 16 / 16 = a := by omega
  have e2 : (a * 256 + b) / 16 % 16 = b / 16 := by omega
  have e3 : (a * 256 + b) % 16 = b % 16 := by omega
  rw [e1, e2, e3]
  rfl

theorem hex_fixed_be32 (d : Buf) (q : Nat) : hex_fixed 8 (get_be32 d q) = hex_bytes d q 4 := by
  have e : get_be32 d q
      = (((0 * 256 + rd d q) * 256 + rd d (q + 1)) * 256 + rd d (q + 2)) * 256 + rd d (q + 3) := by
    rw [get_be32_bytes]; omega
  rw [e, hex_fixed_byte 6 _ _ (rd_lt _ _), hex_fixed_byte 4 _ _ (rd_lt _ _),
    hex_fixed_byte 2 _ _ (rd_lt _ _), hex_fixed_byte 0 _ _ (rd_lt _ _)]
  rfl

theorem hex_fixed_be16 (d : Buf) (q : Nat) : hex_fixed 4 (get_be16 d q) = hex_bytes d q 2 := by
  have e : get_be16 d q = (0 * 256 + rd d q) * 256 + rd d (q + 1) := by
    rw [get_be16_bytes]; omega
  rw [e, hex_fixed_byte 2 _ _ (rd_lt _ _), hex_fixed_byte 0 _ _ (rd_lt _ _)]
  rfl

theorem get_be32_lt (d : Buf) (q : Nat) : get_be32 d q < 16 ^ (7 + 1) :=
  Nat.mod_lt _ (by decide)

theorem get_be16_lt (d : Buf) (q : Nat) : get_be16 d q < 16 ^ (3 + 1) :=
  Nat.mod_lt _ (by decide)

/-- The conversion `%08x-%04x-%04x-%04x-%04x%08x` of the case 16 of the UUID switch writes
the 16 bytes in buffer order. -/
theorem sdp_uuid_16 (data : Buf) (p : Nat) : sdp_uuid data p 16 = uuid128_text data p := by
  unfold sdp_uuid uuid128_text
  rw [if_neg (by decide), if_neg (by decide), if_pos rfl,
    fmt_x_fixed 7 _ (get_be32_lt _ _), fmt_x_fixed 7 _ (get_be32_lt _ _),
    fmt_x_fixed 3 _ (get_be16_lt _ _), fmt_x_fixed 3 _ (get_be16_lt _ _),
    fmt_x_fixed 3 _ (get_be16_lt _ _), fmt_x_fixed 3 _ (get_be16_lt _ _),
    hex_fixed_be32, hex_fixed_be32, hex_fixed_be16, hex_fixed_be16, hex_fixed_be16,
    hex_fixed_be16]
  apply String.ext
  simp only [String.data_append, hex_bytes, Nat.add_assoc, Nat.add_zero, List.nil_append,
    List.append_assoc, List.cons_append, Nat.reduceAdd]

theorem hex_bytes_length (data : Buf) (pos n : Nat) : (hex_bytes data pos n).length = 2 * n := by
  induction n with
  | zero => rfl
  | succ n ih => rw [hex_bytes, List.length_append, ih]; rfl

theorem hexdigit_lower : ∀ n, n < 16 → hexdigit n ∈ "0123456789abcdef".toList := by decide

theorem hex_bytes_lower (data : Buf) (pos n : Nat) :
    ∀ c, c ∈ hex_bytes data pos n → c ∈ "0123456789abcdef".toList := by
  induction n with
  | zero => intro c hc; exact absurd hc (List.not_mem_nil c)
  | succ n ih =>
    intro c hc
    rw [hex_bytes] at hc
    rcases List.mem_append.1 hc with hc | hc
    · exact ih c hc
    · have hb := rd_lt data (pos + n)
      unfold hex_byte at hc
      simp only [List.mem_cons, List.mem_singleton, List.not_mem_nil, or_false] at hc
      rcases hc with rfl | rfl
      · exact hexdigit_lower _ (by omega)
      · exact hexdigit_lower _ (Nat.mod_lt _ (by decide))

/-- The canonical text has 36 characters: lowercase hexadecimal digits and four dashes. -/
theorem uuid128_text_shape (data : Buf) (p : Nat) :
    (uuid128_text data p).data.length = 36
      ∧ (uuid128_text data p).data.count '-' = 4
      ∧ ∀ c, c ∈ (uuid128_text data p).data → c = '-' ∨ c ∈ "0123456789abcdef".toList := by
  have hl := hex_bytes_lower data
  have hn : ∀ q n, (hex_bytes data q n).count '-' = 0 := fun q n =>
    List.count_eq_zero.2 (fun hm => absurd (hl q n _ hm) (by decide))
  unfold uuid128_text
  refine ⟨?_, ?_, ?_⟩
  · simp only [List.length_append, List.length_cons, hex_bytes_length]
  · simp only [List.count_append, List.count_cons, hn]
    rfl
  · intro c hc
    simp only [List.mem_append, List.mem_cons] at hc
    rcases hc with hc | rfl | hc | rfl | hc | rfl | hc | rfl | hc
    · exact Or.inr (hl _ _ c hc)
    · exact Or.inl rfl
    · exact Or.inr (hl _ _ c hc)
    · exact Or.inl rfl
    · exact Or.inr (hl _ _ c hc)
    · exact Or.inl rfl
    · exact Or.inr (hl _ _ c hc)
    · exact Or.inl rfl
    · exact Or.inr (hl _ _ c hc)

/-- An element of type UUID (type 3) for which the size switch of `print_sdp_data` gives the
width 16 and the position `p` of the value bytes, with at least one more byte of the buffer
after the value bytes, is written as `uuid16(`, the 16 value bytes in buffer order as 32
lowercase hexadecimal digits in the groups 8-4-4-4-12 (36 characters with the four dashes),
and `)`; the return value is 0 and the position is that after the value bytes. -/
theorem uuid128_of_size (data : Buf) (len fuel pos p : Nat) (hlen : len < 2 ^ 32)
    (hpos : pos < len) (htype : rd data pos >>> 3 = 3)
    (hsize : sdp_size data (rd data pos) (pos + 1) = (16, p)) (hfit : p + 17 ≤ len) :
    print_sdp_data data len (fuel + 1) pos
        = some ⟨0, p + 16, "uuid16(" ++ uuid128_text data p ++ ")"⟩
      ∧ (uuid128_text data p).data.length = 36
      ∧ (uuid128_text data p).data.count '-' = 4
      ∧ (∀ c, c ∈ (uuid128_text data p).data → c = '-' ∨ c ∈ "0123456789abcdef".toList)
      ∧ (rd data pos &&& 7 = 4 → p = pos + 1) := by
  refine ⟨?_, (uuid128_text_shape data p).1, (uuid128_text_shape data p).2.1,
    (uuid128_text_shape data p).2.2, ?_⟩
  · have h1 : u32add pos 1 = pos + 1 := by unfold u32add; omega
    have hc : sdp_clip 16 p len = (0, 16) := by
      unfold sdp_clip u32sub
      have : ¬ (16 > ((len % 2 ^ 32 + (2 ^ 32 - p % 2 ^ 32)) % 2 ^ 32 % 2 ^ 32
          + (2 ^ 32 - 1 % 2 ^ 32)) % 2 ^ 32) := by omega
      rw [if_neg this]
    have hsc : sdp_scalar data (rd data pos) p 16 0
        = ("uuid" ++ fmt_d_u32 16 ++ "(" ++ sdp_uuid data p 16 ++ ")", p, 16) := by
      unfold sdp_scalar
      rw [if_neg (by omega), if_neg (by omega), if_neg (by omega), if_pos htype]
    have ht : ¬ (rd data pos >>> 3 = 6 ∨ rd data pos >>> 3 = 7) := by omega
    have hu : u32add p 16 = p + 16 := by unfold u32add; omega
    have e1 : to_int32 0 = 0 := by decide
    have e2 : "uuid" ++ fmt_d_u32 16 ++ "(" = "uuid16(" := by decide
    unfold print_sdp_data
    rw [if_pos hpos]
    simp only [h1, hsize, hc, ht, if_false, hsc, hu, ne_eq, not_true_eq_false, e1, e2,
      String.append_empty, sdp_uuid_16]
  · intro h4
    have := (sdp_size_classes data (rd data pos) (pos + 1)).2.2.2.2.1 h4
    rw [hsize] at this
    exact (congrArg Prod.snd this)

/-- Counterexample to C32 as stated: the complete element `1c 00 01 .. 0e ff` (tag, 16 value
bytes) that ends with the buffer is cut to 15 bytes and reported as truncated, `uuid15() ...`,
since the truncation check keeps the last byte of the buffer out of every element; the same
inside a response PDU whose last byte is the last value byte.  A UUID with the 16-bit length
field 16 (tag 0x1e) inside a response PDU is not written in the dashed form either: the
width is taken from the first two bytes of the buffer (0x0700), not from the length field. -/
theorem C32_counterexample :
    print_sdp_data (buf_of [0x1c, 0x00, 0x01, 0x02, 0x03, 0x04, 0x05, 0x06, 0x07, 0x08, 0x09,
        0x0a, 0x0b, 0x0c, 0x0d, 0x0e, 0xff]) 17 1 0
      = some ⟨1, 16, "uuid15() ..."⟩
    ∧ print_sdp 8 (buf_of [0x07, 0, 1, 0, 3, 0, 1, 0x1c, 0x00, 0x01, 0x02, 0x03, 0x04, 0x05,
        0x06, 0x07, 0x08, 0x09, 0x0a, 0x0b, 0x0c, 0x0d, 0x0e, 0xff]) 24
      = some ("  SDP_ServiceSearchAttributeResponse(AttributeListsByteCount=1, "
          ++ "AttributeLists=uuid15() ..., ContinuationState=? bytes\n")
    ∧ get_be16 (buf_of [0x07, 0, 1, 0, 3, 0, 1, 0x1e, 0x00, 0x10, 0x00, 0x01, 0x02, 0x03, 0x04,
        0x05, 0x06, 0x07, 0x08, 0x09, 0x0a, 0x0b, 0x0c, 0x0d, 0x0e, 0xff, 0x00, 0x00]) 8 = 16
    ∧ print_sdp 8 (buf_of [0x07, 0, 1, 0, 3, 0, 1, 0x1e, 0x00, 0x10, 0x00, 0x01, 0x02, 0x03,
        0x04, 0x05, 0x06, 0x07, 0x08, 0x09, 0x0a, 0x0b, 0x0c, 0x0d, 0x0e, 0xff, 0x00, 0x00]) 28
      = some ("  SDP_ServiceSearchAttributeResponse(AttributeListsByteCount=1, "
          ++ "AttributeLists=uuid17() ..., ContinuationState=? bytes\n") := by
  decide

/-- C32, amended: a UUID element whose tag byte is 0x1c (size descriptor 4, the value bytes
follow the tag) or 0x1d with the length byte 16 (size descriptor 5, the value bytes follow
the length byte), and whose 16 value bytes, from `p` on, are followed by at least one more
byte of the buffer, is written as `uuid16(`, the 16 value bytes in buffer order as 32
lowercase hexadecimal digits in the groups 8-4-4-4-12 (36 characters with the four dashes),
and `)`; the return value is 0 and the position is that after the value bytes. -/
theorem C32_uuid128_canonical (data : Buf) (len fuel pos p : Nat) (hlen : len < 2 ^ 32)
    (htag : (rd data pos = 0x1c ∧ p = pos + 1)
      ∨ (rd data pos = 0x1d ∧ rd data (pos + 1) = 16 ∧ p = pos + 2))
    (hfit : p + 17 ≤ len) :
    print_sdp_data data len (fuel + 1) pos
        = some ⟨0, p + 16, "uuid16(" ++ uuid128_text data p ++ ")"⟩
      ∧ (uuid128_text data p).data.length = 36
      ∧ (uuid128_text data p).data.count '-' = 4
      ∧ (∀ c, c ∈ (uuid128_text data p).data → c = '-' ∨ c ∈ "0123456789abcdef".toList) := by
  have hs : rd data pos >>> 3 = 3 ∧ sdp_size data (rd data pos) (pos + 1) = (16, p) := by
    rcases htag with ⟨h, hp⟩ | ⟨h, h16, hp⟩
    · rw [h, hp]
      exact ⟨by decide, (sdp_size_classes data 0x1c (pos + 1)).2.2.2.2.1 (by decide)⟩
    · rw [h, hp]
      refine ⟨by decide, ?_⟩
      rw [(sdp_size_classes data 0x1d (pos + 1)).2.2.2.2.2 (by decide), h16]
      have : u32add (pos + 1) 1 = pos + 2 := by unfold u32add; omega
      rw [this]
  have hpos : pos < len := by
    rcases htag with ⟨_, hp⟩ | ⟨_, _, hp⟩ <;> omega
  obtain ⟨h1, h2, h3, h4, _⟩ := uuid128_of_size data len fuel pos p hlen hpos hs.1 hs.2 hfit
  exact ⟨h1, h2, h3, h4⟩

/-- The element `1c 00 01 .. 0e ff` at the start of a buffer of 18 bytes, and the element
`1d 10 00 01 .. 0e ff` at the start of a buffer of 19 bytes. -/
theorem C32_uuid128_canonical_witness :
    print_sdp_data (buf_of [0x1c, 0x00, 0x01, 0x02, 0x03, 0x04, 0x05, 0x06, 0x07, 0x08,
          0x09, 0x0a, 0x0b, 0x0c, 0x0d, 0x0e, 0xff, 0x00]) 18 1 0
        = some ⟨0, 17, "uuid16(00010203-0405-0607-0809-0a0b0c0d0eff)"⟩
      ∧ print_sdp_data (buf_of [0x1d, 0x10, 0x00, 0x01, 0x02, 0x03, 0x04, 0x05, 0x06, 0x07,
          0x08, 0x09, 0x0a, 0x0b, 0x0c, 0x0d, 0x0e, 0xff, 0x00]) 19 1 0
        = some ⟨0, 18, "uuid16(00010203-0405-0607-0809-0a0b0c0d0eff)"⟩ :=
  ⟨(C32_uuid128_canonical (buf_of [0x1c, 0x00, 0x01, 0x02, 0x03, 0x04, 0x05, 0x06, 0x07, 0x08,
      0x09, 0x0a, 0x0b, 0x0c, 0x0d, 0x0e, 0xff, 0x00]) 18 0 0 1 (by decide)
      (Or.inl ⟨by decide, rfl⟩) (by decide)).1.trans (by decide),
   (C32_uuid128_canonical (buf_of [0x1d, 0x10, 0x00, 0x01, 0x02, 0x03, 0x04, 0x05, 0x06, 0x07,
      0x08, 0x09, 0x0a, 0x0b, 0x0c, 0x0d, 0x0e, 0xff, 0x00]) 19 0 0 2 (by decide)
      (Or.inr ⟨by decide, by decide, rfl⟩) (by decide)).1.trans (by decide)⟩

/-! ## A sequence whose sub-element does not advance the position -/

/-- An empty line between two lines of a file: the round of the empty line writes
` .. parse failure 1`, and the loop goes on with the line after it. -/
theorem read_regular_file_empty_line :
    stdout_text 8 (read_regular_file (init_hex hextab_zero)
        ["garbage\n".toList, "\n".toList,
          "00000001 1.000000 C Ii:1:002:1 0:8 3 = 010203\n".toList]
        Tables.empty (fun _ => 0) [])
      = some (" .. parse failure 1\n" ++ " .. parse failure 1\n"
          ++ "0000000000000001 1.000000 C Ii:1:002:1 0:8 3 = 010203\n"
          ++ "  HCI event: Inquiry Complete\n\n") := by
  with_unfolding_all decide

end UsbBtDump
